import Mathlib

/-! AoE initiator: transport engine, command translator and target registry

A shallow embedding of the flow-control code of `AoEService.cpp`,
`EInterfaces.cpp`, `EInterface.cpp`, of the command code of
`AoEController.cpp`, of the header macros of `aoe.h` and of the target
registry of `AoEControllerInterface.cpp`, with the properties of the specification proved (or
refuted) against it.

Machine integers are integers with explicit wrap-around: a C `int` is an
`Int` kept in `[-2^31, 2^31)` by `wrapS32`, an unsigned 64-bit value is a
`Nat` kept below `2^64`.
-/

namespace AoE

/-! ## Machine integers -/

/-- Conversion of an integer to a C `int` (two's complement truncation to 32 bits). -/
def wrapS32 (x : Int) : Int := (x + 2147483648) % 4294967296 - 2147483648

/-- Conversion of a C `int` to `UInt64` (sign extension, i.e. reduction modulo `2^64`). -/
def intToU64 (x : Int) : Nat := (x % 18446744073709551616).toNat

/-- Subtraction of two `uint64_t` values. -/
def u64sub (a b : Nat) : Nat :=
  (a % 18446744073709551616 + (18446744073709551616 - b % 18446744073709551616))
    % 18446744073709551616

/-- Addition of two `uint64_t` values. -/
def u64add (a b : Nat) : Nat := (a + b) % 18446744073709551616

/-! ## Retransmit timer estimation (`AoEService.cpp`) -/

/-- `RTO_MIN_NS` -/
def RTO_MIN_NS : Nat := 1000 * 1000

/-- `RTO_MAX_NS` -/
def RTO_MAX_NS : Nat := 10 * 1000 * 1000

/-- `MAX_RETRANSMIT_TIMEOUT_US` -/
def MAX_RETRANSMIT_TIMEOUT_US : Nat := 5 * 1000

/-- `MAX_TIMEOUT_BEFORE_DROP_US` -/
def MAX_TIMEOUT_BEFORE_DROP_US : Nat := 60 * 1000 * 1000

/-- `IDLE_DELAY_US` -/
def IDLE_DELAY_US : Nat := 5 * 1000 * 1000

/-- `CONVERT_NS_TO_US(x)` is `(((x)+500)/1000)`, here on a `UInt64` operand. -/
def CONVERT_NS_TO_US (x : Nat) : Nat := u64add x 500 / 1000

/-- The estimator members of the service: `m_nRTO_ns` (`UInt64`),
`m_nScaledRTTavg` and `m_nScaledRTTvar` (`int`). -/
structure RtoState where
  m_nRTO_ns : Nat
  m_nScaledRTTavg : Int
  m_nScaledRTTvar : Int
  deriving DecidableEq, Repr

/-- The estimator as `start()` leaves it. -/
def RtoState.init : RtoState :=
  { m_nRTO_ns := RTO_MAX_NS, m_nScaledRTTavg := 0, m_nScaledRTTvar := 0 }

/-- `update_rto(uint64_t nRTT)`.  The subtraction `nRTT-m_nScaledRTTavg` is
done on `uint64_t` and its result converted to `int`; the other operations
are `int` operations; the sum stored in `m_nRTO_ns` is converted to `UInt64`. -/
def update_rto (s : RtoState) (nRTT : Nat) : RtoState :=
  let nErr : Int := wrapS32 (u64sub nRTT (intToU64 s.m_nScaledRTTavg) : Nat)
  let avg : Int := wrapS32 (s.m_nScaledRTTavg + (nErr >>> 3))
  let nErr : Int := if nErr < 0 then wrapS32 (-nErr) else nErr
  let nErr : Int := wrapS32 (nErr - s.m_nScaledRTTvar)
  let var : Int := wrapS32 (s.m_nScaledRTTvar + (nErr >>> 2))
  { m_nRTO_ns := intToU64 (wrapS32 (avg + wrapS32 (var <<< 2)))
    m_nScaledRTTavg := avg
    m_nScaledRTTvar := var }

/-- `get_rto_us()`: `CONVERT_NS_TO_US(MAX(m_nRTO_ns, RTO_MIN_NS))`, the
comparison and the sum being `UInt64` operations. -/
def get_rto_us (s : RtoState) : Nat :=
  CONVERT_NS_TO_US (if s.m_nRTO_ns > RTO_MIN_NS then s.m_nRTO_ns else RTO_MIN_NS)

/-- The estimator after a history of RTT samples, oldest first. -/
def rto_after (samples : List Nat) : RtoState :=
  samples.foldl update_rto RtoState.init

/-! ## Per-interface flow-control state (`EInterface.cpp`, `EInterfaces.cpp`) -/

/-- Conversion of a C `int` to `UInt32` (reduction modulo `2^32`). -/
def intToU32 (x : Int) : Nat := (x % 4294967296).toNat

/-- `DEFAULT_CONGESTION_WINDOW` -/
def DEFAULT_CONGESTION_WINDOW : Nat := 128

/-- `MAX_SUPPORTED_ETHERNET_CONNETIONS` -/
def MAX_SUPPORTED_ETHERNET_CONNETIONS : Nat := 6

/-- `MAX_SHELFS` -/
def MAX_SHELFS : Nat := 0xFFFF + 1

/-- The members of `class EInterface`.  `m_ifnet` is the interface
reference (`0` is the null reference), `m_nOutstandingCount` is an `SInt32`,
the window members are `UInt32`, `m_anMaxOutstanding` is the per-shelf array. -/
structure EInterface where
  m_fEnabled : Bool
  m_ifnet : Nat
  m_nOutstandingCount : Int
  m_nSSThresh : Nat
  m_nCwd : Nat
  m_nCwdFractional : Nat
  m_TimeSinceLastSend : Nat
  m_anMaxOutstanding : Nat → Nat
  m_nMinimumMaxOutstanding : Nat

/-- `EInterface::EInterface()` -/
def EInterface.init : EInterface :=
  { m_fEnabled := false
    m_ifnet := 0
    m_nOutstandingCount := 0
    m_nCwd := 1
    m_nCwdFractional := 0
    m_TimeSinceLastSend := 0
    m_nMinimumMaxOutstanding := DEFAULT_CONGESTION_WINDOW
    m_nSSThresh := DEFAULT_CONGESTION_WINDOW / 2
    m_anMaxOutstanding := fun _ => 0 }

/-- `EInterface::set_max_oustanding(int nShelf, int nMaxOutstanding)`.  The
`MIN` compares a `UInt32` with an `int`, hence as unsigned values.  A shelf
outside the array is not stored. -/
def EInterface.set_max_oustanding (e : EInterface) (nShelf nMaxOutstanding : Int) : EInterface :=
  { e with
    m_anMaxOutstanding := fun k =>
      if 0 ≤ nShelf ∧ nShelf < MAX_SHELFS ∧ (k : Int) = nShelf then intToU32 nMaxOutstanding
      else e.m_anMaxOutstanding k
    m_nMinimumMaxOutstanding :=
      if e.m_nMinimumMaxOutstanding < intToU32 nMaxOutstanding then e.m_nMinimumMaxOutstanding
      else intToU32 nMaxOutstanding }

/-- `EInterface::get_max_oustanding(int nShelf)`, an `int`. -/
def EInterface.get_max_oustanding (e : EInterface) (nShelf : Int) : Int :=
  wrapS32 (e.m_anMaxOutstanding nShelf.toNat)

/-- `EInterface::get_max_outstanding_all_shelves()`, an `int`. -/
def EInterface.get_max_outstanding_all_shelves (e : EInterface) : Int :=
  wrapS32 e.m_nMinimumMaxOutstanding

/-- The flow-control members of `class EInterfaces`: the interface array and
`m_nMaxUserWindow`.  (The MTU and registry-property bookkeeping of the class
does not take part in flow control and is left out.) -/
structure EInterfaces where
  m_aInterfaces : List EInterface
  m_nMaxUserWindow : Int

/-- `EInterfaces::EInterfaces()` -/
def EInterfaces.init : EInterfaces :=
  { m_aInterfaces := List.replicate MAX_SUPPORTED_ETHERNET_CONNETIONS EInterface.init
    m_nMaxUserWindow := DEFAULT_CONGESTION_WINDOW }

/-- The loop `for(n...) if ( ifref==m_aInterfaces[n].m_ifnet ) { ...; return 0; }`:
the first interface whose reference is `ifref` is updated. -/
def updateFirst (ifref : Nat) (f : EInterface → EInterface) : List EInterface → List EInterface
  | [] => []
  | e :: es => if ifref = e.m_ifnet then f e :: es else e :: updateFirst ifref f es

/-- The loop `for(n...) if ( ifref==m_aInterfaces[n].m_ifnet ) return ...;`:
the first interface whose reference is `ifref`. -/
def lookupFirst (ifref : Nat) : List EInterface → Option EInterface
  | [] => none
  | e :: es => if ifref = e.m_ifnet then some e else lookupFirst ifref es

/-- `EInterfaces::set_max_outstanding`: every interface whose reference is `ifref`. -/
def EInterfaces.set_max_outstanding (s : EInterfaces) (ifref : Nat) (nShelf nMaxOutstanding : Int) :
    EInterfaces :=
  { s with m_aInterfaces := s.m_aInterfaces.map fun e =>
      if ifref = e.m_ifnet then e.set_max_oustanding nShelf nMaxOutstanding else e }

/-- `EInterfaces::get_max_outstanding` -/
def EInterfaces.get_max_outstanding (s : EInterfaces) (ifref : Nat) (nShelf : Int) : Int :=
  match lookupFirst ifref s.m_aInterfaces with
  | some e => if nShelf ≥ 0 then e.get_max_oustanding nShelf else e.get_max_outstanding_all_shelves
  | none => 0

/-- `EInterfaces::is_used`: `m_fEnabled` of the interface, `-1` when there is none. -/
def EInterfaces.is_used (s : EInterfaces) (ifref : Nat) : Int :=
  match lookupFirst ifref s.m_aInterfaces with
  | some e => if e.m_fEnabled then 1 else 0
  | none => -1

/-- `EInterfaces::get_outstanding` -/
def EInterfaces.get_outstanding (s : EInterfaces) (ifref : Nat) : Int :=
  match lookupFirst ifref s.m_aInterfaces with
  | some e => e.m_nOutstandingCount
  | none => -1

/-- `EInterfaces::get_cwnd`, an `int`. -/
def EInterfaces.get_cwnd (s : EInterfaces) (ifref : Nat) : Int :=
  match lookupFirst ifref s.m_aInterfaces with
  | some e => wrapS32 e.m_nCwd
  | none => -1

/-- `EInterfaces::get_ssthresh`, an `int`. -/
def EInterfaces.get_ssthresh (s : EInterfaces) (ifref : Nat) : Int :=
  match lookupFirst ifref s.m_aInterfaces with
  | some e => wrapS32 e.m_nSSThresh
  | none => -1

/-- `EInterfaces::get_time_since_last_send` -/
def EInterfaces.get_time_since_last_send (s : EInterfaces) (ifref : Nat) : Nat :=
  match lookupFirst ifref s.m_aInterfaces with
  | some e => e.m_TimeSinceLastSend
  | none => 0

/-- `EInterfaces::update_time_since_last_send`, `now` being the uptime read. -/
def EInterfaces.update_time_since_last_send (s : EInterfaces) (ifref : Nat) (now : Nat) :
    EInterfaces :=
  { s with
    m_aInterfaces :=
      updateFirst ifref (fun e => { e with m_TimeSinceLastSend := now }) s.m_aInterfaces }

/-- `EInterfaces::set_cwnd` -/
def EInterfaces.set_cwnd (s : EInterfaces) (ifref : Nat) (nCwd : Int) : EInterfaces :=
  { s with
    m_aInterfaces :=
      updateFirst ifref (fun e => { e with m_nCwd := intToU32 nCwd, m_nCwdFractional := 0 })
        s.m_aInterfaces }

/-- The body of `grow_cwnd` on the interface found.  All operations are
`UInt32` operations (`nPrevCwnd`, an `int`, converts back to the old `m_nCwd`). -/
def EInterface.grow_cwnd (e : EInterface) (nIntegerGrowth nFractionalGrowth : Int) : EInterface :=
  let nPrevCwnd := intToU32 (wrapS32 e.m_nCwd)
  let cwd := (e.m_nCwd + intToU32 nIntegerGrowth) % 4294967296
  let frac := (e.m_nCwdFractional + intToU32 nFractionalGrowth) % 4294967296
  if frac ≥ cwd then
    { e with m_nCwd := (cwd + frac / nPrevCwnd) % 4294967296
             m_nCwdFractional := frac % nPrevCwnd }
  else
    { e with m_nCwd := cwd, m_nCwdFractional := frac }

/-- `EInterfaces::grow_cwnd` -/
def EInterfaces.grow_cwnd (s : EInterfaces) (ifref : Nat) (nIntegerGrowth nFractionalGrowth : Int) :
    EInterfaces :=
  { s with
    m_aInterfaces :=
      updateFirst ifref (fun e => e.grow_cwnd nIntegerGrowth nFractionalGrowth) s.m_aInterfaces }

/-- `EInterfaces::set_ssthresh` -/
def EInterfaces.set_ssthresh (s : EInterfaces) (ifref : Nat) (nSSThresh : Int) : EInterfaces :=
  { s with
    m_aInterfaces :=
      updateFirst ifref (fun e => { e with m_nSSThresh := intToU32 nSSThresh }) s.m_aInterfaces }

/-- `EInterfaces::all_full`: `-1` when an enabled interface has fewer than
`nMax` requests outstanding, `0` otherwise. -/
def EInterfaces.all_full (s : EInterfaces) (nMax : Int) : Int :=
  if s.m_aInterfaces.any (fun e => e.m_fEnabled && decide (e.m_nOutstandingCount < nMax)) then -1
  else 0

/-- `time_since_now_ns(old_time)` at uptime `now` (absolute time counted in ns). -/
def time_since_now_ns (now old_time : Nat) : Nat := u64sub now old_time

/-- `time_since_now_us(old_time)` at uptime `now`. -/
def time_since_now_us (now old_time : Nat) : Nat := CONVERT_NS_TO_US (time_since_now_ns now old_time)

/-- The body of the loop of `reset_if_idle` for the interface at index `n`. -/
def EInterfaces.reset_if_idle_at (s : EInterfaces) (TimeOut now n : Nat) : EInterfaces :=
  match s.m_aInterfaces[n]? with
  | none => s
  | some e =>
    if e.m_fEnabled ∧ e.m_TimeSinceLastSend ≠ 0 ∧
        time_since_now_us now e.m_TimeSinceLastSend > TimeOut then
      let s1 := s.set_cwnd e.m_ifnet 1
      let s2 := s1.set_ssthresh e.m_ifnet (Int.tdiv e.get_max_outstanding_all_shelves 2)
      { s2 with
        m_aInterfaces := s2.m_aInterfaces.modify
          (fun x => if x.m_nOutstandingCount ≠ 0 then { x with m_nOutstandingCount := 0 } else x) n }
    else s

/-- `EInterfaces::reset_if_idle(TimeOut)` at uptime `now`. -/
def EInterfaces.reset_if_idle (s : EInterfaces) (TimeOut now : Nat) : EInterfaces :=
  (List.range MAX_SUPPORTED_ETHERNET_CONNETIONS).foldl (fun t n => t.reset_if_idle_at TimeOut now n) s

/-- `EInterfaces::enable_interface(nEthernetNumber)`; `enetifnet` is what
`ifnet_find_by_name` stored for the port. -/
def EInterfaces.enable_interface (s : EInterfaces) (nEthernetNumber enetifnet : Nat) : EInterfaces :=
  if nEthernetNumber ≥ MAX_SUPPORTED_ETHERNET_CONNETIONS then s
  else
    match s.m_aInterfaces[nEthernetNumber]? with
    | none => s
    | some e =>
      let s0 : EInterfaces :=
        { s with
          m_aInterfaces :=
            s.m_aInterfaces.set nEthernetNumber { e with m_ifnet := enetifnet, m_fEnabled := true } }
      let s1 := s0.set_cwnd enetifnet 1
      let s2 := s1.set_ssthresh enetifnet (Int.tdiv e.get_max_outstanding_all_shelves 2)
      { s2 with
        m_aInterfaces :=
          s2.m_aInterfaces.modify (fun x => { x with m_nOutstandingCount := 0 }) nEthernetNumber }

/-- `EInterfaces::interface_disconnected(nEthernetNumber)` -/
def EInterfaces.interface_disconnected (s : EInterfaces) (nEthernetNumber : Nat) : EInterfaces :=
  if nEthernetNumber ≥ MAX_SUPPORTED_ETHERNET_CONNETIONS then s
  else
    { s with
      m_aInterfaces :=
        s.m_aInterfaces.modify (fun x => { x with m_ifnet := 0, m_fEnabled := false })
          nEthernetNumber }

/-- `EInterfaces::interface_reconnected(nEthernetNumber, enetifnet)` -/
def EInterfaces.interface_reconnected (s : EInterfaces) (nEthernetNumber enetifnet : Nat) :
    EInterfaces :=
  { s with
    m_aInterfaces :=
      s.m_aInterfaces.modify (fun x => { x with m_ifnet := enetifnet, m_fEnabled := true })
        nEthernetNumber }

/-- The slow-start / congestion-control step of `cg_aoe_incoming` for a
matched reply sent on `if_sent`. -/
def EInterfaces.ack_cwnd (s : EInterfaces) (if_sent : Nat) : EInterfaces :=
  let nPrevCWND := s.get_cwnd if_sent
  if nPrevCWND < s.get_ssthresh if_sent then s.grow_cwnd if_sent 1 0
  else s.grow_cwnd if_sent 0 1

/-- The window adjustment of `RetransmitTimer` on a retransmit timeout. -/
def EInterfaces.retransmit_adjust (s : EInterfaces) (if_sent : Nat) : EInterfaces :=
  let nPrevCWND := s.get_cwnd if_sent
  let nSSThresh := if Int.tdiv nPrevCWND 2 > 1 then Int.tdiv nPrevCWND 2 else 1
  (s.set_ssthresh if_sent nSSThresh).set_cwnd if_sent 1

/-- The events that act on the window state of the links. -/
inductive LinkEvent where
  | enable (nEthernetNumber enetifnet : Nat)
  | disconnected (nEthernetNumber : Nat)
  | reconnected (nEthernetNumber enetifnet : Nat)
  | bufferCount (ifref : Nat) (nShelf nMaxOutstanding : Int)
  | sent (if_sent now : Nat)
  | ack (if_sent : Nat)
  | retransmitTimeout (if_sent : Nat)
  | idleTimer (now : Nat)

/-- The effect of one event on the interfaces. -/
def LinkEvent.apply (s : EInterfaces) : LinkEvent → EInterfaces
  | .enable n i => s.enable_interface n i
  | .disconnected n => s.interface_disconnected n
  | .reconnected n i => s.interface_reconnected n i
  | .bufferCount i sh m => s.set_max_outstanding i sh m
  | .sent i now => s.update_time_since_last_send i now
  | .ack i => s.ack_cwnd i
  | .retransmitTimeout i => s.retransmit_adjust i
  | .idleTimer now => s.reset_if_idle IDLE_DELAY_US now

/-- The interfaces after a sequence of events, starting from construction. -/
def linkRun (evs : List LinkEvent) : EInterfaces :=
  evs.foldl LinkEvent.apply EInterfaces.init

/-- The window of an interface is well formed: `cwnd` is at least one, the
fractional remainder is below `cwnd`, and `cwnd` fits its 32-bit member. -/
def EInterface.CwndOk (e : EInterface) : Prop :=
  1 ≤ e.m_nCwd ∧ e.m_nCwdFractional < e.m_nCwd ∧ e.m_nCwd < 4294967296

/-- The interface of port 0 once enabled on interface reference `1`, with
window `cwd`, remainder `frac` and the initial threshold. -/
def linkHead (cwd frac : Nat) : EInterface :=
  { EInterface.init with m_fEnabled := true, m_ifnet := 1, m_nCwd := cwd, m_nCwdFractional := frac }

/-- The interfaces with port 0 as `linkHead cwd frac` and the other ports untouched. -/
def linkState (cwd frac : Nat) : EInterfaces :=
  { m_aInterfaces := linkHead cwd frac :: List.replicate 5 EInterface.init
    m_nMaxUserWindow := DEFAULT_CONGESTION_WINDOW }

/-- The interfaces after `n` matched replies on interface reference `1`. -/
def acks (n : Nat) (s : EInterfaces) : EInterfaces :=
  (List.replicate n (LinkEvent.ack 1)).foldl LinkEvent.apply s

/-- Number of matched replies that take the window from 64 to `c` in
congestion avoidance (`c` replies are needed to go from `c` to `c + 1`). -/
def acksTo : Nat → Nat
  | 0 => 0
  | c + 1 => if 64 ≤ c then acksTo c + c else 0

/-- Every interface has a well-formed window. -/
def EInterfaces.AllOk (s : EInterfaces) : Prop :=
  ∀ e ∈ s.m_aInterfaces, e.CwndOk

/-! ## The packet queues and the service (`AoEService.h`, `AoEService.cpp`)

Every operation that reads the uptime clock takes the value read, `now`, as
an argument (absolute time counted in ns; `0` marks "not sent yet" in the
queue entries).  The three timers are triggers from outside: `TransmitTimer`,
`RetransmitTimer` and `IdleTimer` are the timer actions.  What is handed to
the network interface and to the controller interface is returned as a
result; the calls into the controller interface are carried out in
`AoEControllerInterface.cg_aoe_incoming`. -/

/-- `AOE_FLAG_RESPONSE` -/
def AOE_FLAG_RESPONSE : Nat := 0x8

/-- `AOE_FLAG_ERROR` -/
def AOE_FLAG_ERROR : Nat := 0x4

/-- `AOE_ATA_COMMAND` -/
def AOE_ATA_COMMAND : Nat := 0

/-- `AOE_CFG_COMMAND` -/
def AOE_CFG_COMMAND : Nat := 1

/-- `DEVICE_ONLINE_TAG` -/
def DEVICE_ONLINE_TAG : Nat := 0

/-- `TAG_BROADCAST_MASK` -/
def TAG_BROADCAST_MASK : Nat := 0x40000000

/-- The macro `MIN(x,y)`, `((x)<(y)?(x):(y))`, on `int` operands. -/
def MIN (x y : Int) : Int := if x < y then x else y

/-- `struct SentPktQueue`.  `pOutstandingCount` points to the
`m_nOutstandingCount` of an interface and is kept as the index of that
interface in `m_aInterfaces`; `first_mbuf` is the retained payload. -/
structure SentPktQueue where
  first_mbuf : List Nat
  if_sent : Nat
  TimeSent : Nat
  TimeFirstSent : Nat
  RetransmitTime_us : Nat
  Tag : Nat
  nShelf : Nat
  fPacketHasBeenRetransmit : Bool
  pOutstandingCount : Nat
  deriving DecidableEq, Repr

/-- `struct ToSendPktQueue` -/
structure ToSendPktQueue where
  mbuf : List Nat
  if_sent : Nat
  Tag : Nat
  nShelf : Nat
  fSendImmediately : Bool
  pOutstandingCount : Nat
  deriving DecidableEq, Repr

/-- The flow-control members of the service class.  The two statistics
counters are `int`s that are only ever incremented with `++`; signed overflow
being undefined in C, they are kept as unbounded integers. -/
structure AoEService where
  m_pInterfaces : EInterfaces
  m_sent_queue : List SentPktQueue
  m_to_send_queue : List ToSendPktQueue
  m_rto : RtoState
  m_MaxTimeOutBeforeDrop : Nat
  m_nNumUnexpectedResponses : Int
  m_nNumRetransmits : Int

/-- The service as `start()` leaves it. -/
def AoEService.init : AoEService :=
  { m_pInterfaces := EInterfaces.init
    m_sent_queue := []
    m_to_send_queue := []
    m_rto := RtoState.init
    m_MaxTimeOutBeforeDrop := MAX_TIMEOUT_BEFORE_DROP_US
    m_nNumUnexpectedResponses := 0
    m_nNumRetransmits := 0 }

/-- Index of the first interface whose reference is `ifref`; the number of
interfaces when there is none (the loop of `get_ptr_outstanding` runs to the end). -/
def indexFirst (ifref : Nat) : List EInterface → Nat
  | [] => 0
  | e :: es => if ifref = e.m_ifnet then 0 else indexFirst ifref es + 1

/-- `EInterfaces::get_ptr_outstanding` -/
def EInterfaces.get_ptr_outstanding (s : EInterfaces) (ifref : Nat) : Nat :=
  indexFirst ifref s.m_aInterfaces

/-- `OSIncrementAtomic(pOutstandingCount)` -/
def EInterfaces.OSIncrementAtomic (s : EInterfaces) (pOutstandingCount : Nat) : EInterfaces :=
  { s with
    m_aInterfaces :=
      s.m_aInterfaces.modify
        (fun x => { x with m_nOutstandingCount := wrapS32 (x.m_nOutstandingCount + 1) })
        pOutstandingCount }

/-- `OSDecrementAtomic(pOutstandingCount)` -/
def EInterfaces.OSDecrementAtomic (s : EInterfaces) (pOutstandingCount : Nat) : EInterfaces :=
  { s with
    m_aInterfaces :=
      s.m_aInterfaces.modify
        (fun x => { x with m_nOutstandingCount := wrapS32 (x.m_nOutstandingCount - 1) })
        pOutstandingCount }

/-- The validity check of `cg_aoe_incoming`:
`if ( *pOutstandingCount<0 ) *pOutstandingCount = 0;` -/
def EInterfaces.resetIfNegative (s : EInterfaces) (pOutstandingCount : Nat) : EInterfaces :=
  { s with
    m_aInterfaces :=
      s.m_aInterfaces.modify
        (fun x => if x.m_nOutstandingCount < 0 then { x with m_nOutstandingCount := 0 } else x)
        pOutstandingCount }

/-- `if ( !fPacketHasBeenRetransmit ) OSDecrementAtomic(pOutstandingCount);` -/
def EInterfaces.decrementUnlessRetransmit (s : EInterfaces) (e : SentPktQueue) : EInterfaces :=
  if !e.fPacketHasBeenRetransmit then s.OSDecrementAtomic e.pOutstandingCount else s

/-- `add_to_send_queue`: the entry is inserted at the tail of the to-send queue. -/
def add_to_send_queue (s : AoEService) (ifp Tag : Nat) (m : List Nat) (nShelf : Int)
    (pOutstandingCount : Nat) (fSendImmediately : Bool) : AoEService :=
  { s with
    m_to_send_queue :=
      s.m_to_send_queue ++
        [{ mbuf := m, if_sent := ifp, Tag := Tag, nShelf := intToU32 nShelf,
           fSendImmediately := fSendImmediately, pOutstandingCount := pOutstandingCount }] }

/-- `send_packet_on_interface(ifp, Tag, m, nShelf, fRetransmit)` with its
return value.  On a disabled or unknown interface the packet is dropped and
the to-send entries of unused interfaces are purged.  (The copy of the
link-layer address into the frame is taken to succeed.) -/
def send_packet_on_interface (s : AoEService) (ifp Tag : Nat) (m : List Nat) (nShelf : Int)
    (fRetransmit : Bool) : AoEService × Int :=
  if s.m_pInterfaces.is_used ifp ≠ 1 then
    ({ s with
       m_to_send_queue :=
         s.m_to_send_queue.filter fun p => decide (s.m_pInterfaces.is_used p.if_sent = 1) }, -1)
  else
    let item : SentPktQueue :=
      { first_mbuf := m
        Tag := Tag
        RetransmitTime_us := if fRetransmit then get_rto_us s.m_rto else 0
        if_sent := ifp
        fPacketHasBeenRetransmit := false
        nShelf := intToU32 nShelf
        pOutstandingCount := s.m_pInterfaces.get_ptr_outstanding ifp
        TimeSent := 0
        TimeFirstSent := 0 }
    (add_to_send_queue { s with m_sent_queue := s.m_sent_queue ++ [item] } ifp Tag m nShelf
      item.pOutstandingCount false, 0)

/-- The search of `send_packet_from_queue`: the first sent-queue entry with
the tag gets its send times stamped; `none` when no entry has the tag. -/
def stampSent (now Tag : Nat) : List SentPktQueue → Option (List SentPktQueue)
  | [] => none
  | e :: es =>
    if e.Tag = Tag then
      some ((if e.TimeFirstSent = 0 then { e with TimeFirstSent := now, TimeSent := now }
             else { e with TimeSent := now }) :: es)
    else (stampSent now Tag es).map (e :: ·)

/-- `send_packet_from_queue(pToSend_queue_item)` for the entry `p` that stands
between `pre` and `post` in the to-send queue.  The second component is the
frame handed to `ifnet_output_raw`, if any.  The entry leaves the queue. -/
def send_packet_from_queue (s : AoEService) (now : Nat) (pre : List ToSendPktQueue)
    (p : ToSendPktQueue) (post : List ToSendPktQueue) : AoEService × Option ToSendPktQueue :=
  match stampSent now p.Tag s.m_sent_queue with
  | some q =>
    let ifs := if !p.fSendImmediately then s.m_pInterfaces.OSIncrementAtomic p.pOutstandingCount
               else s.m_pInterfaces
    ({ s with
       m_sent_queue := q
       m_pInterfaces := ifs.update_time_since_last_send p.if_sent now
       m_to_send_queue := pre ++ post }, some p)
  | none => ({ s with m_to_send_queue := pre ++ post }, none)

/-- The first loop of `TransmitTimer`: every entry flagged send-immediately is
sent.  `pre` are the entries already passed, the frames sent are collected. -/
def transmitImmediate (now : Nat) :
    AoEService → List ToSendPktQueue → List ToSendPktQueue → AoEService × List ToSendPktQueue
  | s, _, [] => (s, [])
  | s, pre, p :: post =>
    if p.fSendImmediately then
      let r := send_packet_from_queue s now pre p post
      let t := transmitImmediate now r.1 pre post
      (t.1, r.2.toList ++ t.2)
    else transmitImmediate now s (pre ++ [p]) post

/-- The limit `nMaxoutstanding` that `TransmitTimer` computes for an entry. -/
def nMaxoutstanding (s : AoEService) (p : ToSendPktQueue) : Int :=
  let nCWND := s.m_pInterfaces.get_cwnd p.if_sent
  let nMaxForThisShelf := s.m_pInterfaces.get_max_outstanding p.if_sent (wrapS32 p.nShelf)
  MIN (MIN nCWND nMaxForThisShelf) s.m_pInterfaces.m_nMaxUserWindow

/-- The second loop of `TransmitTimer`: the first entry whose interface has
room in its window is sent and the loop ends; the loop also ends at a blocked
entry when `all_full` returns `0`.  The result carries the frame sent, if
any, and `fMoreToSend`. -/
def transmitWindow (now : Nat) :
    AoEService → List ToSendPktQueue → List ToSendPktQueue →
      AoEService × Option ToSendPktQueue × Bool
  | s, _, [] => (s, none, false)
  | s, pre, p :: post =>
    let nOutstanding := s.m_pInterfaces.get_outstanding p.if_sent
    if nOutstanding ≥ nMaxoutstanding s p then
      if s.m_pInterfaces.all_full (nMaxoutstanding s p) = 0 then (s, none, false)
      else transmitWindow now s (pre ++ [p]) post
    else
      let r := send_packet_from_queue s now pre p post
      (r.1, r.2, true)

/-- What one run of `TransmitTimer` does: the new state, the frames handed to
the interface in order, and whether the timer is armed again at the end. -/
structure TransmitResult where
  state : AoEService
  frames : List ToSendPktQueue
  rearm : Bool

/-- `TransmitTimer` at uptime `now`. -/
def TransmitTimer (s : AoEService) (now : Nat) : TransmitResult :=
  let a := transmitImmediate now s [] s.m_to_send_queue
  let b := transmitWindow now a.1 [] a.1.m_to_send_queue
  { state := b.1
    frames := a.2 ++ b.2.1.toList
    rearm := b.2.2 && !b.1.m_to_send_queue.isEmpty }

/-- The decoded AoE header of an incoming packet (`AOE_HEADER_GET*`) with its
payload. -/
structure IncomingPacket where
  ver : Nat
  flags : Nat
  err : Nat
  major : Nat
  minor : Nat
  cmd : Nat
  tag : Nat
  data : List Nat
  deriving DecidableEq, Repr

/-- The call into the controller interface that `cg_aoe_incoming` makes for a
packet it accepts. -/
inductive Delivery where
  | aoe_ata_receive (pkt : IncomingPacket)
  | aoe_config_receive (ifp : Nat) (pkt : IncomingPacket)
  deriving DecidableEq, Repr

/-- The scan of the sent queue in `cg_aoe_incoming`: the first entry with the
tag and the queue without it. -/
def findTag (Tag : Nat) : List SentPktQueue → Option (SentPktQueue × List SentPktQueue)
  | [] => none
  | e :: es =>
    if e.Tag = Tag then some (e, es)
    else (findTag Tag es).map fun r => (r.1, e :: r.2)

/-- The handling of a matched reply in `cg_aoe_incoming`: the outstanding count,
the round trip time, the removal from the sent queue (`rest` is the queue
without the entry) and the window growth. -/
def matchedReply (s : AoEService) (now : Nat) (e : SentPktQueue) (rest : List SentPktQueue) :
    AoEService :=
  let ifs := (s.m_pInterfaces.decrementUnlessRetransmit e).resetIfNegative e.pOutstandingCount
  let rto := if !e.fPacketHasBeenRetransmit then
               update_rto s.m_rto (time_since_now_ns now e.TimeSent)
             else s.m_rto
  { s with
    m_pInterfaces := ifs.ack_cwnd e.if_sent
    m_rto := rto
    m_sent_queue := rest }

/-- `cg_aoe_incoming` for a packet received on interface `ifp` at uptime `now`,
as far as the service's own members go: the new state and the call into the
controller interface (`aoe_ata_receive` or `aoe_config_receive`) that the
function makes before it returns, if any.  The call is the last thing that
acts on the state; it is carried out in `AoEControllerInterface.cg_aoe_incoming`. -/
def cg_aoe_incoming (s : AoEService) (now ifp : Nat) (pkt : IncomingPacket) :
    AoEService × Option Delivery :=
  if pkt.flags &&& AOE_FLAG_RESPONSE = 0 then (s, none)
  else
    let found := findTag pkt.tag s.m_sent_queue
    let s1 := match found with
      | some (e, rest) => matchedReply s now e rest
      | none => s
    let fPacketFound := found.isSome
    if pkt.flags &&& AOE_FLAG_ERROR ≠ 0 then
      ({ s1 with m_nNumUnexpectedResponses := s1.m_nNumUnexpectedResponses + 1 }, none)
    else if fPacketFound ∨ DEVICE_ONLINE_TAG = pkt.tag ∨ TAG_BROADCAST_MASK &&& pkt.tag ≠ 0 then
      if pkt.cmd = AOE_ATA_COMMAND then (s1, some (Delivery.aoe_ata_receive pkt))
      else if pkt.cmd = AOE_CFG_COMMAND then (s1, some (Delivery.aoe_config_receive ifp pkt))
      else
        ({ s1 with m_nNumUnexpectedResponses := s1.m_nNumUnexpectedResponses + 1 },
          none)
    else
      ({ s1 with m_nNumUnexpectedResponses := s1.m_nNumUnexpectedResponses + 1 }, none)

/-- `resend_packet(pSent_queue_item)`: the entry as it is left in the sent
queue and the state with the duplicate queued for an immediate send.
`number_of_targets` is the count the controller interface reports. -/
def resend_packet (s : AoEService) (e : SentPktQueue) (number_of_targets : Int) :
    AoEService × SentPktQueue :=
  let doubled := (2 * e.RetransmitTime_us) % 18446744073709551616
  let e1 : SentPktQueue :=
    { e with
      RetransmitTime_us :=
        if doubled < MAX_RETRANSMIT_TIMEOUT_US then doubled else MAX_RETRANSMIT_TIMEOUT_US
      TimeSent := 0
      fPacketHasBeenRetransmit := true }
  let s1 := add_to_send_queue s e1.if_sent e1.Tag e1.first_mbuf (wrapS32 e1.nShelf)
    e1.pOutstandingCount true
  (if number_of_targets > 0 then
      { s1 with m_nNumRetransmits := s1.m_nNumRetransmits + 1 }
    else s1, e1)

/-- The loop of `RetransmitTimer` over the sent queue.  `pre` are the entries
already passed (as they now stand in the queue), `fHaveAdjustedCWND` is the
flag of the pass. -/
def retransmitScan (now : Nat) (number_of_targets : Int) :
    AoEService → Bool → List SentPktQueue → List SentPktQueue → AoEService
  | s, _, pre, [] => { s with m_sent_queue := pre }
  | s, fHaveAdjustedCWND, pre, e :: post =>
    if e.RetransmitTime_us ≠ 0 then
      if e.TimeFirstSent ≠ 0 ∧ e.TimeSent ≠ 0 then
        if time_since_now_us now e.TimeFirstSent > s.m_MaxTimeOutBeforeDrop then
          retransmitScan now number_of_targets
            { s with m_pInterfaces := s.m_pInterfaces.decrementUnlessRetransmit e }
            fHaveAdjustedCWND pre post
        else if time_since_now_us now e.TimeSent > e.RetransmitTime_us then
          let ifs := if !fHaveAdjustedCWND then s.m_pInterfaces.retransmit_adjust e.if_sent
                     else s.m_pInterfaces
          let r := resend_packet
            { s with m_pInterfaces := ifs.decrementUnlessRetransmit e } e number_of_targets
          retransmitScan now number_of_targets r.1 true (pre ++ [r.2]) post
        else retransmitScan now number_of_targets s fHaveAdjustedCWND (pre ++ [e]) post
      else retransmitScan now number_of_targets s fHaveAdjustedCWND (pre ++ [e]) post
    else
      retransmitScan now number_of_targets
        { s with m_pInterfaces := s.m_pInterfaces.decrementUnlessRetransmit e }
        fHaveAdjustedCWND pre post

/-- `RetransmitTimer` at uptime `now`. -/
def RetransmitTimer (s : AoEService) (now : Nat) (number_of_targets : Int) : AoEService :=
  retransmitScan now number_of_targets s false [] s.m_sent_queue

/-- `IdleTimer` at uptime `now`. -/
def IdleTimer (s : AoEService) (now : Nat) : AoEService :=
  { s with m_pInterfaces := s.m_pInterfaces.reset_if_idle IDLE_DELAY_US now }

/-- The events that drive the transport engine.  `incoming` is `cg_aoe_incoming`
up to its call into the controller interface; what the controller interface
asks of the service while it handles that call (a packet to send, the buffer
count of a target) are the events `send` and `set_max_outstanding` that follow. -/
inductive ServiceEvent where
  | enable_interface (nEthernetNumber enetifnet : Nat)
  | set_max_outstanding (ifref : Nat) (nShelf nMaxOutstanding : Int)
  | set_user_window (nMaxSize : Int)
  | send (ifp Tag : Nat) (m : List Nat) (nShelf : Int) (fRetransmit : Bool)
  | transmitTimer (now : Nat)
  | incoming (now ifp : Nat) (pkt : IncomingPacket)
  | retransmitTimer (now : Nat) (number_of_targets : Int)
  | idleTimer (now : Nat)

/-- The effect of one event on the service. -/
def ServiceEvent.apply (s : AoEService) : ServiceEvent → AoEService
  | .enable_interface n i => { s with m_pInterfaces := s.m_pInterfaces.enable_interface n i }
  | .set_max_outstanding i sh m =>
    { s with m_pInterfaces := s.m_pInterfaces.set_max_outstanding i sh m }
  | .set_user_window n => { s with m_pInterfaces := { s.m_pInterfaces with m_nMaxUserWindow := n } }
  | .send ifp Tag m sh r => (send_packet_on_interface s ifp Tag m sh r).1
  | .transmitTimer now => (TransmitTimer s now).state
  | .incoming now ifp pkt => (cg_aoe_incoming s now ifp pkt).1
  | .retransmitTimer now n => RetransmitTimer s now n
  | .idleTimer now => IdleTimer s now

/-- The service after a sequence of events, starting from `start()`. -/
def serviceRun (evs : List ServiceEvent) : AoEService :=
  evs.foldl ServiceEvent.apply AoEService.init

/-- The quantities `TransmitTimer` compares are the same in both states. -/
def SameWindow (s t : AoEService) : Prop :=
  (∀ j, t.m_pInterfaces.get_outstanding j = s.m_pInterfaces.get_outstanding j) ∧
    ∀ p, nMaxoutstanding t p = nMaxoutstanding s p

/-- How the life of a request ends: its reply arrives, or a retransmit scan
removes it from the sent queue. -/
inductive RequestEnd where
  | reply (now ifp : Nat) (pkt : IncomingPacket)
  | drop (now : Nat)

/-- The service after a normal send of a request: `send_packet_on_interface`
followed by the run of `TransmitTimer` at uptime `t0`. -/
def afterTransmit (s : AoEService) (ifp Tag : Nat) (m : List Nat) (nShelf : Int)
    (fRetransmit : Bool) (t0 : Nat) : AoEService :=
  (TransmitTimer (send_packet_on_interface s ifp Tag m nShelf fRetransmit).1 t0).state

/-- The service after a sequence of retransmit scans (at the uptimes `tr`),
each followed by a run of `TransmitTimer` (at the uptimes `tt`). -/
def afterResends (number_of_targets : Int) : AoEService → List (Nat × Nat) → AoEService
  | s, [] => s
  | s, (tr, tt) :: rest =>
    afterResends number_of_targets
      (TransmitTimer (RetransmitTimer s tr number_of_targets) tt).state rest

/-- Every scan of the sequence resends the request: it leaves a duplicate in
the to-send queue. -/
def ResendsHappen (number_of_targets : Int) : AoEService → List (Nat × Nat) → Prop
  | _, [] => True
  | s, (tr, tt) :: rest =>
    (RetransmitTimer s tr number_of_targets).m_to_send_queue ≠ [] ∧
      ResendsHappen number_of_targets
        (TransmitTimer (RetransmitTimer s tr number_of_targets) tt).state rest

/-- The service after the end of the request. -/
def afterEnd (number_of_targets : Int) (s : AoEService) : RequestEnd → AoEService
  | .reply now ifp pkt => (cg_aoe_incoming s now ifp pkt).1
  | .drop now => RetransmitTimer s now number_of_targets

/-- The end really is the end of the request with tag `Tag`: the reply
carries the RESPONSE flag and the tag, or the scan empties the sent queue
without resending. -/
def EndHappens (number_of_targets : Int) (s : AoEService) (Tag : Nat) : RequestEnd → Prop
  | .reply _ _ pkt => pkt.flags &&& AOE_FLAG_RESPONSE ≠ 0 ∧ pkt.tag = Tag
  | .drop now =>
    (RetransmitTimer s now number_of_targets).m_sent_queue = [] ∧
      (RetransmitTimer s now number_of_targets).m_to_send_queue = []

/-- The first interface with reference `ifp` is the one at index `idx` and
its outstanding counter is `cnt`. -/
def CounterIs (l : List EInterface) (ifp idx : Nat) (cnt : Int) : Prop :=
  indexFirst ifp l = idx ∧ ∃ x, lookupFirst ifp l = some x ∧ x.m_nOutstandingCount = cnt

/-- The request with tag `Tag`, sent on `ifp`, is the only entry of the sent
queue, nothing waits in the to-send queue, the entry's retransmitted flag is
`flag`, and the counter the entry points to is the one of the first interface
with reference `ifp`, whose value is `cnt`. -/
def OnlyRequest (s : AoEService) (ifp Tag : Nat) (flag : Bool) (cnt : Int) : Prop :=
  ∃ e, s.m_sent_queue = [e] ∧ e.Tag = Tag ∧ e.if_sent = ifp ∧
    e.fPacketHasBeenRetransmit = flag ∧ s.m_to_send_queue = [] ∧
    CounterIs s.m_pInterfaces.m_aInterfaces ifp e.pOutstandingCount cnt

/-- A run that leaves both queues empty and the outstanding counter of
interface reference `1` at `-1`: a reliable request fills the window of one, a
discovery broadcast queued behind it is dropped unsent by the retransmit scan
that resends the request, the duplicate is transmitted, and the request is
dropped for good after 61 s. -/
def negativeCounterRun : List ServiceEvent :=
  [.enable_interface 0 1, .set_max_outstanding 1 3 16, .send 1 1 [] 3 true,
   .transmitTimer 1000, .send 1 0x40000002 [] (-1) false, .transmitTimer 2000,
   .retransmitTimer 20001000 1, .transmitTimer 20002000, .retransmitTimer 61000000000 1]

/-- A service with interface reference `1` enabled on port 0 and a buffer
count of 16 advertised by shelf 3. -/
def readyService : AoEService :=
  serviceRun [.enable_interface 0 1, .set_max_outstanding 1 3 16]

/-! ## The ATA controller (`AoEController.cpp`)

One controller translates the ATA commands for one target into AoE packets
and reassembles the replies.  `IOByteCount` is the 32-bit unsigned type of the
32-bit kernel the driver is built for: byte counts and buffer positions are
`Nat`s combined with `u32add`, `u32sub` and `u32mul`.  Memory (the client's
buffer, the double buffer, the received mbufs) is a list of bytes.  A packet
handed to `send_ata_packet` is a result of the operation that issues it; the
mbuf allocator and the send are taken to succeed.  `none` is the result of an
operation whose C code has no defined result (a division by zero, the use of
an uninitialised local or a null command pointer) or does not return. -/

/-- `kATADefaultSectorSize` -/
def kATADefaultSectorSize : Nat := 512

/-- `kATAcmdRead` (the ATA opcodes are those of `IOATATypes.h`) -/
def kATAcmdRead : Nat := 0x20

/-- `kATAcmdReadExtended` -/
def kATAcmdReadExtended : Nat := 0x24

/-- `kATAcmdReadDMAExtended` -/
def kATAcmdReadDMAExtended : Nat := 0x25

/-- `kATAcmdWrite` -/
def kATAcmdWrite : Nat := 0x30

/-- `kATAcmdWriteExtended` -/
def kATAcmdWriteExtended : Nat := 0x34

/-- `kATAcmdWriteDMAExtended` -/
def kATAcmdWriteDMAExtended : Nat := 0x35

/-- `kATAcmdReadDMA` -/
def kATAcmdReadDMA : Nat := 0xC8

/-- `kATAcmdWriteDMA` -/
def kATAcmdWriteDMA : Nat := 0xCA

/-- `kATAcmdSleep` -/
def kATAcmdSleep : Nat := 0xE6

/-- `kATAcmdFlushCache` -/
def kATAcmdFlushCache : Nat := 0xE7

/-- `kATAcmdFlushCacheExtended` -/
def kATAcmdFlushCacheExtended : Nat := 0xEA

/-- `kATAcmdDriveIdentify` -/
def kATAcmdDriveIdentify : Nat := 0xEC

/-- `kATAcmdSetFeatures` -/
def kATAcmdSetFeatures : Nat := 0xEF

/-- `mATAError`, the error bit of the ATA status register -/
def mATAError : Nat := 0x01

/-- `AOE_AFLAGS_E` -/
def AOE_AFLAGS_E : Nat := 0x40

/-- `AOE_AFLAGS_W` -/
def AOE_AFLAGS_W : Nat := 0x01

/-- `MIN_TAG` -/
def MIN_TAG : Nat := 1

/-- `MAX_TAG` -/
def MAX_TAG : Nat := TAG_BROADCAST_MASK - 1

/-- Addition of two 32-bit unsigned values. -/
def u32add (a b : Nat) : Nat := (a + b) % 4294967296

/-- Subtraction of two 32-bit unsigned values. -/
def u32sub (a b : Nat) : Nat :=
  (a % 4294967296 + (4294967296 - b % 4294967296)) % 4294967296

/-- Multiplication of two 32-bit unsigned values. -/
def u32mul (a b : Nat) : Nat := (a * b) % 4294967296

/-- The values of `IOReturn` that the controller returns. -/
inductive IOReturn where
  | kATANoErr
  | kATAErrUnknownType
  | kATADeviceError
  | kATAUnknownOpcode
  | kATAErrDevBusy
  | kATATimeoutErr
  | minusOne
  | kIOReturnUnsupported
  deriving DecidableEq, Repr

/-- The states of a command (`IOATAController::transState`) that the controller sets. -/
inductive ATAState where
  | kATAStarted
  | kATADataTx
  | kATAStatus
  | kATAComplete
  deriving DecidableEq, Repr

/-- The registers of `IOExtendedLBA` (16-bit each, `command` and `device` 8-bit). -/
structure IOExtendedLBA where
  lbaLow16 : Nat
  lbaMid16 : Nat
  lbaHigh16 : Nat
  sectorCount16 : Nat
  features16 : Nat
  device : Nat
  command : Nat
  deriving DecidableEq, Repr

/-- `struct ataTaskFile` (8-bit registers). -/
structure ataTaskFile where
  ataTFFeatures : Nat
  ataTFCount : Nat
  ataTFSector : Nat
  ataTFCylLo : Nat
  ataTFCylHigh : Nat
  ataTFSDH : Nat
  ataTFCommand : Nat
  deriving DecidableEq, Repr

/-- What the controller reads and writes of the command being executed
(`_currentCommand`): four bits of `getFlags()`, the byte counts, the two
register files, the client's memory descriptor (`getBuffer()`) and the state.
`getExtendedLBA()` and `getTaskFilePtr()` are taken to be non-null.  The
fields with a default are those of the status phase: the bits
`mATAFlagTFAccess` and `mATAFlagTFAccessResult` of `getFlags()`, the bits of
`getRegMask()` that `registerAccess` tests, and the two bytes that
`setEndResult` stores. -/
structure IOATACommand where
  flagIOWrite : Bool
  flagIORead : Bool
  flag48BitLBA : Bool
  flagUseDMA : Bool
  byteCount : Nat
  actualTransfer : Nat
  position : Nat
  transferChunkSize : Nat
  extLBA : IOExtendedLBA
  taskFile : ataTaskFile
  buffer : List Nat
  state : ATAState
  flagTFAccess : Bool := false
  flagTFAccessResult : Bool := false
  maskErrFeaturesValid : Bool := false
  maskSectorCntValid : Bool := false
  maskSectorNumValid : Bool := false
  maskCylinderLoValid : Bool := false
  maskCylinderHiValid : Bool := false
  maskStatusCmdValid : Bool := false
  endStatus : Nat := 0
  endError : Nat := 0
  deriving DecidableEq, Repr

/-- The ATA part of an outgoing packet as `issueCommand` fills it, with the
tag of the AoE header and the write data attached to the mbuf. -/
structure AtaPacket where
  Tag : Nat
  AFlags : Nat
  Feature : Nat
  Sector_Count : Nat
  Command : Nat
  lba0 : Nat
  lba1 : Nat
  lba2 : Nat
  lba3 : Nat
  lba4 : Nat
  lba5 : Nat
  data : List Nat
  deriving DecidableEq, Repr

/-- A received ATA reply as `aoe_ata_receive` passes it to `ata_response`:
the tag of its AoE header, the bytes of the first mbuf (which starts with the
AoE header, so that `pATAHeader` points 10 bytes into it) and the bytes of
the mbufs chained to it. -/
structure AtaReply where
  Tag : Nat
  mbuf : List Nat
  cont : List (List Nat)
  deriving DecidableEq, Repr

/-- The members of the controller used by the command path, together with the
tag counter `m_nCurrentTag` of its provider.  `m_pReceivedATAHeader` holds the
bytes from the ATA header of the last reply to the end of its first mbuf;
`doubleBuffer` is the memory at `_doubleBuffer.logicalBuffer`. -/
structure AoEController where
  m_nMaxSectorsPerTransfer : Int
  m_nReadWriteRepliesRequired : Int
  m_unReadBaseTag : Nat
  m_unReceivedTag : Nat
  m_unReceivedATADataSize : Nat
  m_pReceivedATAHeader : Option (List Nat)
  m_ReceivedMBufCont : List (List Nat)
  m_PreviousWriteStatus : Nat
  m_PreviousWriteError : Nat
  m_nOutstandingIdentTag : Nat
  m_IdentifiedCapacity : Nat
  nNumberOfInterfaces : Int
  bufferSize : Nat
  doubleBuffer : List Nat
  m_nCurrentTag : Nat
  currentCommand : Option IOATACommand
  m_fExtendedLBA : Bool := false
  deriving DecidableEq, Repr

/-- `AoEControllerInterface::next_tag`, as a function of `m_nCurrentTag`
(the result is also the new value of the counter). -/
def next_tag (m_nCurrentTag : Nat) : Nat :=
  let t := (m_nCurrentTag + 1) % 4294967296
  let t := if t > MIN_TAG then t else MIN_TAG
  let t := if t < MAX_TAG then t else MAX_TAG
  if t = MAX_TAG then MIN_TAG else t

/-- `AoEController::is_extended_command` -/
def is_extended_command (cmd : IOATACommand) : Bool :=
  if cmd.flag48BitLBA then true
  else if cmd.taskFile.ataTFCommand = kATAcmdWriteExtended ∨
      cmd.taskFile.ataTFCommand = kATAcmdReadExtended then true
  else false

/-- The `switch` that replaces a DMA opcode by the opcode sent to the target
(in `asyncCommand` and in `ata_response`). -/
def translate_dma (command : Nat) : Nat :=
  if command = kATAcmdReadDMAExtended then kATAcmdReadExtended
  else if command = kATAcmdReadDMA then kATAcmdRead
  else if command = kATAcmdWriteDMAExtended then kATAcmdWriteExtended
  else if command = kATAcmdWriteDMA then kATAcmdWrite
  else command

/-- `AoEController::increment_address(IOExtendedLBA*, int)` -/
def increment_address (extLBA : IOExtendedLBA) (nInc : Int) : IOExtendedLBA :=
  let lba3 := (extLBA.lbaLow16 &&& 0xFF00) >>> 8
  let lba0 := extLBA.lbaLow16 &&& 0x00FF
  let lba4 := (extLBA.lbaMid16 &&& 0xFF00) >>> 8
  let lba1 := extLBA.lbaMid16 &&& 0x00FF
  let lba5 := (extLBA.lbaHigh16 &&& 0xFF00) >>> 8
  let lba2 := extLBA.lbaHigh16 &&& 0x00FF
  let Add := (lba5 <<< 40) ||| (lba4 <<< 32) ||| (lba3 <<< 24) ||| (lba2 <<< 16) |||
    (lba1 <<< 8) ||| (lba0 <<< 0)
  let Add := intToU64 (Add + nInc)
  let lba0 := (Add >>> 0) &&& 0xFF
  let lba1 := (Add >>> 8) &&& 0xFF
  let lba2 := (Add >>> 16) &&& 0xFF
  let lba3 := (Add >>> 24) &&& 0xFF
  let lba4 := (Add >>> 32) &&& 0xFF
  let lba5 := (Add >>> 40) &&& 0xFF
  { extLBA with
    lbaLow16 := ((lba3 <<< 8) ||| lba0) % 65536
    lbaMid16 := ((lba4 <<< 8) ||| lba1) % 65536
    lbaHigh16 := ((lba5 <<< 8) ||| lba2) % 65536 }

/-- `AoEController::increment_address(ataTaskFile*, int)` -/
def increment_address_tf (tfRegs : ataTaskFile) (nInc : Int) : ataTaskFile :=
  let lba := tfRegs.ataTFSector % 256
  let mba := tfRegs.ataTFCylLo % 256
  let hba := tfRegs.ataTFCylHigh % 256
  let Add := (hba <<< 16) ||| (mba <<< 8) ||| lba
  let Add := intToU32 (Add + nInc)
  { tfRegs with
    ataTFSector := (Add >>> 0) &&& 0xFF
    ataTFCylLo := (Add >>> 8) &&& 0xFF
    ataTFCylHigh := (Add >>> 16) &&& 0xFF }

/-- The loop `while( thisPass > 0 )` of `append_write_data`, run for at most
the given number of rounds, on `xfrPosition`, `thisPass`, the actual transfer
count of the command and the last values of `MBufExtData` (as an offset in
the double buffer) and `bufferBytes`, which are unset before the first round. -/
def append_write_loop (bufferSize : Nat) :
    Nat → Nat → Nat → Nat → Option (Nat × Nat) → Option (Nat × Option (Nat × Nat))
  | 0, _, thisPass, actual, ext => if thisPass > 0 then none else some (actual, ext)
  | fuel + 1, xfrPosition, thisPass, actual, ext =>
    if thisPass > 0 then
      let bufferBytes := if thisPass > bufferSize then bufferSize else thisPass
      append_write_loop bufferSize fuel (u32add xfrPosition bufferBytes)
        (u32sub thisPass bufferBytes) (u32add actual bufferBytes) (some (xfrPosition, bufferBytes))
    else some (actual, ext)

/-- `AoEController::append_write_data` for the command `cmd`: the command
afterwards and the bytes attached to the outgoing mbuf. -/
def append_write_data (c : AoEController) (cmd : IOATACommand) :
    Option (IOATACommand × List Nat) :=
  let bytesRemaining := u32sub cmd.byteCount cmd.actualTransfer
  if bytesRemaining < 1 then some (cmd, [])
  else
    let xfrPosition := u32add cmd.position cmd.actualTransfer
    let thisPass :=
      if bytesRemaining > cmd.transferChunkSize then cmd.transferChunkSize else bytesRemaining
    match append_write_loop c.bufferSize thisPass xfrPosition thisPass cmd.actualTransfer none with
    | none => none
    | some (_, none) => none
    | some (actual, some (MBufExtData, bufferBytes)) =>
      some ({ cmd with actualTransfer := actual },
        (c.doubleBuffer.drop MBufExtData).take bufferBytes)

/-- `AoEController::issueCommand`: the controller afterwards, the packet
handed to `send_ata_packet` and the value returned. -/
def issueCommand (c : AoEController) : Option (AoEController × List AtaPacket × IOReturn) :=
  match c.currentCommand with
  | none => some (c, [], IOReturn.kATAUnknownOpcode)
  | some cmd =>
    let Tag := next_tag c.m_nCurrentTag
    let c := { c with m_nCurrentTag := Tag }
    let c := if c.m_unReadBaseTag = 0 then { c with m_unReadBaseTag := Tag } else c
    let pkt : AtaPacket :=
      if is_extended_command cmd then
        { Tag := Tag
          AFlags := AOE_AFLAGS_E
          Feature := cmd.extLBA.features16 &&& 0xFF
          Sector_Count := cmd.extLBA.sectorCount16 &&& 0xFF
          Command := cmd.extLBA.command % 256
          lba3 := ((cmd.extLBA.lbaLow16 &&& 0xFF00) >>> 8) % 256
          lba0 := (cmd.extLBA.lbaLow16 &&& 0x00FF) % 256
          lba4 := ((cmd.extLBA.lbaMid16 &&& 0xFF00) >>> 8) % 256
          lba1 := (cmd.extLBA.lbaMid16 &&& 0x00FF) % 256
          lba5 := ((cmd.extLBA.lbaHigh16 &&& 0xFF00) >>> 8) % 256
          lba2 := (cmd.extLBA.lbaHigh16 &&& 0x00FF) % 256
          data := [] }
      else
        { Tag := Tag
          AFlags := 0
          Feature := cmd.taskFile.ataTFFeatures % 256
          Sector_Count := cmd.taskFile.ataTFCount % 256
          Command := cmd.taskFile.ataTFCommand % 256
          lba3 := cmd.taskFile.ataTFSDH % 256
          lba0 := cmd.taskFile.ataTFSector % 256
          lba1 := cmd.taskFile.ataTFCylLo % 256
          lba2 := cmd.taskFile.ataTFCylHigh % 256
          lba4 := 0
          lba5 := 0
          data := [] }
    if cmd.flagIOWrite then
      match append_write_data c cmd with
      | none => none
      | some (cmd, data) =>
        some ({ c with currentCommand := some cmd },
          [{ pkt with AFlags := pkt.AFlags ||| AOE_AFLAGS_W, data := data }], IOReturn.kATANoErr)
    else some (c, [pkt], IOReturn.kATANoErr)

/-- The address that the six LBA bytes of a packet encode. -/
def AtaPacket.lba (p : AtaPacket) : Nat :=
  p.lba0 + 256 * p.lba1 + 65536 * p.lba2 + 16777216 * p.lba3 + 4294967296 * p.lba4 +
    1099511627776 * p.lba5

/-- Apply `f` to the extended registers of the current command. -/
def AoEController.onExtLBA (c : AoEController) (f : IOExtendedLBA → IOExtendedLBA) :
    AoEController :=
  { c with currentCommand := c.currentCommand.map fun cmd => { cmd with extLBA := f cmd.extLBA } }

/-- Apply `f` to the task file of the current command. -/
def AoEController.onTaskFile (c : AoEController) (f : ataTaskFile → ataTaskFile) :
    AoEController :=
  { c with currentCommand := c.currentCommand.map fun cmd => { cmd with taskFile := f cmd.taskFile } }

/-- The three statements that issue one packet of an extended transfer:
`setSectorCount16(n); err = issueCommand(); increment_address(extLBA, n)`. -/
def issue_extended (c : AoEController) (nNumSectorsPerTranser : Nat) :
    Option (AoEController × List AtaPacket × IOReturn) :=
  match issueCommand
      (c.onExtLBA fun e => { e with sectorCount16 := nNumSectorsPerTranser % 65536 }) with
  | none => none
  | some (c, pkts, err) =>
    some (c.onExtLBA fun e => increment_address e nNumSectorsPerTranser, pkts, err)

/-- The three statements that issue one packet of a task-file transfer:
`tfRegs->ataTFCount = n; err = issueCommand(); increment_address(tfRegs, n)`. -/
def issue_taskfile (c : AoEController) (nNumSectorsPerTranser : Nat) :
    Option (AoEController × List AtaPacket × IOReturn) :=
  match issueCommand
      (c.onTaskFile fun t => { t with ataTFCount := nNumSectorsPerTranser % 256 }) with
  | none => none
  | some (c, pkts, err) =>
    some (c.onTaskFile fun t => increment_address_tf t nNumSectorsPerTranser, pkts, err)

/-- The `for` loop of `asyncCommand` run `n` times with the body `body`;
`err` is `none` as long as the local `err` has not been assigned. -/
def issue_loop (body : AoEController → Option (AoEController × List AtaPacket × IOReturn)) :
    Nat → AoEController → Option IOReturn →
      Option (AoEController × List AtaPacket × Option IOReturn)
  | 0, c, err => some (c, [], err)
  | n + 1, c, _ =>
    match body c with
    | none => none
    | some (c, pkts, err) =>
      match issue_loop body n c (some err) with
      | none => none
      | some (c, rest, err) => some (c, pkts ++ rest, err)

/-- The part of `asyncCommand` that splits a read or write into packets, for
the sector count `count` read from the register file and the statements `body`
that issue one packet.  `nNumSectorsPerTranser` is an `int` that only ever
holds a 32-bit unsigned value divided by 512, hence a natural number. -/
def split_transfer (body : AoEController → Nat → Option (AoEController × List AtaPacket × IOReturn))
    (c : AoEController) (byteCount count nNumSectorsPerTranser : Nat) :
    Option (AoEController × List AtaPacket × Option IOReturn) :=
  if nNumSectorsPerTranser = 0 then none
  else
    let replies : Int :=
      if (1 : Int) > (count / nNumSectorsPerTranser : Nat) then 1
      else (count / nNumSectorsPerTranser : Nat)
    let c := { c with m_nReadWriteRepliesRequired := replies }
    let bytesPerPacket := intToU32 (wrapS32 (kATADefaultSectorSize * nNumSectorsPerTranser))
    if bytesPerPacket = 0 then none
    else
      match issue_loop (fun c => body c nNumSectorsPerTranser) (byteCount / bytesPerPacket) c none with
      | none => none
      | some (c, pkts, err) =>
        let leftOver := u32sub byteCount
          (intToU32 (wrapS32 (c.m_nReadWriteRepliesRequired *
            wrapS32 (kATADefaultSectorSize * nNumSectorsPerTranser))))
        if leftOver ≠ 0 then
          let nNumSectorsPerTranser := leftOver / kATADefaultSectorSize
          if nNumSectorsPerTranser > 0 then
            let c := { c with
              m_nReadWriteRepliesRequired := wrapS32 (c.m_nReadWriteRepliesRequired + 1) }
            match body c nNumSectorsPerTranser with
            | none => none
            | some (c, last, err) => some (c, pkts ++ last, some err)
          else some (c, pkts, err)
        else some (c, pkts, err)

/-- `AoEController::asyncCommand`: the controller afterwards, the packets
issued (in the order of issue) and the value returned. -/
def asyncCommand (c : AoEController) : Option (AoEController × List AtaPacket × IOReturn) :=
  match c.currentCommand with
  | none => some (c, [], IOReturn.kATAErrUnknownType)
  | some cmd =>
    if c.nNumberOfInterfaces = 0 then some (c, [], IOReturn.kATADeviceError)
    else
      let nMaxTransferSize : Int := wrapS32 (c.m_nMaxSectorsPerTransfer * kATADefaultSectorSize)
      let cmd := { cmd with
        transferChunkSize :=
          if intToU32 nMaxTransferSize < cmd.byteCount then intToU32 nMaxTransferSize
          else cmd.byteCount }
      let nNumSectorsPerTranser := cmd.transferChunkSize / kATADefaultSectorSize
      let c := { c with m_unReadBaseTag := 0 }
      let c :=
        if cmd.flagIOWrite then
          { c with
            doubleBuffer := cmd.buffer.take cmd.byteCount ++
              c.doubleBuffer.drop (min cmd.byteCount cmd.buffer.length)
            m_PreviousWriteStatus := 0
            m_PreviousWriteError := 0 }
        else c
      let issued :=
        if is_extended_command cmd then
          let command := translate_dma cmd.extLBA.command
          let cmd := { cmd with extLBA := { cmd.extLBA with command := command } }
          let c := { c with currentCommand := some cmd }
          if command = kATAcmdReadExtended ∨ command = kATAcmdRead ∨
              command = kATAcmdWrite ∨ command = kATAcmdWriteExtended then
            split_transfer issue_extended c cmd.byteCount cmd.extLBA.sectorCount16
              nNumSectorsPerTranser
          else (issueCommand c).map fun r => (r.1, r.2.1, some r.2.2)
        else
          let command := translate_dma cmd.taskFile.ataTFCommand
          let cmd := { cmd with taskFile := { cmd.taskFile with ataTFCommand := command } }
          let c := { c with currentCommand := some cmd }
          if command = kATAcmdRead ∨ command = kATAcmdReadExtended ∨
              command = kATAcmdWrite ∨ command = kATAcmdWriteExtended then
            split_transfer issue_taskfile c cmd.byteCount cmd.taskFile.ataTFSector
              nNumSectorsPerTranser
          else (issueCommand c).map fun r => (r.1, r.2.1, some r.2.2)
      match issued with
      | none => none
      | some (_, _, none) => none
      | some (c, pkts, some err) =>
        if err ≠ IOReturn.kATANoErr then some (c, pkts, err)
        else
          let state :=
            if cmd.flagUseDMA then ATAState.kATAStatus
            else if cmd.flagIORead then ATAState.kATADataTx
            else ATAState.kATAStatus
          some ({ c with currentCommand := c.currentCommand.map fun cmd => { cmd with state := state } },
            pkts, err)

/-- `IOMemoryDescriptor::writeBytes(offset, bytes, length)` on the memory
`descriptor`: the bytes are copied as far as the descriptor reaches. -/
def writeBytes (descriptor : List Nat) (offset : Nat) (bytes : List Nat) (length : Nat) :
    List Nat :=
  (List.range descriptor.length).map fun j =>
    if offset ≤ j ∧ j - offset < length ∧ j - offset < bytes.length then bytes.getD (j - offset) 0
    else descriptor.getD j 0

/-- One copy of `completeDataRead`: the clamps on `bufferBytes`, the call of
`writeBytes` and the update of the indicators.  The state is
`nMaxTransferSize`, `bytesRemaining`, `xfrPosition` and the command. -/
def copy_received (bufferBytes : Nat) (bytes : List Nat)
    (st : Int × Nat × Nat × IOATACommand) : Int × Nat × Nat × IOATACommand :=
  let (nMaxTransferSize, bytesRemaining, xfrPosition, cmd) := st
  let bufferBytes :=
    if intToU32 nMaxTransferSize < bufferBytes then intToU32 nMaxTransferSize else bufferBytes
  let bufferBytes := if bytesRemaining < bufferBytes then bytesRemaining else bufferBytes
  (wrapS32 (nMaxTransferSize - bufferBytes),
    u32sub bytesRemaining bufferBytes,
    u32add xfrPosition bufferBytes,
    { cmd with
      buffer := writeBytes cmd.buffer xfrPosition bytes bufferBytes
      actualTransfer := u32add cmd.actualTransfer bufferBytes })

/-- The loop `while ( m_ReceivedMBufCont )` of `completeDataRead`. -/
def copy_chained (bufferSize : Nat) :
    List (List Nat) → Int × Nat × Nat × IOATACommand → Int × Nat × Nat × IOATACommand
  | [], st => st
  | m :: rest, st =>
    let thisPass := m.length % 4294967296
    let bufferBytes := if thisPass > bufferSize then bufferSize else thisPass
    copy_chained bufferSize rest (copy_received bufferBytes m st)

/-- `AoEController::completeDataRead(bool* pfInterrupt)` with a non-null
`pfInterrupt`: the controller afterwards, the value returned and the value of
`*pfInterrupt` afterwards.  `timedOut` is the result of `checkTimeout()`. -/
def completeDataRead (c : AoEController) (timedOut : Bool) (fInterrupt : Bool) :
    Option (AoEController × IOReturn × Bool) :=
  match c.currentCommand with
  | none => none
  | some cmd =>
    let nMaxTransferSize : Int := wrapS32 (c.m_nMaxSectorsPerTransfer * kATADefaultSectorSize)
    let bytesRemaining := u32sub cmd.byteCount cmd.actualTransfer
    if bytesRemaining < 1 then
      some ({ c with currentCommand := some { cmd with state := ATAState.kATAStatus } },
        IOReturn.kATANoErr, fInterrupt)
    else
      match c.m_pReceivedATAHeader with
      | none =>
        some ({ c with currentCommand := some { cmd with state := ATAState.kATAStatus } },
          IOReturn.kATADeviceError, fInterrupt)
      | some header =>
        if cmd.flagIOWrite then some (c, IOReturn.minusOne, fInterrupt)
        else if timedOut then
          some ({ c with currentCommand := some { cmd with state := ATAState.kATAStatus } },
            IOReturn.kATATimeoutErr, fInterrupt)
        else
          let xfrPosition :=
            u32mul (u32sub c.m_unReceivedTag c.m_unReadBaseTag) cmd.transferChunkSize
          let thisPass :=
            if bytesRemaining > cmd.transferChunkSize then cmd.transferChunkSize
            else bytesRemaining
          let st := (nMaxTransferSize, bytesRemaining, xfrPosition, cmd)
          let st :=
            if thisPass > 0 then copy_received c.m_unReceivedATADataSize (header.drop 12) st
            else st
          let st := copy_chained c.bufferSize c.m_ReceivedMBufCont st
          let cmd := st.2.2.2
          let c := { c with m_ReceivedMBufCont := [] }
          if c.m_nReadWriteRepliesRequired ≠ (0 : Int) then
            some ({ c with currentCommand := some { cmd with state := ATAState.kATADataTx } },
              IOReturn.kATANoErr, false)
          else
            some ({ c with currentCommand := some { cmd with state := ATAState.kATAStatus } },
              IOReturn.kATANoErr, true)

/-- `AOE_ATAHEADER_GETSTAT` on the bytes of an ATA header. -/
def AOE_ATAHEADER_GETSTAT (p : List Nat) : Nat :=
  (((p.getD 2 0 <<< 8) ||| p.getD 3 0) >>> 0) &&& 0xFF

/-- `AOE_ATAHEADER_GETERR` on the bytes of an ATA header. -/
def AOE_ATAHEADER_GETERR (p : List Nat) : Nat :=
  (((p.getD 0 0 <<< 8) ||| p.getD 1 0) >>> 0) &&& 0xFF

/-- `AoEController::ata_response` for a reply passed on by `aoe_ata_receive`:
the controller afterwards and whether `handleDeviceInterrupt()` is called
(`fReadyToIssueInterrupt`).  `handle_identify` stands for the member function
of that name, applied to the controller that holds the received header, and
`timedOut` is the result of `checkTimeout()`. -/
def ata_response (handle_identify : AoEController → AoEController × Bool)
    (c : AoEController) (timedOut : Bool) (r : AtaReply) : Option (AoEController × Bool) :=
  let pATAHeader := r.mbuf.drop 10
  let c := { c with
    m_ReceivedMBufCont := r.cont
    m_pReceivedATAHeader := some pATAHeader
    m_unReceivedATADataSize := intToU32 ((r.mbuf.length : Int) - 6 - 16)
    m_unReceivedTag := r.Tag % 4294967296 }
  match c.currentCommand with
  | some cmd =>
    let PrevCommand := translate_dma (cmd.taskFile.ataTFCommand % 256)
    if PrevCommand = kATAcmdDriveIdentify then some (handle_identify c)
    else if PrevCommand = kATAcmdWrite ∨ PrevCommand = kATAcmdWriteExtended then
      let c := { c with m_nReadWriteRepliesRequired := wrapS32 (c.m_nReadWriteRepliesRequired - 1) }
      if c.m_nReadWriteRepliesRequired ≠ 0 then
        if ¬ (c.m_PreviousWriteStatus ≠ 0 ∨ c.m_PreviousWriteError ≠ 0) then
          let c := { c with m_PreviousWriteStatus := AOE_ATAHEADER_GETSTAT pATAHeader }
          if c.m_PreviousWriteStatus &&& mATAError ≠ 0 then
            some ({ c with m_PreviousWriteError := AOE_ATAHEADER_GETERR pATAHeader }, false)
          else some (c, false)
        else some (c, false)
      else some (c, true)
    else if PrevCommand = kATAcmdRead ∨ PrevCommand = kATAcmdReadExtended then
      let c := { c with m_nReadWriteRepliesRequired := wrapS32 (c.m_nReadWriteRepliesRequired - 1) }
      (completeDataRead c timedOut true).map fun r => (r.1, r.2.2)
    else some (c, true)
  | none =>
    if c.m_nOutstandingIdentTag = c.m_unReceivedTag then
      some ({ (handle_identify c).1 with m_nOutstandingIdentTag := 0 }, false)
    else some (c, false)

/-- The replies `rs` handed to `ata_response` one after the other, none of
them after the timeout of the command: the controller afterwards and, for
each reply, whether it raised the interrupt. -/
def ata_responses (handle_identify : AoEController → AoEController × Bool) :
    AoEController → List AtaReply → Option (AoEController × List Bool)
  | c, [] => some (c, [])
  | c, r :: rs =>
    match ata_response handle_identify c false r with
    | none => none
    | some (c, f) =>
      match ata_responses handle_identify c rs with
      | none => none
      | some (c, fs) => some (c, f :: fs)

/-- The 48-bit address that the three LBA registers hold: their low bytes are
the address bytes 0 to 2, their high bytes the address bytes 3 to 5. -/
def IOExtendedLBA.lba48 (e : IOExtendedLBA) : Nat :=
  e.lbaLow16 % 256 + 256 * (e.lbaMid16 % 256) + 65536 * (e.lbaHigh16 % 256) +
    16777216 * (e.lbaLow16 / 256 % 256) + 4294967296 * (e.lbaMid16 / 256 % 256) +
    1099511627776 * (e.lbaHigh16 / 256 % 256)

/-- The three LBA registers hold 16-bit values. -/
def IOExtendedLBA.InRange (e : IOExtendedLBA) : Prop :=
  e.lbaLow16 < 65536 ∧ e.lbaMid16 < 65536 ∧ e.lbaHigh16 < 65536

/-- The controller is issuing the packets of an extended transfer: it has a
current command that `is_extended_command` accepts, with write flag `w` and
chunk size `chunk`, its double buffer has `bs` bytes, the LBA registers of the
command hold the address `A` and `r` replies are expected. -/
def ExtIssuing (c : AoEController) (w : Bool) (chunk bs A : Nat) (r : Int) : Prop :=
  ∃ cmd, c.currentCommand = some cmd ∧ is_extended_command cmd = true ∧
    cmd.flagIOWrite = w ∧ cmd.transferChunkSize = chunk ∧ c.bufferSize = bs ∧
    cmd.extLBA.InRange ∧ cmd.extLBA.lba48 = A ∧ c.m_nReadWriteRepliesRequired = r

/-- A 48-bit write of 5 sectors (opcode WRITE DMA EXT) at address `0x0100FFFE`. -/
def exampleWrite : IOATACommand :=
  { flagIOWrite := true
    flagIORead := false
    flag48BitLBA := true
    flagUseDMA := true
    byteCount := 2560
    actualTransfer := 0
    position := 0
    transferChunkSize := 512
    extLBA :=
      { lbaLow16 := 0x01FE, lbaMid16 := 0x00FF, lbaHigh16 := 0, sectorCount16 := 5,
        features16 := 0, device := 0x40, command := kATAcmdWriteDMAExtended }
    taskFile :=
      { ataTFFeatures := 0, ataTFCount := 5, ataTFSector := 0xFE, ataTFCylLo := 0xFF,
        ataTFCylHigh := 0, ataTFSDH := 0x40, ataTFCommand := kATAcmdWriteDMAExtended }
    buffer := List.replicate 2560 0xAA
    state := ATAState.kATAStarted }

/-- A controller as `init` leaves it for an MTU that gives 2 sectors per
packet, with one interface, a double buffer of 4096 bytes and the command
`cmd` to execute. -/
def exampleController (cmd : IOATACommand) : AoEController :=
  { m_nMaxSectorsPerTransfer := 2
    m_nReadWriteRepliesRequired := 0
    m_unReadBaseTag := 0
    m_unReceivedTag := 0
    m_unReceivedATADataSize := 0
    m_pReceivedATAHeader := none
    m_ReceivedMBufCont := []
    m_PreviousWriteStatus := 0
    m_PreviousWriteError := 0
    m_nOutstandingIdentTag := 0
    m_IdentifiedCapacity := 0
    nNumberOfInterfaces := 1
    bufferSize := 4096
    doubleBuffer := List.replicate 4096 0
    m_nCurrentTag := 7
    currentCommand := some cmd }

/-- The bytes of packet `i` when the bytes `D` of a transfer are cut into
chunks of `c` bytes. -/
def chunkOf (D : List Nat) (c i : Nat) : List Nat := (D.drop (i * c)).take c

/-- The reply `r` answers packet `i` of a read whose first packet has the tag
`baseTag`: it carries the tag `baseTag + i` and, after the 22 bytes of AoE
and ATA header, exactly the bytes of chunk `i` of the data `D`, in its first
mbuf and the mbufs chained to it. -/
def CarriesChunk (r : AtaReply) (baseTag c : Nat) (D : List Nat) (i : Nat) : Prop :=
  r.Tag = baseTag + i ∧ 22 ≤ r.mbuf.length ∧ r.mbuf.drop 22 ++ r.cont.flatten = chunkOf D c i

/-- The controller `c` waits for the `n` replies of a read of the bytes `D`
that `cmd` describes: nothing is transferred yet, the chunk size cuts `D`
into `n` chunks, fits the packet size and the double buffer, and the sizes
are in the range of their C types. -/
def ReadInFlight (c : AoEController) (cmd : IOATACommand) (D : List Nat) (n : Nat) : Prop :=
  c.currentCommand = some cmd ∧ cmd.flagIOWrite = false ∧
    (translate_dma (cmd.taskFile.ataTFCommand % 256) = kATAcmdRead ∨
      translate_dma (cmd.taskFile.ataTFCommand % 256) = kATAcmdReadExtended) ∧
    cmd.byteCount = D.length ∧ D.length < 4294967296 ∧ cmd.actualTransfer = 0 ∧
    1 ≤ cmd.transferChunkSize ∧ (n - 1) * cmd.transferChunkSize < D.length ∧
    D.length ≤ n * cmd.transferChunkSize ∧
    c.m_nReadWriteRepliesRequired = n ∧ n < 2147483648 ∧
    0 ≤ c.m_nMaxSectorsPerTransfer ∧ c.m_nMaxSectorsPerTransfer * 512 < 2147483648 ∧
    (cmd.transferChunkSize : Int) ≤ c.m_nMaxSectorsPerTransfer * 512 ∧
    cmd.transferChunkSize ≤ c.bufferSize

/-- The memory `init` with the bytes of the chunks listed in `done` replaced
by those of `D`. -/
def overlay (init D : List Nat) (c : Nat) (done : List Nat) : List Nat :=
  (List.range init.length).map fun j =>
    if j < D.length ∧ j / c ∈ done then D.getD j 0 else init.getD j 0

/-- The controller `c` is reassembling the read that `c0` and `cmd0` started:
the chunks listed in `done` are in the buffer of its command, the replies to
the packets listed in `todo` are still expected, and the bytes transferred so
far are those that the chunks of `todo` do not account for. -/
def Reassembling (c0 c : AoEController) (cmd0 : IOATACommand) (D : List Nat)
    (done todo : List Nat) : Prop :=
  ∃ cmd, c.currentCommand = some cmd ∧ cmd.flagIOWrite = false ∧
    cmd.taskFile = cmd0.taskFile ∧ cmd.byteCount = cmd0.byteCount ∧
    cmd.transferChunkSize = cmd0.transferChunkSize ∧
    cmd.actualTransfer +
        (todo.map fun i => (chunkOf D cmd0.transferChunkSize i).length).sum = D.length ∧
    cmd.buffer = overlay cmd0.buffer D cmd0.transferChunkSize done ∧
    c.m_nReadWriteRepliesRequired = todo.length ∧
    c.m_unReadBaseTag = c0.m_unReadBaseTag ∧
    c.m_nMaxSectorsPerTransfer = c0.m_nMaxSectorsPerTransfer ∧
    c.bufferSize = c0.bufferSize

/-- The 1024 bytes that the example read transfers. -/
def exampleData : List Nat := (List.range 1024).map fun j => j % 251

/-- A 48-bit read of 2 sectors (opcode READ DMA EXT) whose two packets of one
sector each have been issued. -/
def exampleRead : IOATACommand :=
  { flagIOWrite := false
    flagIORead := true
    flag48BitLBA := true
    flagUseDMA := true
    byteCount := 1024
    actualTransfer := 0
    position := 0
    transferChunkSize := 512
    extLBA :=
      { lbaLow16 := 0x0200, lbaMid16 := 0x00FF, lbaHigh16 := 0, sectorCount16 := 1,
        features16 := 0, device := 0x40, command := kATAcmdReadExtended }
    taskFile :=
      { ataTFFeatures := 0, ataTFCount := 2, ataTFSector := 0xFE, ataTFCylLo := 0xFF,
        ataTFCylHigh := 0, ataTFSDH := 0x40, ataTFCommand := kATAcmdReadDMAExtended }
    buffer := List.replicate 1024 0
    state := ATAState.kATAStatus }

/-- A controller with one sector per packet that has issued the two packets
of `exampleRead` with the tags 8 and 9 and expects their replies. -/
def exampleReading : AoEController :=
  { m_nMaxSectorsPerTransfer := 1
    m_nReadWriteRepliesRequired := 2
    m_unReadBaseTag := 8
    m_unReceivedTag := 0
    m_unReceivedATADataSize := 0
    m_pReceivedATAHeader := none
    m_ReceivedMBufCont := []
    m_PreviousWriteStatus := 0
    m_PreviousWriteError := 0
    m_nOutstandingIdentTag := 0
    m_IdentifiedCapacity := 0
    nNumberOfInterfaces := 1
    bufferSize := 4096
    doubleBuffer := List.replicate 4096 0
    m_nCurrentTag := 9
    currentCommand := some exampleRead }

/-- The reply to packet `i` of the example read: 22 bytes of header and the
first 100 bytes of the sector in the first mbuf, the rest in a chained mbuf. -/
def exampleReply (i : Nat) : AtaReply :=
  { Tag := 8 + i
    mbuf := List.replicate 22 0 ++ (chunkOf exampleData 512 i).take 100
    cont := [(chunkOf exampleData 512 i).drop 100] }
/-! ## The status phase and the IDENTIFY data (`AoEController.cpp`) -/

/-- `AOE_ATAHEADER_GETSCNT` on the bytes of an ATA header. -/
def AOE_ATAHEADER_GETSCNT (p : List Nat) : Nat :=
  (((p.getD 2 0 <<< 8) ||| p.getD 3 0) >>> 8) &&& 0xFF

/-- `AOE_ATAHEADER_GETLBA0` on the bytes of an ATA header. -/
def AOE_ATAHEADER_GETLBA0 (p : List Nat) : Nat :=
  (((p.getD 4 0 <<< 8) ||| p.getD 5 0) >>> 8) &&& 0xFF

/-- `AOE_ATAHEADER_GETLBA1` on the bytes of an ATA header. -/
def AOE_ATAHEADER_GETLBA1 (p : List Nat) : Nat :=
  (((p.getD 4 0 <<< 8) ||| p.getD 5 0) >>> 0) &&& 0xFF

/-- `AOE_ATAHEADER_GETLBA2` on the bytes of an ATA header. -/
def AOE_ATAHEADER_GETLBA2 (p : List Nat) : Nat :=
  (((p.getD 6 0 <<< 8) ||| p.getD 7 0) >>> 8) &&& 0xFF

/-- `AOE_ATAHEADER_GETLBA3` on the bytes of an ATA header. -/
def AOE_ATAHEADER_GETLBA3 (p : List Nat) : Nat :=
  (((p.getD 6 0 <<< 8) ||| p.getD 7 0) >>> 0) &&& 0xFF

/-- `AOE_ATAHEADER_GETLBA4` on the bytes of an ATA header. -/
def AOE_ATAHEADER_GETLBA4 (p : List Nat) : Nat :=
  (((p.getD 8 0 <<< 8) ||| p.getD 9 0) >>> 8) &&& 0xFF

/-- `AOE_ATAHEADER_GETLBA5` on the bytes of an ATA header. -/
def AOE_ATAHEADER_GETLBA5 (p : List Nat) : Nat :=
  (((p.getD 8 0 <<< 8) ||| p.getD 9 0) >>> 0) &&& 0xFF

/-- `AoEController::registerAccess(isWrite)`: the registers of the last reply
are copied into the command, each one if its bit of `getRegMask()` is set,
into the 16-bit registers when `m_fExtendedLBA` is set and into the task file
otherwise. -/
def registerAccess (c : AoEController) (isWrite : Bool) : Option (AoEController × IOReturn) :=
  match c.currentCommand with
  | none => none
  | some cmd =>
    let isExtLBA := c.m_fExtendedLBA
    if isWrite then some (c, IOReturn.kIOReturnUnsupported)
    else
      match c.m_pReceivedATAHeader with
      | none => some (c, IOReturn.kIOReturnUnsupported)
      | some p =>
        let Error := AOE_ATAHEADER_GETERR p
        let Sector_Count := AOE_ATAHEADER_GETSCNT p
        let Status := AOE_ATAHEADER_GETSTAT p
        let lba0 := AOE_ATAHEADER_GETLBA0 p
        let lba1 := AOE_ATAHEADER_GETLBA1 p
        let lba2 := AOE_ATAHEADER_GETLBA2 p
        let lba3 := AOE_ATAHEADER_GETLBA3 p
        let lba4 := AOE_ATAHEADER_GETLBA4 p
        let lba5 := AOE_ATAHEADER_GETLBA5 p
        let Error16 := Error
        let Sector_Count16 := Sector_Count
        let lba_low16 := ((lba0 <<< 8) ||| lba3) % 65536
        let lba_mid16 := ((lba1 <<< 8) ||| lba4) % 65536
        let lba_high16 := ((lba2 <<< 8) ||| lba5) % 65536
        let cmd :=
          if cmd.maskErrFeaturesValid then
            if isExtLBA then { cmd with extLBA := { cmd.extLBA with features16 := Error16 } }
            else { cmd with taskFile := { cmd.taskFile with ataTFFeatures := Error } }
          else cmd
        let cmd :=
          if cmd.maskSectorCntValid then
            if isExtLBA then
              { cmd with extLBA := { cmd.extLBA with sectorCount16 := Sector_Count16 } }
            else { cmd with taskFile := { cmd.taskFile with ataTFCount := Sector_Count } }
          else cmd
        let cmd :=
          if cmd.maskSectorNumValid then
            if isExtLBA then { cmd with extLBA := { cmd.extLBA with lbaLow16 := lba_low16 } }
            else { cmd with taskFile := { cmd.taskFile with ataTFSector := lba0 } }
          else cmd
        let cmd :=
          if cmd.maskCylinderLoValid then
            if isExtLBA then { cmd with extLBA := { cmd.extLBA with lbaMid16 := lba_mid16 } }
            else { cmd with taskFile := { cmd.taskFile with ataTFCylLo := lba1 } }
          else cmd
        let cmd :=
          if cmd.maskCylinderHiValid then
            if isExtLBA then { cmd with extLBA := { cmd.extLBA with lbaHigh16 := lba_high16 } }
            else { cmd with taskFile := { cmd.taskFile with ataTFCylHigh := lba2 } }
          else cmd
        let cmd :=
          if cmd.maskStatusCmdValid then
            { cmd with taskFile := { cmd.taskFile with ataTFCommand := Status } }
          else cmd
        some ({ c with currentCommand := some cmd }, IOReturn.kATANoErr)

/-- `AoEController::asyncStatus`: the controller afterwards, with the end
result stored in the command, and the value returned.  Without a received
header the function returns its local `err` without having set it. -/
def asyncStatus (c : AoEController) : Option (AoEController × IOReturn) :=
  match c.m_pReceivedATAHeader with
  | none => none
  | some header =>
    match c.currentCommand with
    | none => none
    | some cmd =>
      let status := AOE_ATAHEADER_GETSTAT header
      let checked : Option (AoEController × Nat × IOReturn) :=
        if status &&& mATAError ≠ 0 then
          let error := AOE_ATAHEADER_GETERR header
          if cmd.flagTFAccess ∨ cmd.flagTFAccessResult then
            (registerAccess c false).map fun r => (r.1, error, IOReturn.kATADeviceError)
          else some (c, error, IOReturn.kATADeviceError)
        else if cmd.flagTFAccessResult then
          (registerAccess c false).map fun r => (r.1, 0, IOReturn.kATANoErr)
        else some (c, 0, IOReturn.kATANoErr)
      match checked with
      | none => none
      | some (c, error, err) =>
        let c := { c with
          currentCommand := c.currentCommand.map fun cmd =>
            { cmd with endStatus := status, endError := error } }
        let previous : AoEController × IOReturn :=
          if c.m_PreviousWriteStatus &&& mATAError ≠ 0 ∧ c.m_PreviousWriteError ≠ 0 then
            ({ c with
                currentCommand := c.currentCommand.map fun cmd =>
                  { cmd with endStatus := c.m_PreviousWriteStatus,
                             endError := c.m_PreviousWriteError } },
              IOReturn.kATADeviceError)
          else (c, err)
        some ({ previous.1 with m_PreviousWriteStatus := 0, m_PreviousWriteError := 0 },
          previous.2)

/-- A reply to a write packet as the target sends it: the 10 bytes of the AoE
header, the ATA header with the error and status registers, and no data. -/
def writeReply (Tag status error : Nat) : AtaReply :=
  { Tag := Tag
    mbuf := List.replicate 10 0 ++ [0, error, 0, status, 0, 0, 0, 0, 0, 0, 0, 0]
    cont := [] }

/-- The tags that `n` consecutive calls of `next_tag` return, starting with
the counter at `m_nCurrentTag`. -/
def next_tags : Nat → Nat → List Nat
  | _, 0 => []
  | m_nCurrentTag, n + 1 => next_tag m_nCurrentTag :: next_tags (next_tag m_nCurrentTag) n

/-- `TAG_USER_MASK` -/
def TAG_USER_MASK : Nat := 0x80000000

/-- The controller after `asyncCommand` has issued the packets of the example
write (three packets, of 2, 2 and 1 sectors, with the tags 8, 9 and 10). -/
def exampleWriting : AoEController :=
  match asyncCommand (exampleController exampleWrite) with
  | some (c, _, _) => c
  | none => exampleController exampleWrite

/-- `AOE_SUPPORTED_VER` -/
def AOE_SUPPORTED_VER : Nat := 1

/-- `htons(x)`: the two bytes that the 16-bit field holds in memory, the high
byte first. -/
def htons (x : Nat) : List Nat := [x % 65536 / 256, x % 256]

/-- `ntohs` of the 16-bit field that starts at byte `i` of `p`. -/
def ntohs (p : List Nat) (i : Nat) : Nat := (p.getD i 0 <<< 8) ||| p.getD (i + 1) 0

/-- `AOE_HEADER_SETVERFLAGERR(v,f,e)` -/
def AOE_HEADER_SETVERFLAGERR (v f e : Nat) : List Nat :=
  htons (((v &&& 0xF) <<< 12) ||| ((f &&& 0xF) <<< 8) ||| (e &&& 0xF))

/-- `AOE_HEADER_SETMAJOR(m)` -/
def AOE_HEADER_SETMAJOR (m : Nat) : List Nat := htons m

/-- `AOE_HEADER_SETMINORCMD(m,c)` -/
def AOE_HEADER_SETMINORCMD (m c : Nat) : List Nat :=
  htons (((m &&& 0xFF) <<< 8) ||| ((c &&& 0xFF) <<< 0))

/-- `AOE_HEADER_SETTAG1(t)` -/
def AOE_HEADER_SETTAG1 (t : Nat) : List Nat := htons ((t >>> 16) &&& 0xFFFF)

/-- `AOE_HEADER_SETTAG2(t)` -/
def AOE_HEADER_SETTAG2 (t : Nat) : List Nat := htons (t &&& 0xFFFF)

/-- The 10 bytes of an `aoe_header` whose five fields (`ah_verflagserr`,
`ah_major`, `ah_minorcmd`, `ah_tag[0]`, `ah_tag[1]`) are assigned the values
of the `AOE_HEADER_SET` macros. -/
def aoe_header_set (v f e shelf slot cmd tag : Nat) : List Nat :=
  AOE_HEADER_SETVERFLAGERR v f e ++ AOE_HEADER_SETMAJOR shelf ++
    AOE_HEADER_SETMINORCMD slot cmd ++ AOE_HEADER_SETTAG1 tag ++ AOE_HEADER_SETTAG2 tag

/-- `AOE_HEADER_GETVER(p)` -/
def AOE_HEADER_GETVER (p : List Nat) : Nat := (ntohs p 0 >>> 12) &&& 0x0F

/-- `AOE_HEADER_GETFLAG(p)` -/
def AOE_HEADER_GETFLAG (p : List Nat) : Nat := (ntohs p 0 >>> 8) &&& 0x0F

/-- `AOE_HEADER_GETERR(p)` -/
def AOE_HEADER_GETERR (p : List Nat) : Nat := (ntohs p 0 >>> 0) &&& 0xFF

/-- `AOE_HEADER_GETMAJOR(p)` -/
def AOE_HEADER_GETMAJOR (p : List Nat) : Nat := ntohs p 2

/-- `AOE_HEADER_GETMINOR(p)` -/
def AOE_HEADER_GETMINOR (p : List Nat) : Nat := (ntohs p 4 >>> 8) &&& 0xFF

/-- `AOE_HEADER_GETCMD(p)` -/
def AOE_HEADER_GETCMD (p : List Nat) : Nat := (ntohs p 4 >>> 0) &&& 0xFF

/-- `AOE_HEADER_GETTAG(p)`, a `UInt32`. -/
def AOE_HEADER_GETTAG (p : List Nat) : Nat :=
  (((ntohs p 6 % 4294967296) <<< 16) % 4294967296) ||| ntohs p 8

/-- The seven values that the `AOE_HEADER_GET` macros read from a header. -/
def aoe_header_get (p : List Nat) : Nat × Nat × Nat × Nat × Nat × Nat × Nat :=
  (AOE_HEADER_GETVER p, AOE_HEADER_GETFLAG p, AOE_HEADER_GETERR p, AOE_HEADER_GETMAJOR p,
    AOE_HEADER_GETMINOR p, AOE_HEADER_GETCMD p, AOE_HEADER_GETTAG p)
/-! ## Definitions for the idle reset and the retransmit scan -/

/-- The condition under which `reset_if_idle(TimeOut)` resets a link at uptime
`now`: the link is enabled, has sent (`m_TimeSinceLastSend` is not 0) and the
time since then exceeds `TimeOut` microseconds. -/
def EInterface.Idle (e : EInterface) (TimeOut now : Nat) : Prop :=
  e.m_fEnabled = true ∧ e.m_TimeSinceLastSend ≠ 0 ∧
    time_since_now_us now e.m_TimeSinceLastSend > TimeOut

/-- The condition `Idle` is decidable. -/
instance EInterface.decidableIdle (e : EInterface) (TimeOut now : Nat) :
    Decidable (e.Idle TimeOut now) := by
  unfold EInterface.Idle
  exact inferInstance

/-- The window state of a link: its reference, window, fraction and threshold. -/
def EInterface.window (e : EInterface) : Nat × Nat × Nat × Nat :=
  (e.m_ifnet, e.m_nCwd, e.m_nCwdFractional, e.m_nSSThresh)

/-- The window states of all links, in the order of the table. -/
def EInterfaces.windows (s : EInterfaces) : List (Nat × Nat × Nat × Nat) :=
  s.m_aInterfaces.map EInterface.window

/-- The condition under which the scan of `RetransmitTimer` at uptime `now`
resends the entry `e`: it is retransmittable, has been sent, is not older than
the drop timeout, and the time since its last send exceeds its retransmit
timeout. -/
def SentPktQueue.TimedOut (e : SentPktQueue) (MaxTimeOutBeforeDrop now : Nat) : Prop :=
  e.RetransmitTime_us ≠ 0 ∧ (e.TimeFirstSent ≠ 0 ∧ e.TimeSent ≠ 0) ∧
    ¬ time_since_now_us now e.TimeFirstSent > MaxTimeOutBeforeDrop ∧
    time_since_now_us now e.TimeSent > e.RetransmitTime_us

/-- A reply to the request with tag `t` of shelf 3, slot 0. -/
def exampleReplyPacket (t : Nat) : IncomingPacket :=
  { ver := 1, flags := AOE_FLAG_RESPONSE, err := 0, major := 3, minor := 0,
    cmd := AOE_ATA_COMMAND, tag := t, data := [] }

/-- A run that opens the window of interface reference `1` to 4 (three
requests, each transmitted and answered) and leaves a fourth request, sent at
7000 ns, in the sent queue. -/
def windowFourRun : List ServiceEvent :=
  [.enable_interface 0 1, .set_max_outstanding 1 3 16,
   .send 1 1 [] 3 true, .transmitTimer 1000, .incoming 2000 1 (exampleReplyPacket 1),
   .send 1 2 [] 3 true, .transmitTimer 3000, .incoming 4000 1 (exampleReplyPacket 2),
   .send 1 3 [] 3 true, .transmitTimer 5000, .incoming 6000 1 (exampleReplyPacket 3),
   .send 1 4 [] 3 true, .transmitTimer 7000]

/-- The entry that `windowFourRun` leaves in the sent queue. -/
def exampleSentEntry : SentPktQueue :=
  { first_mbuf := []
    if_sent := 1
    TimeSent := 7000
    TimeFirstSent := 7000
    RetransmitTime_us := 1000
    Tag := 4
    nShelf := 3
    fPacketHasBeenRetransmit := false
    pOutstandingCount := 0 }
/-! ## The IDENTIFY data (`AoEController::handle_identify`) -/

/-- `kIDBufferBytes` -/
def kIDBufferBytes : Nat := 512

/-- The word `p16[w]` of the memory `data` (a `UInt16*` access), on a host of
the given byte order. -/
def readWord16 (bigEndian : Bool) (data : List Nat) (w : Nat) : Nat :=
  if bigEndian then data.getD (2 * w) 0 * 256 + data.getD (2 * w + 1) 0
  else data.getD (2 * w + 1) 0 * 256 + data.getD (2 * w) 0

/-- The store `p16[w] = v` into the memory `data`. -/
def writeWord16 (bigEndian : Bool) (data : List Nat) (w v : Nat) : List Nat :=
  if bigEndian then (data.set (2 * w) (v / 256 % 256)).set (2 * w + 1) (v % 256)
  else (data.set (2 * w) (v % 256)).set (2 * w + 1) (v / 256 % 256)

/-- `swapBytes16(&data[offset], length)`: the two bytes of every pair of the
range change places. -/
def swapBytes16 (data : List Nat) (offset length : Nat) : List Nat :=
  (List.range data.length).map fun j =>
    if offset ≤ j ∧ j < offset + length then
      if (j - offset) % 2 = 0 then data.getD (j + 1) 0 else data.getD (j - 1) 0
    else data.getD j 0

/-- `AoEController::handle_identify(pATAHeader)` for the header stored in
`m_pReceivedATAHeader`, whose data (`aa_Data`) starts at byte 12: the
controller afterwards (the data is changed in place), the value returned and
whether `remove_target` of the provider is called.  The two functions of
`IOATADevConfig` are arguments; the registry properties are left out.  There
is no result when the memory that follows the header is shorter than the 512
bytes that the function writes to. -/
def handle_identify (bigEndian : Bool) (sDriveSupports48BitLBA : List Nat → Bool)
    (sDriveExtendedLBASize : List Nat → Nat × Nat) (c : AoEController) :
    Option (AoEController × Bool × Bool) :=
  match c.m_pReceivedATAHeader with
  | none => none
  | some header =>
    if header.length < 12 + kATADefaultSectorSize then none
    else
      let data := header.drop 12
      let data := writeWord16 bigEndian data 53 (readWord16 bigEndian data 53 ||| 0x0002)
      let data := writeWord16 bigEndian data 49 (readWord16 bigEndian data 49 ||| 0x100)
      let data := writeWord16 bigEndian data 63 (readWord16 bigEndian data 63 ||| 0x7)
      let data := data.set (kATADefaultSectorSize - 2) 0xA5
      let checkSum := (data.take (kATADefaultSectorSize - 1)).sum % 256
      let data := data.set (kATADefaultSectorSize - 1) ((-(checkSum : Int) - 1 + 1) % 256).toNat
      if c.m_nOutstandingIdentTag = c.m_unReceivedTag then
        let data :=
          if bigEndian then swapBytes16 data 0 kIDBufferBytes
          else swapBytes16 (swapBytes16 (swapBytes16 data 46 8) 54 40) 20 20
        let NumSectors :=
          ((sDriveExtendedLBASize data).1 % 4294967296) <<< 32 |||
            ((sDriveExtendedLBASize data).2 % 4294967296)
        let remove :=
          sDriveSupports48BitLBA data &&
            (decide (c.m_IdentifiedCapacity ≠ 0) && decide (NumSectors ≠ c.m_IdentifiedCapacity))
        let capacity :=
          if sDriveSupports48BitLBA data then NumSectors else c.m_IdentifiedCapacity
        let data := (data.set 94 0).set 40 0
        some ({ c with
            m_pReceivedATAHeader := some (header.take 12 ++ data)
            m_nOutstandingIdentTag := 0
            m_IdentifiedCapacity := capacity },
          false, remove)
      else
        some ({ c with m_pReceivedATAHeader := some (header.take 12 ++ data) }, true, false)

/-- The host's IDENTIFY DEVICE command: a read of one sector without DMA. -/
def exampleIdentify : IOATACommand :=
  { flagIOWrite := false
    flagIORead := true
    flag48BitLBA := false
    flagUseDMA := false
    byteCount := 512
    actualTransfer := 0
    position := 0
    transferChunkSize := 512
    extLBA :=
      { lbaLow16 := 0, lbaMid16 := 0, lbaHigh16 := 0, sectorCount16 := 0, features16 := 0,
        device := 0, command := 0 }
    taskFile :=
      { ataTFFeatures := 0, ataTFCount := 0, ataTFSector := 0, ataTFCylLo := 0,
        ataTFCylHigh := 0, ataTFSDH := 0, ataTFCommand := kATAcmdDriveIdentify }
    buffer := List.replicate 512 0
    state := ATAState.kATADataTx }

/-- The bytes of a reply from its ATA header on: the 12 bytes of the header
(status DRDY) and 512 bytes of IDENTIFY data. -/
def exampleIdentifyHeader : List Nat :=
  [0, 0, 1, 0x40, 0, 0, 0, 0, 0, 0, 0, 0] ++ (List.range 512).map fun i => (7 * i + 3) % 256

/-- The controller that holds the reply (tag 8) to the host's IDENTIFY. -/
def exampleIdentifying : AoEController :=
  { exampleController exampleIdentify with
    m_pReceivedATAHeader := some exampleIdentifyHeader
    m_unReceivedTag := 8 }
/-! ## The controller interface and its list of targets (`AoEControllerInterface.cpp`)

A controller object is held in `m_pControllers` for every target.  Its members
that describe the target (`m_target`, the config string, the time of the last
contact) are kept in `TargetController`; the command path of the same object
is `AoEController` above.  Creating an object, `attach` and `start` are taken
to succeed, and the memory of a new object is zero-filled.  Operations that
read the clock take the uptime `now` (in ns). -/

/-- `MAX_CONFIG_STRING_LENGTH` -/
def MAX_CONFIG_STRING_LENGTH : Nat := 1024

/-- `CONFIG_STR_GET` -/
def CONFIG_STR_GET : Nat := 0

/-- `CONFIG_STR_FORCE_SET` -/
def CONFIG_STR_FORCE_SET : Nat := 4

/-- `DEFAULT_TIME_UNTIL_TARGET_OFFLINE_US` -/
def DEFAULT_TIME_UNTIL_TARGET_OFFLINE_US : Nat := 60 * 1000 * 1000

/-- `ETHER_ADDR_LEN` -/
def ETHER_ADDR_LEN : Nat := 6

/-- `ETHERTYPE_AOE` -/
def ETHERTYPE_AOE : Nat := 0x88a2

/-- `struct TargetInfo`: the arrays have `MAX_SUPPORTED_ETHERNET_CONNETIONS`
entries, an address has `ETHER_ADDR_LEN` bytes. -/
structure TargetInfo where
  nTargetNumber : Nat
  nSlot : Nat
  nShelf : Nat
  NumSectors : Nat
  nNumberOfInterfaces : Nat
  aInterfaces : List Nat
  aInterfaceNum : List Nat
  aaSrcMACAddress : List (List Nat)
  aaDestMACAddress : List (List Nat)
  nLastSentInterface : Nat
  deriving DecidableEq, Repr

/-- The members of a controller object that describe its target, and the tag
of the IDENTIFY command that `send_identify` has outstanding. -/
structure TargetController where
  m_target : TargetInfo
  m_aConfigString : List Nat
  m_nBufferCount : Nat
  m_fRegistered : Bool
  m_time_since_last_comm : Nat
  m_nOutstandingIdentTag : Nat := 0
  deriving DecidableEq, Repr

/-- The members of the controller interface: its provider (the service, with
the string `get_com_cstring()` returns), the list of controllers, the offline
threshold, the controller that the next run of `FakeReturnTimer` answers
to (named by the pointer value `pSender`) with the state of that timer, and
the tag counter. -/
structure AoEControllerInterface where
  m_pAoEService : AoEService
  m_pszOurCString : List Nat
  m_pControllers : List TargetController
  m_TimeUntilTargetOffline_us : Nat
  m_pControllerToFakeResponse : Option Nat
  fakeReturnTimerSet : Bool
  m_nCurrentTag : Nat := 0

/-- `strncmp(a, b, n)`; what matters of the result is whether it is 0. -/
def strncmp : List Nat → List Nat → Nat → Int
  | _, _, 0 => 0
  | a, b, n + 1 =>
    if a.headD 0 ≠ b.headD 0 then (a.headD 0 : Int) - (b.headD 0 : Int)
    else if a.headD 0 = 0 then 0
    else strncmp a.tail b.tail n

/-- The C string that a buffer holds within its first `n` bytes. -/
def cstr (a : List Nat) (n : Nat) : List Nat := (a.take n).takeWhile fun b => b ≠ 0

/-- `memset(&m_target, 0, sizeof(TargetInfo))` -/
def TargetInfo.zero : TargetInfo :=
  { nTargetNumber := 0
    nSlot := 0
    nShelf := 0
    NumSectors := 0
    nNumberOfInterfaces := 0
    aInterfaces := List.replicate MAX_SUPPORTED_ETHERNET_CONNETIONS 0
    aInterfaceNum := List.replicate MAX_SUPPORTED_ETHERNET_CONNETIONS 0
    aaSrcMACAddress :=
      List.replicate MAX_SUPPORTED_ETHERNET_CONNETIONS (List.replicate ETHER_ADDR_LEN 0)
    aaDestMACAddress :=
      List.replicate MAX_SUPPORTED_ETHERNET_CONNETIONS (List.replicate ETHER_ADDR_LEN 0)
    nLastSentInterface := 0 }

/-- `AoEController::init(pProvider, nShelf, nSlot, ifnet_receive,
pTargetsMACAddress, MTU, nMaxTransferSize, nNumber)` on a new object, as far
as the target is concerned.  `unit` is `ifnet_unit(ifnet_receive)` and
`lladdr` the link-layer address of the interface. -/
def TargetController.init (nShelf nSlot : Int) (ifnet_receive unit : Nat)
    (lladdr pTargetsMACAddress : List Nat) (nNumber : Int) (now : Nat) : TargetController :=
  { m_target :=
      { TargetInfo.zero with
        nNumberOfInterfaces := 1
        nShelf := intToU32 nShelf
        nSlot := intToU32 nSlot
        nTargetNumber := intToU32 nNumber
        aInterfaces := TargetInfo.zero.aInterfaces.set 0 ifnet_receive
        aInterfaceNum := TargetInfo.zero.aInterfaceNum.set 0 unit
        nLastSentInterface := 0
        aaSrcMACAddress := TargetInfo.zero.aaSrcMACAddress.set 0 (lladdr.take ETHER_ADDR_LEN)
        aaDestMACAddress :=
          TargetInfo.zero.aaDestMACAddress.set 0 (pTargetsMACAddress.take ETHER_ADDR_LEN) }
    m_aConfigString := List.replicate MAX_CONFIG_STRING_LENGTH 0
    m_nBufferCount := 0
    m_fRegistered := false
    m_time_since_last_comm := now }

/-- `AoEController::is_device(nShelf, nSlot)` -/
def TargetController.is_device (c : TargetController) (nShelf nSlot : Int) : Int :=
  if intToU32 nShelf = c.m_target.nShelf ∧ intToU32 nSlot = c.m_target.nSlot then 0 else -1

/-- `AoEController::is_registered()` -/
def TargetController.is_registered (c : TargetController) : Int :=
  if c.m_fRegistered then 0 else -1

/-- `AoEController::target_number()` -/
def TargetController.target_number (c : TargetController) : Int :=
  wrapS32 c.m_target.nTargetNumber

/-- `AoEController::cstring_is_ours(pszString)` -/
def TargetController.cstring_is_ours (c : TargetController) (pszString : List Nat) : Int :=
  if strncmp pszString c.m_aConfigString MAX_CONFIG_STRING_LENGTH = 0 then 0 else -1

/-- `AoEController::registerDiskService()` -/
def TargetController.registerDiskService (c : TargetController) : TargetController :=
  { c with m_fRegistered := true }

/-- `AoEController::remove_interface(nInterfaceNumber)`.  There is no result
when an index is outside the arrays. -/
def TargetController.remove_interface (c : TargetController) (nInterfaceNumber : Nat) :
    Option TargetController :=
  let t := c.m_target
  let last := u32sub t.nNumberOfInterfaces 1
  if nInterfaceNumber ≥ MAX_SUPPORTED_ETHERNET_CONNETIONS ∨
      last ≥ MAX_SUPPORTED_ETHERNET_CONNETIONS then none
  else
    let aInterfaces := t.aInterfaces.set nInterfaceNumber (t.aInterfaces.getD last 0)
    let aInterfaceNum := t.aInterfaceNum.set nInterfaceNumber (t.aInterfaceNum.getD last 0)
    let aaSrc := t.aaSrcMACAddress.set last (t.aaSrcMACAddress.getD nInterfaceNumber [])
    let aaDest := t.aaDestMACAddress.set last (t.aaDestMACAddress.getD nInterfaceNumber [])
    some { c with
      m_target :=
        { t with
          aInterfaces := aInterfaces.set last 0
          aInterfaceNum := aInterfaceNum.set last 0
          aaSrcMACAddress := aaSrc.set last (List.replicate ETHER_ADDR_LEN 0)
          aaDestMACAddress := aaDest.set last (List.replicate ETHER_ADDR_LEN 0)
          nNumberOfInterfaces := last } }

/-- The search loop of `update_target_info`: the first index below `n` at
which `aInterfaces` holds `ifnet_receive`. -/
def findInterface (ifnet_receive : Nat) (aInterfaces : List Nat) (n : Nat) : Option Nat :=
  (List.range n).find? fun k => decide (aInterfaces.getD k 0 = ifnet_receive)

/-- `AoEController::update_target_info(ifnet_receive, pTargetsMACAddress,
fOnline)` at uptime `now`. -/
def TargetController.update_target_info (c : TargetController) (ifnet_receive unit : Nat)
    (lladdr pTargetsMACAddress : List Nat) (fOnline : Bool) (now : Nat) :
    Option TargetController :=
  let t := c.m_target
  match findInterface ifnet_receive t.aInterfaces t.nNumberOfInterfaces with
  | some nInterfaceNumber =>
    if fOnline then some { c with m_time_since_last_comm := now }
    else c.remove_interface nInterfaceNumber
  | none =>
    if fOnline then
      if t.nNumberOfInterfaces ≥ MAX_SUPPORTED_ETHERNET_CONNETIONS then none
      else
        some { c with
          m_target :=
            { t with
              aInterfaces := t.aInterfaces.set t.nNumberOfInterfaces ifnet_receive
              aInterfaceNum := t.aInterfaceNum.set t.nNumberOfInterfaces unit
              aaSrcMACAddress :=
                t.aaSrcMACAddress.set t.nNumberOfInterfaces (lladdr.take ETHER_ADDR_LEN)
              aaDestMACAddress :=
                t.aaDestMACAddress.set t.nNumberOfInterfaces
                  (pTargetsMACAddress.take ETHER_ADDR_LEN)
              nNumberOfInterfaces := (t.nNumberOfInterfaces + 1) % 4294967296 }
          m_time_since_last_comm := now }
    else some c

/-- `AOE_CFGHEADER_GETBCOUNT` on the bytes of a config header. -/
def AOE_CFGHEADER_GETBCOUNT (p : List Nat) : Nat := ntohs p 0

/-- `AOE_CFGHEADER_GETCCMD` on the bytes of a config header. -/
def AOE_CFGHEADER_GETCCMD (p : List Nat) : Nat := (ntohs p 4 >>> 0) &&& 0x0F

/-- `AOE_CFGHEADER_GETCSLEN` on the bytes of a config header. -/
def AOE_CFGHEADER_GETCSLEN (p : List Nat) : Nat := ntohs p 6

/-- `AoEController::handle_aoe_cmd(ifnet_receive, pCfgHeader, pMBufData)`:
`pCfgHeader` are the bytes of the first mbuf from the config header on (the
string `ac_cstring` starts at byte 8).  The controller and the service
afterwards; there is no result when the string is read beyond those bytes. -/
def TargetController.handle_aoe_cmd (c : TargetController) (s : AoEService)
    (ifnet_receive : Nat) (pCfgHeader : List Nat) : Option (TargetController × AoEService) :=
  let c := { c with m_nBufferCount := AOE_CFGHEADER_GETBCOUNT pCfgHeader }
  let s := { s with
    m_pInterfaces :=
      s.m_pInterfaces.set_max_outstanding ifnet_receive (wrapS32 c.m_target.nShelf)
        (wrapS32 c.m_nBufferCount) }
  if AOE_CFGHEADER_GETCCMD pCfgHeader = CONFIG_STR_GET then
    let nSize : Int := wrapS32 (AOE_CFGHEADER_GETCSLEN pCfgHeader)
    let nSize := MIN nSize MAX_CONFIG_STRING_LENGTH
    let ac_cstring := pCfgHeader.drop 8
    if (ac_cstring.length : Int) < nSize then none
    else
      some ({ c with
          m_aConfigString :=
            ac_cstring.take nSize.toNat ++ c.m_aConfigString.drop nSize.toNat }, s)
  else some (c, s)

/-- The inner loop of `get_next_target_number`: whether a controller has the
target number `n`. -/
def numberInUse (l : List TargetController) (n : Int) : Bool :=
  l.any fun c => decide (n = c.target_number)

/-- The outer loop of `get_next_target_number`, entered with `n` already
incremented; `fuel` bounds the number of passes. -/
def nextTargetNumber (l : List TargetController) : Nat → Int → Option Int
  | 0, _ => none
  | fuel + 1, n => if numberInUse l n then nextTargetNumber l fuel (wrapS32 (n + 1)) else some n

/-- `AoEControllerInterface::get_next_target_number()`; one pass more than
there are controllers always finds a free number. -/
def get_next_target_number (l : List TargetController) : Option Int :=
  nextTargetNumber l (l.length + 1) 1

/-- The loop of `remove_target`: the list without the first controller whose
target number is `nNumber`. -/
def removeFirstNumber (nNumber : Int) : List TargetController → Option (List TargetController)
  | [] => none
  | c :: cs =>
    if nNumber = c.target_number then some cs
    else (removeFirstNumber nNumber cs).map fun r => c :: r

/-- `AoEControllerInterface::remove_target(nNumber)` with its return value. -/
def AoEControllerInterface.remove_target (ci : AoEControllerInterface) (nNumber : Int) :
    AoEControllerInterface × Int :=
  match removeFirstNumber nNumber ci.m_pControllers with
  | some l => ({ ci with m_pControllers := l }, 0)
  | none => (ci, -1)

/-- The loop of `check_down_targets` at uptime `now`: the first controller
that has not been heard of for `m_TimeUntilTargetOffline_us`, if there is one. -/
def firstDownTarget (now threshold : Nat) : List TargetController → Option TargetController
  | [] => none
  | c :: cs =>
    if time_since_now_us now c.m_time_since_last_comm ≥ threshold then some c
    else firstDownTarget now threshold cs

/-- `AoEControllerInterface::check_down_targets()` at uptime `now`. -/
def AoEControllerInterface.check_down_targets (ci : AoEControllerInterface) (now : Nat) :
    AoEControllerInterface :=
  match firstDownTarget now ci.m_TimeUntilTargetOffline_us ci.m_pControllers with
  | some c => (ci.remove_target c.target_number).1
  | none => ci

/-- The loop of `aoe_config_receive` over the controllers (`pre` are those
already passed): every controller of the shelf and slot handles the reply and
notes the contact; when its config string is not ours and it is registered,
the target is removed and the function returns.  The result is the interface
afterwards, `fFoundDevice`, and whether the function has returned. -/
def configReceiveLoop (ifnet_receive unit : Nat) (lladdr ether_shost pCfgHeader : List Nat)
    (nMajor nMinor : Int) (now : Nat) :
    AoEControllerInterface → List TargetController → List TargetController → Bool →
      Option (AoEControllerInterface × Bool × Bool)
  | ci, pre, [], fFoundDevice => some ({ ci with m_pControllers := pre }, fFoundDevice, false)
  | ci, pre, c :: post, fFoundDevice =>
    if c.is_device nMajor nMinor = 0 then
      match c.handle_aoe_cmd ci.m_pAoEService ifnet_receive pCfgHeader with
      | none => none
      | some (c1, s1) =>
        match c1.update_target_info ifnet_receive unit lladdr ether_shost true now with
        | none => none
        | some c2 =>
          let ci1 := { ci with m_pAoEService := s1 }
          if c2.cstring_is_ours ci1.m_pszOurCString ≠ 0 ∧ c2.is_registered = 0 then
            some (({ ci1 with m_pControllers := pre ++ c2 :: post }.remove_target
              c2.target_number).1, true, true)
          else
            configReceiveLoop ifnet_receive unit lladdr ether_shost pCfgHeader nMajor nMinor now
              ci1 (pre ++ [c2]) post true
    else
      configReceiveLoop ifnet_receive unit lladdr ether_shost pCfgHeader nMajor nMinor now
        ci (pre ++ [c]) post fFoundDevice

/-- `AoEControllerInterface::aoe_config_receive` at uptime `now`, for a reply
received on `ifnet_receive` from the Ethernet address `ether_shost`, with the
shelf `nMajor` and slot `nMinor` of its AoE header and the bytes `pCfgHeader`
of its config header and string; the interface afterwards and the value returned. -/
def AoEControllerInterface.aoe_config_receive (ci : AoEControllerInterface)
    (ifnet_receive unit : Nat) (lladdr ether_shost : List Nat) (nMajor nMinor : Nat)
    (pCfgHeader : List Nat) (now : Nat) : Option (AoEControllerInterface × Int) :=
  match configReceiveLoop ifnet_receive unit lladdr ether_shost pCfgHeader nMajor nMinor now
      ci [] ci.m_pControllers false with
  | none => none
  | some (ci, _, true) => some (ci, 0)
  | some (ci, true, false) => some (ci, 0)
  | some (ci, false, false) =>
    match get_next_target_number ci.m_pControllers with
    | none => none
    | some nNumber =>
      let c := TargetController.init nMajor nMinor ifnet_receive unit lladdr ether_shost
        nNumber now
      match c.update_target_info ifnet_receive unit lladdr ether_shost true now with
      | none => none
      | some c1 =>
        match c1.handle_aoe_cmd ci.m_pAoEService ifnet_receive pCfgHeader with
        | none => none
        | some (c2, s1) =>
          let c3 :=
            if c2.cstring_is_ours ci.m_pszOurCString = 0 then c2.registerDiskService else c2
          some ({ ci with m_pAoEService := s1, m_pControllers := ci.m_pControllers ++ [c3] }, 0)

/-- The load-balancing loop of `send_packet`: the interface number chosen and
`nLastSentInterface` afterwards.  After `nNumberOfInterfaces` passes the loop
is back at the first candidate, so `fuel = nNumberOfInterfaces` passes decide
whether it ends. -/
def nextInterface (s : AoEService) (t : TargetInfo) : Nat → Nat → Option Nat
  | 0, _ => none
  | fuel + 1, nLastSentInterface =>
    let nInterfaceNumber := ((nLastSentInterface + 1) % 4294967296) % t.nNumberOfInterfaces
    if s.m_pInterfaces.is_used (t.aInterfaces.getD nInterfaceNumber 0) = 1 then
      some nInterfaceNumber
    else nextInterface s t fuel nInterfaceNumber

/-- `AoEControllerInterface::send_packet(m, Tag, pTargetInfo)`: the interface
and the target information afterwards and the value returned.  The Ethernet
header is prepended to the packet (`mbuf_prepend` is taken to succeed; the
source address is filled in when the frame is sent). -/
def AoEControllerInterface.send_packet (ci : AoEControllerInterface) (m : List Nat) (Tag : Nat)
    (t : TargetInfo) : Option (AoEControllerInterface × TargetInfo × Int) :=
  if t.nNumberOfInterfaces = 0 then some (ci, t, -1)
  else
    match nextInterface ci.m_pAoEService t t.nNumberOfInterfaces t.nLastSentInterface with
    | none => none
    | some nInterfaceNumber =>
      let frame := (t.aaDestMACAddress.getD nInterfaceNumber []).take ETHER_ADDR_LEN ++
        List.replicate ETHER_ADDR_LEN 0 ++ htons ETHERTYPE_AOE ++ m
      let r := send_packet_on_interface ci.m_pAoEService (t.aInterfaces.getD nInterfaceNumber 0)
        Tag frame (wrapS32 t.nShelf) true
      some ({ ci with m_pAoEService := r.1 },
        { t with nLastSentInterface := nInterfaceNumber }, r.2)

/-- `AoEControllerInterface::send_ata_packet(pSender, m, Tag, pTargetInfo)`:
`m` starts with the AoE header, which the ATA header follows at byte 10; the
command is the low byte of `aa_scnt_cmdstat`.  `setTimeout` returns 0. -/
def AoEControllerInterface.send_ata_packet (ci : AoEControllerInterface) (pSender : Nat)
    (m : List Nat) (Tag : Nat) (t : TargetInfo) :
    Option (AoEControllerInterface × TargetInfo × Int) :=
  let pATAhdr := m.drop 10
  if AOE_ATAHEADER_GETSTAT pATAhdr = kATAcmdSetFeatures ∨
      AOE_ATAHEADER_GETSTAT pATAhdr = kATAcmdSleep ∨
      AOE_ATAHEADER_GETSTAT pATAhdr = kATAcmdFlushCache ∨
      AOE_ATAHEADER_GETSTAT pATAhdr = kATAcmdFlushCacheExtended then
    some ({ ci with m_pControllerToFakeResponse := some pSender, fakeReturnTimerSet := true },
      t, 0)
  else ci.send_packet m Tag t

/-- The bytes of a 16-bit field that is assigned the value `v` without
`htons`, on a host of the given byte order. -/
def hostWord16 (bigEndian : Bool) (v : Nat) : List Nat :=
  if bigEndian then [v / 256 % 256, v % 256] else [v % 256, v / 256 % 256]

/-- `AoEControllerInterface::FakeReturnTimer`: the controller whose
`ata_response` is called and the reply it is called with, a cleared ATA header
whose field `aa_scnt_cmdstat` is assigned `0x40<<8`, without data and with
tag 0 (the reply is given an AoE header of 10 zero bytes); `none` when no
controller is set. -/
def AoEControllerInterface.FakeReturnTimer (ci : AoEControllerInterface) (bigEndian : Bool) :
    Option (Nat × AtaReply) :=
  match ci.m_pControllerToFakeResponse with
  | none => none
  | some pSender =>
    some (pSender,
      { Tag := 0
        mbuf := List.replicate 10 0 ++
          ([0, 0] ++ hostWord16 bigEndian (0x40 <<< 8) ++ [0, 0, 0, 0, 0, 0, 0, 0])
        cont := [] })

/-- The controller interface as `init` leaves it, on a service that has its
first interface enabled (reference 1) and the config string `ours`. -/
def exampleInterface (ours : List Nat) : AoEControllerInterface :=
  { m_pAoEService := readyService
    m_pszOurCString := ours ++ List.replicate (MAX_CONFIG_STRING_LENGTH - ours.length) 0
    m_pControllers := []
    m_TimeUntilTargetOffline_us := DEFAULT_TIME_UNTIL_TARGET_OFFLINE_US
    m_pControllerToFakeResponse := none
    fakeReturnTimerSet := false }

/-- The bytes of a config reply from its config header on: buffer count 16,
firmware 0, the config command `ccmd`, and the string `s` with its length. -/
def exampleConfigReply (ccmd : Nat) (s : List Nat) : List Nat :=
  htons 16 ++ htons 0 ++ htons (ccmd &&& 0xF) ++ htons s.length ++ s

/-- The target of shelf 3, slot 0, reached through interface reference 1, as
`init` records it at uptime 0 with target number 1. -/
def exampleTarget : TargetController :=
  TargetController.init 3 0 1 0 [0, 0x1b, 0x63, 1, 2, 3] [0, 0x30, 0x48, 4, 5, 6] 1 0

/-- An outgoing ATA packet for shelf 3, slot 0 with tag 9: the AoE header and
an ATA header with the command byte `Command`. -/
def examplePacket (Command : Nat) : List Nat :=
  aoe_header_set AOE_SUPPORTED_VER 0 0 3 0 AOE_ATA_COMMAND 9 ++
    [0, 0, 0, Command, 0, 0, 0, 0, 0, 0, 0, 0]

/-- A target with the number `n` that was last heard of at uptime `t`. -/
def exampleTargetAt (n t : Nat) : TargetController :=
  TargetController.init 3 n 1 0 [0, 0x1b, 0x63, 1, 2, 3] [0, 0x30, 0x48, 4, 5, n] n t

/-- An interface with three targets, last heard of at 100 s, 1 s and 2 s. -/
def exampleAging : AoEControllerInterface :=
  { exampleInterface [] with
    m_pControllers :=
      [exampleTargetAt 1 100000000000, exampleTargetAt 2 1000000000,
        exampleTargetAt 3 2000000000] }
/-! ## Discovery and the removal of a link (`AoEService.cpp`, `AoEControllerInterface.cpp`)

`aoe_search_all` and `cg_disable_interface` are member functions of the
service that call into the controller interface; they are given on the state
that holds both.  The mbuf allocator is taken to succeed. -/

/-- `SHELF_BROADCAST` -/
def SHELF_BROADCAST : Nat := 0xFFFF

/-- `SLOT_BROADCAST` -/
def SLOT_BROADCAST : Nat := 0xFF

/-- `EInterfaces::get_nth_interface(n)`: the reference of the first enabled
interface at index `n` or above, `0` (the null reference) when there is none. -/
def EInterfaces.get_nth_interface (s : EInterfaces) (n : Nat) : Nat :=
  match ((s.m_aInterfaces.take MAX_SUPPORTED_ETHERNET_CONNETIONS).drop n).find?
      fun e => e.m_fEnabled with
  | some e => e.m_ifnet
  | none => 0

/-- `AOE_HEADER_SETSECTOR_CMD(s,c)` as the two bytes stored. -/
def AOE_HEADER_SETSECTOR_CMD (s c : Nat) : List Nat :=
  htons (((s &&& 0xFF) <<< 8) ||| ((0 &&& 0xF) <<< 4) ||| (c &&& 0xF))

/-- `AOE_ATAHEADER_SETAFLAGSFEAT(a,b)` as the two bytes stored. -/
def AOE_ATAHEADER_SETAFLAGSFEAT (a b : Nat) : List Nat :=
  htons (((a &&& 0xFF) <<< 8) ||| ((b &&& 0xFF) <<< 0))

/-- `AOE_ATAHEADER_SETSCNTCMD(a,b)` as the two bytes stored. -/
def AOE_ATAHEADER_SETSCNTCMD (a b : Nat) : List Nat :=
  htons (((a &&& 0xFF) <<< 8) ||| ((b &&& 0xFF) <<< 0))

/-- `AOE_ATAHEADER_SETLBA01(a,b)` as the two bytes stored. -/
def AOE_ATAHEADER_SETLBA01 (a b : Nat) : List Nat :=
  htons (((a &&& 0xFF) <<< 8) ||| ((b &&& 0xFF) <<< 0))

/-- `AOE_ATAHEADER_SETLBA23(a,b)` as the two bytes stored. -/
def AOE_ATAHEADER_SETLBA23 (a b : Nat) : List Nat :=
  htons (((a &&& 0xFF) <<< 8) ||| ((b &&& 0xFF) <<< 0))

/-- `AOE_ATAHEADER_SETLBA45(a,b)` as the two bytes stored. -/
def AOE_ATAHEADER_SETLBA45 (a b : Nat) : List Nat :=
  htons (((a &&& 0xFF) <<< 8) ||| ((b &&& 0xFF) <<< 0))

/-- The address that `ifnet_llbroadcast_copy_bytes` copies: the Ethernet
broadcast address. -/
def ifnet_llbroadcast : List Nat := List.replicate ETHER_ADDR_LEN 0xFF

/-- `AoEControllerInterface::aoe_search(ifnet)` with the value returned.  The
frame is the Ethernet header (the source address is filled in when the frame
is sent), the AoE header and the config header; `sector_count` is what
`m_pAoEService->get_sector_count()` returns. -/
def AoEControllerInterface.aoe_search (ci : AoEControllerInterface) (ifnet sector_count : Nat) :
    AoEControllerInterface × Int :=
  let next := next_tag ci.m_nCurrentTag
  let Tag := TAG_BROADCAST_MASK ||| next
  let m := ifnet_llbroadcast ++ List.replicate ETHER_ADDR_LEN 0 ++ htons ETHERTYPE_AOE ++
    aoe_header_set AOE_SUPPORTED_VER 0 0 SHELF_BROADCAST SLOT_BROADCAST AOE_CFG_COMMAND Tag ++
    ([0, 0] ++ [0, 0] ++ AOE_HEADER_SETSECTOR_CMD sector_count CONFIG_STR_GET ++ [0, 0])
  let r := send_packet_on_interface ci.m_pAoEService ifnet Tag m (-1) false
  ({ ci with m_nCurrentTag := next, m_pAoEService := r.1 }, r.2)

/-- `AoEController::send_identify()` of the controller `c`, whose address is
`pSender`: the interface and the controller afterwards and the value returned. -/
def AoEControllerInterface.send_identify (ci : AoEControllerInterface) (pSender : Nat)
    (c : TargetController) : Option (AoEControllerInterface × TargetController × Int) :=
  let Tag := next_tag ci.m_nCurrentTag
  let ci := { ci with m_nCurrentTag := Tag }
  let m :=
    aoe_header_set AOE_SUPPORTED_VER 0 0 c.m_target.nShelf c.m_target.nSlot AOE_ATA_COMMAND Tag ++
      ([0, 0] ++ AOE_ATAHEADER_SETSCNTCMD 0 kATAcmdDriveIdentify ++ [0, 0, 0, 0, 0, 0, 0, 0])
  let c := { c with m_nOutstandingIdentTag := 0 }
  match ci.send_ata_packet pSender m Tag c.m_target with
  | none => none
  | some (ci, t, r) =>
    let c := { c with m_target := t }
    let c := if r = 0 then { c with m_nOutstandingIdentTag := Tag } else c
    some (ci, c, if c.m_nOutstandingIdentTag = 0 then -1 else 0)

/-- The loop of `identify_all_targets` over the controllers (`pre` are those
already passed; a controller is named by its position in the list). -/
def identifyLoop :
    AoEControllerInterface → List TargetController → List TargetController →
      Option AoEControllerInterface
  | ci, pre, [] => some { ci with m_pControllers := pre }
  | ci, pre, c :: post =>
    match ci.send_identify pre.length c with
    | none => none
    | some (ci, c, _) => identifyLoop ci (pre ++ [c]) post

/-- `AoEControllerInterface::identify_all_targets()` -/
def AoEControllerInterface.identify_all_targets (ci : AoEControllerInterface) :
    Option AoEControllerInterface :=
  identifyLoop ci [] ci.m_pControllers

/-- The loop `for(n=0; ifn = m_pInterfaces->get_nth_interface(n); n++ )` of
`aoe_search_all`, entered with `n`: the state afterwards, the last `result`
and whether the function returns from inside the loop.  The loop ends at
`n = MAX_SUPPORTED_ETHERNET_CONNETIONS` at the latest; `fuel` bounds the
number of passes. -/
def aoeSearchLoop (sector_count : Nat) :
    Nat → Nat → AoEControllerInterface → Int → Option (AoEControllerInterface × Int × Bool)
  | 0, _, _, _ => none
  | fuel + 1, n, ci, result =>
    let ifn := ci.m_pAoEService.m_pInterfaces.get_nth_interface n
    if ifn = 0 then some (ci, result, false)
    else
      let r := ci.aoe_search ifn sector_count
      if r.2 ≠ 0 then some (r.1, r.2, true)
      else aoeSearchLoop sector_count fuel (n + 1) r.1 r.2

/-- `AoEService::aoe_search_all()` with the value returned. -/
def AoEControllerInterface.aoe_search_all (ci : AoEControllerInterface) (sector_count : Nat) :
    Option (AoEControllerInterface × Int) :=
  match aoeSearchLoop sector_count (MAX_SUPPORTED_ETHERNET_CONNETIONS + 1) 0 ci 0 with
  | none => none
  | some (ci, result, true) => some (ci, result)
  | some (ci, result, false) => ci.identify_all_targets.map fun ci => (ci, result)

/-- The loop `TAILQ_FOREACH_SAFE(pSent_queue_item, &m_sent_queue, q_next,
pSent_queue_tmp)` of `cg_disable_interface`: the queue afterwards and the
value of `pSent_queue_item` when the loop is left.  The loop runs until that
variable is null. -/
def purgeSentQueue (ifs : EInterfaces) : List SentPktQueue → List SentPktQueue × Option SentPktQueue
  | [] => ([], none)
  | e :: es =>
    let r := purgeSentQueue ifs es
    (if ifs.is_used e.if_sent ≠ 1 then r.1 else e :: r.1, r.2)

/-- `AoEService::cg_disable_interface` for the port `nEthernetNumber`: the
service afterwards and the interface that `cancel_commands_on_interface` is
called with.  The timers are stopped for the time of the call. -/
def cg_disable_interface (s : AoEService) (nEthernetNumber : Nat) : AoEService × Nat :=
  let Interface := s.m_pInterfaces.get_nth_interface nEthernetNumber
  let ifs := s.m_pInterfaces.interface_disconnected nEthernetNumber
  let to_send := s.m_to_send_queue.filter fun p => decide (ifs.is_used p.if_sent = 1)
  let r := purgeSentQueue ifs s.m_sent_queue
  let ifs :=
    match r.2 with
    | some pSent_queue_item =>
      { ifs with
        m_aInterfaces :=
          ifs.m_aInterfaces.modify (fun x => { x with m_nOutstandingCount := 0 })
            pSent_queue_item.pOutstandingCount }
    | none => ifs
  ({ s with m_pInterfaces := ifs, m_to_send_queue := to_send, m_sent_queue := r.1 }, Interface)

/-- `AoEService::interface_reconnected(nEthernetNumber, enetifnet)`, as far as
the service is concerned. -/
def interface_reconnected (s : AoEService) (nEthernetNumber enetifnet : Nat) : AoEService :=
  { s with m_pInterfaces := s.m_pInterfaces.interface_reconnected nEthernetNumber enetifnet }

/-- A controller interface without targets on a service whose only enabled
port is port 1, with the interface reference 7. -/
def exampleSearch : AoEControllerInterface :=
  { exampleInterface [] with
    m_pAoEService := serviceRun [.enable_interface 1 7] }

/-- A service with port 0 enabled (interface reference 1) that has sent the
request with tag 5 to shelf 3 and waits for the reply. -/
def exampleWaiting : AoEService :=
  serviceRun [.enable_interface 0 1, .set_max_outstanding 1 3 16, .send 1 5 [] 3 true,
    .transmitTimer 1000]
/-! ## Window growth, register files and tags: further definitions -/

/-- The interfaces after `n` matched replies on interface reference `if_sent`. -/
def EInterfaces.ackRun (s : EInterfaces) (if_sent n : Nat) : EInterfaces :=
  (List.replicate n (LinkEvent.ack if_sent)).foldl LinkEvent.apply s

/-- The 24-bit address that the task file holds in its sector number,
cylinder low and cylinder high registers (8 bits each). -/
def ataTaskFile.lba24 (t : ataTaskFile) : Nat :=
  t.ataTFSector % 256 + 256 * (t.ataTFCylLo % 256) + 65536 * (t.ataTFCylHigh % 256)

/-- The 12 bytes of the `aoe_atahdr` that `issueCommand` writes for a packet. -/
def AtaPacket.header (p : AtaPacket) : List Nat :=
  AOE_ATAHEADER_SETAFLAGSFEAT p.AFlags p.Feature ++
    AOE_ATAHEADER_SETSCNTCMD p.Sector_Count p.Command ++
    AOE_ATAHEADER_SETLBA01 p.lba0 p.lba1 ++
    AOE_ATAHEADER_SETLBA23 p.lba2 p.lba3 ++
    AOE_ATAHEADER_SETLBA45 p.lba4 p.lba5 ++ [0, 0]

/-- The tuple (interface handle, interface number, source MAC, destination
MAC) that a target holds at index `k`. -/
def TargetInfo.link (t : TargetInfo) (k : Nat) : Nat × Nat × List Nat × List Nat :=
  (t.aInterfaces.getD k 0, t.aInterfaceNum.getD k 0, t.aaSrcMACAddress.getD k [],
    t.aaDestMACAddress.getD k [])

/-- The tuples of the links that a target holds. -/
def TargetInfo.links (t : TargetInfo) : List (Nat × Nat × List Nat × List Nat) :=
  (List.range t.nNumberOfInterfaces).map t.link

/-- A 28-bit read of 4 sectors at address 0 (opcode READ DMA, task file). -/
def exampleTaskFileRead : IOATACommand :=
  { flagIOWrite := false
    flagIORead := true
    flag48BitLBA := false
    flagUseDMA := true
    byteCount := 2048
    actualTransfer := 0
    position := 0
    transferChunkSize := 0
    extLBA :=
      { lbaLow16 := 0, lbaMid16 := 0, lbaHigh16 := 0, sectorCount16 := 0,
        features16 := 0, device := 0, command := 0 }
    taskFile :=
      { ataTFFeatures := 0, ataTFCount := 4, ataTFSector := 0, ataTFCylLo := 0,
        ataTFCylHigh := 0, ataTFSDH := 0x40, ataTFCommand := kATAcmdReadDMA }
    buffer := List.replicate 2048 0
    state := ATAState.kATAStarted }

/-- A 48-bit read whose status phase copies the LBA registers back
(`getRegMask()` has the three LBA bits set). -/
def exampleRegisterRead : IOATACommand :=
  { exampleRead with
    maskSectorNumValid := true
    maskCylinderLoValid := true
    maskCylinderHiValid := true }

/-- The example target after a config reply has arrived on a second
interface (reference 2, `en1`) from the second port of the target. -/
def exampleTwoLinks : TargetController :=
  (exampleTarget.update_target_info 2 1 [0, 0x1b, 0x63, 7, 8, 9] [0, 0x30, 0x48, 4, 5, 7]
    true 0).getD exampleTarget

/-- The example target after a `CONFIG_STR_GET` reply that advertises the
config string `abcdef`. -/
def exampleStored : TargetController :=
  match exampleTarget.handle_aoe_cmd readyService 1
      (exampleConfigReply CONFIG_STR_GET [97, 98, 99, 100, 101, 102]) with
  | some r => r.1
  | none => exampleTarget

/-- A 48-bit read of 2 sectors (opcode READ DMA EXT) as the client hands it
to the controller. -/
def exampleWrapRead : IOATACommand :=
  { exampleRead with
    transferChunkSize := 0
    extLBA := { exampleRead.extLBA with sectorCount16 := 2, command := kATAcmdReadDMAExtended }
    state := ATAState.kATAStarted }

/-- A controller with one sector per packet whose tag counter stands two
below `MAX_TAG`, with the example read to execute. -/
def exampleWrapController : AoEController :=
  { exampleController exampleWrapRead with
    m_nMaxSectorsPerTransfer := 1
    m_nCurrentTag := MAX_TAG - 2 }

/-- The controller after `asyncCommand` has issued the packets of the example
read at the wrap of the tag counter. -/
def exampleWrapReading : AoEController :=
  match asyncCommand exampleWrapController with
  | some (c, _, _) => c
  | none => exampleWrapController

/-- The reply to packet `i` of the example read at the wrap, carrying the tag
`Tag` and the bytes of sector `i`. -/
def exampleWrapReply (Tag i : Nat) : AtaReply :=
  { Tag := Tag
    mbuf := List.replicate 22 0 ++ chunkOf exampleData 512 i
    cont := [] }
/-! ## The calls of `cg_aoe_incoming` into the controller interface
(`AoEService.cpp`, `AoEControllerInterface.cpp`, `AoEController.cpp`, `AoEDevice.cpp`)

`cg_aoe_incoming` hands a packet that it accepts to `aoe_ata_receive` or
`aoe_config_receive` before it returns.  The function with these calls carried
out is given on the state that holds the service and the controller
interface; the command side of a controller (`AoEController`) is named by the
position of the controller in `m_pControllers`. -/

/-- `AoEService::interfaces_active(pTargetInfo)`: whether one of the interfaces
of the target is in use. -/
def interfaces_active (s : AoEService) (t : TargetInfo) : Bool :=
  (List.range t.nNumberOfInterfaces).any fun n =>
    decide (s.m_pInterfaces.is_used (t.aInterfaces.getD n 0) = 1)

/-- The command that `AOE_DEVICE_NAME::getDeviceID` builds and hands to
`executeCommand`: IDENTIFY DEVICE for unit 0 (`kATADevice0DeviceID`), a read
of `kIDBufferBytes` bytes. -/
def getDeviceID : IOATACommand :=
  { flagIOWrite := false
    flagIORead := true
    flag48BitLBA := false
    flagUseDMA := false
    byteCount := kIDBufferBytes
    actualTransfer := 0
    position := 0
    transferChunkSize := 0
    extLBA :=
      { lbaLow16 := 0, lbaMid16 := 0, lbaHigh16 := 0, sectorCount16 := 0, features16 := 0,
        device := 0, command := 0 }
    taskFile :=
      { ataTFFeatures := 0, ataTFCount := 0, ataTFSector := 0, ataTFCylLo := 0,
        ataTFCylHigh := 0, ataTFSDH := 0 <<< 4, ataTFCommand := kATAcmdDriveIdentify }
    buffer := List.replicate kIDBufferBytes 0
    state := ATAState.kATAStarted }

/-- The packets that `issueCommand` has built for the controller `c` (whose
address is `pSender`), handed to `send_ata_packet` in the order of issue:
each is the AoE header of `create_mbuf_for_transfer`, the ATA header and the
data. -/
def sendIssued (pSender : Nat) :
    AoEControllerInterface → TargetController → List AtaPacket →
      Option (AoEControllerInterface × TargetController)
  | ci, c, [] => some (ci, c)
  | ci, c, p :: ps =>
    let m :=
      aoe_header_set AOE_SUPPORTED_VER 0 0 c.m_target.nShelf c.m_target.nSlot AOE_ATA_COMMAND
        p.Tag ++ p.header ++ p.data
    match ci.send_ata_packet pSender m p.Tag c.m_target with
    | none => none
    | some (ci, t, _) => sendIssued pSender ci { c with m_target := t } ps

/-- `AoEController::attach_device()` of the controller `c` that
`aoe_config_receive` has just created, `ata` being its command side.
`create_aoe_device` initialises the device nub, whose `init` calls
`getDeviceID`, which hands IDENTIFY DEVICE to `executeCommand`.  The
controller has no command in progress, so when `busCanDispatch` holds (an
interface of the target is in use) `IOATAController` makes the command the
current one and calls `asyncCommand` before `executeCommand` returns;
otherwise the command stays in the queue of the controller.  The result is
the interface, the controller and its command side afterwards. -/
def AoEControllerInterface.attach_device (ci : AoEControllerInterface) (pSender : Nat)
    (c : TargetController) (ata : AoEController) :
    Option (AoEControllerInterface × TargetController × AoEController) :=
  if interfaces_active ci.m_pAoEService c.m_target then
    match asyncCommand
        { ata with
          currentCommand := some getDeviceID
          m_nCurrentTag := ci.m_nCurrentTag
          nNumberOfInterfaces := c.m_target.nNumberOfInterfaces } with
    | none => none
    | some (ata, pkts, _) =>
      (sendIssued pSender { ci with m_nCurrentTag := ata.m_nCurrentTag } c pkts).map
        fun r => (r.1, r.2, ata)
  else some (ci, c, ata)

/-- The loop of `aoe_ata_receive` over the controllers, entered at position
`n`: every controller of the shelf and slot gets the reply through
`ata_response` (the member `m_nOutstandingIdentTag` is the one that the
controller holds).  The result is the controllers afterwards and, for each one
that got the reply, its position, its command side afterwards and whether
`handleDeviceInterrupt()` is called. -/
def ataReceiveLoop (handle_identify : AoEController → AoEController × Bool) (timedOut : Bool)
    (ata : Nat → AoEController) (nMajor nMinor : Int) (r : AtaReply) :
    Nat → List TargetController →
      Option (List TargetController × List (Nat × AoEController × Bool))
  | _, [] => some ([], [])
  | n, c :: cs =>
    if c.is_device nMajor nMinor = 0 then
      match ata_response handle_identify
          { ata n with m_nOutstandingIdentTag := c.m_nOutstandingIdentTag } timedOut r with
      | none => none
      | some (a, f) =>
        (ataReceiveLoop handle_identify timedOut ata nMajor nMinor r (n + 1) cs).map
          fun l => ({ c with m_nOutstandingIdentTag := a.m_nOutstandingIdentTag } :: l.1,
            (n, a, f) :: l.2)
    else
      (ataReceiveLoop handle_identify timedOut ata nMajor nMinor r (n + 1) cs).map
        fun l => (c :: l.1, l.2)

/-- `cg_aoe_incoming` with its calls into the controller interface carried out,
for a packet received at uptime `now` on the interface `ifp` (with
`ifnet_unit` `unit` and link-layer address `lladdr`) from the Ethernet
address `ether_shost`; `pkt.data` are the bytes that follow the AoE header.
`ata n` is the command side of the controller at position `n` (of a
controller that is created: as `init` leaves it), `handle_identify` and
`timedOut` are those of `ata_response`.  The result is the interface
afterwards and, for each controller whose command side the call has acted
on, its position, the command side afterwards and whether
`handleDeviceInterrupt()` is called for it.

An ATA reply goes to `aoe_ata_receive`; what `IOATAController` does with a
command after `handleDeviceInterrupt()` is not part of this function.  A
config reply goes to
`aoe_config_receive`; when no controller has the shelf and slot, the
controller that it creates is the last of the list, and its `attach_device()`
is called (in the code before the config string is compared, which reads
nothing that `attach_device()` changes). -/
def AoEControllerInterface.cg_aoe_incoming
    (handle_identify : AoEController → AoEController × Bool) (timedOut : Bool)
    (ata : Nat → AoEController) (ci : AoEControllerInterface) (now ifp unit : Nat)
    (lladdr ether_shost : List Nat) (pkt : IncomingPacket) :
    Option (AoEControllerInterface × List (Nat × AoEController × Bool)) :=
  let r := AoE.cg_aoe_incoming ci.m_pAoEService now ifp pkt
  let ci := { ci with m_pAoEService := r.1 }
  match r.2 with
  | none => some (ci, [])
  | some (Delivery.aoe_ata_receive pkt) =>
    (ataReceiveLoop handle_identify timedOut ata pkt.major pkt.minor
        { Tag := pkt.tag
          mbuf :=
            aoe_header_set pkt.ver pkt.flags pkt.err pkt.major pkt.minor pkt.cmd pkt.tag ++
              pkt.data
          cont := [] }
        0 ci.m_pControllers).map fun l => ({ ci with m_pControllers := l.1 }, l.2)
  | some (Delivery.aoe_config_receive ifp pkt) =>
    let fFoundDevice := ci.m_pControllers.any fun c => decide (c.is_device pkt.major pkt.minor = 0)
    match ci.aoe_config_receive ifp unit lladdr ether_shost pkt.major pkt.minor pkt.data now with
    | none => none
    | some (ci, _) =>
      if fFoundDevice then some (ci, [])
      else
        match ci.m_pControllers.getLast? with
        | none => some (ci, [])
        | some c =>
          let n := ci.m_pControllers.length - 1
          match ci.attach_device n c (ata n) with
          | none => none
          | some (ci, c, a) =>
            some ({ ci with m_pControllers := ci.m_pControllers.dropLast ++ [c] },
              [(n, a, false)])

/-- The command side of a controller as `init` leaves it for an MTU that gives
2 sectors per packet: no command, no reply expected. -/
def exampleFresh : AoEController :=
  { exampleController getDeviceID with currentCommand := none, m_nCurrentTag := 0 }

/-- The controller interface with the target of shelf 3, slot 0, on the service
`exampleWaiting`, whose request with tag 5 is in the sent queue. -/
def exampleOnline : AoEControllerInterface :=
  { exampleInterface [] with
    m_pAoEService := exampleWaiting
    m_pControllers := [exampleTarget]
    m_nCurrentTag := 5 }

/-- The packet by which the target of shelf 3, slot 1 announces itself: a
config reply (RESPONSE flag) with the online tag 0, buffer count 16 and an
empty config string. -/
def exampleAnnounce : IncomingPacket :=
  { ver := 1, flags := AOE_FLAG_RESPONSE, err := 0, major := 3, minor := 1,
    cmd := AOE_CFG_COMMAND, tag := DEVICE_ONLINE_TAG, data := exampleConfigReply CONFIG_STR_GET [] }
/-! ## The decrements of the outstanding counters (`AoEService.cpp`)

The statement
`if ( !pTlq->fPacketHasBeenRetransmit ) OSDecrementAtomic(pTlq->pOutstandingCount);`
stands once in `cg_aoe_incoming` (for the entry that the reply matches) and
three times in `RetransmitTimer` (for an entry that is dropped, one that is
resent, and one without retransmit time).  The definitions below list the
entries for which an event executes the call, that is, the decrements made
on behalf of an entry. -/

/-- The entries for which `decrementUnlessRetransmit e` calls
`OSDecrementAtomic`: `e`, when its retransmitted flag is clear. -/
def decrementsFor (e : SentPktQueue) : List SentPktQueue :=
  if !e.fPacketHasBeenRetransmit then [e] else []

/-- The entries for which the loop of `RetransmitTimer` over the sent queue
calls `OSDecrementAtomic`, in the order of the calls; the branches are those
of `retransmitScan`. -/
def scanDecrements (now m_MaxTimeOutBeforeDrop : Nat) : List SentPktQueue → List SentPktQueue
  | [] => []
  | e :: post =>
    if e.RetransmitTime_us ≠ 0 then
      if e.TimeFirstSent ≠ 0 ∧ e.TimeSent ≠ 0 then
        if time_since_now_us now e.TimeFirstSent > m_MaxTimeOutBeforeDrop then
          decrementsFor e ++ scanDecrements now m_MaxTimeOutBeforeDrop post
        else if time_since_now_us now e.TimeSent > e.RetransmitTime_us then
          decrementsFor e ++ scanDecrements now m_MaxTimeOutBeforeDrop post
        else scanDecrements now m_MaxTimeOutBeforeDrop post
      else scanDecrements now m_MaxTimeOutBeforeDrop post
    else decrementsFor e ++ scanDecrements now m_MaxTimeOutBeforeDrop post

/-- The entries for which an event calls `OSDecrementAtomic` in the state `s`. -/
def ServiceEvent.decrements (s : AoEService) : ServiceEvent → List SentPktQueue
  | .incoming _ _ pkt =>
    if pkt.flags &&& AOE_FLAG_RESPONSE = 0 then []
    else
      match findTag pkt.tag s.m_sent_queue with
      | some (e, _) => decrementsFor e
      | none => []
  | .retransmitTimer now _ => scanDecrements now s.m_MaxTimeOutBeforeDrop s.m_sent_queue
  | _ => []

/-- The entries for which a sequence of events, run from the state `s`, calls
`OSDecrementAtomic`. -/
def runDecrements : AoEService → List ServiceEvent → List SentPktQueue
  | _, [] => []
  | s, ev :: evs => ServiceEvent.decrements s ev ++ runDecrements (ServiceEvent.apply s ev) evs

/-- The number of requests with the tag `Tag` that `send_packet_on_interface`
accepts (returns 0 for) in a sequence of events run from the state `s`. -/
def acceptedSends (Tag : Nat) : AoEService → List ServiceEvent → Nat
  | _, [] => 0
  | s, ev :: evs =>
    (match ev with
      | .send ifp t m nShelf fRetransmit =>
        if t = Tag ∧ (send_packet_on_interface s ifp t m nShelf fRetransmit).2 = 0 then 1 else 0
      | _ => 0) + acceptedSends Tag (ServiceEvent.apply s ev) evs

/-- The number of entries of the sent queue with the tag `Tag` whose
retransmitted flag is clear: the entries whose decrement is still to come. -/
def undecremented (Tag : Nat) (q : List SentPktQueue) : Nat :=
  q.countP fun e => decide (e.Tag = Tag) && !e.fPacketHasBeenRetransmit

/-- The outstanding counters of the links, in the order of the table. -/
def EInterfaces.counters (s : EInterfaces) : List Int :=
  s.m_aInterfaces.map fun e => e.m_nOutstandingCount

/-- The interfaces after `OSDecrementAtomic(e.pOutstandingCount)` for each entry
`e` of a list, in order. -/
def EInterfaces.decrementAll (s : EInterfaces) (es : List SentPktQueue) : EInterfaces :=
  es.foldl (fun ifs e => ifs.OSDecrementAtomic e.pOutstandingCount) s

/-- The service `readyService` after a first request (tag 5) has been sent and
answered, so that the window of the link is 2. -/
def examplePipelineStart : AoEService :=
  [ServiceEvent.send 1 5 [] 3 true, .transmitTimer 1000,
    .incoming 2000 1 ⟨1, 8, 0, 3, 0, 0, 5, []⟩].foldl ServiceEvent.apply readyService

/-- What follows the send of the request with tag 6 in a run with two requests
in flight: the request with tag 7 is accepted, both are transmitted one after
the other, a retransmit scan resends both, the duplicates are transmitted,
and the reply to the request 6 arrives while the request 7 is outstanding. -/
def examplePipeline : List ServiceEvent :=
  [.send 1 7 [] 3 true, .transmitTimer 3000, .transmitTimer 4000, .retransmitTimer 20005000 1,
    .transmitTimer 20006000, .incoming 20007000 1 ⟨1, 8, 0, 3, 0, 0, 6, []⟩]

/-- Two requests that overlap: the requests with the tags 6 and 7 are accepted,
both are transmitted, and the reply to the request 6 arrives while the request
7 is outstanding. -/
def exampleOverlap : List ServiceEvent :=
  [.send 1 6 [] 3 true, .send 1 7 [] 3 true, .transmitTimer 3000, .transmitTimer 4000,
    .incoming 5000 1 ⟨1, 8, 0, 3, 0, 0, 6, []⟩]

/-! # Properties -/

/-! ## Retransmit timer estimation -/

theorem wrapS32_u64sub (r : Nat) (a : Int) :
    wrapS32 (u64sub r (intToU64 a) : Nat) = wrapS32 ((r : Int) - a) := by
  unfold wrapS32 u64sub intToU64
  omega

theorem wrapS32_range (x : Int) : -2147483648 ≤ wrapS32 x ∧ wrapS32 x < 2147483648 := by
  unfold wrapS32
  omega

theorem wrapS32_of_range (x : Int) (h1 : -2147483648 ≤ x) (h2 : x < 2147483648) :
    wrapS32 x = x := by
  unfold wrapS32
  omega

theorem neg_branch_eq_abs (e : Int) (h1 : -2147483648 ≤ e) (h2 : e < 2147483648) :
    (if e < 0 then wrapS32 (-e) else e) = wrapS32 |e| := by
  split
  · rw [abs_of_neg (by assumption)]
  · rw [abs_of_nonneg (by omega), wrapS32_of_range e h1 h2]

theorem shiftLeft_two (v : Int) : v <<< (2 : Int) = 4 * v := by
  have h := Int.shiftLeft_eq_mul_pow v 2
  simp at h
  rw [h]; ring

theorem wrapS32_add_wrapS32 (a b : Int) : wrapS32 (a + wrapS32 b) = wrapS32 (a + b) := by
  unfold wrapS32
  omega

/-- C1: for every estimator state and every RTT sample `r`, `update_rto`
computes, in signed 32-bit arithmetic with arithmetic right shifts,
`err = r - avg`, `avg' = avg + (err >> 3)`, `var' = var + ((|err| - var) >> 2)`
and stores `avg' + 4 * var'` (converted to the unsigned 64-bit member) as the RTO. -/
theorem update_rto_jacobson_karels (s : RtoState) (r : Nat) :
    update_rto s r =
      (let err := wrapS32 ((r : Int) - s.m_nScaledRTTavg)
       let avg := wrapS32 (s.m_nScaledRTTavg + (err >>> 3))
       let var := wrapS32 (s.m_nScaledRTTvar + (wrapS32 (wrapS32 |err| - s.m_nScaledRTTvar) >>> 2))
       { m_nRTO_ns := intToU64 (wrapS32 (avg + 4 * var))
         m_nScaledRTTavg := avg
         m_nScaledRTTvar := var }) := by
  have hr := wrapS32_range ((r : Int) - s.m_nScaledRTTavg)
  simp only [update_rto, wrapS32_u64sub, neg_branch_eq_abs _ hr.1 hr.2, shiftLeft_two,
    wrapS32_add_wrapS32]

/-- C2 (failing input): after the single RTT sample `4294967295` ns from the
initial estimator, `m_nRTO_ns` holds `2^64 - 1` and `get_rto_us` returns `0`,
which is below the minimum of `1000` us. -/
theorem get_rto_us_below_minimum :
    (rto_after [4294967295]).m_nRTO_ns = 18446744073709551615 ∧
      get_rto_us (rto_after [4294967295]) = 0 ∧
      get_rto_us (rto_after [4294967295]) < CONVERT_NS_TO_US RTO_MIN_NS := by
  decide

/-! ## Window state of the links -/

theorem intToU32_wrapS32 (c : Nat) (h : c < 4294967296) : intToU32 (wrapS32 c) = c := by
  unfold intToU32 wrapS32
  omega

theorem mem_updateFirst {i : Nat} {f : EInterface → EInterface} {l : List EInterface}
    {x : EInterface} (h : x ∈ updateFirst i f l) : x ∈ l ∨ ∃ e ∈ l, x = f e := by
  induction l with
  | nil => simp [updateFirst] at h
  | cons a l ih =>
    unfold updateFirst at h
    split at h
    · rcases List.mem_cons.1 h with h | h
      · exact Or.inr ⟨a, List.mem_cons_self _ _, h⟩
      · exact Or.inl (List.mem_cons_of_mem _ h)
    · rcases List.mem_cons.1 h with h | h
      · exact Or.inl (h ▸ List.mem_cons_self _ _)
      · rcases ih h with h | ⟨e, he, hx⟩
        · exact Or.inl (List.mem_cons_of_mem _ h)
        · exact Or.inr ⟨e, List.mem_cons_of_mem _ he, hx⟩

theorem mem_modify {f : EInterface → EInterface} {l : List EInterface} {n : Nat}
    {x : EInterface} (h : x ∈ l.modify f n) : x ∈ l ∨ ∃ e ∈ l, x = f e := by
  induction l generalizing n with
  | nil => simp at h
  | cons a l ih =>
    cases n with
    | zero =>
      simp only [List.modify_zero_cons, List.mem_cons] at h
      rcases h with h | h
      · exact Or.inr ⟨a, List.mem_cons_self _ _, h⟩
      · exact Or.inl (List.mem_cons_of_mem _ h)
    | succ n =>
      simp only [List.modify_succ_cons, List.mem_cons] at h
      rcases h with h | h
      · exact Or.inl (h ▸ List.mem_cons_self _ _)
      · rcases ih h with h | ⟨e, he, hx⟩
        · exact Or.inl (List.mem_cons_of_mem _ h)
        · exact Or.inr ⟨e, List.mem_cons_of_mem _ he, hx⟩

/-- A property of all interfaces that `f` preserves survives `updateFirst`. -/
theorem forall_updateFirst {P : EInterface → Prop} {i : Nat} {f : EInterface → EInterface}
    {l : List EInterface} (hl : ∀ e ∈ l, P e) (hf : ∀ e ∈ l, P (f e)) :
    ∀ e ∈ updateFirst i f l, P e := by
  intro x hx
  rcases mem_updateFirst hx with h | ⟨e, he, rfl⟩
  · exact hl x h
  · exact hf e he

theorem forall_modify {P : EInterface → Prop} {n : Nat} {f : EInterface → EInterface}
    {l : List EInterface} (hl : ∀ e ∈ l, P e) (hf : ∀ e ∈ l, P (f e)) :
    ∀ e ∈ l.modify f n, P e := by
  intro x hx
  rcases mem_modify hx with h | ⟨e, he, rfl⟩
  · exact hl x h
  · exact hf e he

theorem grow_cwnd_int_ok (e : EInterface) (h : e.CwndOk) (hb : e.m_nCwd < 4294967295) :
    (e.grow_cwnd 1 0).CwndOk := by
  obtain ⟨h1, h2, h3⟩ := h
  have i1 : intToU32 1 = 1 := by decide
  have i0 : intToU32 0 = 0 := by decide
  unfold EInterface.grow_cwnd EInterface.CwndOk
  simp only [i1, i0, Nat.add_zero]
  have e1 : (e.m_nCwd + 1) % 4294967296 = e.m_nCwd + 1 := Nat.mod_eq_of_lt (by omega)
  have e2 : e.m_nCwdFractional % 4294967296 = e.m_nCwdFractional := Nat.mod_eq_of_lt (by omega)
  rw [e1, e2]
  rw [if_neg (by omega)]
  simp only
  omega

theorem grow_cwnd_frac_ok (e : EInterface) (h : e.CwndOk) (hb : e.m_nCwd < 4294967295) :
    (e.grow_cwnd 0 1).CwndOk := by
  obtain ⟨h1, h2, h3⟩ := h
  have i1 : intToU32 1 = 1 := by decide
  have i0 : intToU32 0 = 0 := by decide
  unfold EInterface.grow_cwnd EInterface.CwndOk
  simp only [i1, i0, Nat.add_zero, intToU32_wrapS32 _ h3]
  have e1 : e.m_nCwd % 4294967296 = e.m_nCwd := Nat.mod_eq_of_lt h3
  have e2 : (e.m_nCwdFractional + 1) % 4294967296 = e.m_nCwdFractional + 1 :=
    Nat.mod_eq_of_lt (by omega)
  rw [e1, e2]
  by_cases hc : e.m_nCwdFractional + 1 ≥ e.m_nCwd
  · have heq : e.m_nCwdFractional + 1 = e.m_nCwd := by omega
    rw [if_pos hc, heq, Nat.div_self (by omega), Nat.mod_self]
    simp only
    have e3 : (e.m_nCwd + 1) % 4294967296 = e.m_nCwd + 1 := Nat.mod_eq_of_lt (by omega)
    rw [e3]
    omega
  · rw [if_neg hc]
    simp only
    omega

theorem set_cwnd_one_ok (s : EInterfaces) (i : Nat) (h : s.AllOk) : (s.set_cwnd i 1).AllOk := by
  have i1 : intToU32 1 = 1 := by decide
  refine forall_updateFirst h ?_
  intro e _
  simp only [EInterface.CwndOk, i1]
  omega

theorem set_ssthresh_ok (s : EInterfaces) (i : Nat) (v : Int) (h : s.AllOk) :
    (s.set_ssthresh i v).AllOk :=
  forall_updateFirst h (fun e he => h e he)

theorem ack_cwnd_ok (s : EInterfaces) (i : Nat) (h : s.AllOk)
    (hb : ∀ e ∈ s.m_aInterfaces, e.m_nCwd < 4294967295) : (s.ack_cwnd i).AllOk := by
  unfold EInterfaces.ack_cwnd
  simp only
  split
  · exact forall_updateFirst h (fun e he => grow_cwnd_int_ok e (h e he) (hb e he))
  · exact forall_updateFirst h (fun e he => grow_cwnd_frac_ok e (h e he) (hb e he))

theorem retransmit_adjust_ok (s : EInterfaces) (i : Nat) (h : s.AllOk) :
    (s.retransmit_adjust i).AllOk :=
  set_cwnd_one_ok _ _ (set_ssthresh_ok _ _ _ h)

theorem reset_if_idle_at_ok (s : EInterfaces) (T now n : Nat) (h : s.AllOk) :
    (s.reset_if_idle_at T now n).AllOk := by
  unfold EInterfaces.reset_if_idle_at
  split
  · exact h
  · split
    · refine forall_modify (set_ssthresh_ok _ _ _ (set_cwnd_one_ok _ _ h)) ?_
      intro e he
      have := set_ssthresh_ok _ _ _ (set_cwnd_one_ok _ _ h) e he
      split
      · exact this
      · exact this
    · exact h

theorem reset_if_idle_ok (s : EInterfaces) (T now : Nat) (h : s.AllOk) :
    (s.reset_if_idle T now).AllOk := by
  unfold EInterfaces.reset_if_idle
  generalize List.range MAX_SUPPORTED_ETHERNET_CONNETIONS = l
  induction l generalizing s with
  | nil => exact h
  | cons n l ih => exact ih _ (reset_if_idle_at_ok s T now n h)

theorem enable_interface_ok (s : EInterfaces) (n i : Nat) (h : s.AllOk) :
    (s.enable_interface n i).AllOk := by
  unfold EInterfaces.enable_interface
  split
  · exact h
  · split
    · exact h
    · rename_i e he
      have h0 : EInterfaces.AllOk
          { s with
            m_aInterfaces := s.m_aInterfaces.set n { e with m_ifnet := i, m_fEnabled := true } } := by
        intro x hx
        rcases List.mem_or_eq_of_mem_set hx with hx | rfl
        · exact h x hx
        · exact h e (List.getElem?_mem he)
      have h2 := set_ssthresh_ok _ i (Int.tdiv e.get_max_outstanding_all_shelves 2)
        (set_cwnd_one_ok _ i h0)
      exact forall_modify h2 (fun x hx => h2 x hx)

theorem linkEvent_apply_ok (s : EInterfaces) (ev : LinkEvent) (h : s.AllOk)
    (hb : ∀ e ∈ s.m_aInterfaces, e.m_nCwd < 4294967295) : (ev.apply s).AllOk := by
  cases ev with
  | enable n i => exact enable_interface_ok s n i h
  | disconnected n =>
    simp only [LinkEvent.apply, EInterfaces.interface_disconnected]
    split
    · exact h
    · exact forall_modify h (fun x hx => h x hx)
  | reconnected n i => exact forall_modify h (fun x hx => h x hx)
  | bufferCount i sh m =>
    intro x hx
    simp only [LinkEvent.apply, EInterfaces.set_max_outstanding, List.mem_map] at hx
    obtain ⟨e, he, rfl⟩ := hx
    split
    · exact h e he
    · exact h e he
  | sent i now => exact forall_updateFirst h (fun x hx => h x hx)
  | ack i => exact ack_cwnd_ok s i h hb
  | retransmitTimeout i => exact retransmit_adjust_ok s i h
  | idleTimer now => exact reset_if_idle_ok s _ now h

theorem init_allOk : EInterfaces.init.AllOk := by
  intro e he
  simp only [EInterfaces.init, List.mem_replicate] at he
  rw [he.2]
  simp [EInterface.CwndOk, EInterface.init]

theorem linkRun_allOk (evs : List LinkEvent)
    (h : ∀ k, k < evs.length →
      ∀ e ∈ (linkRun (evs.take k)).m_aInterfaces, e.m_nCwd < 4294967295) :
    (linkRun evs).AllOk := by
  induction evs using List.reverseRecOn with
  | nil => exact init_allOk
  | append_singleton evs ev ih =>
    have hlen : (evs ++ [ev]).length = evs.length + 1 := by simp
    have ih' := ih (fun k hk e he => by
      have := h k (by omega)
      rw [List.take_append_of_le_length (by omega)] at this
      exact this e he)
    have hb := h evs.length (by omega)
    rw [List.take_left] at hb
    unfold linkRun
    rw [List.foldl_concat]
    exact linkEvent_apply_ok _ ev ih' hb

/-- C3 (as amended): after construction and any sequence of enable,
disconnect, reconnect, buffer-count, send, matched-reply, retransmit-timeout and
idle-timer events, every link has `cwnd >= 1`, provided no link's 32-bit
window had reached `2^32 - 1` before one of the events. -/
theorem cwnd_ge_one_until_wrap (evs : List LinkEvent)
    (h : ∀ k, k < evs.length →
      ∀ e ∈ (linkRun (evs.take k)).m_aInterfaces, e.m_nCwd < 4294967295) :
    ∀ e ∈ (linkRun evs).m_aInterfaces, 1 ≤ e.m_nCwd :=
  fun e he => (linkRun_allOk evs h e he).1

theorem linkRun_enable : linkRun [.enable 0 1] = linkState 1 0 := by
  rfl

theorem acks_succ (n : Nat) (s : EInterfaces) : acks (n + 1) s = acks n (s.ack_cwnd 1) := by
  unfold acks
  rw [List.replicate_succ, List.foldl_cons]
  rfl

theorem acks_one (s : EInterfaces) : acks 1 s = s.ack_cwnd 1 := by
  unfold acks
  rfl

theorem acks_add (m n : Nat) (s : EInterfaces) : acks (m + n) s = acks n (acks m s) := by
  unfold acks
  rw [List.replicate_add, List.foldl_append]

theorem wrapS32_small (c : Nat) (h : c < 2147483648) : wrapS32 (c : Int) = c := by
  unfold wrapS32; omega

theorem wrapS32_large (c : Nat) (h1 : 2147483648 ≤ c) (h2 : c < 4294967296) :
    wrapS32 (c : Int) < 0 := by
  unfold wrapS32; omega

theorem ack_linkState (c f : Nat) :
    (linkState c f).ack_cwnd 1 =
      { m_aInterfaces :=
          (if wrapS32 (c : Int) < 64 then (linkHead c f).grow_cwnd 1 0
            else (linkHead c f).grow_cwnd 0 1) :: List.replicate 5 EInterface.init
        m_nMaxUserWindow := DEFAULT_CONGESTION_WINDOW } := by
  have w64 : wrapS32 ((64 : Nat) : Int) = 64 := by decide
  simp only [EInterfaces.ack_cwnd, EInterfaces.get_cwnd, EInterfaces.get_ssthresh, linkState,
    linkHead, lookupFirst, EInterface.init, DEFAULT_CONGESTION_WINDOW, if_true,
    EInterfaces.grow_cwnd, updateFirst, Nat.reduceDiv, w64]
  split <;> rfl

theorem grow_int_linkHead (c f : Nat) (hc : c + 1 < 4294967296) (hf : f < c + 1) :
    (linkHead c f).grow_cwnd 1 0 = linkHead (c + 1) f := by
  have i1 : intToU32 1 = 1 := by decide
  have i0 : intToU32 0 = 0 := by decide
  have e1 : (c + 1) % 4294967296 = c + 1 := Nat.mod_eq_of_lt hc
  have e2 : f % 4294967296 = f := Nat.mod_eq_of_lt (by omega)
  simp only [EInterface.grow_cwnd, linkHead, i1, i0, Nat.add_zero, e1, e2]
  rw [if_neg (by omega)]

theorem grow_frac_linkHead (c f : Nat) (hc : c < 4294967296) (hf : f + 1 < c) :
    (linkHead c f).grow_cwnd 0 1 = linkHead c (f + 1) := by
  have i1 : intToU32 1 = 1 := by decide
  have i0 : intToU32 0 = 0 := by decide
  have e1 : c % 4294967296 = c := Nat.mod_eq_of_lt hc
  have e2 : (f + 1) % 4294967296 = f + 1 := Nat.mod_eq_of_lt (by omega)
  simp only [EInterface.grow_cwnd, linkHead, i1, i0, Nat.add_zero, e1, e2]
  rw [if_neg (by omega)]

theorem grow_frac_carry_linkHead (c : Nat) (h1 : 1 ≤ c) (hc : c + 1 < 4294967296) :
    (linkHead c (c - 1)).grow_cwnd 0 1 = linkHead (c + 1) 0 := by
  have i1 : intToU32 1 = 1 := by decide
  have i0 : intToU32 0 = 0 := by decide
  have e1 : c % 4294967296 = c := Nat.mod_eq_of_lt (by omega)
  have e2 : (c - 1 + 1) % 4294967296 = c := by
    rw [Nat.sub_add_cancel h1]; exact e1
  have e3 : (c + 1) % 4294967296 = c + 1 := Nat.mod_eq_of_lt hc
  simp only [EInterface.grow_cwnd, linkHead, i1, i0, Nat.add_zero, e1, e2,
    intToU32_wrapS32 c (by omega)]
  rw [if_pos (le_refl _), Nat.div_self (by omega), Nat.mod_self, e3]

theorem grow_int_wrap_linkHead :
    (linkHead 4294967295 0).grow_cwnd 1 0 = linkHead 0 0 := by
  have i1 : intToU32 1 = 1 := by decide
  have i0 : intToU32 0 = 0 := by decide
  simp [EInterface.grow_cwnd, linkHead, i1, i0]
theorem ack_slow (c : Nat) (h : c < 64) : (linkState c 0).ack_cwnd 1 = linkState (c + 1) 0 := by
  rw [ack_linkState, wrapS32_small c (by omega), if_pos (by omega),
    grow_int_linkHead c 0 (by omega) (by omega)]
  rfl

theorem ack_avoid (c f : Nat) (h1 : 64 ≤ c) (h2 : c < 2147483648) (hf : f + 1 < c) :
    (linkState c f).ack_cwnd 1 = linkState c (f + 1) := by
  rw [ack_linkState, wrapS32_small c h2, if_neg (by omega),
    grow_frac_linkHead c f (by omega) hf]
  rfl

theorem ack_avoid_carry (c : Nat) (h1 : 64 ≤ c) (h2 : c < 2147483648) :
    (linkState c (c - 1)).ack_cwnd 1 = linkState (c + 1) 0 := by
  rw [ack_linkState, wrapS32_small c h2, if_neg (by omega),
    grow_frac_carry_linkHead c (by omega) (by omega)]
  rfl

theorem ack_negative (c : Nat) (h1 : 2147483648 ≤ c) (h2 : c + 1 < 4294967296) :
    (linkState c 0).ack_cwnd 1 = linkState (c + 1) 0 := by
  have := wrapS32_large c h1 (by omega)
  rw [ack_linkState, if_pos (by omega), grow_int_linkHead c 0 h2 (by omega)]
  rfl

theorem ack_wrap : (linkState 4294967295 0).ack_cwnd 1 = linkState 0 0 := by
  have := wrapS32_large 4294967295 (by omega) (by omega)
  rw [ack_linkState, if_pos (by omega), grow_int_wrap_linkHead]
  rfl

theorem acks_slow (j c : Nat) (h : c + j ≤ 64) : acks j (linkState c 0) = linkState (c + j) 0 := by
  induction j generalizing c with
  | zero => rfl
  | succ j ih =>
    rw [acks_succ, ack_slow c (by omega), ih (c + 1) (by omega)]
    congr 1; omega

theorem acks_avoid (c j f : Nat) (h1 : 64 ≤ c) (h2 : c < 2147483648) (hf : f + j < c) :
    acks j (linkState c f) = linkState c (f + j) := by
  induction j generalizing f with
  | zero => rfl
  | succ j ih =>
    rw [acks_succ, ack_avoid c f h1 h2 (by omega), ih (f + 1) (by omega)]
    congr 1; omega

theorem acks_round (c : Nat) (h1 : 64 ≤ c) (h2 : c < 2147483648) :
    acks c (linkState c 0) = linkState (c + 1) 0 := by
  obtain ⟨d, rfl⟩ : ∃ d, c = d + 1 := ⟨c - 1, by omega⟩
  rw [acks_add d 1, acks_avoid (d + 1) d 0 h1 h2 (by omega), Nat.zero_add]
  have := ack_avoid_carry (d + 1) h1 h2
  rw [Nat.add_sub_cancel] at this
  rw [acks_one, this]

theorem acks_acksTo (c : Nat) (h1 : 64 ≤ c) (h2 : c ≤ 2147483648) :
    acks (acksTo c) (linkState 64 0) = linkState c 0 := by
  induction c with
  | zero => omega
  | succ c ih =>
    by_cases hc : 64 ≤ c
    · have : acksTo (c + 1) = acksTo c + c := by simp [acksTo, hc]
      rw [this, acks_add, ih hc (by omega), acks_round c hc (by omega)]
    · have h64 : c + 1 = 64 := by omega
      have : acksTo (c + 1) = 0 := by simp [acksTo, hc]
      rw [this, h64]
      rfl

theorem acks_negative (j c : Nat) (h1 : 2147483648 ≤ c) (h2 : c + j < 4294967296) :
    acks j (linkState c 0) = linkState (c + j) 0 := by
  induction j generalizing c with
  | zero => rfl
  | succ j ih =>
    rw [acks_succ, ack_negative c h1 (by omega), ih (c + 1) (by omega) (by omega)]
    congr 1; omega

theorem acksTo_closed (c : Nat) (h : 64 ≤ c) : 2 * acksTo c + 4032 = c * (c - 1) := by
  induction c with
  | zero => omega
  | succ c ih =>
    by_cases hc : 64 ≤ c
    · have : acksTo (c + 1) = acksTo c + c := by simp [acksTo, hc]
      have ih' := ih hc
      rw [this]
      obtain ⟨d, rfl⟩ : ∃ d, c = d + 1 := ⟨c - 1, by omega⟩
      simp only [Nat.add_sub_cancel] at ih' ⊢
      nlinarith
    · have h64 : c = 63 := by omega
      subst h64
      simp [acksTo]

theorem acksTo_value : acksTo 2147483648 = 2305843008139950112 := by
  have := acksTo_closed 2147483648 (by omega)
  omega

theorem window_wraps :
    acks (63 + 2305843008139950112 + 2147483647 + 1) (linkState 1 0) = linkState 0 0 := by
  rw [acks_add, acks_add, acks_add, acks_slow 63 1 (by omega), ← acksTo_value,
    acks_acksTo 2147483648 (by omega) (by omega),
    acks_negative 2147483647 2147483648 (by omega) (by omega)]
  rw [acks_one]
  exact ack_wrap

theorem linkRun_enable_acks (n : Nat) :
    linkRun (LinkEvent.enable 0 1 :: List.replicate n (LinkEvent.ack 1)) = acks n (linkState 1 0) := by
  unfold linkRun acks
  rw [List.foldl_cons]
  rfl

/-- C3 (counterexample): after port 0 is enabled, 2305843010287433823 matched
replies on it (slow start to 64, congestion avoidance to `2^31`, then one
increment per reply because the window read as an `int` is negative) wrap its
32-bit window to `cwnd = 0`. -/
theorem cwnd_zero_reachable :
    ¬ ∀ e ∈ (linkRun (LinkEvent.enable 0 1 ::
          List.replicate 2305843010287433823 (LinkEvent.ack 1))).m_aInterfaces, 1 ≤ e.m_nCwd := by
  intro h
  rw [linkRun_enable_acks] at h
  have hw : acks 2305843010287433823 (linkState 1 0) = linkState 0 0 := window_wraps
  rw [hw] at h
  have := h (linkHead 0 0) (List.mem_cons_self _ _)
  simp [linkHead] at this

theorem cwnd_ge_one_until_wrap_witness :
    (∀ k, k < [LinkEvent.enable 0 1, .sent 1 1000, .ack 1, .ack 1, .retransmitTimeout 1,
          .ack 1, .idleTimer 6000001000].length →
        ∀ e ∈ (linkRun (List.take k [LinkEvent.enable 0 1, .sent 1 1000, .ack 1, .ack 1,
            .retransmitTimeout 1, .ack 1, .idleTimer 6000001000])).m_aInterfaces,
          e.m_nCwd < 4294967295) ∧
      ∀ e ∈ (linkRun [LinkEvent.enable 0 1, .sent 1 1000, .ack 1, .ack 1, .retransmitTimeout 1,
          .ack 1, .idleTimer 6000001000]).m_aInterfaces, 1 ≤ e.m_nCwd :=
  ⟨by decide, cwnd_ge_one_until_wrap _ (by decide)⟩

/-- C4 (failing input): port 0 is enabled and sends once, a target on shelf 3
advertises a buffer count of 1, and the idle timer fires six seconds later:
`reset_if_idle` stores `1 / 2 = 0` as the slow-start threshold of the link. -/
theorem ssthresh_zero_after_idle_reset :
    (linkRun [.enable 0 1, .sent 1 1000, .bufferCount 1 3 1, .idleTimer 6000001000]).m_aInterfaces.map
        (fun e => (e.m_fEnabled, e.m_nCwd, e.m_nSSThresh)) =
      [(true, 1, 0), (false, 1, 64), (false, 1, 64), (false, 1, 64), (false, 1, 64),
        (false, 1, 64)] := by
  decide
/-! ## Transport engine -/

/-- C5 (failing input): a reliable request is transmitted on a link whose
window is 1, a discovery broadcast (not retransmittable) is queued behind it
and stays in the to-send queue, and the retransmit timer fires 20 ms later:
the scan drops the broadcast, which was never sent, and decrements the
link's outstanding counter to `-1`. -/
theorem outstanding_negative_after_unsent_drop :
    (serviceRun [.enable_interface 0 1, .set_max_outstanding 1 3 16, .send 1 1 [] 3 true,
        .transmitTimer 1000, .send 1 0x40000002 [] (-1) false, .transmitTimer 2000,
        .retransmitTimer 20001000 1]).m_pInterfaces.m_aInterfaces.map
        (fun e => e.m_nOutstandingCount) = [-1, 0, 0, 0, 0, 0] := by
  decide

theorem findTag_eq_none {Tag : Nat} {q : List SentPktQueue} (h : ∀ e ∈ q, e.Tag ≠ Tag) :
    findTag Tag q = none := by
  induction q with
  | nil => rfl
  | cons a q ih =>
    have ha : a.Tag ≠ Tag := h a (List.mem_cons_self _ _)
    have hq := ih (fun e he => h e (List.mem_cons_of_mem _ he))
    simp [findTag, ha, hq]
/-! ## The scheduling pass -/

theorem lookupFirst_updateFirst (i j : Nat) (f : EInterface → EInterface)
    (hf : ∀ e, (f e).m_ifnet = e.m_ifnet) (l : List EInterface) :
    lookupFirst j (updateFirst i f l) =
      if j = i then (lookupFirst j l).map f else lookupFirst j l := by
  induction l with
  | nil => simp [updateFirst, lookupFirst]
  | cons a l ih =>
    by_cases hi : i = a.m_ifnet
    · by_cases hj : j = a.m_ifnet
      · have hji : j = i := hj.trans hi.symm
        simp [updateFirst, lookupFirst, hi, hj, hf]
      · have hji : ¬ j = i := fun h => hj (h.trans hi)
        simp [updateFirst, lookupFirst, hi, hj, hf, hji]
    · by_cases hj : j = a.m_ifnet
      · have hji : ¬ j = i := fun h => hi (h.symm.trans hj)
        have hai : ¬ a.m_ifnet = i := fun h => hi h.symm
        simp [updateFirst, lookupFirst, hi, hj, hai]
      · simp only [updateFirst, lookupFirst, hi, hj, if_false, ih]

theorem lookupFirst_update_time (s : EInterfaces) (i j now : Nat) :
    lookupFirst j (s.update_time_since_last_send i now).m_aInterfaces =
      if j = i then (lookupFirst j s.m_aInterfaces).map
          (fun e => { e with m_TimeSinceLastSend := now })
        else lookupFirst j s.m_aInterfaces :=
  lookupFirst_updateFirst i j (fun e => { e with m_TimeSinceLastSend := now }) (fun _ => rfl)
    s.m_aInterfaces

theorem get_outstanding_update_time (s : EInterfaces) (i j now : Nat) :
    (s.update_time_since_last_send i now).get_outstanding j = s.get_outstanding j := by
  unfold EInterfaces.get_outstanding
  rw [lookupFirst_update_time]
  by_cases h : j = i
  · rw [if_pos h]
    cases lookupFirst j s.m_aInterfaces <;> rfl
  · rw [if_neg h]

theorem get_cwnd_update_time (s : EInterfaces) (i j now : Nat) :
    (s.update_time_since_last_send i now).get_cwnd j = s.get_cwnd j := by
  unfold EInterfaces.get_cwnd
  rw [lookupFirst_update_time]
  by_cases h : j = i
  · rw [if_pos h]
    cases lookupFirst j s.m_aInterfaces <;> rfl
  · rw [if_neg h]

theorem get_max_outstanding_update_time (s : EInterfaces) (i j now : Nat) (sh : Int) :
    (s.update_time_since_last_send i now).get_max_outstanding j sh =
      s.get_max_outstanding j sh := by
  unfold EInterfaces.get_max_outstanding
  rw [lookupFirst_update_time]
  by_cases h : j = i
  · rw [if_pos h]
    cases lookupFirst j s.m_aInterfaces <;> rfl
  · rw [if_neg h]

theorem sameWindow_send_immediate (s : AoEService) (now : Nat) (pre post : List ToSendPktQueue)
    (p : ToSendPktQueue) (hp : p.fSendImmediately = true) :
    SameWindow s (send_packet_from_queue s now pre p post).1 := by
  unfold send_packet_from_queue
  split
  · simp only [hp, Bool.not_true, Bool.false_eq_true, if_false]
    refine ⟨fun j => get_outstanding_update_time _ _ _ _, fun q => ?_⟩
    simp only [nMaxoutstanding, get_cwnd_update_time, get_max_outstanding_update_time]
    rfl
  · exact ⟨fun _ => rfl, fun _ => rfl⟩

theorem sameWindow_trans {s t u : AoEService} (h1 : SameWindow s t) (h2 : SameWindow t u) :
    SameWindow s u :=
  ⟨fun j => (h2.1 j).trans (h1.1 j), fun p => (h2.2 p).trans (h1.2 p)⟩

theorem transmitImmediate_spec (now : Nat) (post : List ToSendPktQueue) :
    ∀ (s : AoEService) (pre : List ToSendPktQueue), s.m_to_send_queue = pre ++ post →
      SameWindow s (transmitImmediate now s pre post).1 ∧
        (transmitImmediate now s pre post).1.m_to_send_queue =
          pre ++ post.filter (fun p => !p.fSendImmediately) ∧
        ∀ p ∈ (transmitImmediate now s pre post).2, p.fSendImmediately = true := by
  induction post with
  | nil =>
    intro s pre h
    simp only [transmitImmediate, List.filter_nil]
    exact ⟨⟨fun _ => rfl, fun _ => rfl⟩, h, fun p hp => by simp at hp⟩
  | cons a post ih =>
    intro s pre h
    by_cases ha : a.fSendImmediately = true
    · have hq : (send_packet_from_queue s now pre a post).1.m_to_send_queue = pre ++ post := by
        unfold send_packet_from_queue
        split <;> rfl
      obtain ⟨h1, h2, h3⟩ := ih (send_packet_from_queue s now pre a post).1 pre hq
      simp only [transmitImmediate, ha, if_true]
      refine ⟨sameWindow_trans (sameWindow_send_immediate s now pre post a ha) h1, ?_, ?_⟩
      · rw [h2]
        simp [List.filter_cons, ha]
      · intro p hp
        rcases List.mem_append.1 hp with hp | hp
        · have : (send_packet_from_queue s now pre a post).2 = some p ∨
              (send_packet_from_queue s now pre a post).2 = none := by
            cases hr : (send_packet_from_queue s now pre a post).2 with
            | none => rw [hr] at hp; simp at hp
            | some x => rw [hr] at hp; simp at hp; left; rw [hp]
          rcases this with hs | hs
          · have : p = a := by
              unfold send_packet_from_queue at hs
              split at hs
              · simp at hs; exact hs.symm
              · simp at hs
            rw [this]; exact ha
          · rw [hs] at hp; simp at hp
        · exact h3 p hp
    · have ha' : a.fSendImmediately = false := by simpa using ha
      obtain ⟨h1, h2, h3⟩ := ih s (pre ++ [a]) (by rw [h]; simp)
      simp only [transmitImmediate, ha', Bool.false_eq_true, if_false]
      refine ⟨h1, ?_, h3⟩
      rw [h2]
      simp [List.filter_cons, ha']

theorem send_packet_from_queue_frame (s : AoEService) (now : Nat) (pre post : List ToSendPktQueue)
    (a p : ToSendPktQueue) (h : (send_packet_from_queue s now pre a post).2 = some p) : p = a := by
  unfold send_packet_from_queue at h
  split at h
  · simp at h; exact h.symm
  · simp at h

theorem send_packet_from_queue_queue (s : AoEService) (now : Nat) (pre post : List ToSendPktQueue)
    (a : ToSendPktQueue) :
    (send_packet_from_queue s now pre a post).1.m_to_send_queue = pre ++ post := by
  unfold send_packet_from_queue
  split <;> rfl

theorem transmitWindow_spec (now : Nat) (post : List ToSendPktQueue) :
    ∀ (s : AoEService) (pre : List ToSendPktQueue), s.m_to_send_queue = pre ++ post →
      (∀ p, (transmitWindow now s pre post).2.1 = some p →
          s.m_pInterfaces.get_outstanding p.if_sent < nMaxoutstanding s p) ∧
        ∀ q ∈ pre ++ post, s.m_pInterfaces.get_outstanding q.if_sent ≥ nMaxoutstanding s q →
          q ∈ (transmitWindow now s pre post).1.m_to_send_queue := by
  induction post with
  | nil =>
    intro s pre h
    simp only [transmitWindow]
    exact ⟨fun p hp => by simp at hp, fun q hq _ => h ▸ hq⟩
  | cons a post ih =>
    intro s pre h
    by_cases hb : s.m_pInterfaces.get_outstanding a.if_sent ≥ nMaxoutstanding s a
    · by_cases hfull : s.m_pInterfaces.all_full (nMaxoutstanding s a) = 0
      · simp only [transmitWindow, hb, hfull, if_true]
        exact ⟨fun p hp => by simp at hp, fun q hq _ => h ▸ hq⟩
      · have := ih s (pre ++ [a]) (by rw [h]; simp)
        simp only [transmitWindow, hb, hfull, if_true, if_false]
        refine ⟨this.1, fun q hq hq' => this.2 q ?_ hq'⟩
        simpa using hq
    · simp only [transmitWindow, hb, if_false]
      refine ⟨fun p hp => ?_, fun q hq hq' => ?_⟩
      · have := send_packet_from_queue_frame s now pre post a p hp
        rw [this]
        omega
      · rw [send_packet_from_queue_queue]
        have hne : q ≠ a := fun hqa => hb (hqa ▸ hq')
        simp only [List.mem_append, List.mem_cons] at hq ⊢
        rcases hq with hq | hq | hq
        · exact Or.inl hq
        · exact absurd hq hne
        · exact Or.inr hq

theorem MIN_eq_min (x y : Int) : MIN x y = min x y := by
  unfold MIN
  rcases lt_trichotomy x y with h | h | h
  · rw [if_pos h, min_eq_left (le_of_lt h)]
  · subst h; simp
  · rw [if_neg (by omega), min_eq_right (le_of_lt h)]

theorem nMaxoutstanding_eq (s : AoEService) (p : ToSendPktQueue) :
    nMaxoutstanding s p =
      min (min (s.m_pInterfaces.get_cwnd p.if_sent)
          (s.m_pInterfaces.get_max_outstanding p.if_sent (wrapS32 p.nShelf)))
        s.m_pInterfaces.m_nMaxUserWindow := by
  simp only [nMaxoutstanding, MIN_eq_min]

/-- C8: in one run of `TransmitTimer`, an entry that is not flagged
send-immediately is handed to the interface only if the outstanding count of
its link is below `min(cwnd(link), maxOutstanding(link, shelf), userWindow)`
(the values it is compared with when examined are those at the start of the
run); an entry whose link's outstanding count is at or above that minimum is
still in the to-send queue after the run. -/
theorem transmit_only_within_window (s : AoEService) (now : Nat) :
    (∀ p ∈ (TransmitTimer s now).frames, p.fSendImmediately = false →
        s.m_pInterfaces.get_outstanding p.if_sent <
          min (min (s.m_pInterfaces.get_cwnd p.if_sent)
              (s.m_pInterfaces.get_max_outstanding p.if_sent (wrapS32 p.nShelf)))
            s.m_pInterfaces.m_nMaxUserWindow) ∧
      ∀ q ∈ s.m_to_send_queue, q.fSendImmediately = false →
        s.m_pInterfaces.get_outstanding q.if_sent ≥
            min (min (s.m_pInterfaces.get_cwnd q.if_sent)
                (s.m_pInterfaces.get_max_outstanding q.if_sent (wrapS32 q.nShelf)))
              s.m_pInterfaces.m_nMaxUserWindow →
          q ∈ (TransmitTimer s now).state.m_to_send_queue := by
  obtain ⟨hw, hq, himm⟩ := transmitImmediate_spec now s.m_to_send_queue s [] rfl
  have hspec := transmitWindow_spec now (transmitImmediate now s [] s.m_to_send_queue).1.m_to_send_queue
    (transmitImmediate now s [] s.m_to_send_queue).1 [] rfl
  refine ⟨fun p hp hni => ?_, fun q hq0 hni hfull => ?_⟩
  · simp only [TransmitTimer, List.mem_append] at hp
    rcases hp with hp | hp
    · rw [himm p hp] at hni
      exact absurd hni (by simp)
    · have hsome : (transmitWindow now (transmitImmediate now s [] s.m_to_send_queue).1 []
          (transmitImmediate now s [] s.m_to_send_queue).1.m_to_send_queue).2.1 = some p := by
        cases hr : (transmitWindow now (transmitImmediate now s [] s.m_to_send_queue).1 []
          (transmitImmediate now s [] s.m_to_send_queue).1.m_to_send_queue).2.1 with
        | none => rw [hr] at hp; simp at hp
        | some x => rw [hr] at hp; simp at hp; rw [hp]
      have := hspec.1 p hsome
      rw [hw.1, hw.2, nMaxoutstanding_eq] at this
      exact this
  · have hmem : q ∈ (transmitImmediate now s [] s.m_to_send_queue).1.m_to_send_queue := by
      rw [hq]
      simp [List.mem_filter, hq0, hni]
    have := hspec.2 q (by simpa using hmem) (by
      rw [hw.1, hw.2, nMaxoutstanding_eq]
      exact hfull)
    exact this

/-! ## The outstanding counter over the life of one request -/

theorem updateFirst_eq_modify (i : Nat) (f : EInterface → EInterface) (l : List EInterface) :
    updateFirst i f l = l.modify f (indexFirst i l) := by
  induction l with
  | nil => rfl
  | cons a l ih =>
    by_cases h : i = a.m_ifnet
    · simp [updateFirst, indexFirst, h]
    · simp [updateFirst, indexFirst, h, ih]

theorem indexFirst_modify (i k : Nat) (f : EInterface → EInterface)
    (hf : ∀ e, (f e).m_ifnet = e.m_ifnet) (l : List EInterface) :
    indexFirst i (l.modify f k) = indexFirst i l := by
  induction l generalizing k with
  | nil => simp [indexFirst]
  | cons a l ih =>
    cases k with
    | zero =>
      rw [List.modify_zero_cons]
      simp [indexFirst, hf]
    | succ k =>
      rw [List.modify_succ_cons]
      simp only [indexFirst]
      rw [ih]

theorem lookupFirst_modify (i k : Nat) (f : EInterface → EInterface)
    (hf : ∀ e, (f e).m_ifnet = e.m_ifnet) (l : List EInterface) :
    lookupFirst i (l.modify f k) =
      if k = indexFirst i l then (lookupFirst i l).map f else lookupFirst i l := by
  induction l generalizing k with
  | nil => simp [lookupFirst]
  | cons a l ih =>
    cases k with
    | zero =>
      rw [List.modify_zero_cons]
      by_cases h : i = a.m_ifnet
      · simp [lookupFirst, indexFirst, hf, h]
      · simp [lookupFirst, indexFirst, hf, h]
    | succ k =>
      by_cases h : i = a.m_ifnet
      · rw [List.modify_succ_cons]
        simp [lookupFirst, indexFirst, h]
      · rw [List.modify_succ_cons]
        simp only [lookupFirst, indexFirst, h, if_false]
        rw [ih]
        simp only [Nat.add_right_cancel_iff]

theorem counterIs_modify_at {l : List EInterface} {ifp idx : Nat} {cnt : Int}
    (h : CounterIs l ifp idx cnt) (f : EInterface → EInterface) (g : Int → Int)
    (hf : ∀ e, (f e).m_ifnet = e.m_ifnet)
    (hg : ∀ e, (f e).m_nOutstandingCount = g e.m_nOutstandingCount) :
    CounterIs (l.modify f idx) ifp idx (g cnt) := by
  obtain ⟨hi, x, hx, hc⟩ := h
  refine ⟨(indexFirst_modify ifp idx f hf l).trans hi, f x, ?_, ?_⟩
  · rw [lookupFirst_modify ifp idx f hf l, if_pos hi.symm, hx]
    rfl
  · rw [hg, hc]

theorem counterIs_modify_keep {l : List EInterface} {ifp idx : Nat} {cnt : Int}
    (h : CounterIs l ifp idx cnt) (f : EInterface → EInterface) (k : Nat)
    (hf : ∀ e, (f e).m_ifnet = e.m_ifnet)
    (hg : ∀ e, (f e).m_nOutstandingCount = e.m_nOutstandingCount) :
    CounterIs (l.modify f k) ifp idx cnt := by
  obtain ⟨hi, x, hx, hc⟩ := h
  refine ⟨(indexFirst_modify ifp k f hf l).trans hi, ?_⟩
  rw [lookupFirst_modify ifp k f hf l, hx]
  by_cases hk : k = indexFirst ifp l
  · exact ⟨f x, by rw [if_pos hk]; rfl, by rw [hg, hc]⟩
  · exact ⟨x, by rw [if_neg hk], hc⟩

theorem counterIs_updateFirst_keep {l : List EInterface} {ifp idx : Nat} {cnt : Int}
    (h : CounterIs l ifp idx cnt) (f : EInterface → EInterface) (j : Nat)
    (hf : ∀ e, (f e).m_ifnet = e.m_ifnet)
    (hg : ∀ e, (f e).m_nOutstandingCount = e.m_nOutstandingCount) :
    CounterIs (updateFirst j f l) ifp idx cnt := by
  rw [updateFirst_eq_modify]
  exact counterIs_modify_keep h f _ hf hg

theorem counterIs_update_time {s : EInterfaces} {ifp idx : Nat} {cnt : Int}
    (h : CounterIs s.m_aInterfaces ifp idx cnt) (j now : Nat) :
    CounterIs (s.update_time_since_last_send j now).m_aInterfaces ifp idx cnt := by
  unfold EInterfaces.update_time_since_last_send
  exact counterIs_updateFirst_keep h _ j (fun _ => rfl) (fun _ => rfl)

theorem counterIs_set_cwnd {s : EInterfaces} {ifp idx : Nat} {cnt : Int}
    (h : CounterIs s.m_aInterfaces ifp idx cnt) (j : Nat) (v : Int) :
    CounterIs (s.set_cwnd j v).m_aInterfaces ifp idx cnt := by
  unfold EInterfaces.set_cwnd
  exact counterIs_updateFirst_keep h _ j (fun _ => rfl) (fun _ => rfl)

theorem counterIs_set_ssthresh {s : EInterfaces} {ifp idx : Nat} {cnt : Int}
    (h : CounterIs s.m_aInterfaces ifp idx cnt) (j : Nat) (v : Int) :
    CounterIs (s.set_ssthresh j v).m_aInterfaces ifp idx cnt := by
  unfold EInterfaces.set_ssthresh
  exact counterIs_updateFirst_keep h _ j (fun _ => rfl) (fun _ => rfl)

theorem counterIs_retransmit_adjust {s : EInterfaces} {ifp idx : Nat} {cnt : Int}
    (h : CounterIs s.m_aInterfaces ifp idx cnt) (j : Nat) :
    CounterIs (s.retransmit_adjust j).m_aInterfaces ifp idx cnt := by
  unfold EInterfaces.retransmit_adjust
  exact counterIs_set_cwnd (counterIs_set_ssthresh h j _) j 1

theorem grow_cwnd_ifnet (e : EInterface) (a b : Int) :
    (e.grow_cwnd a b).m_ifnet = e.m_ifnet ∧
      (e.grow_cwnd a b).m_nOutstandingCount = e.m_nOutstandingCount := by
  unfold EInterface.grow_cwnd
  simp only
  split <;> exact ⟨rfl, rfl⟩

theorem counterIs_ack_cwnd {s : EInterfaces} {ifp idx : Nat} {cnt : Int}
    (h : CounterIs s.m_aInterfaces ifp idx cnt) (j : Nat) :
    CounterIs (s.ack_cwnd j).m_aInterfaces ifp idx cnt := by
  unfold EInterfaces.ack_cwnd
  simp only
  split
  · exact counterIs_updateFirst_keep h _ j (fun e => (grow_cwnd_ifnet e 1 0).1)
      (fun e => (grow_cwnd_ifnet e 1 0).2)
  · exact counterIs_updateFirst_keep h _ j (fun e => (grow_cwnd_ifnet e 0 1).1)
      (fun e => (grow_cwnd_ifnet e 0 1).2)

theorem counterIs_increment {s : EInterfaces} {ifp idx : Nat} {cnt : Int}
    (h : CounterIs s.m_aInterfaces ifp idx cnt) :
    CounterIs (s.OSIncrementAtomic idx).m_aInterfaces ifp idx (wrapS32 (cnt + 1)) :=
  counterIs_modify_at h _ (fun c => wrapS32 (c + 1)) (fun _ => rfl) (fun _ => rfl)

theorem counterIs_decrement {s : EInterfaces} {ifp idx : Nat} {cnt : Int}
    (h : CounterIs s.m_aInterfaces ifp idx cnt) :
    CounterIs (s.OSDecrementAtomic idx).m_aInterfaces ifp idx (wrapS32 (cnt - 1)) :=
  counterIs_modify_at h _ (fun c => wrapS32 (c - 1)) (fun _ => rfl) (fun _ => rfl)

theorem counterIs_resetIfNegative {s : EInterfaces} {ifp idx : Nat} {cnt : Int}
    (h : CounterIs s.m_aInterfaces ifp idx cnt) :
    CounterIs (s.resetIfNegative idx).m_aInterfaces ifp idx (if cnt < 0 then 0 else cnt) := by
  refine counterIs_modify_at h _ (fun c => if c < 0 then 0 else c) (fun e => ?_) (fun e => ?_)
  · split <;> rfl
  · by_cases hc : e.m_nOutstandingCount < 0
    · simp [hc]
    · simp [hc]

theorem counterIs_decrementUnlessRetransmit {s : EInterfaces} {ifp idx : Nat} {cnt : Int}
    (h : CounterIs s.m_aInterfaces ifp idx cnt) (e : SentPktQueue)
    (he : e.pOutstandingCount = idx) :
    CounterIs (s.decrementUnlessRetransmit e).m_aInterfaces ifp idx
      (if e.fPacketHasBeenRetransmit then cnt else wrapS32 (cnt - 1)) := by
  unfold EInterfaces.decrementUnlessRetransmit
  cases hfl : e.fPacketHasBeenRetransmit
  · simp only [Bool.not_false, if_true, Bool.false_eq_true, if_false]
    rw [he]
    exact counterIs_decrement h
  · simp only [Bool.not_true, Bool.false_eq_true, if_false, if_true]
    exact h

theorem retransmitTimer_single (s : AoEService) (e : SentPktQueue) (tr : Nat) (nT : Int)
    (hs : s.m_sent_queue = [e]) :
    RetransmitTimer s tr nT =
      if e.RetransmitTime_us ≠ 0 then
        if e.TimeFirstSent ≠ 0 ∧ e.TimeSent ≠ 0 then
          if time_since_now_us tr e.TimeFirstSent > s.m_MaxTimeOutBeforeDrop then
            { s with m_pInterfaces := s.m_pInterfaces.decrementUnlessRetransmit e
                     m_sent_queue := [] }
          else if time_since_now_us tr e.TimeSent > e.RetransmitTime_us then
            { (resend_packet
                { s with m_pInterfaces :=
                    (s.m_pInterfaces.retransmit_adjust e.if_sent).decrementUnlessRetransmit e }
                e nT).1 with
              m_sent_queue := [(resend_packet
                { s with m_pInterfaces :=
                    (s.m_pInterfaces.retransmit_adjust e.if_sent).decrementUnlessRetransmit e }
                e nT).2] }
          else s
        else s
      else
        { s with m_pInterfaces := s.m_pInterfaces.decrementUnlessRetransmit e
                 m_sent_queue := [] } := by
  unfold RetransmitTimer
  rw [hs]
  simp only [retransmitScan, List.nil_append, Bool.not_false, if_true]
  split_ifs <;> first | rfl | (cases s; simp_all)

/-- The stamping of the send times by `send_packet_from_queue`. -/
theorem stampSent_single (now Tag : Nat) (e : SentPktQueue) (h : e.Tag = Tag) :
    stampSent now Tag [e] =
      some [if e.TimeFirstSent = 0 then { e with TimeFirstSent := now, TimeSent := now }
            else { e with TimeSent := now }] := by
  simp [stampSent, h]

theorem transmitTimer_single_immediate (s : AoEService) (e : SentPktQueue) (p : ToSendPktQueue)
    (tt : Nat) (hs : s.m_sent_queue = [e]) (hq : s.m_to_send_queue = [p])
    (hp : p.fSendImmediately = true) (ht : e.Tag = p.Tag) :
    (TransmitTimer s tt).state =
      { s with
        m_sent_queue := [if e.TimeFirstSent = 0 then { e with TimeFirstSent := tt, TimeSent := tt }
                         else { e with TimeSent := tt }]
        m_pInterfaces := s.m_pInterfaces.update_time_since_last_send p.if_sent tt
        m_to_send_queue := [] } := by
  unfold TransmitTimer
  simp only [hq, transmitImmediate, hp, if_true, send_packet_from_queue, hs,
    stampSent_single tt p.Tag e ht, Bool.not_true, Bool.false_eq_true, if_false,
    List.append_nil, transmitWindow]

theorem transmitTimer_single_normal (s : AoEService) (e : SentPktQueue) (p : ToSendPktQueue)
    (t0 : Nat) (hs : s.m_sent_queue = [e]) (hq : s.m_to_send_queue = [p])
    (hp : p.fSendImmediately = false) (ht : e.Tag = p.Tag) :
    ((TransmitTimer s t0).frames = [] ∨
        s.m_pInterfaces.get_outstanding p.if_sent < nMaxoutstanding s p) ∧
      (s.m_pInterfaces.get_outstanding p.if_sent < nMaxoutstanding s p →
        (TransmitTimer s t0).state =
          { s with
            m_sent_queue :=
              [if e.TimeFirstSent = 0 then { e with TimeFirstSent := t0, TimeSent := t0 }
               else { e with TimeSent := t0 }]
            m_pInterfaces :=
              (s.m_pInterfaces.OSIncrementAtomic p.pOutstandingCount).update_time_since_last_send
                p.if_sent t0
            m_to_send_queue := [] }) := by
  unfold TransmitTimer
  simp only [hq, transmitImmediate, hp, Bool.false_eq_true, if_false, List.nil_append,
    transmitWindow]
  by_cases hb : s.m_pInterfaces.get_outstanding p.if_sent ≥ nMaxoutstanding s p
  · refine ⟨Or.inl ?_, fun h => absurd h (by omega)⟩
    simp only [hb, if_true]
    split_ifs <;> rfl
  · refine ⟨Or.inr (by omega), fun _ => ?_⟩
    simp only [hb, if_false, send_packet_from_queue, hs, stampSent_single t0 p.Tag e ht, hp,
      Bool.not_false, if_true, List.append_nil]

theorem resend_packet_fields (s : AoEService) (e : SentPktQueue) (nT : Int) :
    (resend_packet s e nT).1.m_pInterfaces = s.m_pInterfaces ∧
      (resend_packet s e nT).1.m_to_send_queue =
        s.m_to_send_queue ++
          [{ mbuf := e.first_mbuf, if_sent := e.if_sent, Tag := e.Tag,
             nShelf := intToU32 (wrapS32 e.nShelf), fSendImmediately := true,
             pOutstandingCount := e.pOutstandingCount }] ∧
      (resend_packet s e nT).2.Tag = e.Tag ∧
      (resend_packet s e nT).2.if_sent = e.if_sent ∧
      (resend_packet s e nT).2.pOutstandingCount = e.pOutstandingCount ∧
      (resend_packet s e nT).2.fPacketHasBeenRetransmit = true := by
  unfold resend_packet add_to_send_queue
  refine ⟨?_, ?_, rfl, rfl, rfl, rfl⟩
  · simp only
    split <;> rfl
  · simp only
    split <;> rfl

theorem stamp_fields (x : SentPktQueue) (tt : Nat) :
    (if x.TimeFirstSent = 0 then { x with TimeFirstSent := tt, TimeSent := tt }
      else { x with TimeSent := tt }).Tag = x.Tag ∧
    (if x.TimeFirstSent = 0 then { x with TimeFirstSent := tt, TimeSent := tt }
      else { x with TimeSent := tt }).if_sent = x.if_sent ∧
    (if x.TimeFirstSent = 0 then { x with TimeFirstSent := tt, TimeSent := tt }
      else { x with TimeSent := tt }).pOutstandingCount = x.pOutstandingCount ∧
    (if x.TimeFirstSent = 0 then { x with TimeFirstSent := tt, TimeSent := tt }
      else { x with TimeSent := tt }).fPacketHasBeenRetransmit = x.fPacketHasBeenRetransmit := by
  split <;> exact ⟨rfl, rfl, rfl, rfl⟩

theorem onlyRequest_resend_step (s : AoEService) (ifp Tag : Nat) (flag : Bool) (cnt : Int)
    (tr tt : Nat) (nT : Int) (h : OnlyRequest s ifp Tag flag cnt)
    (hre : (RetransmitTimer s tr nT).m_to_send_queue ≠ []) :
    OnlyRequest (TransmitTimer (RetransmitTimer s tr nT) tt).state ifp Tag true
      (if flag then cnt else wrapS32 (cnt - 1)) := by
  obtain ⟨e, hs, hTag, hif, hflag, hq, hc⟩ := h
  have key := retransmitTimer_single s e tr nT hs
  by_cases h1 : e.RetransmitTime_us ≠ 0
  · by_cases h2 : e.TimeFirstSent ≠ 0 ∧ e.TimeSent ≠ 0
    · by_cases h3 : time_since_now_us tr e.TimeFirstSent > s.m_MaxTimeOutBeforeDrop
      · rw [if_pos h1, if_pos h2, if_pos h3] at key
        rw [key] at hre
        exact absurd hq hre
      · by_cases h4 : time_since_now_us tr e.TimeSent > e.RetransmitTime_us
        · rw [if_pos h1, if_pos h2, if_neg h3, if_pos h4] at key
          obtain ⟨r1, r2, r3, r4, r5, r6⟩ := resend_packet_fields
            { s with m_pInterfaces :=
                (s.m_pInterfaces.retransmit_adjust e.if_sent).decrementUnlessRetransmit e } e nT
          rw [key, transmitTimer_single_immediate _ _
            { mbuf := e.first_mbuf, if_sent := e.if_sent, Tag := e.Tag,
              nShelf := intToU32 (wrapS32 e.nShelf), fSendImmediately := true,
              pOutstandingCount := e.pOutstandingCount } tt rfl (by rw [r2, hq]; rfl) rfl r3]
          obtain ⟨f1, f2, f3, f4⟩ := stamp_fields (resend_packet
            { s with m_pInterfaces :=
                (s.m_pInterfaces.retransmit_adjust e.if_sent).decrementUnlessRetransmit e } e nT).2 tt
          refine ⟨_, rfl, f1.trans (r3.trans hTag), f2.trans (r4.trans hif), f4.trans r6, rfl, ?_⟩
          rw [f3, r5]
          have := counterIs_decrementUnlessRetransmit
            (counterIs_retransmit_adjust hc e.if_sent) e rfl
          rw [hflag] at this
          simp only [r1]
          exact counterIs_update_time this _ _
        · rw [if_pos h1, if_pos h2, if_neg h3, if_neg h4] at key
          rw [key] at hre
          exact absurd hq hre
    · rw [if_pos h1, if_neg h2] at key
      rw [key] at hre
      exact absurd hq hre
  · rw [if_neg h1] at key
    rw [key] at hre
    exact absurd hq hre

theorem MIN_le_left (x y : Int) : MIN x y ≤ x := by
  unfold MIN; split <;> omega

theorem get_cwnd_lt (s : EInterfaces) (i : Nat) : s.get_cwnd i < 2147483648 := by
  unfold EInterfaces.get_cwnd
  split
  · exact (wrapS32_range _).2
  · omega

theorem nMaxoutstanding_lt (s : AoEService) (p : ToSendPktQueue) :
    nMaxoutstanding s p < 2147483648 := by
  have h1 := MIN_le_left (MIN (s.m_pInterfaces.get_cwnd p.if_sent)
    (s.m_pInterfaces.get_max_outstanding p.if_sent (wrapS32 p.nShelf)))
    s.m_pInterfaces.m_nMaxUserWindow
  have h2 := MIN_le_left (s.m_pInterfaces.get_cwnd p.if_sent)
    (s.m_pInterfaces.get_max_outstanding p.if_sent (wrapS32 p.nShelf))
  have h3 := get_cwnd_lt s.m_pInterfaces p.if_sent
  unfold nMaxoutstanding
  simp only
  omega

theorem send_accepted_empty (s : AoEService) (ifp Tag : Nat) (m : List Nat) (nShelf : Int)
    (fRetransmit : Bool)
    (hs : s.m_sent_queue = []) (hq : s.m_to_send_queue = [])
    (hacc : (send_packet_on_interface s ifp Tag m nShelf fRetransmit).2 = 0) :
    s.m_pInterfaces.is_used ifp = 1 ∧
      ∃ e p, (send_packet_on_interface s ifp Tag m nShelf fRetransmit).1.m_sent_queue = [e] ∧
        (send_packet_on_interface s ifp Tag m nShelf fRetransmit).1.m_to_send_queue = [p] ∧
        (send_packet_on_interface s ifp Tag m nShelf fRetransmit).1.m_pInterfaces = s.m_pInterfaces ∧
        e.Tag = Tag ∧ e.if_sent = ifp ∧ e.fPacketHasBeenRetransmit = false ∧
        e.pOutstandingCount = indexFirst ifp s.m_pInterfaces.m_aInterfaces ∧
        p.Tag = Tag ∧ p.if_sent = ifp ∧ p.fSendImmediately = false ∧
        p.pOutstandingCount = indexFirst ifp s.m_pInterfaces.m_aInterfaces := by
  have hused : s.m_pInterfaces.is_used ifp = 1 := by
    by_contra hne
    unfold send_packet_on_interface at hacc
    rw [if_pos hne] at hacc
    simp at hacc
  refine ⟨hused, ?_⟩
  unfold send_packet_on_interface
  rw [if_neg (by simpa using hused)]
  refine ⟨{ first_mbuf := m, Tag := Tag, RetransmitTime_us := if fRetransmit then get_rto_us s.m_rto else 0,
             if_sent := ifp,
             fPacketHasBeenRetransmit := false, nShelf := intToU32 nShelf,
             pOutstandingCount := indexFirst ifp s.m_pInterfaces.m_aInterfaces,
             TimeSent := 0, TimeFirstSent := 0 },
    { mbuf := m, if_sent := ifp, Tag := Tag, nShelf := intToU32 nShelf,
      fSendImmediately := false,
      pOutstandingCount := indexFirst ifp s.m_pInterfaces.m_aInterfaces },
    ?_, ?_, rfl, rfl, rfl, rfl, rfl, rfl, rfl, rfl, rfl⟩
  · simp [add_to_send_queue, hs, EInterfaces.get_ptr_outstanding]
  · simp [add_to_send_queue, hq, EInterfaces.get_ptr_outstanding]

theorem onlyRequest_afterTransmit (s : AoEService) (ifp Tag : Nat) (m : List Nat) (nShelf : Int)
    (fRetransmit : Bool) (t0 : Nat) (c : Int) (hs : s.m_sent_queue = []) (hq : s.m_to_send_queue = [])
    (hc : s.m_pInterfaces.get_outstanding ifp = c) (h0 : 0 ≤ c)
    (hacc : (send_packet_on_interface s ifp Tag m nShelf fRetransmit).2 = 0)
    (hfr : (TransmitTimer (send_packet_on_interface s ifp Tag m nShelf fRetransmit).1 t0).frames ≠ []) :
    OnlyRequest (afterTransmit s ifp Tag m nShelf fRetransmit t0) ifp Tag false (c + 1) ∧
      c + 1 < 2147483648 := by
  obtain ⟨hused, e, p, h1, h2, h3, e1, e2, e3, e4, p1, p2, p3, p4⟩ :=
    send_accepted_empty s ifp Tag m nShelf fRetransmit hs hq hacc
  have hcnt : CounterIs s.m_pInterfaces.m_aInterfaces ifp
      (indexFirst ifp s.m_pInterfaces.m_aInterfaces) c := by
    refine ⟨rfl, ?_⟩
    unfold EInterfaces.is_used at hused
    unfold EInterfaces.get_outstanding at hc
    cases hl : lookupFirst ifp s.m_pInterfaces.m_aInterfaces with
    | none => rw [hl] at hused; simp at hused
    | some x => rw [hl] at hc; exact ⟨x, rfl, hc⟩
  obtain ⟨hA, hB⟩ := transmitTimer_single_normal
    (send_packet_on_interface s ifp Tag m nShelf fRetransmit).1 e p t0 h1 h2 p3 (e1.trans p1.symm)
  have hroom := hA.resolve_left hfr
  have hlt := nMaxoutstanding_lt (send_packet_on_interface s ifp Tag m nShelf fRetransmit).1 p
  unfold afterTransmit
  rw [hB hroom]
  rw [h3, p2, hc] at hroom
  have hw : wrapS32 (c + 1) = c + 1 := wrapS32_of_range _ (by omega) (by omega)
  obtain ⟨f1, f2, f3, f4⟩ := stamp_fields e t0
  refine ⟨⟨_, rfl, f1.trans e1, f2.trans e2, f4.trans e3, rfl, ?_⟩, by omega⟩
  rw [f3, e4]
  simp only [h3, p4, p2]
  have := counterIs_update_time (counterIs_increment hcnt) ifp t0
  rw [hw] at this
  exact this

theorem get_outstanding_of_counterIs {s : EInterfaces} {ifp idx : Nat} {cnt : Int}
    (h : CounterIs s.m_aInterfaces ifp idx cnt) : s.get_outstanding ifp = cnt := by
  obtain ⟨_, x, hx, hc⟩ := h
  unfold EInterfaces.get_outstanding
  rw [hx]
  exact hc

theorem cg_aoe_incoming_matched (s : AoEService) (now ifq : Nat) (pkt : IncomingPacket)
    (e : SentPktQueue) (rest : List SentPktQueue)
    (hresp : pkt.flags &&& AOE_FLAG_RESPONSE ≠ 0)
    (hfind : findTag pkt.tag s.m_sent_queue = some (e, rest)) :
    (cg_aoe_incoming s now ifq pkt).1.m_sent_queue = rest ∧
      (cg_aoe_incoming s now ifq pkt).1.m_to_send_queue = s.m_to_send_queue ∧
      (cg_aoe_incoming s now ifq pkt).1.m_pInterfaces =
        ((s.m_pInterfaces.decrementUnlessRetransmit e).resetIfNegative
          e.pOutstandingCount).ack_cwnd e.if_sent := by
  unfold cg_aoe_incoming
  rw [if_neg hresp]
  simp only [hfind, Option.isSome_some, true_or, if_true]
  refine ⟨?_, ?_, ?_⟩ <;> (split_ifs <;> rfl)

theorem onlyRequest_reply (s : AoEService) (ifp Tag : Nat) (flag : Bool) (cnt : Int)
    (now ifq : Nat) (pkt : IncomingPacket) (h : OnlyRequest s ifp Tag flag cnt)
    (hresp : pkt.flags &&& AOE_FLAG_RESPONSE ≠ 0) (htag : pkt.tag = Tag) :
    (cg_aoe_incoming s now ifq pkt).1.m_sent_queue = [] ∧
      (cg_aoe_incoming s now ifq pkt).1.m_to_send_queue = [] ∧
      (cg_aoe_incoming s now ifq pkt).1.m_pInterfaces.get_outstanding ifp =
        if (if flag then cnt else wrapS32 (cnt - 1)) < 0 then 0
        else (if flag then cnt else wrapS32 (cnt - 1)) := by
  obtain ⟨e, hs, hTag, hif, hflag, hq, hc⟩ := h
  have hfind : findTag pkt.tag s.m_sent_queue = some (e, []) := by
    rw [hs]
    simp [findTag, hTag, htag]
  have hcnt := counterIs_ack_cwnd (counterIs_resetIfNegative
    (counterIs_decrementUnlessRetransmit hc e rfl)) e.if_sent
  rw [hflag] at hcnt
  obtain ⟨m1, m2, m3⟩ := cg_aoe_incoming_matched s now ifq pkt e [] hresp hfind
  refine ⟨m1, m2.trans hq, ?_⟩
  rw [m3]
  exact get_outstanding_of_counterIs hcnt

theorem onlyRequest_drop (s : AoEService) (ifp Tag : Nat) (flag : Bool) (cnt : Int)
    (now : Nat) (nT : Int) (h : OnlyRequest s ifp Tag flag cnt)
    (hd : (RetransmitTimer s now nT).m_sent_queue = []) :
    (RetransmitTimer s now nT).m_pInterfaces.get_outstanding ifp =
      if flag then cnt else wrapS32 (cnt - 1) := by
  obtain ⟨e, hs, hTag, hif, hflag, hq, hc⟩ := h
  have hcnt := counterIs_decrementUnlessRetransmit hc e rfl
  rw [hflag] at hcnt
  have hout := get_outstanding_of_counterIs hcnt
  have key := retransmitTimer_single s e now nT hs
  by_cases h1 : e.RetransmitTime_us ≠ 0
  · by_cases h2 : e.TimeFirstSent ≠ 0 ∧ e.TimeSent ≠ 0
    · by_cases h3 : time_since_now_us now e.TimeFirstSent > s.m_MaxTimeOutBeforeDrop
      · rw [if_pos h1, if_pos h2, if_pos h3] at key
        rw [key]
        exact hout
      · by_cases h4 : time_since_now_us now e.TimeSent > e.RetransmitTime_us
        · rw [if_pos h1, if_pos h2, if_neg h3, if_pos h4] at key
          rw [key] at hd
          simp at hd
        · rw [if_pos h1, if_pos h2, if_neg h3, if_neg h4] at key
          rw [key, hs] at hd
          simp at hd
    · rw [if_pos h1, if_neg h2] at key
      rw [key, hs] at hd
      simp at hd
  · rw [if_neg h1] at key
    rw [key]
    exact hout

theorem onlyRequest_afterResends (ifp Tag : Nat) (nT : Int) (scans : List (Nat × Nat)) :
    ∀ (s : AoEService) (flag : Bool) (cnt : Int), OnlyRequest s ifp Tag flag cnt →
      ResendsHappen nT s scans →
      OnlyRequest (afterResends nT s scans) ifp Tag (flag || !scans.isEmpty)
        (if flag || scans.isEmpty then cnt else wrapS32 (cnt - 1)) := by
  induction scans with
  | nil =>
    intro s flag cnt h _
    simpa [afterResends] using h
  | cons a rest ih =>
    intro s flag cnt h hre
    obtain ⟨tr, tt⟩ := a
    obtain ⟨h1, h2⟩ := hre
    have hstep := onlyRequest_resend_step s ifp Tag flag cnt tr tt nT h h1
    have := ih _ true _ hstep h2
    simp only [afterResends, Bool.true_or, List.isEmpty_cons, Bool.not_false, Bool.or_true,
      if_true, Bool.or_false] at this ⊢
    cases flag <;> simpa using this
theorem get_outstanding_of_onlyRequest {s : AoEService} {ifp Tag : Nat} {flag : Bool} {cnt : Int}
    (h : OnlyRequest s ifp Tag flag cnt) : s.m_pInterfaces.get_outstanding ifp = cnt := by
  obtain ⟨e, _, _, _, _, _, hc⟩ := h
  exact get_outstanding_of_counterIs hc

/-- The request that is alone in the engine: a request is accepted by `send_packet_on_interface` while
both queues are empty and the counter of its link is `c >= 0`, is handed to
the interface by the next run of `TransmitTimer`, is resent by each of any
number of retransmit scans (each followed by a run of `TransmitTimer`), and
finally is answered or dropped by a scan.  Then the counter is `c + 1` after
the transmission, it is decremented by the first resending scan only (it is
`c` after the scans if there was one, still `c + 1` otherwise), and after the
reply or the drop it is `c` again, with both queues empty. -/
theorem outstanding_restored_isolated (s : AoEService) (ifp Tag : Nat) (m : List Nat)
    (nShelf : Int) (fRetransmit : Bool) (t0 : Nat) (scans : List (Nat × Nat)) (fin : RequestEnd)
    (nT c : Int)
    (hs : s.m_sent_queue = []) (hq : s.m_to_send_queue = [])
    (hc : s.m_pInterfaces.get_outstanding ifp = c) (h0 : 0 ≤ c)
    (hacc : (send_packet_on_interface s ifp Tag m nShelf fRetransmit).2 = 0)
    (hfr : (TransmitTimer (send_packet_on_interface s ifp Tag m nShelf fRetransmit).1 t0).frames
      ≠ [])
    (hre : ResendsHappen nT (afterTransmit s ifp Tag m nShelf fRetransmit t0) scans)
    (hend : EndHappens nT (afterResends nT (afterTransmit s ifp Tag m nShelf fRetransmit t0) scans)
      Tag fin) :
    (afterTransmit s ifp Tag m nShelf fRetransmit t0).m_pInterfaces.get_outstanding ifp = c + 1 ∧
      (afterResends nT (afterTransmit s ifp Tag m nShelf fRetransmit t0)
          scans).m_pInterfaces.get_outstanding ifp = (if scans.isEmpty then c + 1 else c) ∧
      (afterEnd nT (afterResends nT (afterTransmit s ifp Tag m nShelf fRetransmit t0) scans)
          fin).m_pInterfaces.get_outstanding ifp = c ∧
      (afterEnd nT (afterResends nT (afterTransmit s ifp Tag m nShelf fRetransmit t0) scans)
          fin).m_sent_queue = [] ∧
      (afterEnd nT (afterResends nT (afterTransmit s ifp Tag m nShelf fRetransmit t0) scans)
          fin).m_to_send_queue = [] := by
  obtain ⟨h1, hlt⟩ :=
    onlyRequest_afterTransmit s ifp Tag m nShelf fRetransmit t0 c hs hq hc h0 hacc hfr
  have h2 := onlyRequest_afterResends ifp Tag nT scans _ false (c + 1) h1 hre
  have hw : wrapS32 (c + 1 - 1) = c := by
    rw [Int.add_sub_cancel]
    exact wrapS32_of_range c (by omega) (by omega)
  rw [hw] at h2
  simp only [Bool.false_or] at h2
  refine ⟨get_outstanding_of_onlyRequest h1, ?_, ?_⟩
  · rw [get_outstanding_of_onlyRequest h2]
  · cases fin with
    | reply now ifq pkt =>
      obtain ⟨hresp, htag⟩ := hend
      obtain ⟨r1, r2, r3⟩ := onlyRequest_reply _ ifp Tag _ _ now ifq pkt h2 hresp htag
      refine ⟨?_, r1, r2⟩
      simp only [afterEnd]
      rw [r3]
      cases hse : scans.isEmpty
      · simp only [Bool.not_false, if_true, Bool.false_eq_true, if_false]
        rw [if_neg (by omega)]
      · simp only [Bool.not_true, Bool.false_eq_true, if_false, if_true, hw]
        rw [if_neg (by omega)]
    | drop now =>
      obtain ⟨hd1, hd2⟩ := hend
      refine ⟨?_, hd1, hd2⟩
      simp only [afterEnd]
      rw [onlyRequest_drop _ ifp Tag _ _ now nT h2 hd1]
      cases hse : scans.isEmpty
      · simp only [Bool.not_false, if_true, Bool.false_eq_true, if_false]
      · simp only [Bool.not_true, Bool.false_eq_true, if_false, if_true, hw]

theorem transmit_only_within_window_witness :
    (∀ q ∈ (afterTransmit readyService 1 5 [] 3 true 1000).m_to_send_queue, q.Tag ≠ 6) ∧
      ({ mbuf := [], if_sent := 1, Tag := 6, nShelf := 3, fSendImmediately := false,
          pOutstandingCount := 0 } : ToSendPktQueue) ∈
        (TransmitTimer
          (send_packet_on_interface (afterTransmit readyService 1 5 [] 3 true 1000)
            1 6 [] 3 true).1 2000).state.m_to_send_queue :=
  ⟨by decide,
    (transmit_only_within_window
      (send_packet_on_interface (afterTransmit readyService 1 5 [] 3 true 1000) 1 6 [] 3 true).1
      2000).2 _ (by decide) (by decide) (by decide)⟩

/-! ## Splitting a transfer into packets -/

theorem and_255 (x : Nat) : x &&& 255 = x % 256 :=
  Nat.and_pow_two_sub_one_eq_mod x 8

theorem and_65280_shr (x : Nat) : (x &&& 65280) >>> 8 = x / 256 % 256 := by
  have h : (x &&& 65280) >>> 8 = (x >>> 8) &&& 255 := by
    apply Nat.eq_of_testBit_eq
    intro j
    have e : (65280 : Nat) = 255 <<< 8 := by decide
    rw [e]
    simp only [Nat.testBit_shiftRight, Nat.testBit_and, Nat.testBit_shiftLeft]
    simp
  rw [h, Nat.shiftRight_eq_div_pow]
  exact and_255 _

theorem shr_and_255 (x k : Nat) : (x >>> k) &&& 255 = x / 2 ^ k % 256 := by
  rw [Nat.shiftRight_eq_div_pow]
  exact and_255 _

theorem or_eq_add (x y k : Nat) (hx : x % 2 ^ k = 0) (hy : y < 2 ^ k) : x ||| y = x + y := by
  have h := Nat.mul_add_lt_is_or hy (x / 2 ^ k)
  rw [Nat.mul_div_cancel' (Nat.dvd_of_mod_eq_zero hx)] at h
  exact h.symm

theorem intToU64_natCast (x : Nat) (h : x < 18446744073709551616) : intToU64 (x : Int) = x := by
  unfold intToU64
  omega

theorem intToU32_natCast (x : Nat) : intToU32 (x : Int) = x % 4294967296 := by
  unfold intToU32
  omega

theorem or_bytes6 (l0 l1 l2 l3 l4 l5 : Nat) (h0 : l0 < 256) (h1 : l1 < 256) (h2 : l2 < 256)
    (h3 : l3 < 256) (h4 : l4 < 256) :
    (l5 <<< 40) ||| (l4 <<< 32) ||| (l3 <<< 24) ||| (l2 <<< 16) ||| (l1 <<< 8) ||| (l0 <<< 0) =
      l0 + 256 * l1 + 65536 * l2 + 16777216 * l3 + 4294967296 * l4 + 1099511627776 * l5 := by
  have e5 : l5 <<< 40 = l5 * 1099511627776 := Nat.shiftLeft_eq _ _
  have e4 : l4 <<< 32 = l4 * 4294967296 := Nat.shiftLeft_eq _ _
  have e3 : l3 <<< 24 = l3 * 16777216 := Nat.shiftLeft_eq _ _
  have e2 : l2 <<< 16 = l2 * 65536 := Nat.shiftLeft_eq _ _
  have e1 : l1 <<< 8 = l1 * 256 := Nat.shiftLeft_eq _ _
  have e0 : l0 <<< 0 = l0 := Nat.shiftLeft_zero
  rw [e5, e4, e3, e2, e1, e0]
  rw [or_eq_add (l5 * 1099511627776) _ 40 (by omega) (by omega)]
  rw [or_eq_add (l5 * 1099511627776 + _) _ 32 (by omega) (by omega)]
  rw [or_eq_add (l5 * 1099511627776 + _ + _) _ 24 (by omega) (by omega)]
  rw [or_eq_add (l5 * 1099511627776 + _ + _ + _) _ 16 (by omega) (by omega)]
  rw [or_eq_add (l5 * 1099511627776 + _ + _ + _ + _) _ 8 (by omega) (by omega)]
  omega

theorem or_bytes2 (a b : Nat) (ha : a < 256) (hb : b < 256) :
    ((a <<< 8) ||| b) % 65536 = 256 * a + b := by
  have e : a <<< 8 = a * 256 := Nat.shiftLeft_eq _ _
  rw [e, or_eq_add _ _ 8 (by omega) (by omega)]
  omega

theorem or_bytes3 (a b c : Nat) (hb : b < 256) (hc : c < 256) :
    (a <<< 16) ||| (b <<< 8) ||| c = 65536 * a + 256 * b + c := by
  have e : a <<< 16 = a * 65536 := Nat.shiftLeft_eq _ _
  have e1 : b <<< 8 = b * 256 := Nat.shiftLeft_eq _ _
  rw [e, e1, or_eq_add (a * 65536) _ 16 (by omega) (by omega),
    or_eq_add (a * 65536 + _) _ 8 (by omega) (by omega)]
  omega
theorem increment_address_lba48 (e : IOExtendedLBA) (n : Nat) (hr : e.InRange)
    (h : e.lba48 + n < 281474976710656) :
    (increment_address e n).lba48 = e.lba48 + n ∧ (increment_address e n).InRange ∧
      (increment_address e n).sectorCount16 = e.sectorCount16 ∧
      (increment_address e n).features16 = e.features16 ∧
      (increment_address e n).device = e.device ∧
      (increment_address e n).command = e.command := by
  obtain ⟨h0, h1, h2⟩ := hr
  unfold IOExtendedLBA.lba48 at h
  have hA : (e.lbaHigh16 / 256 % 256) <<< 40 ||| (e.lbaMid16 / 256 % 256) <<< 32 |||
      (e.lbaLow16 / 256 % 256) <<< 24 ||| (e.lbaHigh16 % 256) <<< 16 |||
      (e.lbaMid16 % 256) <<< 8 ||| (e.lbaLow16 % 256) <<< 0 = e.lba48 := by
    rw [or_bytes6 _ _ _ _ _ _ (Nat.mod_lt _ (by decide)) (Nat.mod_lt _ (by decide))
      (Nat.mod_lt _ (by decide)) (Nat.mod_lt _ (by decide)) (Nat.mod_lt _ (by decide))]
    unfold IOExtendedLBA.lba48
    omega
  have hB : intToU64 ((e.lba48 : Int) + (n : Int)) = e.lba48 + n := by
    rw [← Nat.cast_add]
    apply intToU64_natCast
    unfold IOExtendedLBA.lba48
    omega
  unfold increment_address
  simp only [and_255, and_65280_shr, shr_and_255, hA, hB]
  have b : ∀ x : Nat, x % 256 < 256 := fun x => Nat.mod_lt _ (by decide)
  simp only [or_bytes2 _ _ (b _) (b _)]
  have hlt : e.lba48 + n < 281474976710656 := by unfold IOExtendedLBA.lba48; exact h
  generalize e.lba48 + n = A at hlt ⊢
  refine ⟨?_, ⟨?_, ?_, ?_⟩, ?_⟩
  · unfold IOExtendedLBA.lba48
    simp only
    omega
  · simp only; omega
  · simp only; omega
  · simp only; omega
  · simp only [and_self]


theorem append_write_loop_some (bs : Nat) (hbs : 1 ≤ bs) :
    ∀ (fuel xfr thisPass actual : Nat) (ext : Option (Nat × Nat)),
      thisPass ≤ fuel → thisPass < 4294967296 →
      ∃ a e, append_write_loop bs fuel xfr thisPass actual ext = some (a, e) ∧
        (e = none → ext = none ∧ thisPass = 0) := by
  intro fuel
  induction fuel with
  | zero =>
    intro xfr thisPass actual ext h _
    have h0 : thisPass = 0 := by omega
    subst h0
    exact ⟨actual, ext, by simp [append_write_loop], fun h => ⟨h, rfl⟩⟩
  | succ fuel ih =>
    intro xfr thisPass actual ext h hlt
    by_cases hp : thisPass > 0
    · have hle : u32sub thisPass (if thisPass > bs then bs else thisPass) ≤ fuel := by
        unfold u32sub; split <;> omega
      have hlt2 : u32sub thisPass (if thisPass > bs then bs else thisPass) < 4294967296 := by
        unfold u32sub; omega
      obtain ⟨a, e, he, hn⟩ := ih (u32add xfr (if thisPass > bs then bs else thisPass))
        (u32sub thisPass (if thisPass > bs then bs else thisPass))
        (u32add actual (if thisPass > bs then bs else thisPass))
        (some (xfr, if thisPass > bs then bs else thisPass)) hle hlt2
      refine ⟨a, e, ?_, ?_⟩
      · rw [append_write_loop, if_pos hp]
        exact he
      · intro h
        exact absurd (hn h).1 (by simp)
    · have h0 : thisPass = 0 := by omega
      subst h0
      exact ⟨actual, ext, by simp [append_write_loop], fun h => ⟨h, rfl⟩⟩

theorem append_write_data_some (c : AoEController) (cmd : IOATACommand)
    (hbs : 1 ≤ c.bufferSize) (hchunk : 1 ≤ cmd.transferChunkSize) :
    ∃ a data, append_write_data c cmd = some ({ cmd with actualTransfer := a }, data) := by
  unfold append_write_data
  by_cases h : u32sub cmd.byteCount cmd.actualTransfer < 1
  · exact ⟨cmd.actualTransfer, [], by simp [h]⟩
  · simp only [h, if_false]
    have hr : u32sub cmd.byteCount cmd.actualTransfer < 4294967296 := by unfold u32sub; omega
    have hpos : 0 < (if u32sub cmd.byteCount cmd.actualTransfer > cmd.transferChunkSize then
        cmd.transferChunkSize else u32sub cmd.byteCount cmd.actualTransfer) := by
      split <;> omega
    have hlt : (if u32sub cmd.byteCount cmd.actualTransfer > cmd.transferChunkSize then
        cmd.transferChunkSize else u32sub cmd.byteCount cmd.actualTransfer) < 4294967296 := by
      split <;> omega
    obtain ⟨a, e, he, hn⟩ := append_write_loop_some c.bufferSize hbs _
      (u32add cmd.position cmd.actualTransfer) _ cmd.actualTransfer none (le_refl _) hlt
    rw [he]
    cases e with
    | none => exact absurd (hn rfl).2 (by omega)
    | some p => exact ⟨a, _, rfl⟩

theorem packet_lba_extended (e : IOExtendedLBA) :
    (e.lbaLow16 &&& 255) % 256 + 256 * ((e.lbaMid16 &&& 255) % 256) +
      65536 * ((e.lbaHigh16 &&& 255) % 256) +
      16777216 * (((e.lbaLow16 &&& 65280) >>> 8) % 256) +
      4294967296 * (((e.lbaMid16 &&& 65280) >>> 8) % 256) +
      1099511627776 * (((e.lbaHigh16 &&& 65280) >>> 8) % 256) = e.lba48 := by
  simp only [and_255, and_65280_shr, IOExtendedLBA.lba48, Nat.mod_mod]

theorem append_write_data_congr (c c1 : AoEController) (cmd : IOATACommand)
    (h1 : c1.bufferSize = c.bufferSize) (h2 : c1.doubleBuffer = c.doubleBuffer) :
    append_write_data c1 cmd = append_write_data c cmd := by
  unfold append_write_data
  rw [h1, h2]

theorem issueCommand_extended (c : AoEController) (cmd : IOATACommand)
    (hcmd : c.currentCommand = some cmd) (hext : is_extended_command cmd = true)
    (hw : cmd.flagIOWrite = true → 1 ≤ c.bufferSize ∧ 1 ≤ cmd.transferChunkSize) :
    ∃ a pkt, issueCommand c = some ({ c with
        m_nCurrentTag := next_tag c.m_nCurrentTag
        m_unReadBaseTag := if c.m_unReadBaseTag = 0 then next_tag c.m_nCurrentTag
          else c.m_unReadBaseTag
        currentCommand := some { cmd with actualTransfer := a } }, [pkt], IOReturn.kATANoErr) ∧
      pkt.lba = cmd.extLBA.lba48 := by
  unfold issueCommand
  rw [hcmd]
  simp only [hext, if_true]
  by_cases hwr : cmd.flagIOWrite = true
  · obtain ⟨hbs, hch⟩ := hw hwr
    obtain ⟨a, data, ha⟩ := append_write_data_some c cmd hbs hch
    rw [if_pos hwr]
    rw [append_write_data_congr c _ cmd (by split <;> rfl) (by split <;> rfl), ha]
    by_cases hb : c.m_unReadBaseTag = 0
    · rw [if_pos hb, if_pos hb]
      exact ⟨a, _, rfl, packet_lba_extended cmd.extLBA⟩
    · rw [if_neg hb, if_neg hb]
      exact ⟨a, _, rfl, packet_lba_extended cmd.extLBA⟩
  · rw [if_neg hwr]
    by_cases hb : c.m_unReadBaseTag = 0
    · rw [if_pos hb, if_pos hb]
      exact ⟨cmd.actualTransfer, _, rfl, packet_lba_extended cmd.extLBA⟩
    · rw [if_neg hb, if_neg hb]
      exact ⟨cmd.actualTransfer, _, rfl, packet_lba_extended cmd.extLBA⟩

theorem issue_extended_step (c : AoEController) (w : Bool) (chunk bs A k : Nat) (r : Int)
    (h : ExtIssuing c w chunk bs A r) (hw : w = true → 1 ≤ bs ∧ 1 ≤ chunk)
    (hA : A + k < 281474976710656) :
    ∃ c1 pkt, issue_extended c k = some (c1, [pkt], IOReturn.kATANoErr) ∧ pkt.lba = A ∧
      ExtIssuing c1 w chunk bs (A + k) r := by
  obtain ⟨cmd, hcmd, hext, hwf, hch, hbs, hr, hlba, hrep⟩ := h
  have h0 : (c.onExtLBA fun e => { e with sectorCount16 := k % 65536 }).currentCommand =
      some { cmd with extLBA := { cmd.extLBA with sectorCount16 := k % 65536 } } := by
    simp [AoEController.onExtLBA, hcmd]
  obtain ⟨a, pkt, hi, hp⟩ := issueCommand_extended _ _ h0 hext (by
    intro hwt
    have := hw (hwf ▸ hwt)
    exact ⟨hbs ▸ this.1, hch ▸ this.2⟩)
  have hinc := increment_address_lba48 { cmd.extLBA with sectorCount16 := k % 65536 } k hr
    (by rw [← hlba] at hA; exact hA)
  refine ⟨_, pkt, (by unfold issue_extended; rw [hi]), ?_, ?_⟩
  · rw [hp]; exact hlba
  · refine ⟨{ cmd with
        actualTransfer := a
        extLBA := increment_address { cmd.extLBA with sectorCount16 := k % 65536 } k },
      ?_, hext, hwf, hch, hbs, hinc.2.1, ?_, hrep⟩
    · simp only [AoEController.onExtLBA, Option.map_some']
    · rw [hinc.1]; rw [← hlba]; rfl

theorem issue_extended_loop (w : Bool) (chunk bs k : Nat) (r : Int)
    (hw : w = true → 1 ≤ bs ∧ 1 ≤ chunk) :
    ∀ (n : Nat) (c : AoEController) (A : Nat) (err : Option IOReturn),
      ExtIssuing c w chunk bs A r → A + n * k < 281474976710656 →
      ∃ c1 pkts, issue_loop (fun c => issue_extended c k) n c err =
          some (c1, pkts, if n = 0 then err else some IOReturn.kATANoErr) ∧
        pkts.map AtaPacket.lba = (List.range n).map (fun i => A + i * k) ∧
        ExtIssuing c1 w chunk bs (A + n * k) r := by
  intro n
  induction n with
  | zero =>
    intro c A err h _
    exact ⟨c, [], by simp [issue_loop], by simp, by simpa using h⟩
  | succ n ih =>
    intro c A err h hA
    have hk : A + k < 281474976710656 := by
      have : (n + 1) * k = n * k + k := by ring
      omega
    obtain ⟨c1, pkt, h1, hp, hI⟩ := issue_extended_step c w chunk bs A k r h hw hk
    have hA2 : A + k + n * k < 281474976710656 := by
      have : (n + 1) * k = n * k + k := by ring
      omega
    obtain ⟨c2, pkts, h2, hps, hI2⟩ := ih c1 (A + k) (some IOReturn.kATANoErr) hI hA2
    refine ⟨c2, pkt :: pkts, ?_, ?_, ?_⟩
    · rw [issue_loop]
      simp only [h1, h2]
      by_cases hn : n = 0 <;> simp [hn]
    · rw [List.map_cons, hps, hp, List.range_succ_eq_map, List.map_cons, List.map_map]
      simp only [Nat.zero_mul, Nat.add_zero, List.cons.injEq, true_and]
      apply List.map_congr_left
      intro i _
      simp only [Function.comp, Nat.succ_eq_add_one]
      ring
    · have : A + (n + 1) * k = A + k + n * k := by ring
      rw [this]; exact hI2

theorem extIssuing_replies (c : AoEController) (w : Bool) (chunk bs A : Nat) (r r1 : Int)
    (h : ExtIssuing c w chunk bs A r) :
    ExtIssuing { c with m_nReadWriteRepliesRequired := r1 } w chunk bs A r1 := by
  obtain ⟨cmd, hcmd, hext, hwf, hch, hbs, hr, hlba, _⟩ := h
  exact ⟨cmd, hcmd, hext, hwf, hch, hbs, hr, hlba, rfl⟩

theorem bytes_per_packet (k : Nat) (hk : k < 65536) :
    intToU32 (wrapS32 ((kATADefaultSectorSize : Int) * (k : Int))) = 512 * k := by
  unfold intToU32 wrapS32 kATADefaultSectorSize
  omega

theorem left_over (K k : Nat) (hK : K < 65536) (hk : k < 65536) :
    u32sub (512 * K) (intToU32 (wrapS32 (((K / k : Nat) : Int) *
      wrapS32 ((kATADefaultSectorSize : Int) * (k : Int))))) = 512 * (K % k) := by
  have h1 : K / k * k + K % k = K := Nat.div_add_mod' K k
  have h3 : wrapS32 ((kATADefaultSectorSize : Int) * (k : Int)) = 512 * (k : Int) := by
    unfold wrapS32 kATADefaultSectorSize
    omega
  rw [h3]
  have h4 : ((K / k : Nat) : Int) * (512 * (k : Int)) = 512 * ((K / k * k : Nat) : Int) := by
    rw [Nat.cast_mul]; ring
  rw [h4]
  generalize K / k * k = P at h1
  generalize K % k = m at h1
  have h5 : wrapS32 (512 * (P : Int)) = 512 * (P : Int) := by
    unfold wrapS32; omega
  rw [h5]
  have h6 : intToU32 (512 * (P : Int)) = 512 * P := by
    unfold intToU32; omega
  rw [h6]
  unfold u32sub
  omega

theorem ceil_packets (K k : Nat) (hk : 1 ≤ k) :
    (512 * K + 512 * k - 1) / (512 * k) = K / k + if K % k = 0 then 0 else 1 := by
  have h1 : K / k * k + K % k = K := Nat.div_add_mod' K k
  have h2 : K % k < k := Nat.mod_lt _ hk
  apply Nat.div_eq_of_lt_le
  · have e : (K / k + if K % k = 0 then 0 else 1) * (512 * k) =
        512 * (K / k * k) + (if K % k = 0 then 0 else 1) * (512 * k) := by ring
    rw [e]
    generalize K / k * k = P at h1
    split <;> omega
  · have e : (K / k + (if K % k = 0 then 0 else 1)).succ * (512 * k) =
        512 * (K / k * k) + (if K % k = 0 then 0 else 1) * (512 * k) + 512 * k := by
      rw [Nat.succ_eq_add_one]; ring
    rw [e]
    generalize K / k * k = P at h1
    split <;> omega

theorem split_transfer_extended (c : AoEController) (w : Bool) (chunk bs A K k : Nat) (r : Int)
    (h : ExtIssuing c w chunk bs A r) (hw : w = true → 1 ≤ bs ∧ 1 ≤ chunk)
    (hk : 1 ≤ k) (hkK : k ≤ K) (hK : K < 65536) (hA : A + K < 281474976710656) :
    ∃ c1 pkts, split_transfer issue_extended c (512 * K) K k =
        some (c1, pkts, some IOReturn.kATANoErr) ∧
      pkts.map AtaPacket.lba =
        (List.range (K / k + if K % k = 0 then 0 else 1)).map (fun i => A + i * k) ∧
      ExtIssuing c1 w chunk bs (A + K) ((K / k + if K % k = 0 then 0 else 1 : Nat) : Int) := by
  have h1 : K / k * k + K % k = K := Nat.div_add_mod' K k
  have h2 : K % k < k := Nat.mod_lt _ hk
  have hq : 1 ≤ K / k := Nat.div_pos hkK hk
  have hrep : (if (1 : Int) > ((K / k : Nat) : Int) then (1 : Int) else ((K / k : Nat) : Int)) =
      ((K / k : Nat) : Int) := by
    rw [if_neg]; omega
  have hc0 := extIssuing_replies c w chunk bs A r ((K / k : Nat) : Int) h
  obtain ⟨c1, pkts, hl, hp, hI⟩ := issue_extended_loop w chunk bs k _ hw (K / k)
    _ A none hc0 (by omega)
  have hr1 : c1.m_nReadWriteRepliesRequired = ((K / k : Nat) : Int) := by
    obtain ⟨_, _, _, _, _, _, _, _, hx⟩ := hI
    exact hx
  unfold split_transfer
  rw [if_neg (by omega : ¬ k = 0)]
  simp only [hrep, bytes_per_packet k (by omega)]
  rw [if_neg (by omega : ¬ 512 * k = 0), Nat.mul_div_mul_left K k (by norm_num : 0 < 512), hl]
  simp only [hr1, left_over K k hK (by omega)]
  by_cases hm : K % k = 0
  · simp only [hm, Nat.mul_zero, ne_eq, not_true_eq_false, if_false, Nat.add_zero] at hp hI ⊢
    refine ⟨c1, pkts, ?_, hp, ?_⟩
    · rw [if_neg (by omega : ¬ K / k = 0)]
    · have e : A + K / k * k = A + K := by omega
      rw [e] at hI; exact hI
  · have hm2 : 512 * (K % k) / kATADefaultSectorSize = K % k := by
      unfold kATADefaultSectorSize; omega
    have hc1 := extIssuing_replies c1 w chunk bs _ _
      (wrapS32 (((K / k : Nat) : Int) + 1)) hI
    obtain ⟨c2, pkt, hs, hpl, hI2⟩ := issue_extended_step _ w chunk bs _ (K % k) _ hc1 hw
      (by omega)
    rw [if_pos (by omega : 512 * (K % k) ≠ 0)]
    simp only [hm2]
    rw [if_pos (by omega : K % k > 0), hs]
    refine ⟨c2, pkts ++ [pkt], rfl, ?_, ?_⟩
    · rw [if_neg hm, List.map_append, hp, List.range_succ, List.map_append]
      simp [hpl]
    · rw [if_neg hm]
      have e : A + K / k * k + K % k = A + K := by omega
      have e2 : wrapS32 (((K / k : Nat) : Int) + 1) = ((K / k + 1 : Nat) : Int) := by
        unfold wrapS32
        have : K / k ≤ K := Nat.div_le_self _ _
        omega
      rw [e, e2] at hI2; exact hI2
/-- C9: for an extended read or write of `K >= 1` sectors (byte count `512 * K`,
sector-count register `K`, opcode one of the four read/write opcodes or their
DMA forms), with `S` sectors per packet, chunk size
`c = min (S * 512) (512 * K) >= 512` and a start address with
`start + K < 2^48`, `asyncCommand` returns without error having issued
exactly `ceil (512 * K / c)` packets, it leaves that number as the count of
expected replies, and packet `i` carries the address `start + i * (c / 512)`,
so that the addresses are strictly increasing. -/
theorem asyncCommand_extended_packets (c : AoEController) (cmd : IOATACommand) (K S start : Nat)
    (hcmd : c.currentCommand = some cmd)
    (hif : c.nNumberOfInterfaces ≠ 0)
    (hext : is_extended_command cmd = true)
    (hrw : translate_dma cmd.extLBA.command = kATAcmdReadExtended ∨
      translate_dma cmd.extLBA.command = kATAcmdRead ∨
      translate_dma cmd.extLBA.command = kATAcmdWrite ∨
      translate_dma cmd.extLBA.command = kATAcmdWriteExtended)
    (hK : 1 ≤ K) (hK16 : K < 65536)
    (hbytes : cmd.byteCount = 512 * K) (hcount : cmd.extLBA.sectorCount16 = K)
    (hS : c.m_nMaxSectorsPerTransfer = S) (hS1 : 512 ≤ min (S * 512) (512 * K))
    (hS2 : S * 512 < 2147483648)
    (hregs : cmd.extLBA.InRange) (hstart : cmd.extLBA.lba48 = start)
    (hend : start + K < 281474976710656)
    (hbuf : cmd.flagIOWrite = true → 1 ≤ c.bufferSize) :
    ∃ c1 pkts, asyncCommand c = some (c1, pkts, IOReturn.kATANoErr) ∧
      pkts.length = (512 * K + min (S * 512) (512 * K) - 1) / min (S * 512) (512 * K) ∧
      c1.m_nReadWriteRepliesRequired = pkts.length ∧
      pkts.map AtaPacket.lba =
        (List.range pkts.length).map (fun i => start + i * (min (S * 512) (512 * K) / 512)) ∧
      (pkts.map AtaPacket.lba).Pairwise (· < ·) := by
  have hmin : min (S * 512) (512 * K) = 512 * min S K := by omega
  have hk1 : 1 ≤ min S K := by omega
  have hkK : min S K ≤ K := by omega
  have hmax : wrapS32 (c.m_nMaxSectorsPerTransfer * (kATADefaultSectorSize : Int)) =
      ((S * 512 : Nat) : Int) := by
    rw [hS]; unfold wrapS32 kATADefaultSectorSize; push_cast; omega
  have hchunk : (if intToU32 (((S * 512 : Nat) : Int)) < 512 * K then
      intToU32 (((S * 512 : Nat) : Int)) else 512 * K) = 512 * min S K := by
    rw [intToU32_natCast]
    split <;> omega
  have hnum : 512 * min S K / kATADefaultSectorSize = min S K := by
    unfold kATADefaultSectorSize; omega
  have hw : cmd.flagIOWrite = true → 1 ≤ c.bufferSize ∧ 1 ≤ 512 * min S K :=
    fun h => ⟨hbuf h, by omega⟩
  have fin : ∀ (X : Option (AoEController × List AtaPacket × Option IOReturn)) (c0 : AoEController),
      X = split_transfer issue_extended c0 (512 * K) K (min S K) →
      ExtIssuing c0 cmd.flagIOWrite (512 * min S K) c.bufferSize start
        c0.m_nReadWriteRepliesRequired →
      ∃ c1 pkts, X = some (c1, pkts, some IOReturn.kATANoErr) ∧
        pkts.map AtaPacket.lba =
          (List.range (K / min S K + if K % min S K = 0 then 0 else 1)).map
            (fun i => start + i * min S K) ∧
        c1.m_nReadWriteRepliesRequired =
          ((K / min S K + if K % min S K = 0 then 0 else 1 : Nat) : Int) := by
    intro X c0 hX hE
    obtain ⟨c1, pkts, h1, h2, h3⟩ := split_transfer_extended c0 _ _ _ _ K (min S K) _ hE hw
      hk1 hkK hK16 hend
    obtain ⟨_, _, _, _, _, _, _, _, h4⟩ := h3
    exact ⟨c1, pkts, hX.trans h1, h2, h4⟩
  have hext2 : ∀ b t, is_extended_command { cmd with byteCount := b, transferChunkSize := t } =
      true := fun _ _ => hext
  unfold asyncCommand
  rw [hcmd]
  simp only [hif, if_false, hmax, hbytes, hchunk, hnum, hext2, if_true, hrw, hcount]
  generalize hX : split_transfer issue_extended _ _ _ _ = X
  obtain ⟨c1, pkts, h1, h2, h3⟩ := fin X _ hX.symm
    ⟨_, rfl, hext, rfl, rfl, (by split <;> rfl), hregs, hstart, rfl⟩
  subst h1
  clear hX fin
  have hlen : pkts.length = K / min S K + if K % min S K = 0 then 0 else 1 := by
    have := congrArg List.length h2
    simpa using this
  have hdiv : 512 * min S K / 512 = min S K := by omega
  simp only [ne_eq, not_true_eq_false, if_false]
  refine ⟨_, pkts, rfl, ?_, ?_, ?_, ?_⟩
  · rw [hlen, hmin, ceil_packets K (min S K) hk1]
  · simp only
    rw [h3, hlen]
  · rw [h2, hlen, hmin, hdiv]
  · rw [h2]
    refine List.Pairwise.map _ ?_ (List.pairwise_lt_range _)
    intro a b hab
    have : a * min S K < b * min S K := Nat.mul_lt_mul_of_pos_right hab hk1
    omega

theorem asyncCommand_extended_packets_witness :
    is_extended_command exampleWrite = true ∧
      ∃ c1 pkts, asyncCommand (exampleController exampleWrite) =
          some (c1, pkts, IOReturn.kATANoErr) ∧
        pkts.length = (512 * 5 + min (2 * 512) (512 * 5) - 1) / min (2 * 512) (512 * 5) ∧
        c1.m_nReadWriteRepliesRequired = pkts.length ∧
        pkts.map AtaPacket.lba =
          (List.range pkts.length).map (fun i => 16842750 + i * (min (2 * 512) (512 * 5) / 512)) ∧
        (pkts.map AtaPacket.lba).Pairwise (· < ·) :=
  ⟨by decide,
    asyncCommand_extended_packets (exampleController exampleWrite) exampleWrite 5 2 16842750
      rfl (by decide) (by decide) (by decide) (by decide) (by decide) rfl rfl rfl (by decide)
      (by decide) ⟨by decide, by decide, by decide⟩ (by decide) (by decide) (by decide)⟩

/-! ## Reassembly of a read -/

theorem writeBytes_length (buf : List Nat) (p : Nat) (bytes : List Nat) (len : Nat) :
    (writeBytes buf p bytes len).length = buf.length := by
  simp [writeBytes]

theorem writeBytes_getD (buf : List Nat) (p : Nat) (bytes : List Nat) (len j : Nat)
    (hj : j < buf.length) :
    (writeBytes buf p bytes len).getD j 0 =
      if p ≤ j ∧ j - p < len ∧ j - p < bytes.length then bytes.getD (j - p) 0
      else buf.getD j 0 := by
  unfold writeBytes
  rw [List.getD_eq_getElem _ _ (by simpa using hj)]
  simp

theorem ext_getD (l1 l2 : List Nat) (hl : l1.length = l2.length)
    (h : ∀ j, j < l1.length → l1.getD j 0 = l2.getD j 0) : l1 = l2 := by
  apply List.ext_getElem hl
  intro j h1 h2
  have := h j h1
  rwa [List.getD_eq_getElem _ _ h1, List.getD_eq_getElem _ _ h2] at this

theorem writeBytes_nil (buf : List Nat) (p : Nat) : writeBytes buf p [] 0 = buf := by
  apply ext_getD _ _ (writeBytes_length _ _ _ _)
  intro j hj
  rw [writeBytes_length] at hj
  rw [writeBytes_getD _ _ _ _ _ hj]
  simp

theorem writeBytes_append (buf : List Nat) (p : Nat) (A B : List Nat) :
    writeBytes (writeBytes buf p A A.length) (p + A.length) B B.length =
      writeBytes buf p (A ++ B) (A.length + B.length) := by
  apply ext_getD
  · simp [writeBytes_length]
  · intro j hj
    simp only [writeBytes_length] at hj
    rw [writeBytes_getD _ _ _ _ _ (by simpa [writeBytes_length] using hj),
      writeBytes_getD _ _ _ _ _ hj, writeBytes_getD _ _ _ _ _ hj]
    by_cases h1 : p + A.length ≤ j ∧ j - (p + A.length) < B.length
    · rw [if_pos ⟨h1.1, h1.2, h1.2⟩, if_pos ⟨by omega, by omega, by simp; omega⟩]
      rw [List.getD_append_right _ _ _ _ (by omega)]
      congr 1
      omega
    · rw [if_neg (by tauto)]
      by_cases h2 : p ≤ j ∧ j - p < A.length
      · rw [if_pos ⟨h2.1, h2.2, h2.2⟩, if_pos ⟨h2.1, by omega, by simp; omega⟩]
        rw [List.getD_append _ _ _ _ h2.2]
      · rw [if_neg (by tauto), if_neg]
        simp only [List.length_append]
        omega

theorem copy_received_exact (M : Int) (rem xfr : Nat) (cmd : IOATACommand) (bytes : List Nat)
    (hM0 : (bytes.length : Int) ≤ M) (hM : M < 2147483648) (hrem : bytes.length ≤ rem)
    (hrem2 : rem < 4294967296) (hx : xfr + bytes.length < 4294967296)
    (ha : cmd.actualTransfer + bytes.length < 4294967296) :
    copy_received bytes.length bytes (M, rem, xfr, cmd) =
      (M - bytes.length, rem - bytes.length, xfr + bytes.length,
        { cmd with
          buffer := writeBytes cmd.buffer xfr bytes bytes.length
          actualTransfer := cmd.actualTransfer + bytes.length }) := by
  have e1 : (if intToU32 M < bytes.length then intToU32 M else bytes.length) = bytes.length := by
    rw [if_neg]; unfold intToU32; omega
  have e2 : (if rem < bytes.length then rem else bytes.length) = bytes.length := by
    rw [if_neg]; omega
  have e3 : wrapS32 (M - (bytes.length : Int)) = M - bytes.length := by
    unfold wrapS32; omega
  have e4 : u32sub rem bytes.length = rem - bytes.length := by unfold u32sub; omega
  have e5 : u32add xfr bytes.length = xfr + bytes.length := by unfold u32add; omega
  have e6 : u32add cmd.actualTransfer bytes.length = cmd.actualTransfer + bytes.length := by
    unfold u32add; omega
  simp only [copy_received, e1, e2, e3, e4, e5, e6]

theorem copy_chained_exact (bs : Nat) :
    ∀ (segs : List (List Nat)) (M : Int) (rem xfr : Nat) (cmd : IOATACommand),
      (segs.flatten.length : Int) ≤ M → M < 2147483648 → segs.flatten.length ≤ rem →
      rem < 4294967296 → xfr + segs.flatten.length < 4294967296 →
      cmd.actualTransfer + segs.flatten.length < 4294967296 →
      (∀ s ∈ segs, s.length ≤ bs) →
      copy_chained bs segs (M, rem, xfr, cmd) =
        (M - segs.flatten.length, rem - segs.flatten.length, xfr + segs.flatten.length,
          { cmd with
            buffer := writeBytes cmd.buffer xfr segs.flatten segs.flatten.length
            actualTransfer := cmd.actualTransfer + segs.flatten.length }) := by
  intro segs
  induction segs with
  | nil =>
    intro M rem xfr cmd _ _ _ _ _ _ _
    simp [copy_chained, writeBytes_nil]
  | cons s rest ih =>
    intro M rem xfr cmd hM0 hM hrem hrem2 hx ha hbs
    have hl : (s :: rest).flatten.length = s.length + rest.flatten.length := by simp
    rw [hl] at hM0 hrem hx ha ⊢
    have hs : s.length ≤ bs := hbs s (List.mem_cons_self _ _)
    have e1 : s.length % 4294967296 = s.length := by omega
    have e2 : (if s.length > bs then bs else s.length) = s.length := by rw [if_neg]; omega
    rw [copy_chained]
    simp only [e1, e2]
    rw [copy_received_exact M rem xfr cmd s (by omega) hM (by omega) hrem2 (by omega) (by omega)]
    rw [ih (M - s.length) (rem - s.length) (xfr + s.length) _ (by omega) (by omega)
      (by omega) (by omega) (by omega) (by simp only; omega)
      (fun t ht => hbs t (List.mem_cons_of_mem _ ht))]
    simp only [writeBytes_append, List.flatten_cons]
    refine Prod.ext ?_ (Prod.ext ?_ (Prod.ext ?_ ?_))
    · simp only; push_cast; omega
    · simp only; omega
    · simp only; omega
    · simp only [Nat.add_assoc]

theorem completeDataRead_chunk (c : AoEController) (cmd : IOATACommand) (header : List Nat)
    (p : Nat) (f : Bool)
    (hcmd : c.currentCommand = some cmd) (hh : c.m_pReceivedATAHeader = some header)
    (hsize : c.m_unReceivedATADataSize = (header.drop 12).length)
    (hw : cmd.flagIOWrite = false)
    (hpos : u32mul (u32sub c.m_unReceivedTag c.m_unReadBaseTag) cmd.transferChunkSize = p)
    (h1 : 1 ≤ (header.drop 12 ++ c.m_ReceivedMBufCont.flatten).length)
    (hch : (header.drop 12 ++ c.m_ReceivedMBufCont.flatten).length ≤ cmd.transferChunkSize)
    (hM0 : 0 ≤ c.m_nMaxSectorsPerTransfer) (hM : c.m_nMaxSectorsPerTransfer * 512 < 2147483648)
    (hMc : (cmd.transferChunkSize : Int) ≤ c.m_nMaxSectorsPerTransfer * 512)
    (hbs : cmd.transferChunkSize ≤ c.bufferSize)
    (hrem : cmd.actualTransfer + (header.drop 12 ++ c.m_ReceivedMBufCont.flatten).length ≤
      cmd.byteCount)
    (hB : cmd.byteCount < 4294967296)
    (hp : p + (header.drop 12 ++ c.m_ReceivedMBufCont.flatten).length < 4294967296) :
    completeDataRead c false f =
      some ({ c with
          m_ReceivedMBufCont := []
          currentCommand := some { cmd with
            buffer := writeBytes cmd.buffer p (header.drop 12 ++ c.m_ReceivedMBufCont.flatten)
              (header.drop 12 ++ c.m_ReceivedMBufCont.flatten).length
            actualTransfer := cmd.actualTransfer +
              (header.drop 12 ++ c.m_ReceivedMBufCont.flatten).length
            state := if c.m_nReadWriteRepliesRequired ≠ 0 then ATAState.kATADataTx
              else ATAState.kATAStatus } },
        IOReturn.kATANoErr, decide (c.m_nReadWriteRepliesRequired = 0)) := by
  rw [List.length_append] at h1 hch hrem hp
  have hmax : wrapS32 (c.m_nMaxSectorsPerTransfer * (kATADefaultSectorSize : Int)) =
      c.m_nMaxSectorsPerTransfer * 512 := by
    unfold wrapS32 kATADefaultSectorSize; push_cast; omega
  have hr : u32sub cmd.byteCount cmd.actualTransfer = cmd.byteCount - cmd.actualTransfer := by
    unfold u32sub; omega
  have hr1 : ¬ cmd.byteCount - cmd.actualTransfer < 1 := by omega
  have hpass : (if cmd.byteCount - cmd.actualTransfer > cmd.transferChunkSize then
      cmd.transferChunkSize else cmd.byteCount - cmd.actualTransfer) > 0 := by
    split <;> omega
  unfold completeDataRead
  rw [hcmd]
  simp only [hmax, hr, hr1, if_false, hh, hw, Bool.false_eq_true, hpos, hpass, if_true, hsize]
  rw [copy_received_exact _ _ p cmd (header.drop 12) (by omega) hM (by omega) (by omega)
    (by omega) (by omega)]
  rw [copy_chained_exact c.bufferSize c.m_ReceivedMBufCont _ _ _ _ (by omega) (by omega)
    (by omega) (by omega) (by omega) (by simp only; omega) (by
      intro s hs
      have : s.length ≤ c.m_ReceivedMBufCont.flatten.length := by
        rw [List.length_flatten]
        exact List.single_le_sum (by simp) _ (List.mem_map_of_mem _ hs)
      omega)]
  simp only [writeBytes_append]
  by_cases hz : c.m_nReadWriteRepliesRequired = 0
  · simp [hz, Nat.add_assoc, hw]
  · simp [hz, Nat.add_assoc, hw]


theorem chunkOf_length (D : List Nat) (c i : Nat) :
    (chunkOf D c i).length = min c (D.length - i * c) := by
  simp [chunkOf]

theorem chunkOf_getD (D : List Nat) (c i m : Nat) (hm : m < (chunkOf D c i).length) :
    (chunkOf D c i).getD m 0 = D.getD (i * c + m) 0 := by
  rw [chunkOf_length] at hm
  unfold chunkOf
  rw [List.getD_eq_getElem?_getD, List.getD_eq_getElem?_getD, List.getElem?_take_of_lt (by omega),
    List.getElem?_drop]

theorem div_eq_of_chunk (c i j : Nat) (h1 : i * c ≤ j) (h2 : j < i * c + c) : j / c = i := by
  apply Nat.div_eq_of_lt_le h1
  rw [Nat.succ_mul]; exact h2

theorem chunk_of_div (c j : Nat) (hc : 1 ≤ c) : j / c * c ≤ j ∧ j < j / c * c + c :=
  ⟨Nat.div_mul_le_self j c, Nat.lt_div_mul_add hc⟩

theorem overlay_length (init D : List Nat) (c : Nat) (done : List Nat) :
    (overlay init D c done).length = init.length := by
  simp [overlay]

theorem overlay_getD (init D : List Nat) (c : Nat) (done : List Nat) (j : Nat)
    (hj : j < init.length) :
    (overlay init D c done).getD j 0 =
      if j < D.length ∧ j / c ∈ done then D.getD j 0 else init.getD j 0 := by
  unfold overlay
  rw [List.getD_eq_getElem _ _ (by simpa using hj)]
  simp

theorem overlay_nil (init D : List Nat) (c : Nat) : overlay init D c [] = init := by
  apply ext_getD _ _ (overlay_length _ _ _ _)
  intro j hj
  rw [overlay_length] at hj
  rw [overlay_getD _ _ _ _ _ hj]
  simp

theorem overlay_congr (init D : List Nat) (c : Nat) (l1 l2 : List Nat)
    (h : ∀ x, x ∈ l1 ↔ x ∈ l2) : overlay init D c l1 = overlay init D c l2 := by
  unfold overlay
  simp only [h]

theorem writeBytes_overlay (init D : List Nat) (c : Nat) (done : List Nat) (i : Nat)
    (hc : 1 ≤ c) :
    writeBytes (overlay init D c done) (i * c) (chunkOf D c i) (chunkOf D c i).length =
      overlay init D c (i :: done) := by
  apply ext_getD
  · simp [writeBytes_length, overlay_length]
  · intro j hj
    simp only [writeBytes_length, overlay_length] at hj
    rw [writeBytes_getD _ _ _ _ _ (by simpa [overlay_length] using hj),
      overlay_getD _ _ _ _ _ hj, overlay_getD _ _ _ _ _ hj]
    have hlen := chunkOf_length D c i
    by_cases h1 : i * c ≤ j ∧ j - i * c < (chunkOf D c i).length
    · rw [if_pos ⟨h1.1, h1.2, h1.2⟩, chunkOf_getD _ _ _ _ h1.2]
      have hd : j / c = i := div_eq_of_chunk c i j h1.1 (by omega)
      rw [if_pos ⟨by omega, by simp [hd]⟩]
      congr 1
      omega
    · rw [if_neg (by tauto)]
      have hne : j < D.length → j / c ≠ i := by
        intro hjD hd
        obtain ⟨a1, a2⟩ := chunk_of_div c j hc
        rw [hd] at a1 a2
        apply h1
        exact ⟨a1, by omega⟩
      by_cases h2 : j < D.length ∧ j / c ∈ done
      · rw [if_pos h2, if_pos ⟨h2.1, List.mem_cons_of_mem _ h2.2⟩]
      · rw [if_neg h2, if_neg]
        rintro ⟨a, b⟩
        rcases List.mem_cons.mp b with b | b
        · exact hne a b
        · exact h2 ⟨a, b⟩

theorem overlay_all (init D : List Nat) (c n : Nat) (hn : D.length ≤ n * c) :
    overlay init D c (List.range n) = writeBytes init 0 D D.length := by
  apply ext_getD
  · simp [writeBytes_length, overlay_length]
  · intro j hj
    simp only [overlay_length] at hj
    rw [writeBytes_getD _ _ _ _ _ hj, overlay_getD _ _ _ _ _ hj]
    by_cases h : j < D.length
    · have : j / c < n := Nat.div_lt_of_lt_mul (by rw [Nat.mul_comm]; omega)
      rw [if_pos ⟨h, by simpa using this⟩, if_pos ⟨by omega, by omega, by omega⟩]
      simp
    · rw [if_neg (by tauto), if_neg (by omega)]

theorem chunk_sum (D : List Nat) (c : Nat) :
    ∀ m, ((List.range m).map fun i => (chunkOf D c i).length).sum = min (m * c) D.length := by
  intro m
  induction m with
  | zero => simp
  | succ m ih =>
    rw [List.range_succ, List.map_append, List.sum_append, ih]
    simp only [List.map_cons, List.map_nil, List.sum_cons, List.sum_nil, chunkOf_length,
      Nat.add_zero, Nat.succ_mul]
    omega


theorem ata_response_chunk (hid : AoEController → AoEController × Bool)
    (c0 c : AoEController) (cmd0 : IOATACommand) (D : List Nat) (n : Nat)
    (done rest : List Nat) (i : Nat) (r : AtaReply)
    (h0 : ReadInFlight c0 cmd0 D n) (hI : Reassembling c0 c cmd0 D done (i :: rest))
    (hi : i < n) (hn : rest.length < n)
    (hr : CarriesChunk r c0.m_unReadBaseTag cmd0.transferChunkSize D i) :
    ∃ c1, ata_response hid c false r = some (c1, decide (rest = [])) ∧
      Reassembling c0 c1 cmd0 D (i :: done) rest := by
  obtain ⟨_, _, hread, hB, hB32, _, hch1, hlast, hall, _, hn31, hM0, hM, hMc, hbs⟩ := h0
  obtain ⟨cmd, hcmd, hw, htf, hbc, hch, hsum, hbuf, hrep, hbase, hmax, hbsz⟩ := hI
  obtain ⟨htag, h22, hdata⟩ := hr
  have hlen := chunkOf_length D cmd0.transferChunkSize i
  have hic : i * cmd0.transferChunkSize ≤ (n - 1) * cmd0.transferChunkSize :=
    Nat.mul_le_mul_right _ (by omega)
  have hl1 : 1 ≤ (chunkOf D cmd0.transferChunkSize i).length := by omega
  simp only [List.map_cons, List.sum_cons] at hsum
  have hdrop : List.drop 12 (List.drop 10 r.mbuf) = List.drop 22 r.mbuf := by
    rw [List.drop_drop]
  have hprev : translate_dma (cmd.taskFile.ataTFCommand % 256) = kATAcmdRead ∨
      translate_dma (cmd.taskFile.ataTFCommand % 256) = kATAcmdReadExtended := by
    rw [htf]; exact hread
  have hni : ¬ translate_dma (cmd.taskFile.ataTFCommand % 256) = kATAcmdDriveIdentify := by
    rcases hprev with h | h <;> rw [h] <;> decide
  have hnw : ¬ (translate_dma (cmd.taskFile.ataTFCommand % 256) = kATAcmdWrite ∨
      translate_dma (cmd.taskFile.ataTFCommand % 256) = kATAcmdWriteExtended) := by
    rcases hprev with h | h <;> rw [h] <;> decide
  have hdl : (List.drop 22 r.mbuf).length + r.cont.flatten.length =
      (chunkOf D cmd0.transferChunkSize i).length := by
    rw [← hdata, List.length_append]
  have hdl2 : (List.drop 22 r.mbuf).length = r.mbuf.length - 22 := List.length_drop _ _
  have hwrap : wrapS32 (((i :: rest).length : Int) - 1) = (rest.length : Int) := by
    unfold wrapS32
    simp only [List.length_cons]
    push_cast
    omega
  have hcd := completeDataRead_chunk
    { c with
      m_ReceivedMBufCont := r.cont
      m_pReceivedATAHeader := some (r.mbuf.drop 10)
      m_unReceivedATADataSize := intToU32 ((r.mbuf.length : Int) - 6 - 16)
      m_unReceivedTag := r.Tag % 4294967296
      m_nReadWriteRepliesRequired := wrapS32 (c.m_nReadWriteRepliesRequired - 1) }
    cmd (r.mbuf.drop 10) (i * cmd0.transferChunkSize) true hcmd rfl
    (by
      show intToU32 ((r.mbuf.length : Int) - 6 - 16) = (List.drop 12 (List.drop 10 r.mbuf)).length
      rw [hdrop, hdl2]
      unfold intToU32
      omega)
    hw
    (by
      show u32mul (u32sub (r.Tag % 4294967296) c.m_unReadBaseTag) cmd.transferChunkSize =
        i * cmd0.transferChunkSize
      rw [htag, hbase, hch]
      have e : u32sub ((c0.m_unReadBaseTag + i) % 4294967296) c0.m_unReadBaseTag = i := by
        unfold u32sub; omega
      rw [e]
      unfold u32mul
      omega)
    (by
      show 1 ≤ (List.drop 12 (List.drop 10 r.mbuf) ++ r.cont.flatten).length
      rw [hdrop, hdata]; exact hl1)
    (by
      show (List.drop 12 (List.drop 10 r.mbuf) ++ r.cont.flatten).length ≤ cmd.transferChunkSize
      rw [hdrop, hdata, hch]; omega)
    (by show 0 ≤ c.m_nMaxSectorsPerTransfer; rw [hmax]; exact hM0)
    (by show c.m_nMaxSectorsPerTransfer * 512 < 2147483648; rw [hmax]; exact hM)
    (by
      show (cmd.transferChunkSize : Int) ≤ c.m_nMaxSectorsPerTransfer * 512
      rw [hmax, hch]; exact hMc)
    (by show cmd.transferChunkSize ≤ c.bufferSize; rw [hbsz, hch]; exact hbs)
    (by
      show cmd.actualTransfer + (List.drop 12 (List.drop 10 r.mbuf) ++ r.cont.flatten).length ≤
        cmd.byteCount
      rw [hdrop, hdata, hbc, hB]; omega)
    (by rw [hbc, hB]; exact hB32)
    (by
      show i * cmd0.transferChunkSize +
        (List.drop 12 (List.drop 10 r.mbuf) ++ r.cont.flatten).length < 4294967296
      rw [hdrop, hdata]; omega)
  have hflag : decide (wrapS32 (c.m_nReadWriteRepliesRequired - 1) = 0) = decide (rest = []) := by
    rw [hrep, hwrap]
    cases rest with
    | nil => simp
    | cons a l =>
      simp only [List.length_cons, reduceCtorEq, decide_False, decide_eq_false_iff_not]
      push_cast
      omega
  simp only [hcmd] at hcd
  refine ⟨_, (by
    unfold ata_response
    simp only [hcmd, hni, hnw, if_false, hprev, if_true]
    rw [hcd]
    simp only [Option.map_some', hflag]
    rfl), ?_⟩
  refine ⟨_, rfl, hw, htf, hbc, hch, ?_, ?_, ?_, hbase, hmax, hbsz⟩
  · show cmd.actualTransfer + (List.drop 12 (List.drop 10 r.mbuf) ++ r.cont.flatten).length +
      (rest.map fun i => (chunkOf D cmd0.transferChunkSize i).length).sum = D.length
    rw [hdrop, hdata]; omega
  · show writeBytes cmd.buffer (i * cmd0.transferChunkSize)
        (List.drop 12 (List.drop 10 r.mbuf) ++ r.cont.flatten)
        (List.drop 12 (List.drop 10 r.mbuf) ++ r.cont.flatten).length =
      overlay cmd0.buffer D cmd0.transferChunkSize (i :: done)
    rw [hdrop, hdata, hbuf, writeBytes_overlay _ _ _ _ _ hch1]
  · show wrapS32 (c.m_nReadWriteRepliesRequired - 1) = (rest.length : Int)
    rw [hrep, hwrap]

theorem ata_responses_chunks (hid : AoEController → AoEController × Bool)
    (c0 : AoEController) (cmd0 : IOATACommand) (D : List Nat) (n : Nat) (rep : Nat → AtaReply)
    (h0 : ReadInFlight c0 cmd0 D n)
    (hrep : ∀ i, i < n → CarriesChunk (rep i) c0.m_unReadBaseTag cmd0.transferChunkSize D i) :
    ∀ (todo done : List Nat) (c : AoEController),
      Reassembling c0 c cmd0 D done todo → (∀ i ∈ todo, i < n) → todo.length ≤ n →
      ∃ c1 cmd1 fs, ata_responses hid c (todo.map rep) = some (c1, fs) ∧
        (todo ≠ [] → fs = List.replicate (todo.length - 1) false ++ [true]) ∧
        c1.currentCommand = some cmd1 ∧ cmd1.actualTransfer = D.length ∧
        cmd1.buffer = overlay cmd0.buffer D cmd0.transferChunkSize (todo.reverse ++ done) := by
  intro todo
  induction todo with
  | nil =>
    intro done c hI _ _
    obtain ⟨cmd, hcmd, _, _, _, _, hsum, hbuf, _⟩ := hI
    exact ⟨c, cmd, [], rfl, fun h => absurd rfl h, hcmd, by simpa using hsum, by simpa using hbuf⟩
  | cons i rest ih =>
    intro done c hI hlt hlen
    have hi : i < n := hlt i (List.mem_cons_self _ _)
    simp only [List.length_cons] at hlen
    obtain ⟨c1, h1, hI1⟩ := ata_response_chunk hid c0 c cmd0 D n done rest i (rep i) h0 hI hi
      (by omega) (hrep i hi)
    obtain ⟨c2, cmd2, fs, h2, hfs, hc2, ha2, hb2⟩ := ih (i :: done) c1 hI1
      (fun j hj => hlt j (List.mem_cons_of_mem _ hj)) (by omega)
    refine ⟨c2, cmd2, decide (rest = []) :: fs, ?_, ?_, hc2, ha2, ?_⟩
    · rw [List.map_cons, ata_responses, h1]
      simp only [h2]
    · intro _
      cases rest with
      | nil =>
        simp only [List.map_nil, ata_responses, Option.some.injEq, Prod.mk.injEq] at h2
        rw [← h2.2]
        simp
      | cons j rest2 =>
        rw [hfs (by simp)]
        simp [List.replicate_succ]
    · rw [hb2]
      apply overlay_congr
      intro x
      simp only [List.mem_append, List.mem_reverse, List.mem_cons]
      tauto

/-- C10: a read of the bytes `D` is in flight with `n` packets whose tags are
`baseTag, ..., baseTag + n - 1`, and reply `i` carries exactly the bytes of
chunk `i`.  Whatever the order in which the `n` replies are handed to
`ata_response`, the buffer of the command ends up byte-identical to the one
obtained in tag order (it is the initial buffer with `D` written at offset 0),
exactly `byteCount` bytes are counted as transferred, and the interrupt that
completes the command is raised by the last reply processed and by no
earlier one. -/
theorem read_reassembly_order_independent (hid : AoEController → AoEController × Bool)
    (c : AoEController) (cmd : IOATACommand) (D : List Nat) (n : Nat) (rep : Nat → AtaReply)
    (order : List Nat)
    (h0 : ReadInFlight c cmd D n)
    (hrep : ∀ i, i < n → CarriesChunk (rep i) c.m_unReadBaseTag cmd.transferChunkSize D i)
    (hperm : order.Perm (List.range n)) :
    ∃ c1 cmd1 c2 cmd2,
      ata_responses hid c (order.map rep) =
          some (c1, List.replicate (n - 1) false ++ [true]) ∧
        ata_responses hid c ((List.range n).map rep) =
          some (c2, List.replicate (n - 1) false ++ [true]) ∧
        c1.currentCommand = some cmd1 ∧ c2.currentCommand = some cmd2 ∧
        cmd1.buffer = cmd2.buffer ∧
        cmd1.buffer = writeBytes cmd.buffer 0 D D.length ∧
        cmd1.actualTransfer = cmd.byteCount := by
  have key : ∀ l : List Nat, l.Perm (List.range n) →
      ∃ c1 cmd1, ata_responses hid c (l.map rep) =
          some (c1, List.replicate (n - 1) false ++ [true]) ∧
        c1.currentCommand = some cmd1 ∧
        cmd1.buffer = writeBytes cmd.buffer 0 D D.length ∧
        cmd1.actualTransfer = cmd.byteCount := by
    intro l hl
    obtain ⟨hcmd, hw, hread, hB, hB32, hact, hch1, hlast, hall, hrepl, hn31, hM0, hM, hMc, hbs⟩ :=
      h0
    have hlen : l.length = n := by simpa using hl.length_eq
    have hn1 : 1 ≤ n := by
      rcases Nat.eq_zero_or_pos n with h | h
      · subst h; rw [Nat.zero_mul] at hall; omega
      · exact h
    have hsum : (l.map fun i => (chunkOf D cmd.transferChunkSize i).length).sum = D.length := by
      rw [(hl.map _).sum_eq, chunk_sum]
      omega
    have hI : Reassembling c c cmd D [] l :=
      ⟨cmd, hcmd, hw, rfl, rfl, rfl, by rw [hact, hsum]; omega, (overlay_nil _ _ _).symm,
        by rw [hrepl, hlen], rfl, rfl, rfl⟩
    obtain ⟨c1, cmd1, fs, h1, hfs, hc1, ha1, hb1⟩ := ata_responses_chunks hid c cmd D n rep
      ⟨hcmd, hw, hread, hB, hB32, hact, hch1, hlast, hall, hrepl, hn31, hM0, hM, hMc, hbs⟩
      hrep l [] c hI (fun i hi => by simpa using hl.mem_iff.mp hi) (by omega)
    refine ⟨c1, cmd1, ?_, hc1, ?_, by rw [ha1, hB]⟩
    · rw [h1, hfs (by intro h; subst h; simp at hlen; omega), hlen]
    · rw [hb1, ← overlay_all cmd.buffer D cmd.transferChunkSize n hall]
      apply overlay_congr
      intro x
      simp only [List.append_nil, List.mem_reverse]
      exact hl.mem_iff
  obtain ⟨c1, cmd1, a1, a2, a3, a4⟩ := key order hperm
  obtain ⟨c2, cmd2, b1, b2, b3, _⟩ := key (List.range n) (List.Perm.refl _)
  exact ⟨c1, cmd1, c2, cmd2, a1, b1, a2, b2, by rw [a3, b3], a3, a4⟩

theorem exampleData_length : exampleData.length = 1024 := by
  unfold exampleData
  rw [List.length_map, List.length_range]

theorem exampleReading_inFlight : ReadInFlight exampleReading exampleRead exampleData 2 :=
  ⟨rfl, rfl, Or.inr (by decide), exampleData_length.symm, by rw [exampleData_length]; decide,
    rfl, by decide, by rw [exampleData_length]; decide, by rw [exampleData_length]; decide,
    rfl, by decide, by decide, by decide, by decide, by decide⟩

theorem exampleReply_carries (i : Nat) :
    CarriesChunk (exampleReply i) exampleReading.m_unReadBaseTag exampleRead.transferChunkSize
      exampleData i := by
  refine ⟨rfl, ?_, ?_⟩
  · simp [exampleReply]
  · show List.drop 22 (List.replicate 22 0 ++ (chunkOf exampleData 512 i).take 100) ++
      [(chunkOf exampleData 512 i).drop 100].flatten = chunkOf exampleData 512 i
    rw [List.drop_left' (by simp)]
    simp

theorem read_reassembly_order_independent_witness :
    ReadInFlight exampleReading exampleRead exampleData 2 ∧
      ∃ c1 cmd1 c2 cmd2,
        ata_responses (fun c => (c, true)) exampleReading ([1, 0].map exampleReply) =
            some (c1, List.replicate (2 - 1) false ++ [true]) ∧
          ata_responses (fun c => (c, true)) exampleReading ((List.range 2).map exampleReply) =
            some (c2, List.replicate (2 - 1) false ++ [true]) ∧
          c1.currentCommand = some cmd1 ∧ c2.currentCommand = some cmd2 ∧
          cmd1.buffer = cmd2.buffer ∧
          cmd1.buffer = writeBytes exampleRead.buffer 0 exampleData exampleData.length ∧
          cmd1.actualTransfer = exampleRead.byteCount :=
  ⟨exampleReading_inFlight,
    read_reassembly_order_independent (fun c => (c, true)) exampleReading exampleRead exampleData 2
      exampleReply [1, 0] exampleReading_inFlight (fun i _ => exampleReply_carries i)
      (by decide)⟩
/-! ## The reply counter and the status of a write -/


/-- C11: the example write is issued as three packets (tags 8, 9, 10) and
expects three replies; when the first reply has the status DRDY (0x40), the
second the status 0x41 (error bit set) with error byte 0x04 and the third the
status DRDY, the interrupt is raised by the third reply only, but `asyncStatus`
then returns `kATANoErr` with end result (0x40, 0): the error of the second
reply is not reported. -/
theorem write_error_lost_after_clean_reply :
    (asyncCommand (exampleController exampleWrite)).map
        (fun r => (r.2.1.map (fun p => p.Tag), r.2.2, r.1.m_nReadWriteRepliesRequired)) =
      some ([8, 9, 10], IOReturn.kATANoErr, 3) ∧
    ∀ hi : AoEController → AoEController × Bool,
      ((ata_responses hi exampleWriting
          [writeReply 8 0x40 0, writeReply 9 0x41 0x04, writeReply 10 0x40 0]).map
        fun r => (r.2, (asyncStatus r.1).map fun a =>
          (a.2, a.1.currentCommand.map fun cmd => (cmd.endStatus, cmd.endError)))) =
        some ([false, false, true], some (IOReturn.kATANoErr, some (0x40, 0))) :=
  ⟨rfl, fun _ => rfl⟩

/-- The same write when the first reply has the status 0: the error of the
second reply is latched and reported by `asyncStatus`. -/
theorem write_error_kept_after_zero_status (hi : AoEController → AoEController × Bool) :
    ((ata_responses hi exampleWriting
        [writeReply 8 0 0, writeReply 9 0x41 0x04, writeReply 10 0x40 0]).map
      fun r => (r.2, (asyncStatus r.1).map fun a =>
        (a.2, a.1.currentCommand.map fun cmd => (cmd.endStatus, cmd.endError)))) =
      some ([false, false, true], some (IOReturn.kATADeviceError, some (0x41, 4))) :=
  rfl
/-! ## The tag counter -/

theorem next_tag_range (m : Nat) : 1 ≤ next_tag m ∧ next_tag m < 1073741823 := by
  unfold next_tag MIN_TAG MAX_TAG TAG_BROADCAST_MASK
  simp only
  split_ifs <;> omega

theorem next_tag_succ (t : Nat) (h1 : 1 ≤ t) (h2 : t < 1073741823) :
    next_tag t = (t % 1073741822) + 1 := by
  unfold next_tag MIN_TAG MAX_TAG TAG_BROADCAST_MASK
  simp only
  split_ifs <;> omega

theorem next_tags_length (n m : Nat) : (next_tags m n).length = n := by
  induction n generalizing m with
  | zero => rfl
  | succ n ih => simp [next_tags, ih]

theorem next_tags_getD (n : Nat) : ∀ (m i : Nat), i < n →
    (next_tags m n).getD i 0 = (next_tag m - 1 + i) % 1073741822 + 1 := by
  induction n with
  | zero => intro m i h; omega
  | succ n ih =>
    intro m i h
    obtain ⟨h1, h2⟩ := next_tag_range m
    cases i with
    | zero =>
      simp only [next_tags, List.getD_cons_zero]
      omega
    | succ i =>
      simp only [next_tags, List.getD_cons_succ]
      rw [ih (next_tag m) i (by omega), next_tag_succ (next_tag m) h1 h2]
      omega

theorem and_mask_zero (t k : Nat) (h : t < 2 ^ k) : t &&& 2 ^ k = 0 := by
  apply Nat.eq_of_testBit_eq
  intro i
  rw [Nat.testBit_and, Nat.zero_testBit, Nat.testBit_two_pow]
  by_cases hk : k = i
  · subst hk
    simp [Nat.testBit_lt_two_pow h]
  · simp [hk]


theorem next_tags_getElem (n m i : Nat) (h : i < (next_tags m n).length) :
    (next_tags m n)[i] = (next_tag m - 1 + i) % 1073741822 + 1 := by
  rw [← List.getD_eq_getElem (next_tags m n) 0 h]
  exact next_tags_getD n m i (by rwa [next_tags_length] at h)

/-- C18: every tag that `next_tag` returns lies in `[MIN_TAG, MAX_TAG)`, is not
the online tag 0 and has neither the broadcast bit nor the user bit set, and
`N <= MAX_TAG - 1` consecutive calls return pairwise distinct tags, whatever
the value of the counter before the first call. -/
theorem next_tag_in_range_and_distinct (m N : Nat) (hN : N ≤ MAX_TAG - 1) :
    (MIN_TAG ≤ next_tag m ∧ next_tag m < MAX_TAG ∧ next_tag m ≠ DEVICE_ONLINE_TAG ∧
      next_tag m &&& TAG_BROADCAST_MASK = 0 ∧ next_tag m &&& TAG_USER_MASK = 0) ∧
    (∀ t ∈ next_tags m N, MIN_TAG ≤ t ∧ t < MAX_TAG ∧ t ≠ DEVICE_ONLINE_TAG ∧
      t &&& TAG_BROADCAST_MASK = 0 ∧ t &&& TAG_USER_MASK = 0) ∧
    (next_tags m N).length = N ∧ (next_tags m N).Nodup := by
  have key : ∀ t, 1 ≤ t → t < 1073741823 →
      MIN_TAG ≤ t ∧ t < MAX_TAG ∧ t ≠ DEVICE_ONLINE_TAG ∧
        t &&& TAG_BROADCAST_MASK = 0 ∧ t &&& TAG_USER_MASK = 0 := by
    intro t h1 h2
    refine ⟨h1, h2, ?_, and_mask_zero t 30 (by omega), and_mask_zero t 31 (by omega)⟩
    unfold DEVICE_ONLINE_TAG
    omega
  have hM : MAX_TAG - 1 = 1073741822 := by decide
  rw [hM] at hN
  refine ⟨key _ (next_tag_range m).1 (next_tag_range m).2, ?_, next_tags_length N m, ?_⟩
  · intro t ht
    obtain ⟨i, hi, rfl⟩ := List.mem_iff_getElem.mp ht
    rw [next_tags_getElem]
    exact key _ (by omega) (by omega)
  · unfold List.Nodup
    rw [List.pairwise_iff_getElem]
    intro i j hi hj hij
    rw [next_tags_getElem, next_tags_getElem]
    rw [next_tags_length] at hi hj
    omega

/-- Three calls that start two below the wrap-around. -/
theorem next_tag_in_range_and_distinct_witness :
    3 ≤ MAX_TAG - 1 ∧
    ((MIN_TAG ≤ next_tag 1073741820 ∧ next_tag 1073741820 < MAX_TAG ∧
        next_tag 1073741820 ≠ DEVICE_ONLINE_TAG ∧
        next_tag 1073741820 &&& TAG_BROADCAST_MASK = 0 ∧
        next_tag 1073741820 &&& TAG_USER_MASK = 0) ∧
      (∀ t ∈ next_tags 1073741820 3, MIN_TAG ≤ t ∧ t < MAX_TAG ∧ t ≠ DEVICE_ONLINE_TAG ∧
        t &&& TAG_BROADCAST_MASK = 0 ∧ t &&& TAG_USER_MASK = 0) ∧
      (next_tags 1073741820 3).length = 3 ∧ (next_tags 1073741820 3).Nodup) :=
  ⟨by decide, next_tag_in_range_and_distinct 1073741820 3 (by decide)⟩

/-! ## The AoE header -/

theorem htons_value (x : Nat) :
    ((x % 65536 / 256) <<< 8) ||| (x % 256) = x % 65536 := by
  have e : (x % 65536 / 256) <<< 8 = (x % 65536 / 256) * 256 := Nat.shiftLeft_eq _ _
  rw [e, or_eq_add _ _ 8 (by omega) (by omega)]
  omega

theorem and_15 (x : Nat) : x &&& 15 = x % 16 := Nat.and_pow_two_sub_one_eq_mod x 4

theorem and_65535 (x : Nat) : x &&& 65535 = x % 65536 := Nat.and_pow_two_sub_one_eq_mod x 16

theorem verflagerr_value (v f e : Nat) :
    ((v &&& 0xF) <<< 12) ||| ((f &&& 0xF) <<< 8) ||| (e &&& 0xF) =
      4096 * (v % 16) + 256 * (f % 16) + e % 16 := by
  have e1 : (v &&& 0xF) <<< 12 = (v % 16) * 4096 := by rw [and_15]; exact Nat.shiftLeft_eq _ _
  have e2 : (f &&& 0xF) <<< 8 = (f % 16) * 256 := by rw [and_15]; exact Nat.shiftLeft_eq _ _
  rw [e1, e2, and_15, or_eq_add (v % 16 * 4096) _ 12 (by omega) (by omega),
    or_eq_add (v % 16 * 4096 + _) _ 8 (by omega) (by omega)]
  omega

theorem minorcmd_value (m c : Nat) :
    ((m &&& 0xFF) <<< 8) ||| ((c &&& 0xFF) <<< 0) = 256 * (m % 256) + c % 256 := by
  have e1 : (m &&& 0xFF) <<< 8 = (m % 256) * 256 := by rw [and_255]; exact Nat.shiftLeft_eq _ _
  rw [e1, Nat.shiftLeft_zero, and_255, or_eq_add (m % 256 * 256) _ 8 (by omega) (by omega)]
  omega

theorem aoe_header_fields (v f e shelf slot cmd tag : Nat) :
    ntohs (aoe_header_set v f e shelf slot cmd tag) 0 =
        4096 * (v % 16) + 256 * (f % 16) + e % 16 ∧
      ntohs (aoe_header_set v f e shelf slot cmd tag) 2 = shelf % 65536 ∧
      ntohs (aoe_header_set v f e shelf slot cmd tag) 4 = 256 * (slot % 256) + cmd % 256 ∧
      ntohs (aoe_header_set v f e shelf slot cmd tag) 6 = tag / 65536 % 65536 ∧
      ntohs (aoe_header_set v f e shelf slot cmd tag) 8 = tag % 65536 := by
  refine ⟨?_, ?_, ?_, ?_, ?_⟩
  · calc ntohs (aoe_header_set v f e shelf slot cmd tag) 0
        = (((((v &&& 0xF) <<< 12) ||| ((f &&& 0xF) <<< 8) ||| (e &&& 0xF)) % 65536 / 256) <<< 8) |||
            ((((v &&& 0xF) <<< 12) ||| ((f &&& 0xF) <<< 8) ||| (e &&& 0xF)) % 256) := rfl
      _ = (((v &&& 0xF) <<< 12) ||| ((f &&& 0xF) <<< 8) ||| (e &&& 0xF)) % 65536 :=
        htons_value _
      _ = 4096 * (v % 16) + 256 * (f % 16) + e % 16 := by rw [verflagerr_value]; omega
  · exact htons_value shelf
  · calc ntohs (aoe_header_set v f e shelf slot cmd tag) 4
        = (((((slot &&& 0xFF) <<< 8) ||| ((cmd &&& 0xFF) <<< 0)) % 65536 / 256) <<< 8) |||
            ((((slot &&& 0xFF) <<< 8) ||| ((cmd &&& 0xFF) <<< 0)) % 256) := rfl
      _ = (((slot &&& 0xFF) <<< 8) ||| ((cmd &&& 0xFF) <<< 0)) % 65536 := htons_value _
      _ = 256 * (slot % 256) + cmd % 256 := by rw [minorcmd_value]; omega
  · calc ntohs (aoe_header_set v f e shelf slot cmd tag) 6
        = ((((tag >>> 16) &&& 0xFFFF) % 65536 / 256) <<< 8) |||
            (((tag >>> 16) &&& 0xFFFF) % 256) := rfl
      _ = ((tag >>> 16) &&& 0xFFFF) % 65536 := htons_value _
      _ = tag / 65536 % 65536 := by
        rw [and_65535, Nat.shiftRight_eq_div_pow]
        omega
  · calc ntohs (aoe_header_set v f e shelf slot cmd tag) 8
        = (((tag &&& 0xFFFF) % 65536 / 256) <<< 8) ||| ((tag &&& 0xFFFF) % 256) := rfl
      _ = (tag &&& 0xFFFF) % 65536 := htons_value _
      _ = tag % 65536 := by rw [and_65535]; omega

/-- C13: the header that the `AOE_HEADER_SET` macros build from a version,
flags, an error code, a shelf, a slot, a command and a tag in the ranges of
their fields is decoded by the `AOE_HEADER_GET` macros to the same values,
except that the error code comes back reduced modulo 16: the encoder masks it
with `0xF`. -/
theorem aoe_header_error_truncated (v f e shelf slot cmd tag : Nat)
    (hv : v < 16) (hf : f < 16) (he : e < 256) (hshelf : shelf < 65536) (hslot : slot < 256)
    (hcmd : cmd < 256) (htag : tag < 4294967296) :
    (aoe_header_set v f e shelf slot cmd tag).length = 10 ∧
    aoe_header_get (aoe_header_set v f e shelf slot cmd tag) =
      (v, f, e % 16, shelf, slot, cmd, tag) := by
  obtain ⟨h0, h2, h4, h6, h8⟩ := aoe_header_fields v f e shelf slot cmd tag
  have _ := he
  refine ⟨rfl, ?_⟩
  unfold aoe_header_get AOE_HEADER_GETVER AOE_HEADER_GETFLAG AOE_HEADER_GETERR
    AOE_HEADER_GETMAJOR AOE_HEADER_GETMINOR AOE_HEADER_GETCMD AOE_HEADER_GETTAG
  rw [h0, h2, h4, h6, h8]
  have t1 : ((tag / 65536 % 65536 % 4294967296) <<< 16) % 4294967296 =
      (tag / 65536 % 65536) * 65536 := by
    rw [Nat.shiftLeft_eq]
    omega
  rw [t1, or_eq_add _ _ 16 (by omega) (by omega)]
  simp only [Nat.shiftRight_eq_div_pow, and_15, and_255, Prod.mk.injEq]
  refine ⟨?_, ?_, ?_, ?_, ?_, ?_, ?_⟩ <;> omega

/-- The error code 16 is decoded as 0. -/
theorem aoe_header_error_truncated_witness :
    ((1 : Nat) < 16 ∧ (0 : Nat) < 16 ∧ (16 : Nat) < 256 ∧ (7 : Nat) < 65536 ∧ (3 : Nat) < 256 ∧
      (0 : Nat) < 256 ∧ (8 : Nat) < 4294967296) ∧
    (aoe_header_set 1 0 16 7 3 0 8).length = 10 ∧
    aoe_header_get (aoe_header_set 1 0 16 7 3 0 8) = (1, 0, 16 % 16, 7, 3, 0, 8) :=
  ⟨by decide, aoe_header_error_truncated 1 0 16 7 3 0 8 (by decide) (by decide) (by decide)
    (by decide) (by decide) (by decide) (by decide)⟩

/-! ## The idle reset -/

/-- C14 (counterexample): after three answered requests the window of the link
is 4; the fourth request, sent at 7000 ns with a retransmit timeout of 1000 us,
is found timed out by the scan at 20008000 ns, which leaves the window at 1 and
not at max(4/2, 1) = 2 (the threshold is 2). -/
theorem cwnd_one_after_retransmit_timeout :
    (serviceRun windowFourRun).m_pInterfaces.get_cwnd 1 = 4 ∧
      (∃ e ∈ (serviceRun windowFourRun).m_sent_queue, e.if_sent = 1 ∧
        time_since_now_us 20008000 e.TimeSent > e.RetransmitTime_us) ∧
      (RetransmitTimer (serviceRun windowFourRun) 20008000 1).m_pInterfaces.get_ssthresh 1 =
        max (4 / 2) 1 ∧
      (RetransmitTimer (serviceRun windowFourRun) 20008000 1).m_pInterfaces.get_cwnd 1 = 1 ∧
      (RetransmitTimer (serviceRun windowFourRun) 20008000 1).m_pInterfaces.get_cwnd 1 ≠
        max (4 / 2) 1 := by
  decide

theorem windows_modify (f : EInterface → EInterface) (hf : ∀ e, (f e).window = e.window)
    (k : Nat) (l : List EInterface) :
    (l.modify f k).map EInterface.window = l.map EInterface.window := by
  induction l generalizing k with
  | nil => cases k <;> rfl
  | cons a l ih =>
    cases k with
    | zero => simp [List.modify_zero_cons, hf]
    | succ k => simp [List.modify_succ_cons, ih]

theorem windows_decrementUnlessRetransmit (s : EInterfaces) (e : SentPktQueue) :
    (s.decrementUnlessRetransmit e).windows = s.windows := by
  unfold EInterfaces.decrementUnlessRetransmit EInterfaces.OSDecrementAtomic EInterfaces.windows
  split_ifs
  · exact windows_modify
      (fun x => { x with m_nOutstandingCount := wrapS32 (x.m_nOutstandingCount - 1) })
      (fun _ => rfl) _ _
  · rfl

theorem windows_updateFirst (i : Nat) (f : EInterface → EInterface)
    (g : Nat × Nat × Nat × Nat → Nat × Nat × Nat × Nat)
    (hf : ∀ e, (f e).window = g e.window) :
    ∀ l l1 : List EInterface, l.map EInterface.window = l1.map EInterface.window →
      (updateFirst i f l).map EInterface.window = (updateFirst i f l1).map EInterface.window := by
  intro l
  induction l with
  | nil =>
    intro l1 h
    cases l1 with
    | nil => rfl
    | cons b l1 => simp at h
  | cons a l ih =>
    intro l1 h
    cases l1 with
    | nil => simp at h
    | cons b l1 =>
      simp only [List.map_cons, List.cons.injEq] at h
      have hab : a.m_ifnet = b.m_ifnet := congrArg Prod.fst h.1
      simp only [updateFirst, ← hab]
      split_ifs
      · simp only [List.map_cons, hf, h.1, h.2]
      · simp only [List.map_cons, h.1, ih l1 h.2]

theorem lookupFirst_window (i : Nat) :
    ∀ l l1 : List EInterface, l.map EInterface.window = l1.map EInterface.window →
      (lookupFirst i l).map EInterface.window = (lookupFirst i l1).map EInterface.window := by
  intro l
  induction l with
  | nil =>
    intro l1 h
    cases l1 with
    | nil => rfl
    | cons b l1 => simp at h
  | cons a l ih =>
    intro l1 h
    cases l1 with
    | nil => simp at h
    | cons b l1 =>
      simp only [List.map_cons, List.cons.injEq] at h
      have hab : a.m_ifnet = b.m_ifnet := congrArg Prod.fst h.1
      simp only [lookupFirst, ← hab]
      split_ifs
      · simp only [Option.map_some', h.1]
      · exact ih l1 h.2

theorem get_cwnd_windows (s t : EInterfaces) (i : Nat) (h : s.windows = t.windows) :
    s.get_cwnd i = t.get_cwnd i := by
  have hl := lookupFirst_window i s.m_aInterfaces t.m_aInterfaces h
  unfold EInterfaces.get_cwnd
  cases hs : lookupFirst i s.m_aInterfaces with
  | none =>
    rw [hs] at hl
    cases ht : lookupFirst i t.m_aInterfaces with
    | none => rfl
    | some y => rw [ht] at hl; simp at hl
  | some x =>
    rw [hs] at hl
    cases ht : lookupFirst i t.m_aInterfaces with
    | none => rw [ht] at hl; simp at hl
    | some y =>
      rw [ht] at hl
      simp only [Option.map_some', Option.some.injEq] at hl
      have hc : x.m_nCwd = y.m_nCwd := congrArg (fun w => w.2.1) hl
      simp only [hc]

theorem windows_retransmit_adjust (s t : EInterfaces) (i : Nat) (h : s.windows = t.windows) :
    (s.retransmit_adjust i).windows = (t.retransmit_adjust i).windows := by
  unfold EInterfaces.retransmit_adjust
  simp only [get_cwnd_windows s t i h]
  unfold EInterfaces.set_cwnd EInterfaces.set_ssthresh EInterfaces.windows
  simp only
  apply windows_updateFirst i _ (fun w => (w.1, intToU32 1, 0, w.2.2.2)) (fun _ => rfl)
  exact windows_updateFirst i _
    (fun w => (w.1, w.2.1, w.2.2.1,
      intToU32 (if Int.tdiv (t.get_cwnd i) 2 > 1 then Int.tdiv (t.get_cwnd i) 2 else 1)))
    (fun _ => rfl) _ _ h

theorem resend_packet_interfaces (s : AoEService) (e : SentPktQueue) (n : Int) :
    (resend_packet s e n).1.m_pInterfaces = s.m_pInterfaces ∧
      (resend_packet s e n).1.m_MaxTimeOutBeforeDrop = s.m_MaxTimeOutBeforeDrop := by
  unfold resend_packet add_to_send_queue
  simp only
  split_ifs <;> exact ⟨rfl, rfl⟩

theorem retransmitScan_adjusted (now : Nat) (n : Int) : ∀ (post : List SentPktQueue)
    (s : AoEService) (pre : List SentPktQueue),
    (retransmitScan now n s true pre post).m_pInterfaces.windows = s.m_pInterfaces.windows := by
  intro post
  induction post with
  | nil => intro s pre; rfl
  | cons x post ih =>
    intro s pre
    rw [retransmitScan]
    by_cases h1 : x.RetransmitTime_us ≠ 0
    · rw [if_pos h1]
      by_cases h2 : x.TimeFirstSent ≠ 0 ∧ x.TimeSent ≠ 0
      · rw [if_pos h2]
        by_cases h3 : time_since_now_us now x.TimeFirstSent > s.m_MaxTimeOutBeforeDrop
        · rw [if_pos h3, ih]
          exact windows_decrementUnlessRetransmit _ _
        · rw [if_neg h3]
          by_cases h4 : time_since_now_us now x.TimeSent > x.RetransmitTime_us
          · rw [if_pos h4]
            simp only [Bool.not_true, Bool.false_eq_true, if_false]
            rw [ih, (resend_packet_interfaces _ _ _).1]
            exact windows_decrementUnlessRetransmit _ _
          · rw [if_neg h4]
            exact ih _ _
      · rw [if_neg h2]
        exact ih _ _
    · rw [if_neg h1, ih]
      exact windows_decrementUnlessRetransmit _ _

theorem retransmitScan_first_timeout (now : Nat) (n : Int) (e : SentPktQueue)
    (p2 : List SentPktQueue) : ∀ (p1 : List SentPktQueue) (s : AoEService)
    (pre : List SentPktQueue),
    (∀ x ∈ p1, ¬ x.TimedOut s.m_MaxTimeOutBeforeDrop now) →
    e.TimedOut s.m_MaxTimeOutBeforeDrop now →
    (retransmitScan now n s false pre (p1 ++ e :: p2)).m_pInterfaces.windows =
      (s.m_pInterfaces.retransmit_adjust e.if_sent).windows := by
  intro p1
  induction p1 with
  | nil =>
    intro s pre _ he
    obtain ⟨h1, h2, h3, h4⟩ := he
    rw [List.nil_append, retransmitScan, if_pos h1, if_pos h2, if_neg h3, if_pos h4]
    simp only [Bool.not_false, if_true]
    rw [retransmitScan_adjusted, (resend_packet_interfaces _ _ _).1]
    exact windows_decrementUnlessRetransmit _ _
  | cons x p1 ih =>
    intro s pre hp he
    have hx : ¬ x.TimedOut s.m_MaxTimeOutBeforeDrop now := hp x (List.mem_cons_self _ _)
    have hp1 : ∀ y ∈ p1, ¬ y.TimedOut s.m_MaxTimeOutBeforeDrop now :=
      fun y hy => hp y (List.mem_cons_of_mem _ hy)
    have hdec : ((s.m_pInterfaces.decrementUnlessRetransmit x).retransmit_adjust e.if_sent).windows =
        (s.m_pInterfaces.retransmit_adjust e.if_sent).windows :=
      windows_retransmit_adjust _ _ _ (windows_decrementUnlessRetransmit _ _)
    rw [List.cons_append, retransmitScan]
    by_cases h1 : x.RetransmitTime_us ≠ 0
    · rw [if_pos h1]
      by_cases h2 : x.TimeFirstSent ≠ 0 ∧ x.TimeSent ≠ 0
      · rw [if_pos h2]
        by_cases h3 : time_since_now_us now x.TimeFirstSent > s.m_MaxTimeOutBeforeDrop
        · rw [if_pos h3]
          exact (ih { s with m_pInterfaces := s.m_pInterfaces.decrementUnlessRetransmit x }
            pre hp1 he).trans hdec
        · rw [if_neg h3]
          by_cases h4 : time_since_now_us now x.TimeSent > x.RetransmitTime_us
          · exact absurd ⟨h1, h2, h3, h4⟩ hx
          · rw [if_neg h4]
            exact ih _ _ hp1 he
      · rw [if_neg h2]
        exact ih _ _ hp1 he
    · rw [if_neg h1]
      exact (ih { s with m_pInterfaces := s.m_pInterfaces.decrementUnlessRetransmit x }
        pre hp1 he).trans hdec

theorem retransmitScan_no_timeout (now : Nat) (n : Int) (flag : Bool) :
    ∀ (post : List SentPktQueue) (s : AoEService) (pre : List SentPktQueue),
    (∀ x ∈ post, ¬ x.TimedOut s.m_MaxTimeOutBeforeDrop now) →
    (retransmitScan now n s flag pre post).m_pInterfaces.windows = s.m_pInterfaces.windows := by
  intro post
  induction post with
  | nil => intro s pre _; rfl
  | cons x post ih =>
    intro s pre hp
    have hx : ¬ x.TimedOut s.m_MaxTimeOutBeforeDrop now := hp x (List.mem_cons_self _ _)
    have hp1 : ∀ y ∈ post, ¬ y.TimedOut s.m_MaxTimeOutBeforeDrop now :=
      fun y hy => hp y (List.mem_cons_of_mem _ hy)
    rw [retransmitScan]
    by_cases h1 : x.RetransmitTime_us ≠ 0
    · rw [if_pos h1]
      by_cases h2 : x.TimeFirstSent ≠ 0 ∧ x.TimeSent ≠ 0
      · rw [if_pos h2]
        by_cases h3 : time_since_now_us now x.TimeFirstSent > s.m_MaxTimeOutBeforeDrop
        · rw [if_pos h3]
          exact (ih { s with m_pInterfaces := s.m_pInterfaces.decrementUnlessRetransmit x }
            pre hp1).trans (windows_decrementUnlessRetransmit _ _)
        · rw [if_neg h3]
          by_cases h4 : time_since_now_us now x.TimeSent > x.RetransmitTime_us
          · exact absurd ⟨h1, h2, h3, h4⟩ hx
          · rw [if_neg h4]
            exact ih _ _ hp1
      · rw [if_neg h2]
        exact ih _ _ hp1
    · rw [if_neg h1]
      exact (ih { s with m_pInterfaces := s.m_pInterfaces.decrementUnlessRetransmit x }
        pre hp1).trans (windows_decrementUnlessRetransmit _ _)

theorem get_ssthresh_windows (s t : EInterfaces) (i : Nat) (h : s.windows = t.windows) :
    s.get_ssthresh i = t.get_ssthresh i := by
  have hl := lookupFirst_window i s.m_aInterfaces t.m_aInterfaces h
  unfold EInterfaces.get_ssthresh
  cases hs : lookupFirst i s.m_aInterfaces with
  | none =>
    rw [hs] at hl
    cases ht : lookupFirst i t.m_aInterfaces with
    | none => rfl
    | some y => rw [ht] at hl; simp at hl
  | some x =>
    rw [hs] at hl
    cases ht : lookupFirst i t.m_aInterfaces with
    | none => rw [ht] at hl; simp at hl
    | some y =>
      rw [ht] at hl
      simp only [Option.map_some', Option.some.injEq] at hl
      have hc : x.m_nSSThresh = y.m_nSSThresh := congrArg (fun w => w.2.2.2) hl
      simp only [hc]

theorem tdiv_two (p : Int) :
    (0 ≤ p → Int.tdiv p 2 = p / 2) ∧ (p < 0 → Int.tdiv p 2 = -((-p) / 2)) := by
  constructor
  · intro h
    exact Int.tdiv_eq_ediv h (by decide)
  · intro h
    have e : p = -(-p) := by omega
    rw [e, Int.neg_tdiv, Int.tdiv_eq_ediv (by omega) (by decide)]
    simp

theorem lookupFirst_updateFirst2 (i j : Nat) (f1 f2 : EInterface → EInterface)
    (hf1 : ∀ e, (f1 e).m_ifnet = e.m_ifnet) (hf2 : ∀ e, (f2 e).m_ifnet = e.m_ifnet)
    (l : List EInterface) :
    lookupFirst j (updateFirst i f2 (updateFirst i f1 l)) =
      if j = i then (lookupFirst j l).map (fun e => f2 (f1 e)) else lookupFirst j l := by
  rw [lookupFirst_updateFirst i j f2 hf2, lookupFirst_updateFirst i j f1 hf1]
  split_ifs
  · cases lookupFirst j l <;> rfl
  · rfl

theorem lookupFirst_retransmit_adjust (s : EInterfaces) (i j : Nat) :
    lookupFirst j (s.retransmit_adjust i).m_aInterfaces =
      if j = i then
        (lookupFirst j s.m_aInterfaces).map fun e =>
          { e with
            m_nSSThresh :=
              intToU32 (if Int.tdiv (s.get_cwnd i) 2 > 1 then Int.tdiv (s.get_cwnd i) 2 else 1)
            m_nCwd := intToU32 1
            m_nCwdFractional := 0 }
      else lookupFirst j s.m_aInterfaces := by
  unfold EInterfaces.retransmit_adjust EInterfaces.set_cwnd EInterfaces.set_ssthresh
  simp only
  refine lookupFirst_updateFirst2 i j _ _ ?_ ?_ _ <;> intro _ <;> rfl

/-- C14 (amended): when the first entry of the sent queue that the retransmit
scan resends (an entry that is retransmittable, has been sent, is not older
than the drop timeout and whose time since the last send exceeds its
retransmit timeout) was sent on link `e.if_sent`, then after the pass that
link has the window 1 and the threshold max(prevCwnd/2, 1), where prevCwnd is
its window before the pass read as an `int`; the adjustment is made once:
the window state of all links is that of a single adjustment, and the window
and threshold of every other link are unchanged. -/
theorem retransmit_adjusts_first_timeout_once (s : AoEService) (now : Nat) (n : Int)
    (pre post : List SentPktQueue) (e : SentPktQueue) (l : EInterface)
    (hq : s.m_sent_queue = pre ++ e :: post)
    (hpre : ∀ x ∈ pre, ¬ x.TimedOut s.m_MaxTimeOutBeforeDrop now)
    (he : e.TimedOut s.m_MaxTimeOutBeforeDrop now)
    (hl : lookupFirst e.if_sent s.m_pInterfaces.m_aInterfaces = some l) :
    (RetransmitTimer s now n).m_pInterfaces.get_cwnd e.if_sent = 1 ∧
    (RetransmitTimer s now n).m_pInterfaces.get_ssthresh e.if_sent =
      max (Int.tdiv (s.m_pInterfaces.get_cwnd e.if_sent) 2) 1 ∧
    (RetransmitTimer s now n).m_pInterfaces.windows =
      (s.m_pInterfaces.retransmit_adjust e.if_sent).windows ∧
    ∀ j, j ≠ e.if_sent →
      (RetransmitTimer s now n).m_pInterfaces.get_cwnd j = s.m_pInterfaces.get_cwnd j ∧
      (RetransmitTimer s now n).m_pInterfaces.get_ssthresh j =
        s.m_pInterfaces.get_ssthresh j := by
  have hw : (RetransmitTimer s now n).m_pInterfaces.windows =
      (s.m_pInterfaces.retransmit_adjust e.if_sent).windows := by
    unfold RetransmitTimer
    rw [hq]
    exact retransmitScan_first_timeout now n e post pre s [] hpre he
  have hlk := lookupFirst_retransmit_adjust s.m_pInterfaces e.if_sent
  refine ⟨?_, ?_, hw, ?_⟩
  · rw [get_cwnd_windows _ _ _ hw]
    unfold EInterfaces.get_cwnd
    rw [hlk e.if_sent, if_pos rfl, hl]
    exact (by decide : wrapS32 ((intToU32 1 : Nat) : Int) = 1)
  · rw [get_ssthresh_windows _ _ _ hw]
    have hprev : s.m_pInterfaces.get_cwnd e.if_sent = wrapS32 l.m_nCwd := by
      unfold EInterfaces.get_cwnd
      rw [hl]
    unfold EInterfaces.get_ssthresh
    rw [hlk e.if_sent, if_pos rfl, hl, hprev]
    simp only [Option.map_some']
    obtain ⟨t1, t2⟩ := tdiv_two (wrapS32 l.m_nCwd)
    generalize Int.tdiv (wrapS32 l.m_nCwd) 2 = d at t1 t2 ⊢
    have hr : -2147483648 ≤ wrapS32 l.m_nCwd ∧ wrapS32 l.m_nCwd < 2147483648 := by
      unfold wrapS32
      omega
    generalize wrapS32 l.m_nCwd = p at t1 t2 hr
    unfold wrapS32 intToU32
    split_ifs <;> omega
  · intro j hj
    rw [get_cwnd_windows _ _ _ hw, get_ssthresh_windows _ _ _ hw]
    unfold EInterfaces.get_cwnd EInterfaces.get_ssthresh
    rw [hlk j, if_neg hj]
    exact ⟨rfl, rfl⟩

/-- The scan at 20008000 ns after `windowFourRun`: the window of link 1 goes
from 4 to 1 and its threshold to 2. -/
theorem retransmit_adjusts_first_timeout_once_witness :
    ((serviceRun windowFourRun).m_sent_queue = [] ++ exampleSentEntry :: [] ∧
      (∀ x ∈ ([] : List SentPktQueue),
        ¬ x.TimedOut (serviceRun windowFourRun).m_MaxTimeOutBeforeDrop 20008000) ∧
      exampleSentEntry.TimedOut (serviceRun windowFourRun).m_MaxTimeOutBeforeDrop 20008000 ∧
      lookupFirst exampleSentEntry.if_sent (serviceRun windowFourRun).m_pInterfaces.m_aInterfaces =
        some ((serviceRun windowFourRun).m_pInterfaces.m_aInterfaces.headD EInterface.init)) ∧
    ((RetransmitTimer (serviceRun windowFourRun) 20008000 1).m_pInterfaces.get_cwnd
        exampleSentEntry.if_sent = 1 ∧
      (RetransmitTimer (serviceRun windowFourRun) 20008000 1).m_pInterfaces.get_ssthresh
          exampleSentEntry.if_sent =
        max (Int.tdiv ((serviceRun windowFourRun).m_pInterfaces.get_cwnd
          exampleSentEntry.if_sent) 2) 1 ∧
      (RetransmitTimer (serviceRun windowFourRun) 20008000 1).m_pInterfaces.windows =
        ((serviceRun windowFourRun).m_pInterfaces.retransmit_adjust
          exampleSentEntry.if_sent).windows ∧
      ∀ j, j ≠ exampleSentEntry.if_sent →
        (RetransmitTimer (serviceRun windowFourRun) 20008000 1).m_pInterfaces.get_cwnd j =
            (serviceRun windowFourRun).m_pInterfaces.get_cwnd j ∧
          (RetransmitTimer (serviceRun windowFourRun) 20008000 1).m_pInterfaces.get_ssthresh j =
            (serviceRun windowFourRun).m_pInterfaces.get_ssthresh j) :=
  ⟨⟨by decide, fun _ h => absurd h (List.not_mem_nil _),
      by unfold SentPktQueue.TimedOut; decide, rfl⟩,
    retransmit_adjusts_first_timeout_once (serviceRun windowFourRun) 20008000 1 [] []
      exampleSentEntry ((serviceRun windowFourRun).m_pInterfaces.m_aInterfaces.headD EInterface.init)
      (by decide) (fun _ h => absurd h (List.not_mem_nil _))
      (by unfold SentPktQueue.TimedOut; decide) rfl⟩
/-! ## The checksum of the IDENTIFY data -/

theorem writeWord16_length (be : Bool) (data : List Nat) (w v : Nat) :
    (writeWord16 be data w v).length = data.length := by
  unfold writeWord16
  split_ifs <;> simp

theorem getD_set_nat (l : List Nat) (i j a : Nat) :
    (l.set i a).getD j 0 = if i = j ∧ i < l.length then a else l.getD j 0 := by
  simp only [List.getD_eq_getElem?_getD, List.getElem?_set]
  by_cases h : i = j
  · by_cases h2 : i < l.length
    · rw [if_pos h, if_pos h2, if_pos ⟨h, h2⟩]
      rfl
    · rw [if_pos h, if_neg h2, if_neg (fun hh => h2 hh.2)]
      have : l[j]? = none := List.getElem?_eq_none (by omega)
      rw [this]
  · rw [if_neg h, if_neg (fun hh => h hh.1)]

theorem writeWord16_getD (be : Bool) (data : List Nat) (w v i : Nat)
    (h : 2 * w + 1 < data.length) :
    (writeWord16 be data w v).getD i 0 =
      if i = 2 * w then (if be then v / 256 % 256 else v % 256)
      else if i = 2 * w + 1 then (if be then v % 256 else v / 256 % 256)
      else data.getD i 0 := by
  unfold writeWord16
  cases be
  · simp only [Bool.false_eq_true, if_false, getD_set_nat, List.length_set]
    by_cases h1 : i = 2 * w
    · rw [if_pos h1, if_neg (by omega), if_pos ⟨h1.symm, by omega⟩]
    · rw [if_neg h1]
      by_cases h2 : i = 2 * w + 1
      · rw [if_pos h2, if_pos ⟨h2.symm, h⟩]
      · rw [if_neg h2, if_neg (fun hh => h2 hh.1.symm), if_neg (fun hh => h1 hh.1.symm)]
  · simp only [if_true, getD_set_nat, List.length_set]
    by_cases h1 : i = 2 * w
    · rw [if_pos h1, if_neg (by omega), if_pos ⟨h1.symm, by omega⟩]
    · rw [if_neg h1]
      by_cases h2 : i = 2 * w + 1
      · rw [if_pos h2, if_pos ⟨h2.symm, h⟩]
      · rw [if_neg h2, if_neg (fun hh => h2 hh.1.symm), if_neg (fun hh => h1 hh.1.symm)]

theorem readWord16_writeWord16 (be : Bool) (data : List Nat) (w v u : Nat)
    (h : 2 * w + 1 < data.length) :
    readWord16 be (writeWord16 be data w v) u =
      if u = w then v % 65536 else readWord16 be data u := by
  cases be <;>
    simp only [readWord16, Bool.false_eq_true, if_false, if_true] <;>
    rw [writeWord16_getD _ data w v _ h, writeWord16_getD _ data w v _ h] <;>
    simp only [Bool.false_eq_true, if_false, if_true] <;>
    split_ifs <;> omega

theorem readWord16_set (be : Bool) (data : List Nat) (i a u : Nat) (h : 2 * u + 1 < i) :
    readWord16 be (data.set i a) u = readWord16 be data u := by
  cases be <;>
    simp only [readWord16, Bool.false_eq_true, if_false, if_true] <;>
    rw [getD_set_nat, getD_set_nat, if_neg (fun hh => by omega), if_neg (fun hh => by omega)]

theorem getD_lt_256 (data : List Nat) (hb : ∀ b ∈ data, b < 256) (i : Nat) :
    data.getD i 0 < 256 := by
  rw [List.getD_eq_getElem?_getD]
  cases hi : data[i]? with
  | none => simp
  | some x => exact hb x (List.getElem?_mem hi)

theorem readWord16_lt (be : Bool) (data : List Nat) (u : Nat) (hb : ∀ b ∈ data, b < 256) :
    readWord16 be data u < 65536 := by
  have h1 := getD_lt_256 data hb (2 * u)
  have h2 := getD_lt_256 data hb (2 * u + 1)
  unfold readWord16
  split_ifs <;> omega

theorem or_mod_65536 (x m : Nat) (hx : x < 65536) (hm : m < 65536) :
    (x ||| m) % 65536 = x ||| m :=
  Nat.mod_eq_of_lt (@Nat.or_lt_two_pow x m 16 hx hm)

theorem sum_take_succ (l : List Nat) (n : Nat) (h : n < l.length) :
    (l.take (n + 1)).sum = (l.take n).sum + l.getD n 0 := by
  rw [List.take_succ, List.sum_append, List.getD_eq_getElem?_getD,
    List.getElem?_eq_getElem h]
  simp

theorem take_set_of_le (l : List Nat) (n m a : Nat) (h : m ≤ n) :
    (l.set n a).take m = l.take m := by
  apply List.ext_getElem?
  intro i
  rw [List.getElem?_take, List.getElem?_take]
  split
  · rw [List.getElem?_set_ne (by omega)]
  · rfl

theorem checksum_byte (S : Nat) :
    ((-((S % 256 : Nat) : Int) - 1 + 1) % 256).toNat = (256 - S % 256) % 256 ∧
      (S + (256 - S % 256) % 256) % 256 = 0 := by
  constructor <;> omega

/-- C16: for a reply that holds the 512 bytes of IDENTIFY data behind its ATA
header and is not the answer to the controller's own IDENTIFY, `handle_identify`
returns TRUE (the block goes to the host) and leaves a block in which the
words 53, 49 and 63 have the bits 0x2, 0x100 and 0x7 set, byte 510 is 0xA5 and
byte 511 is the two's complement of the sum of the bytes 0..510 of that
block, so that the 512 bytes sum to 0 modulo 256. -/
theorem identify_checksum (be : Bool) (supports : List Nat → Bool)
    (size : List Nat → Nat × Nat) (c : AoEController) (header : List Nat)
    (hh : c.m_pReceivedATAHeader = some header)
    (hlen : 12 + 512 ≤ header.length)
    (hbytes : ∀ b ∈ header, b < 256)
    (hhost : c.m_nOutstandingIdentTag ≠ c.m_unReceivedTag) :
    ∃ c1 data, handle_identify be supports size c = some (c1, true, false) ∧
      c1.m_pReceivedATAHeader = some (header.take 12 ++ data) ∧
      data.length = header.length - 12 ∧
      readWord16 be data 53 = readWord16 be (header.drop 12) 53 ||| 0x0002 ∧
      readWord16 be data 49 = readWord16 be (header.drop 12) 49 ||| 0x100 ∧
      readWord16 be data 63 = readWord16 be (header.drop 12) 63 ||| 0x7 ∧
      data.getD 510 0 = 0xA5 ∧
      data.getD 511 0 = (256 - (data.take 511).sum % 256) % 256 ∧
      (data.take 512).sum % 256 = 0 := by
  have hd0 : (header.drop 12).length = header.length - 12 := List.length_drop _ _
  have hb0 : ∀ b ∈ header.drop 12, b < 256 := fun b hb => hbytes b (List.mem_of_mem_drop hb)
  generalize hD0 : header.drop 12 = d0 at hd0 hb0
  have l1 := writeWord16_length be d0 53 (readWord16 be d0 53 ||| 0x0002)
  generalize hD1 : writeWord16 be d0 53 (readWord16 be d0 53 ||| 0x0002) = d1 at l1
  have l2 := writeWord16_length be d1 49 (readWord16 be d1 49 ||| 0x100)
  generalize hD2 : writeWord16 be d1 49 (readWord16 be d1 49 ||| 0x100) = d2 at l2
  have l3 := writeWord16_length be d2 63 (readWord16 be d2 63 ||| 0x7)
  generalize hD3 : writeWord16 be d2 63 (readWord16 be d2 63 ||| 0x7) = d3 at l3
  have w53 : readWord16 be d3 53 = readWord16 be d0 53 ||| 0x0002 := by
    rw [← hD3, readWord16_writeWord16 _ _ _ _ _ (by omega), if_neg (by decide), ← hD2,
      readWord16_writeWord16 _ _ _ _ _ (by omega), if_neg (by decide), ← hD1,
      readWord16_writeWord16 _ _ _ _ _ (by omega), if_pos rfl]
    exact or_mod_65536 _ _ (readWord16_lt be d0 53 hb0) (by decide)
  have w49 : readWord16 be d3 49 = readWord16 be d0 49 ||| 0x100 := by
    rw [← hD3, readWord16_writeWord16 _ _ _ _ _ (by omega), if_neg (by decide), ← hD2,
      readWord16_writeWord16 _ _ _ _ _ (by omega), if_pos rfl, ← hD1,
      readWord16_writeWord16 _ _ _ _ _ (by omega), if_neg (by decide)]
    exact or_mod_65536 _ _ (readWord16_lt be d0 49 hb0) (by decide)
  have w63 : readWord16 be d3 63 = readWord16 be d0 63 ||| 0x7 := by
    rw [← hD3, readWord16_writeWord16 _ _ _ _ _ (by omega), if_pos rfl, ← hD2,
      readWord16_writeWord16 _ _ _ _ _ (by omega), if_neg (by decide), ← hD1,
      readWord16_writeWord16 _ _ _ _ _ (by omega), if_neg (by decide)]
    have hlt : readWord16 be d0 63 < 65536 := readWord16_lt be d0 63 hb0
    exact or_mod_65536 _ _ hlt (by decide)
  have hck := checksum_byte ((d3.set 510 0xA5).take 511).sum
  have hres : handle_identify be supports size c =
      some ({ c with m_pReceivedATAHeader := some (header.take 12 ++
          (d3.set 510 0xA5).set 511 ((256 - ((d3.set 510 0xA5).take 511).sum % 256) % 256)) },
        true, false) := by
    unfold handle_identify
    rw [hh]
    simp only [kATADefaultSectorSize]
    rw [if_neg (by omega), if_neg hhost, hD0, hD1, hD2, hD3, hck.1]
  refine ⟨_, _, hres, rfl, ?_, ?_, ?_, ?_, ?_, ?_, ?_⟩
  · simp only [List.length_set]
    omega
  · rw [readWord16_set _ _ _ _ _ (by omega), readWord16_set _ _ _ _ _ (by omega)]
    exact w53
  · rw [readWord16_set _ _ _ _ _ (by omega), readWord16_set _ _ _ _ _ (by omega)]
    exact w49
  · rw [readWord16_set _ _ _ _ _ (by omega), readWord16_set _ _ _ _ _ (by omega)]
    exact w63
  · rw [getD_set_nat, if_neg (fun hh => by omega), getD_set_nat, if_pos ⟨rfl, by omega⟩]
  · rw [getD_set_nat, if_pos ⟨rfl, by simp only [List.length_set]; omega⟩,
      take_set_of_le _ _ _ _ (Nat.le_refl _)]
  · rw [sum_take_succ _ 511 (by simp only [List.length_set]; omega), getD_set_nat,
      if_pos ⟨rfl, by simp only [List.length_set]; omega⟩,
      take_set_of_le _ _ _ _ (Nat.le_refl _)]
    exact hck.2

theorem exampleIdentifyHeader_bytes : ∀ b ∈ exampleIdentifyHeader, b < 256 := by
  intro b hb
  unfold exampleIdentifyHeader at hb
  rw [List.mem_append] at hb
  rcases hb with hb | hb
  · revert b
    decide
  · obtain ⟨i, _, rfl⟩ := List.mem_map.mp hb
    omega

theorem exampleIdentifyHeader_length : exampleIdentifyHeader.length = 524 := by
  unfold exampleIdentifyHeader
  rw [List.length_append, List.length_map, List.length_range]
  rfl

/-- The example reply on a little-endian host. -/
theorem identify_checksum_witness :
    (exampleIdentifying.m_pReceivedATAHeader = some exampleIdentifyHeader ∧
      12 + 512 ≤ exampleIdentifyHeader.length ∧ (∀ b ∈ exampleIdentifyHeader, b < 256) ∧
      exampleIdentifying.m_nOutstandingIdentTag ≠ exampleIdentifying.m_unReceivedTag) ∧
    ∃ c1 data,
      handle_identify false (fun _ => true) (fun _ => (0, 1000)) exampleIdentifying =
        some (c1, true, false) ∧
      c1.m_pReceivedATAHeader = some (exampleIdentifyHeader.take 12 ++ data) ∧
      data.length = exampleIdentifyHeader.length - 12 ∧
      readWord16 false data 53 = readWord16 false (exampleIdentifyHeader.drop 12) 53 ||| 0x0002 ∧
      readWord16 false data 49 = readWord16 false (exampleIdentifyHeader.drop 12) 49 ||| 0x100 ∧
      readWord16 false data 63 = readWord16 false (exampleIdentifyHeader.drop 12) 63 ||| 0x7 ∧
      data.getD 510 0 = 0xA5 ∧
      data.getD 511 0 = (256 - (data.take 511).sum % 256) % 256 ∧
      (data.take 512).sum % 256 = 0 :=
  ⟨⟨rfl, by rw [exampleIdentifyHeader_length], exampleIdentifyHeader_bytes, by decide⟩,
    identify_checksum false (fun _ => true) (fun _ => (0, 1000)) exampleIdentifying
      exampleIdentifyHeader rfl (by rw [exampleIdentifyHeader_length])
      exampleIdentifyHeader_bytes (by decide)⟩
/-! ## Faked replies, new targets and the aging pass -/

/-- C17: `send_ata_packet` for a packet whose command byte is SET FEATURES,
SLEEP, FLUSH CACHE or FLUSH CACHE EXTENDED leaves the service, hence both
queues, and the list of controllers as they are, notes the sender and sets the
timer, whose action (on a little-endian host) calls `ata_response` of that
sender with a reply of status 0x40 (DRDY, error bit clear) and no data; for
every other command byte the result is that of `send_packet` with the same
arguments. -/
theorem send_ata_packet_fakes_unsupported (ci : AoEControllerInterface) (pSender : Nat)
    (m : List Nat) (Tag : Nat) (t : TargetInfo) :
    ((AOE_ATAHEADER_GETSTAT (m.drop 10) = kATAcmdSetFeatures ∨
        AOE_ATAHEADER_GETSTAT (m.drop 10) = kATAcmdSleep ∨
        AOE_ATAHEADER_GETSTAT (m.drop 10) = kATAcmdFlushCache ∨
        AOE_ATAHEADER_GETSTAT (m.drop 10) = kATAcmdFlushCacheExtended) →
      ∃ ci1 r, ci.send_ata_packet pSender m Tag t = some (ci1, t, 0) ∧
        ci1.m_pAoEService = ci.m_pAoEService ∧
        ci1.m_pAoEService.m_sent_queue = ci.m_pAoEService.m_sent_queue ∧
        ci1.m_pAoEService.m_to_send_queue = ci.m_pAoEService.m_to_send_queue ∧
        ci1.m_pControllers = ci.m_pControllers ∧
        ci1.fakeReturnTimerSet = true ∧
        ci1.FakeReturnTimer false = some (pSender, r) ∧
        AOE_ATAHEADER_GETSTAT (r.mbuf.drop 10) = 0x40 ∧
        AOE_ATAHEADER_GETSTAT (r.mbuf.drop 10) &&& mATAError = 0 ∧
        AOE_ATAHEADER_GETERR (r.mbuf.drop 10) = 0 ∧
        r.mbuf.length = 22 ∧ r.cont = []) ∧
    (¬ (AOE_ATAHEADER_GETSTAT (m.drop 10) = kATAcmdSetFeatures ∨
        AOE_ATAHEADER_GETSTAT (m.drop 10) = kATAcmdSleep ∨
        AOE_ATAHEADER_GETSTAT (m.drop 10) = kATAcmdFlushCache ∨
        AOE_ATAHEADER_GETSTAT (m.drop 10) = kATAcmdFlushCacheExtended) →
      ci.send_ata_packet pSender m Tag t = ci.send_packet m Tag t) := by
  constructor
  · intro h
    refine ⟨{ ci with m_pControllerToFakeResponse := some pSender, fakeReturnTimerSet := true },
      { Tag := 0
        mbuf := List.replicate 10 0 ++
          ([0, 0] ++ hostWord16 false (0x40 <<< 8) ++ [0, 0, 0, 0, 0, 0, 0, 0])
        cont := [] }, ?_, rfl, rfl, rfl, rfl, rfl, rfl, ?_, ?_, ?_, ?_, rfl⟩
    · unfold AoEControllerInterface.send_ata_packet
      simp only
      rw [if_pos h]
    · decide
    · decide
    · decide
    · decide
  · intro h
    unfold AoEControllerInterface.send_ata_packet
    simp only
    rw [if_neg h]

/-- A FLUSH CACHE packet is answered by the timer and leaves the queues empty. -/
theorem send_ata_packet_fakes_unsupported_witness :
    AOE_ATAHEADER_GETSTAT ((examplePacket kATAcmdFlushCache).drop 10) = kATAcmdFlushCache ∧
    ∃ ci1 r, (exampleInterface []).send_ata_packet 5 (examplePacket kATAcmdFlushCache) 9
          exampleTarget.m_target = some (ci1, exampleTarget.m_target, 0) ∧
        ci1.m_pAoEService = (exampleInterface []).m_pAoEService ∧
        ci1.m_pAoEService.m_sent_queue = (exampleInterface []).m_pAoEService.m_sent_queue ∧
        ci1.m_pAoEService.m_to_send_queue =
          (exampleInterface []).m_pAoEService.m_to_send_queue ∧
        ci1.m_pControllers = (exampleInterface []).m_pControllers ∧
        ci1.fakeReturnTimerSet = true ∧
        ci1.FakeReturnTimer false = some (5, r) ∧
        AOE_ATAHEADER_GETSTAT (r.mbuf.drop 10) = 0x40 ∧
        AOE_ATAHEADER_GETSTAT (r.mbuf.drop 10) &&& mATAError = 0 ∧
        AOE_ATAHEADER_GETERR (r.mbuf.drop 10) = 0 ∧
        r.mbuf.length = 22 ∧ r.cont = [] :=
  ⟨by decide,
    (send_ata_packet_fakes_unsupported (exampleInterface []) 5 (examplePacket kATAcmdFlushCache)
      9 exampleTarget.m_target).1 (Or.inr (Or.inr (Or.inl (by decide))))⟩

/-- A READ SECTORS packet goes to `send_packet`, which queues it. -/
theorem send_ata_packet_read_example :
    ((exampleInterface []).send_ata_packet 5 (examplePacket kATAcmdRead) 9
        exampleTarget.m_target).map
      (fun r => (r.1.m_pAoEService.m_sent_queue.map (fun e => (e.Tag, e.if_sent)),
        r.1.m_pAoEService.m_to_send_queue.map (fun e => (e.Tag, e.mbuf.length)),
        r.1.m_pControllerToFakeResponse, r.2.2)) =
      some ([(9, 1)], [(9, 36)], none, 0) := by
  decide
/-! ## The aging pass -/

/-- C20 (counterexample): of three targets, the second and the third have not
been heard of for 119 s and 118 s at uptime 120 s (the threshold is 60 s); one
pass of `check_down_targets` removes the second only, and the third, which is
above the threshold, is still in the list. -/
theorem down_target_left_after_pass :
    (exampleAging.check_down_targets 120000000000).m_pControllers.map
        (fun c => c.target_number) = [1, 3] ∧
      ∃ c ∈ (exampleAging.check_down_targets 120000000000).m_pControllers,
        time_since_now_us 120000000000 c.m_time_since_last_comm ≥
          exampleAging.m_TimeUntilTargetOffline_us := by
  decide

theorem firstDownTarget_none (now threshold : Nat) (l : List TargetController)
    (h : ∀ c ∈ l, time_since_now_us now c.m_time_since_last_comm < threshold) :
    firstDownTarget now threshold l = none := by
  induction l with
  | nil => rfl
  | cons a l ih =>
    have ha := h a (List.mem_cons_self _ _)
    simp only [firstDownTarget]
    rw [if_neg (by omega)]
    exact ih fun c hc => h c (List.mem_cons_of_mem _ hc)

theorem firstDownTarget_first (now threshold : Nat) (d : TargetController)
    (post : List TargetController)
    (hd : time_since_now_us now d.m_time_since_last_comm ≥ threshold) :
    ∀ pre : List TargetController,
      (∀ c ∈ pre, time_since_now_us now c.m_time_since_last_comm < threshold) →
      firstDownTarget now threshold (pre ++ d :: post) = some d := by
  intro pre
  induction pre with
  | nil =>
    intro _
    simp only [List.nil_append, firstDownTarget]
    rw [if_pos hd]
  | cons a pre ih =>
    intro h
    have ha := h a (List.mem_cons_self _ _)
    simp only [List.cons_append, firstDownTarget]
    rw [if_neg (by omega)]
    exact ih fun c hc => h c (List.mem_cons_of_mem _ hc)

theorem removeFirstNumber_first (d : TargetController) (post : List TargetController) :
    ∀ pre : List TargetController, (∀ c ∈ pre, c.target_number ≠ d.target_number) →
      removeFirstNumber d.target_number (pre ++ d :: post) = some (pre ++ post) := by
  intro pre
  induction pre with
  | nil =>
    intro _
    rw [List.nil_append, removeFirstNumber, if_pos rfl]
    rfl
  | cons a pre ih =>
    intro h
    have ha := h a (List.mem_cons_self _ _)
    rw [List.cons_append, removeFirstNumber, if_neg (fun e => ha e.symm),
      ih fun c hc => h c (List.mem_cons_of_mem _ hc)]
    rfl

/-- C20 (amended): in a list of controllers with pairwise distinct target
numbers, one pass of `check_down_targets` changes nothing when every target
has been heard of within the threshold, and otherwise removes the first
target (in the order of the list) that has not and nothing else: every other
target, whether it is below the threshold or not, stays, in the same order. -/
theorem check_down_targets_removes_first (ci : AoEControllerInterface) (now : Nat)
    (hnum : (ci.m_pControllers.map fun c => c.target_number).Nodup) :
    ((∀ c ∈ ci.m_pControllers,
        time_since_now_us now c.m_time_since_last_comm < ci.m_TimeUntilTargetOffline_us) →
      ci.check_down_targets now = ci) ∧
    ∀ pre d post, ci.m_pControllers = pre ++ d :: post →
      (∀ c ∈ pre,
        time_since_now_us now c.m_time_since_last_comm < ci.m_TimeUntilTargetOffline_us) →
      time_since_now_us now d.m_time_since_last_comm ≥ ci.m_TimeUntilTargetOffline_us →
      ci.check_down_targets now = { ci with m_pControllers := pre ++ post } := by
  constructor
  · intro h
    unfold AoEControllerInterface.check_down_targets
    rw [firstDownTarget_none now _ _ h]
  · intro pre d post hl hpre hd
    have hne : ∀ c ∈ pre, c.target_number ≠ d.target_number := by
      intro c hc e
      rw [hl, List.map_append, List.map_cons] at hnum
      have hdis := (List.nodup_append.mp hnum).2.2
      exact hdis (List.mem_map_of_mem _ hc) (by rw [e]; exact List.mem_cons_self _ _)
    unfold AoEControllerInterface.check_down_targets AoEControllerInterface.remove_target
    rw [hl, firstDownTarget_first now _ d post hd pre hpre]
    simp only
    rw [removeFirstNumber_first d post pre hne]

/-- The example list: the pass at 120 s removes the second target. -/
theorem check_down_targets_removes_first_witness :
    (exampleAging.m_pControllers.map fun c => c.target_number).Nodup ∧
    (((∀ c ∈ exampleAging.m_pControllers,
        time_since_now_us 120000000000 c.m_time_since_last_comm <
          exampleAging.m_TimeUntilTargetOffline_us) →
      exampleAging.check_down_targets 120000000000 = exampleAging) ∧
    ∀ pre d post, exampleAging.m_pControllers = pre ++ d :: post →
      (∀ c ∈ pre,
        time_since_now_us 120000000000 c.m_time_since_last_comm <
          exampleAging.m_TimeUntilTargetOffline_us) →
      time_since_now_us 120000000000 d.m_time_since_last_comm ≥
        exampleAging.m_TimeUntilTargetOffline_us →
      exampleAging.check_down_targets 120000000000 =
        { exampleAging with m_pControllers := pre ++ post }) :=
  ⟨by decide, check_down_targets_removes_first exampleAging 120000000000 (by decide)⟩
/-! ## Config replies from new targets -/

theorem strncmp_eq_zero_iff (n : Nat) : ∀ a b : List Nat,
    strncmp a b n = 0 ↔ cstr a n = cstr b n := by
  induction n with
  | zero =>
    intro a b
    simp [strncmp, cstr]
  | succ n ih =>
    intro a b
    have hc : ∀ (x : Nat) (xs : List Nat), cstr (x :: xs) (n + 1) =
        if x ≠ 0 then x :: cstr xs n else [] := by
      intro x xs
      unfold cstr
      rw [List.take_succ_cons, List.takeWhile_cons]
      by_cases hx : x = 0
      · simp [hx]
      · simp [hx]
    have hn : ∀ k : Nat, cstr ([] : List Nat) k = [] := by
      intro k
      simp [cstr]
    rw [strncmp]
    cases a with
    | nil =>
      cases b with
      | nil => simp [hn]
      | cons y bs =>
        rw [hn, hc]
        by_cases hy : y = 0
        · simp [hy]
        · have : (0 : Nat) ≠ y := fun e => hy e.symm
          simp only [List.headD_nil, List.headD_cons, ne_eq, this, not_false_eq_true, if_true, hy]
          constructor
          · intro h
            omega
          · intro h
            exact absurd h (by simp)
    | cons x as =>
      cases b with
      | nil =>
        rw [hn, hc]
        by_cases hx : x = 0
        · simp [hx]
        · simp only [List.headD_nil, List.headD_cons, ne_eq, hx, not_false_eq_true, if_true]
          constructor
          · intro h
            omega
          · intro h
            exact absurd h (by simp)
      | cons y bs =>
        rw [hc, hc]
        simp only [List.headD_cons, List.tail_cons]
        by_cases hxy : x = y
        · subst hxy
          by_cases hx : x = 0
          · simp [hx]
          · simp only [ne_eq, not_true_eq_false, if_false, hx, not_false_eq_true, if_true,
              List.cons.injEq, true_and]
            exact ih as bs
        · rw [if_pos hxy]
          constructor
          · intro h
            omega
          · intro h
            exfalso
            by_cases hx : x = 0
            · by_cases hy : y = 0
              · exact hxy (hx.trans hy.symm)
              · simp [hx, hy] at h
            · by_cases hy : y = 0
              · simp [hx, hy] at h
              · simp [hx, hy] at h
                exact hxy h.1

theorem nextTargetNumber_none (l : List TargetController) : ∀ (fuel : Nat) (n : Int),
    0 ≤ n → n + fuel < 2147483648 → nextTargetNumber l fuel n = none →
    ∀ i : Nat, i < fuel → numberInUse l (n + i) = true := by
  intro fuel
  induction fuel with
  | zero => intro n _ _ _ i hi; omega
  | succ fuel ih =>
    intro n h0 hb hnone i hi
    rw [nextTargetNumber] at hnone
    by_cases hu : numberInUse l n = true
    · rw [if_pos hu] at hnone
      have hw : wrapS32 (n + 1) = n + 1 := by
        unfold wrapS32
        omega
      rw [hw] at hnone
      cases i with
      | zero => simpa using hu
      | succ i =>
        have := ih (n + 1) (by omega) (by push_cast at hb ⊢; omega) hnone i (by omega)
        have e : n + ((i + 1 : Nat) : Int) = n + 1 + (i : Int) := by push_cast; omega
        rw [e]
        exact this
    · rw [if_neg hu] at hnone
      cases hnone

theorem get_next_target_number_isSome (l : List TargetController)
    (hlen : l.length < 2147483646) :
    ∃ n : Int, get_next_target_number l = some n ∧ numberInUse l n = false ∧ 1 ≤ n := by
  have hfree : ∀ (fuel : Nat) (n m : Int), nextTargetNumber l fuel n = some m →
      0 ≤ n → n + fuel < 2147483648 → numberInUse l m = false ∧ n ≤ m := by
    intro fuel
    induction fuel with
    | zero => intro n m h; cases h
    | succ fuel ih =>
      intro n m h h0 hb
      rw [nextTargetNumber] at h
      by_cases hu : numberInUse l n = true
      · rw [if_pos hu] at h
        have hw : wrapS32 (n + 1) = n + 1 := by
          unfold wrapS32
          omega
        rw [hw] at h
        have := ih (n + 1) m h (by omega) (by push_cast at hb ⊢; omega)
        exact ⟨this.1, by omega⟩
      · rw [if_neg hu] at h
        cases h
        exact ⟨by simpa using hu, Int.le_refl _⟩
  unfold get_next_target_number
  cases hres : nextTargetNumber l (l.length + 1) 1 with
  | some m =>
    have := hfree _ _ _ hres (by decide) (by push_cast; omega)
    exact ⟨m, rfl, this.1, this.2⟩
  | none =>
    exfalso
    have hall := nextTargetNumber_none l (l.length + 1) 1 (by decide) (by push_cast; omega) hres
    have hsub : (List.range (l.length + 1)).map (fun i : Nat => (1 : Int) + (i : Int)) ⊆
        l.map fun c => c.target_number := by
      intro x hx
      obtain ⟨i, hi, rfl⟩ := List.mem_map.mp hx
      have hu := hall i (List.mem_range.mp hi)
      unfold numberInUse at hu
      rw [List.any_eq_true] at hu
      obtain ⟨c, hc, hcn⟩ := hu
      rw [decide_eq_true_eq] at hcn
      rw [hcn]
      exact List.mem_map_of_mem _ hc
    have hnd : ((List.range (l.length + 1)).map (fun i : Nat => (1 : Int) + (i : Int))).Nodup := by
      apply List.Nodup.map _ (List.nodup_range _)
      intro a b h
      simp only at h
      omega
    have hle := (hnd.subperm hsub).length_le
    simp only [List.length_map, List.length_range] at hle
    omega

theorem configReceiveLoop_new (ifnet_receive unit : Nat) (lladdr ether_shost pCfgHeader : List Nat)
    (nMajor nMinor : Int) (now : Nat) : ∀ (post : List TargetController)
    (ci : AoEControllerInterface) (pre : List TargetController) (f : Bool),
    (∀ c ∈ post, c.is_device nMajor nMinor ≠ 0) →
    configReceiveLoop ifnet_receive unit lladdr ether_shost pCfgHeader nMajor nMinor now
        ci pre post f = some ({ ci with m_pControllers := pre ++ post }, f, false) := by
  intro post
  induction post with
  | nil =>
    intro ci pre f _
    rw [configReceiveLoop, List.append_nil]
  | cons c post ih =>
    intro ci pre f h
    rw [configReceiveLoop, if_neg (h c (List.mem_cons_self _ _)),
      ih ci (pre ++ [c]) f fun x hx => h x (List.mem_cons_of_mem _ hx)]
    simp

theorem takeWhile_append_zeros (x : List Nat) (k : Nat) :
    (x ++ List.replicate k 0).takeWhile (fun b => b ≠ 0) = x.takeWhile fun b => b ≠ 0 := by
  induction x with
  | nil =>
    cases k with
    | zero => rfl
    | succ k => simp [List.replicate_succ]
  | cons a x ih =>
    rw [List.cons_append, List.takeWhile_cons, List.takeWhile_cons, ih]

theorem cstr_stored (adv : List Nat) (cslen : Nat)
    (hlen : min cslen MAX_CONFIG_STRING_LENGTH ≤ adv.length) :
    cstr (adv.take (min cslen MAX_CONFIG_STRING_LENGTH) ++
        (List.replicate MAX_CONFIG_STRING_LENGTH 0).drop (min cslen MAX_CONFIG_STRING_LENGTH))
      MAX_CONFIG_STRING_LENGTH = cstr (adv.take cslen) MAX_CONFIG_STRING_LENGTH := by
  unfold cstr
  have h1 : (adv.take (min cslen MAX_CONFIG_STRING_LENGTH)).length =
      min cslen MAX_CONFIG_STRING_LENGTH := by
    rw [List.length_take]
    omega
  have h2 : (adv.take cslen).take MAX_CONFIG_STRING_LENGTH =
      adv.take (min cslen MAX_CONFIG_STRING_LENGTH) := by
    rw [List.take_take, Nat.min_comm]
  rw [h2, List.drop_replicate]
  have h3 : (adv.take (min cslen MAX_CONFIG_STRING_LENGTH) ++
      List.replicate (MAX_CONFIG_STRING_LENGTH - min cslen MAX_CONFIG_STRING_LENGTH) 0).take
        MAX_CONFIG_STRING_LENGTH =
      adv.take (min cslen MAX_CONFIG_STRING_LENGTH) ++
        List.replicate (MAX_CONFIG_STRING_LENGTH - min cslen MAX_CONFIG_STRING_LENGTH) 0 := by
    apply List.take_of_length_le
    rw [List.length_append, h1, List.length_replicate]
    omega
  rw [h3, takeWhile_append_zeros]

theorem init_update_target_info (nShelf nSlot : Int) (ifnet_receive unit : Nat)
    (lladdr mac : List Nat) (nNumber : Int) (now : Nat) :
    (TargetController.init nShelf nSlot ifnet_receive unit lladdr mac nNumber
        now).update_target_info ifnet_receive unit lladdr mac true now =
      some (TargetController.init nShelf nSlot ifnet_receive unit lladdr mac nNumber now) := by
  have hf : findInterface ifnet_receive
      (TargetController.init nShelf nSlot ifnet_receive unit lladdr mac nNumber
        now).m_target.aInterfaces
      (TargetController.init nShelf nSlot ifnet_receive unit lladdr mac nNumber
        now).m_target.nNumberOfInterfaces = some 0 := by
    have h1 : (TargetController.init nShelf nSlot ifnet_receive unit lladdr mac nNumber
        now).m_target.nNumberOfInterfaces = 1 := rfl
    have h2 : (TargetController.init nShelf nSlot ifnet_receive unit lladdr mac nNumber
        now).m_target.aInterfaces = [ifnet_receive, 0, 0, 0, 0, 0] := rfl
    rw [h1, h2]
    simp [findInterface, List.range_succ]
  unfold TargetController.update_target_info
  simp only [hf]
  rfl

theorem handle_aoe_cmd_get (c : TargetController) (s : AoEService) (ifnet_receive : Nat)
    (pCfgHeader : List Nat)
    (hget : AOE_CFGHEADER_GETCCMD pCfgHeader = CONFIG_STR_GET)
    (hcs : AOE_CFGHEADER_GETCSLEN pCfgHeader < 65536)
    (hlen : min (AOE_CFGHEADER_GETCSLEN pCfgHeader) MAX_CONFIG_STRING_LENGTH ≤
      (pCfgHeader.drop 8).length) :
    ∃ s1, c.handle_aoe_cmd s ifnet_receive pCfgHeader =
      some ({ c with
          m_nBufferCount := AOE_CFGHEADER_GETBCOUNT pCfgHeader
          m_aConfigString :=
            (pCfgHeader.drop 8).take
                (min (AOE_CFGHEADER_GETCSLEN pCfgHeader) MAX_CONFIG_STRING_LENGTH) ++
              c.m_aConfigString.drop
                (min (AOE_CFGHEADER_GETCSLEN pCfgHeader) MAX_CONFIG_STRING_LENGTH) }, s1) := by
  have hk : (MIN (wrapS32 (AOE_CFGHEADER_GETCSLEN pCfgHeader)) MAX_CONFIG_STRING_LENGTH).toNat =
      min (AOE_CFGHEADER_GETCSLEN pCfgHeader) MAX_CONFIG_STRING_LENGTH ∧
      (MIN (wrapS32 (AOE_CFGHEADER_GETCSLEN pCfgHeader)) MAX_CONFIG_STRING_LENGTH : Int) =
        (min (AOE_CFGHEADER_GETCSLEN pCfgHeader) MAX_CONFIG_STRING_LENGTH : Nat) := by
    unfold MIN wrapS32 MAX_CONFIG_STRING_LENGTH
    constructor <;> split_ifs <;> omega
  unfold TargetController.handle_aoe_cmd
  simp only
  rw [if_pos hget, hk.1, hk.2, if_neg (by omega)]
  exact ⟨_, rfl⟩

/-- C19 (amended): when a config reply whose config command is `CONFIG_STR_GET`
arrives from a shelf and slot that no controller of the list has, and the
first mbuf holds the string, `aoe_config_receive` appends exactly one
controller for that shelf and slot, with a target number that was not in use,
and that controller is registered if and only if the string of the reply and
the string of the host are equal as C strings within
`MAX_CONFIG_STRING_LENGTH` bytes; otherwise it stays in the list, not registered. -/
theorem config_reply_adds_target (ci : AoEControllerInterface) (ifnet_receive unit : Nat)
    (lladdr ether_shost : List Nat) (nMajor nMinor : Nat) (pCfgHeader : List Nat) (now : Nat)
    (hnew : ∀ c ∈ ci.m_pControllers, c.is_device nMajor nMinor ≠ 0)
    (hget : AOE_CFGHEADER_GETCCMD pCfgHeader = CONFIG_STR_GET)
    (hcs : AOE_CFGHEADER_GETCSLEN pCfgHeader < 65536)
    (hlen : min (AOE_CFGHEADER_GETCSLEN pCfgHeader) MAX_CONFIG_STRING_LENGTH ≤
      (pCfgHeader.drop 8).length)
    (hmajor : nMajor < 65536) (hminor : nMinor < 256)
    (hcount : ci.m_pControllers.length < 2147483646) :
    ∃ ci1 c, ci.aoe_config_receive ifnet_receive unit lladdr ether_shost nMajor nMinor
          pCfgHeader now = some (ci1, 0) ∧
      ci1.m_pControllers = ci.m_pControllers ++ [c] ∧
      c.m_target.nShelf = nMajor ∧ c.m_target.nSlot = nMinor ∧
      numberInUse ci.m_pControllers c.target_number = false ∧
      (c.m_fRegistered = true ↔
        cstr ci.m_pszOurCString MAX_CONFIG_STRING_LENGTH =
          cstr ((pCfgHeader.drop 8).take (AOE_CFGHEADER_GETCSLEN pCfgHeader))
            MAX_CONFIG_STRING_LENGTH) := by
  obtain ⟨n, hn, hfree, hn1⟩ := get_next_target_number_isSome ci.m_pControllers hcount
  have hnb : n < 2147483648 := by
    by_contra hge
    have hle : ∀ (fuel : Nat) (a m : Int), nextTargetNumber ci.m_pControllers fuel a = some m →
        0 ≤ a → a + fuel < 2147483648 → m < a + fuel := by
      intro fuel
      induction fuel with
      | zero => intro a m h; cases h
      | succ fuel ih =>
        intro a m h h0 hb
        rw [nextTargetNumber] at h
        by_cases hu : numberInUse ci.m_pControllers a = true
        · rw [if_pos hu] at h
          have hw : wrapS32 (a + 1) = a + 1 := by
            unfold wrapS32
            omega
          rw [hw] at h
          have := ih (a + 1) m h (by omega) (by push_cast at hb ⊢; omega)
          push_cast
          omega
        · rw [if_neg hu] at h
          cases h
          push_cast
          omega
    have := hle _ _ _ hn (by decide) (by push_cast; omega)
    push_cast at this
    omega
  have hshelf : intToU32 (nMajor : Int) = nMajor := by
    unfold intToU32
    omega
  have hslot : intToU32 (nMinor : Int) = nMinor := by
    unfold intToU32
    omega
  have hupd := init_update_target_info nMajor nMinor ifnet_receive unit lladdr ether_shost n now
  have hc1 : (TargetController.init nMajor nMinor ifnet_receive unit lladdr ether_shost n
      now).m_target.nShelf = nMajor := hshelf
  have hc2 : (TargetController.init nMajor nMinor ifnet_receive unit lladdr ether_shost n
      now).m_target.nSlot = nMinor := hslot
  have hc3 : (TargetController.init nMajor nMinor ifnet_receive unit lladdr ether_shost n
      now).target_number = n := by
    show wrapS32 ((intToU32 n : Nat) : Int) = n
    unfold wrapS32 intToU32
    omega
  have hc4 : (TargetController.init nMajor nMinor ifnet_receive unit lladdr ether_shost n
      now).m_aConfigString = List.replicate MAX_CONFIG_STRING_LENGTH 0 := rfl
  have hc5 : (TargetController.init nMajor nMinor ifnet_receive unit lladdr ether_shost n
      now).m_fRegistered = false := rfl
  have hloop := configReceiveLoop_new ifnet_receive unit lladdr ether_shost pCfgHeader
    nMajor nMinor now ci.m_pControllers ci [] false hnew
  rw [List.nil_append] at hloop
  have hsame : ({ ci with m_pControllers := ci.m_pControllers } : AoEControllerInterface) = ci := rfl
  rw [hsame] at hloop
  unfold AoEControllerInterface.aoe_config_receive
  rw [hloop]
  simp only [hn]
  generalize TargetController.init nMajor nMinor ifnet_receive unit lladdr ether_shost n now = c0
    at hupd hc1 hc2 hc3 hc4 hc5 ⊢
  obtain ⟨s1, hh⟩ := handle_aoe_cmd_get c0 ci.m_pAoEService ifnet_receive pCfgHeader hget hcs hlen
  rw [hc4] at hh
  have hstored := cstr_stored (pCfgHeader.drop 8) (AOE_CFGHEADER_GETCSLEN pCfgHeader) hlen
  have hreg := strncmp_eq_zero_iff MAX_CONFIG_STRING_LENGTH ci.m_pszOurCString
    ((pCfgHeader.drop 8).take (min (AOE_CFGHEADER_GETCSLEN pCfgHeader) MAX_CONFIG_STRING_LENGTH) ++
      (List.replicate MAX_CONFIG_STRING_LENGTH 0).drop
        (min (AOE_CFGHEADER_GETCSLEN pCfgHeader) MAX_CONFIG_STRING_LENGTH))
  rw [hstored] at hreg
  generalize (pCfgHeader.drop 8).take
      (min (AOE_CFGHEADER_GETCSLEN pCfgHeader) MAX_CONFIG_STRING_LENGTH) ++
    (List.replicate MAX_CONFIG_STRING_LENGTH 0).drop
      (min (AOE_CFGHEADER_GETCSLEN pCfgHeader) MAX_CONFIG_STRING_LENGTH) = stored at hh hreg
  simp only [hupd, hh]
  have htn : ∀ (b : Bool) (x : Nat) (str : List Nat),
      ({ c0 with m_nBufferCount := x, m_aConfigString := str, m_fRegistered := b }
        : TargetController).target_number = n := fun _ _ _ => hc3
  by_cases hours : strncmp ci.m_pszOurCString stored MAX_CONFIG_STRING_LENGTH = 0
  · refine ⟨{ ci with
        m_pAoEService := s1
        m_pControllers := ci.m_pControllers ++ [{ c0 with
          m_nBufferCount := AOE_CFGHEADER_GETBCOUNT pCfgHeader
          m_aConfigString := stored
          m_fRegistered := true }] }, { c0 with
        m_nBufferCount := AOE_CFGHEADER_GETBCOUNT pCfgHeader
        m_aConfigString := stored
        m_fRegistered := true }, ?_, rfl, hc1, hc2, ?_, ?_⟩
    · simp only [TargetController.cstring_is_ours, hours, if_true,
        TargetController.registerDiskService]
    · rw [htn]
      exact hfree
    · simp only [true_iff]
      exact hreg.mp hours
  · refine ⟨{ ci with
        m_pAoEService := s1
        m_pControllers := ci.m_pControllers ++ [{ c0 with
          m_nBufferCount := AOE_CFGHEADER_GETBCOUNT pCfgHeader
          m_aConfigString := stored }] }, { c0 with
        m_nBufferCount := AOE_CFGHEADER_GETBCOUNT pCfgHeader
        m_aConfigString := stored }, ?_, rfl, hc1, hc2, ?_, ?_⟩
    · simp only [TargetController.cstring_is_ours, hours, if_false]
      rfl
    · have := htn c0.m_fRegistered (AOE_CFGHEADER_GETBCOUNT pCfgHeader) stored
      rw [show ({ c0 with
        m_nBufferCount := AOE_CFGHEADER_GETBCOUNT pCfgHeader
        m_aConfigString := stored } : TargetController).target_number = n from hc3]
      exact hfree
    · rw [show ({ c0 with
        m_nBufferCount := AOE_CFGHEADER_GETBCOUNT pCfgHeader
        m_aConfigString := stored } : TargetController).m_fRegistered = false from hc5]
      simp only [Bool.false_eq_true, false_iff]
      exact fun h => hours (hreg.mpr h)

/-- C19 (counterexample): the host's string is "disk"; a config reply from
the unknown shelf 7, slot 2 carries the string "disk" and the config command
`CONFIG_STR_FORCE_SET`.  `handle_aoe_cmd` stores the string of a
`CONFIG_STR_GET` reply only, so the new controller keeps an empty string and
is not registered although the two strings are equal. -/
theorem equal_string_not_registered :
    ((exampleInterface [100, 105, 115, 107]).aoe_config_receive 1 0 [0, 0x1b, 0x63, 1, 2, 3]
        [0, 0x30, 0x48, 4, 5, 6] 7 2
        (exampleConfigReply CONFIG_STR_FORCE_SET [100, 105, 115, 107]) 5000).map
      (fun r => r.1.m_pControllers.map fun c =>
        (c.m_target.nShelf, c.m_target.nSlot, c.m_fRegistered)) = some [(7, 2, false)] ∧
    cstr (exampleInterface [100, 105, 115, 107]).m_pszOurCString MAX_CONFIG_STRING_LENGTH =
      cstr (((exampleConfigReply CONFIG_STR_FORCE_SET [100, 105, 115, 107]).drop 8).take
        (AOE_CFGHEADER_GETCSLEN (exampleConfigReply CONFIG_STR_FORCE_SET [100, 105, 115, 107])))
        MAX_CONFIG_STRING_LENGTH := by
  decide

/-- The reply to a `CONFIG_STR_GET` query with the string "disk" on a host
whose string is "disk". -/
theorem config_reply_adds_target_witness :
    ((∀ c ∈ (exampleInterface [100, 105, 115, 107]).m_pControllers, c.is_device 7 2 ≠ 0) ∧
      AOE_CFGHEADER_GETCCMD (exampleConfigReply CONFIG_STR_GET [100, 105, 115, 107]) =
        CONFIG_STR_GET ∧
      AOE_CFGHEADER_GETCSLEN (exampleConfigReply CONFIG_STR_GET [100, 105, 115, 107]) < 65536 ∧
      min (AOE_CFGHEADER_GETCSLEN (exampleConfigReply CONFIG_STR_GET [100, 105, 115, 107]))
          MAX_CONFIG_STRING_LENGTH ≤
        ((exampleConfigReply CONFIG_STR_GET [100, 105, 115, 107]).drop 8).length ∧
      7 < 65536 ∧ 2 < 256 ∧
      (exampleInterface [100, 105, 115, 107]).m_pControllers.length < 2147483646) ∧
    ∃ ci1 c, (exampleInterface [100, 105, 115, 107]).aoe_config_receive 1 0
          [0, 0x1b, 0x63, 1, 2, 3] [0, 0x30, 0x48, 4, 5, 6] 7 2
          (exampleConfigReply CONFIG_STR_GET [100, 105, 115, 107]) 5000 = some (ci1, 0) ∧
      ci1.m_pControllers = (exampleInterface [100, 105, 115, 107]).m_pControllers ++ [c] ∧
      c.m_target.nShelf = 7 ∧ c.m_target.nSlot = 2 ∧
      numberInUse (exampleInterface [100, 105, 115, 107]).m_pControllers c.target_number =
        false ∧
      (c.m_fRegistered = true ↔
        cstr (exampleInterface [100, 105, 115, 107]).m_pszOurCString MAX_CONFIG_STRING_LENGTH =
          cstr (((exampleConfigReply CONFIG_STR_GET [100, 105, 115, 107]).drop 8).take
            (AOE_CFGHEADER_GETCSLEN (exampleConfigReply CONFIG_STR_GET [100, 105, 115, 107])))
            MAX_CONFIG_STRING_LENGTH) :=
  ⟨⟨by decide, by decide, by decide, by decide, by decide, by decide, by decide⟩,
    config_reply_adds_target (exampleInterface [100, 105, 115, 107]) 1 0
      [0, 0x1b, 0x63, 1, 2, 3] [0, 0x30, 0x48, 4, 5, 6] 7 2
      (exampleConfigReply CONFIG_STR_GET [100, 105, 115, 107]) 5000
      (by decide) (by decide) (by decide) (by decide) (by decide) (by decide) (by decide)⟩

/-- The same reply is registered: the evaluation of the example. -/
theorem config_reply_example :
    ((exampleInterface [100, 105, 115, 107]).aoe_config_receive 1 0 [0, 0x1b, 0x63, 1, 2, 3]
        [0, 0x30, 0x48, 4, 5, 6] 7 2
        (exampleConfigReply CONFIG_STR_GET [100, 105, 115, 107]) 5000).map
      (fun r => r.1.m_pControllers.map fun c =>
        (c.m_target.nTargetNumber, c.m_fRegistered, c.m_aConfigString.take 6)) =
      some [(1, true, [100, 105, 115, 107, 0, 0])] := by
  decide
/-! ## Discovery and the removal of a link -/

/-- C21: with port 1 as the only enabled port (interface reference 7), one
pass of `aoe_search_all` returns 0 and queues two broadcast config queries on
that port, not one: both the to-send queue and the sent queue hold two entries
for interface 7, with the tags `0x40000001` and `0x40000002`, each a config
query to shelf `0xFFFF`, slot `0xFF` that is not retransmitted. -/
theorem aoe_search_all_repeats_query :
    (exampleSearch.m_pAoEService.m_pInterfaces.m_aInterfaces.map fun e =>
        (e.m_fEnabled, e.m_ifnet)) =
      [(false, 0), (true, 7), (false, 0), (false, 0), (false, 0), (false, 0)] ∧
    exampleSearch.m_pAoEService.m_to_send_queue = [] ∧
    exampleSearch.m_pAoEService.m_sent_queue = [] ∧
    ((exampleSearch.aoe_search_all 2).map fun r => r.2) = some 0 ∧
    ((exampleSearch.aoe_search_all 2).map fun r =>
        r.1.m_pAoEService.m_to_send_queue.map fun p =>
          (p.if_sent, p.Tag, AOE_HEADER_GETMAJOR (p.mbuf.drop 14),
            AOE_HEADER_GETMINOR (p.mbuf.drop 14), AOE_HEADER_GETCMD (p.mbuf.drop 14))) =
      some [(7, 0x40000001, SHELF_BROADCAST, SLOT_BROADCAST, AOE_CFG_COMMAND),
        (7, 0x40000002, SHELF_BROADCAST, SLOT_BROADCAST, AOE_CFG_COMMAND)] ∧
    ((exampleSearch.aoe_search_all 2).map fun r =>
        r.1.m_pAoEService.m_sent_queue.map fun e => (e.if_sent, e.Tag, e.RetransmitTime_us)) =
      some [(7, 0x40000001, 0), (7, 0x40000002, 0)] := by
  decide

theorem purgeSentQueue_snd (ifs : EInterfaces) (l : List SentPktQueue) :
    (purgeSentQueue ifs l).2 = none := by
  induction l with
  | nil => rfl
  | cons e es ih => simp only [purgeSentQueue]; exact ih

theorem purgeSentQueue_fst (ifs : EInterfaces) (l : List SentPktQueue) :
    (purgeSentQueue ifs l).1 = l.filter fun e => decide (ifs.is_used e.if_sent = 1) := by
  induction l with
  | nil => rfl
  | cons e es ih =>
    simp only [purgeSentQueue, List.filter_cons, ih]
    by_cases h : ifs.is_used e.if_sent = 1
    · simp [h]
    · simp [h]

theorem cg_disable_interface_interfaces (s : AoEService) (n : Nat) :
    (cg_disable_interface s n).1.m_pInterfaces = s.m_pInterfaces.interface_disconnected n := by
  simp only [cg_disable_interface, purgeSentQueue_snd]

theorem cg_disable_interface_to_send (s : AoEService) (n : Nat) :
    (cg_disable_interface s n).1.m_to_send_queue =
      s.m_to_send_queue.filter fun p =>
        decide ((s.m_pInterfaces.interface_disconnected n).is_used p.if_sent = 1) := by
  simp only [cg_disable_interface]

theorem cg_disable_interface_sent (s : AoEService) (n : Nat) :
    (cg_disable_interface s n).1.m_sent_queue =
      s.m_sent_queue.filter fun e =>
        decide ((s.m_pInterfaces.interface_disconnected n).is_used e.if_sent = 1) := by
  simp only [cg_disable_interface, purgeSentQueue_fst]

theorem modify_counters (l : List EInterface) (f : EInterface → EInterface) (k : Nat)
    (hf : ∀ e, (f e).m_nOutstandingCount = e.m_nOutstandingCount) :
    (l.modify f k).map (fun e => e.m_nOutstandingCount) =
      l.map fun e => e.m_nOutstandingCount := by
  induction l generalizing k with
  | nil => simp
  | cons a l ih =>
    cases k with
    | zero => simp [List.modify_zero_cons, hf]
    | succ k => simp [List.modify_succ_cons, ih]

/-- The outstanding counters are the same before and after
`cg_disable_interface`, and after `interface_reconnected`. -/
theorem cg_disable_interface_counters (s : AoEService) (n i : Nat) :
    ((cg_disable_interface s n).1.m_pInterfaces.m_aInterfaces.map fun e =>
        e.m_nOutstandingCount) = s.m_pInterfaces.m_aInterfaces.map (fun e => e.m_nOutstandingCount) ∧
    ((interface_reconnected (cg_disable_interface s n).1 n i).m_pInterfaces.m_aInterfaces.map
        fun e => e.m_nOutstandingCount) =
      s.m_pInterfaces.m_aInterfaces.map (fun e => e.m_nOutstandingCount) := by
  have h1 : ((cg_disable_interface s n).1.m_pInterfaces.m_aInterfaces.map fun e =>
      e.m_nOutstandingCount) = s.m_pInterfaces.m_aInterfaces.map (fun e => e.m_nOutstandingCount) := by
    rw [cg_disable_interface_interfaces]
    unfold EInterfaces.interface_disconnected
    split
    · rfl
    · exact modify_counters _ _ _ (fun _ => rfl)
  refine ⟨h1, ?_⟩
  unfold interface_reconnected EInterfaces.interface_reconnected
  simp only
  refine (modify_counters _ _ _ ?_).trans h1
  intro _
  rfl

/-- C22: after `cg_disable_interface(n)` every entry of the to-send queue and
of the sent queue is on an interface that `is_used` reports as enabled, and
each queue is the queue before the call without the entries whose interface
is not enabled: the other entries are all there, in their order. -/
theorem cg_disable_interface_purges_unused (s : AoEService) (n : Nat) :
    (∀ p ∈ (cg_disable_interface s n).1.m_to_send_queue,
        (cg_disable_interface s n).1.m_pInterfaces.is_used p.if_sent = 1) ∧
    (∀ e ∈ (cg_disable_interface s n).1.m_sent_queue,
        (cg_disable_interface s n).1.m_pInterfaces.is_used e.if_sent = 1) ∧
    (cg_disable_interface s n).1.m_to_send_queue =
      s.m_to_send_queue.filter (fun p =>
        decide ((cg_disable_interface s n).1.m_pInterfaces.is_used p.if_sent = 1)) ∧
    (cg_disable_interface s n).1.m_sent_queue =
      s.m_sent_queue.filter (fun e =>
        decide ((cg_disable_interface s n).1.m_pInterfaces.is_used e.if_sent = 1)) := by
  rw [cg_disable_interface_interfaces, cg_disable_interface_to_send, cg_disable_interface_sent]
  refine ⟨?_, ?_, rfl, rfl⟩
  · intro p hp
    have := (List.mem_filter.mp hp).2
    exact of_decide_eq_true this
  · intro e he
    have := (List.mem_filter.mp he).2
    exact of_decide_eq_true this

/-- C23: a service with port 0 enabled has transmitted one request on it (the
outstanding counter of the port is 1, the request is in the sent queue).
`cg_disable_interface(0)` purges the request from the sent queue, but the
counter of port 0 is still 1 afterwards, and it is still 1 after
`interface_reconnected` has brought the port back. -/
theorem outstanding_kept_after_disable :
    (exampleWaiting.m_sent_queue.map fun e => (e.if_sent, e.Tag, e.pOutstandingCount)) =
      [(1, 5, 0)] ∧
    (exampleWaiting.m_pInterfaces.m_aInterfaces.map fun e =>
        (e.m_fEnabled, e.m_ifnet, e.m_nOutstandingCount)) =
      [(true, 1, 1), (false, 0, 0), (false, 0, 0), (false, 0, 0), (false, 0, 0), (false, 0, 0)] ∧
    (cg_disable_interface exampleWaiting 0).1.m_sent_queue = [] ∧
    (cg_disable_interface exampleWaiting 0).1.m_to_send_queue = [] ∧
    ((cg_disable_interface exampleWaiting 0).1.m_pInterfaces.m_aInterfaces.map fun e =>
        (e.m_fEnabled, e.m_ifnet, e.m_nOutstandingCount)) =
      [(false, 0, 1), (false, 0, 0), (false, 0, 0), (false, 0, 0), (false, 0, 0), (false, 0, 0)] ∧
    ((interface_reconnected (cg_disable_interface exampleWaiting 0).1 0 1).m_pInterfaces.m_aInterfaces.map
        fun e => (e.m_fEnabled, e.m_ifnet, e.m_nOutstandingCount)) =
      [(true, 1, 1), (false, 0, 0), (false, 0, 0), (false, 0, 0), (false, 0, 0), (false, 0, 0)] := by
  decide
/-! ## Window growth on a matched reply -/

theorem ackRun_succ (s : EInterfaces) (i k : Nat) :
    s.ackRun i (k + 1) = (s.ackRun i k).ack_cwnd i := by
  unfold EInterfaces.ackRun
  rw [List.replicate_succ', List.foldl_append]
  rfl

theorem lookupFirst_ack_cwnd (s : EInterfaces) (i : Nat) (e : EInterface)
    (he : lookupFirst i s.m_aInterfaces = some e) :
    lookupFirst i (s.ack_cwnd i).m_aInterfaces =
      some (if wrapS32 e.m_nCwd < wrapS32 e.m_nSSThresh then e.grow_cwnd 1 0
        else e.grow_cwnd 0 1) := by
  unfold EInterfaces.ack_cwnd EInterfaces.get_cwnd EInterfaces.get_ssthresh
  simp only [he]
  by_cases h : wrapS32 e.m_nCwd < wrapS32 e.m_nSSThresh
  · rw [if_pos h, if_pos h]
    unfold EInterfaces.grow_cwnd
    simp only
    rw [lookupFirst_updateFirst i i _ (fun x => (grow_cwnd_ifnet x 1 0).1), if_pos rfl, he]
    rfl
  · rw [if_neg h, if_neg h]
    unfold EInterfaces.grow_cwnd
    simp only
    rw [lookupFirst_updateFirst i i _ (fun x => (grow_cwnd_ifnet x 0 1).1), if_pos rfl, he]
    rfl

theorem grow_int_fields (e : EInterface) (hc : e.m_nCwd + 1 < 4294967296)
    (hf : e.m_nCwdFractional < e.m_nCwd + 1) :
    (e.grow_cwnd 1 0).m_nCwd = e.m_nCwd + 1 ∧
      (e.grow_cwnd 1 0).m_nCwdFractional = e.m_nCwdFractional ∧
      (e.grow_cwnd 1 0).m_nSSThresh = e.m_nSSThresh := by
  have i1 : intToU32 1 = 1 := by decide
  have i0 : intToU32 0 = 0 := by decide
  have e1 : (e.m_nCwd + 1) % 4294967296 = e.m_nCwd + 1 := Nat.mod_eq_of_lt hc
  have e2 : e.m_nCwdFractional % 4294967296 = e.m_nCwdFractional := Nat.mod_eq_of_lt (by omega)
  simp only [EInterface.grow_cwnd, i1, i0, Nat.add_zero, e1, e2]
  rw [if_neg (by omega)]
  exact ⟨rfl, rfl, rfl⟩

theorem grow_frac_fields (e : EInterface) (hc : e.m_nCwd < 4294967296)
    (hf : e.m_nCwdFractional + 1 < e.m_nCwd) :
    (e.grow_cwnd 0 1).m_nCwd = e.m_nCwd ∧
      (e.grow_cwnd 0 1).m_nCwdFractional = e.m_nCwdFractional + 1 ∧
      (e.grow_cwnd 0 1).m_nSSThresh = e.m_nSSThresh := by
  have i1 : intToU32 1 = 1 := by decide
  have i0 : intToU32 0 = 0 := by decide
  have e1 : e.m_nCwd % 4294967296 = e.m_nCwd := Nat.mod_eq_of_lt hc
  have e2 : (e.m_nCwdFractional + 1) % 4294967296 = e.m_nCwdFractional + 1 :=
    Nat.mod_eq_of_lt (by omega)
  simp only [EInterface.grow_cwnd, i1, i0, Nat.add_zero, e1, e2]
  rw [if_neg (by omega)]
  exact ⟨rfl, rfl, rfl⟩

theorem grow_frac_carry_fields (e : EInterface) (h1 : 1 ≤ e.m_nCwd)
    (hc : e.m_nCwd < 2147483648) (hf : e.m_nCwdFractional + 1 = e.m_nCwd) :
    (e.grow_cwnd 0 1).m_nCwd = e.m_nCwd + 1 ∧
      (e.grow_cwnd 0 1).m_nCwdFractional = 0 ∧
      (e.grow_cwnd 0 1).m_nSSThresh = e.m_nSSThresh := by
  have i1 : intToU32 1 = 1 := by decide
  have i0 : intToU32 0 = 0 := by decide
  have e1 : e.m_nCwd % 4294967296 = e.m_nCwd := Nat.mod_eq_of_lt (by omega)
  have e2 : (e.m_nCwdFractional + 1) % 4294967296 = e.m_nCwd := by
    rw [hf]; exact e1
  have e3 : (e.m_nCwd + 1) % 4294967296 = e.m_nCwd + 1 := Nat.mod_eq_of_lt (by omega)
  simp only [EInterface.grow_cwnd, i1, i0, Nat.add_zero, e1, e2,
    intToU32_wrapS32 e.m_nCwd (by omega)]
  rw [if_pos (le_refl _), Nat.div_self (by omega), Nat.mod_self, e3]
  exact ⟨rfl, rfl, rfl⟩

theorem ack_step (s : EInterfaces) (i : Nat) (e : EInterface)
    (he : lookupFirst i s.m_aInterfaces = some e)
    (hc1 : 1 ≤ e.m_nCwd) (hc2 : e.m_nCwd < 2147483648) (hs : e.m_nSSThresh < 2147483648)
    (hf : e.m_nCwdFractional < e.m_nCwd) :
    ∃ e1, lookupFirst i (s.ack_cwnd i).m_aInterfaces = some e1 ∧
      e1.m_nSSThresh = e.m_nSSThresh ∧
      (e.m_nCwd < e.m_nSSThresh →
        e1.m_nCwd = e.m_nCwd + 1 ∧ e1.m_nCwdFractional = e.m_nCwdFractional) ∧
      (e.m_nSSThresh ≤ e.m_nCwd → e.m_nCwdFractional + 1 < e.m_nCwd →
        e1.m_nCwd = e.m_nCwd ∧ e1.m_nCwdFractional = e.m_nCwdFractional + 1) ∧
      (e.m_nSSThresh ≤ e.m_nCwd → e.m_nCwdFractional + 1 = e.m_nCwd →
        e1.m_nCwd = e.m_nCwd + 1 ∧ e1.m_nCwdFractional = 0) := by
  have w1 : wrapS32 (e.m_nCwd : Int) = e.m_nCwd := wrapS32_small _ hc2
  have w2 : wrapS32 (e.m_nSSThresh : Int) = e.m_nSSThresh := wrapS32_small _ hs
  refine ⟨_, lookupFirst_ack_cwnd s i e he, ?_⟩
  rw [w1, w2]
  by_cases h : e.m_nCwd < e.m_nSSThresh
  · rw [if_pos (by exact_mod_cast h)]
    obtain ⟨a, b, c⟩ := grow_int_fields e (by omega) (by omega)
    exact ⟨c, fun _ => ⟨a, b⟩, fun h' => absurd h' (by omega), fun h' => absurd h' (by omega)⟩
  · rw [if_neg (by exact_mod_cast h)]
    by_cases h2 : e.m_nCwdFractional + 1 < e.m_nCwd
    · obtain ⟨a, b, c⟩ := grow_frac_fields e (by omega) h2
      exact ⟨c, fun h' => absurd h' h, fun _ _ => ⟨a, b⟩, fun _ h' => absurd h' (by omega)⟩
    · obtain ⟨a, b, c⟩ := grow_frac_carry_fields e hc1 hc2 (by omega)
      exact ⟨c, fun h' => absurd h' h, fun _ h' => absurd h' h2, fun _ _ => ⟨a, b⟩⟩

theorem ackRun_avoid (s : EInterfaces) (i : Nat) (e : EInterface)
    (he : lookupFirst i s.m_aInterfaces = some e)
    (hc1 : 1 ≤ e.m_nCwd) (hc2 : e.m_nCwd < 2147483648) (hss : e.m_nSSThresh ≤ e.m_nCwd)
    (hf : e.m_nCwdFractional = 0) (k : Nat) (hk : k < e.m_nCwd) :
    ∃ ek, lookupFirst i (s.ackRun i k).m_aInterfaces = some ek ∧
      ek.m_nSSThresh = e.m_nSSThresh ∧ ek.m_nCwd = e.m_nCwd ∧ ek.m_nCwdFractional = k := by
  induction k with
  | zero => exact ⟨e, he, rfl, rfl, hf⟩
  | succ k ih =>
    obtain ⟨ek, h1, h2, h3, h4⟩ := ih (by omega)
    obtain ⟨e1, g1, g2, _, g4, _⟩ :=
      ack_step (s.ackRun i k) i ek h1 (by omega) (by omega) (by omega) (by omega)
    obtain ⟨a, b⟩ := g4 (by omega) (by omega)
    rw [ackRun_succ]
    exact ⟨e1, g1, by omega, by omega, by omega⟩

/-- C24 (counterexample): a link with cwnd = `2^31`, remainder 0 and
ssthresh = 64, hence ssthresh ≤ cwnd.  The window read as an `int` is negative
and compares below the threshold, so every matched reply adds 1 to cwnd: after
`2^31 - 1` replies cwnd is `2^32 - 1`, not `2^31`. -/
theorem window_grows_when_read_negative :
    (lookupFirst 1 (linkState 2147483648 0).m_aInterfaces).map
        (fun e => (e.m_nSSThresh, e.m_nCwd, e.m_nCwdFractional)) = some (64, 2147483648, 0) ∧
    (lookupFirst 1 ((linkState 2147483648 0).ackRun 1 1).m_aInterfaces).map
        (fun e => (e.m_nSSThresh, e.m_nCwd, e.m_nCwdFractional)) = some (64, 2147483649, 0) ∧
    (lookupFirst 1 ((linkState 2147483648 0).ackRun 1 (2147483648 - 1)).m_aInterfaces).map
        (fun e => (e.m_nSSThresh, e.m_nCwd, e.m_nCwdFractional)) = some (64, 4294967295, 0) := by
  have h1 : (linkState 2147483648 0).ackRun 1 1 = linkState 2147483649 0 :=
    acks_negative 1 2147483648 (by omega) (by omega)
  have h2 : (linkState 2147483648 0).ackRun 1 (2147483648 - 1) = linkState 4294967295 0 :=
    acks_negative (2147483648 - 1) 2147483648 (by omega) (by omega)
  rw [h1, h2]
  exact ⟨rfl, rfl, rfl⟩

/-- C24 (amended): on a matched reply for a link whose window and threshold
are below `2^31` and whose remainder is below cwnd: if cwnd < ssthresh, cwnd
grows by exactly 1 and the remainder is unchanged; otherwise the remainder
grows by 1 and, when it reaches cwnd, cwnd grows by 1 and the remainder is 0;
the remainder is below cwnd afterwards.  Hence, from remainder 0 with
ssthresh ≤ cwnd = c, cwnd is still c after `c - 1` matched replies (and after
every smaller number, with the remainder equal to that number) and is `c + 1`
with remainder 0 after `c` matched replies. -/
theorem window_growth_below_int_range (s : EInterfaces) (if_sent : Nat) (e : EInterface)
    (he : lookupFirst if_sent s.m_aInterfaces = some e)
    (hc1 : 1 ≤ e.m_nCwd) (hc2 : e.m_nCwd < 2147483648) (hs : e.m_nSSThresh < 2147483648)
    (hf : e.m_nCwdFractional < e.m_nCwd) :
    (∃ e1, lookupFirst if_sent (s.ack_cwnd if_sent).m_aInterfaces = some e1 ∧
      (e.m_nCwd < e.m_nSSThresh →
        e1.m_nCwd = e.m_nCwd + 1 ∧ e1.m_nCwdFractional = e.m_nCwdFractional) ∧
      (e.m_nSSThresh ≤ e.m_nCwd → e.m_nCwdFractional + 1 < e.m_nCwd →
        e1.m_nCwd = e.m_nCwd ∧ e1.m_nCwdFractional = e.m_nCwdFractional + 1) ∧
      (e.m_nSSThresh ≤ e.m_nCwd → e.m_nCwdFractional + 1 = e.m_nCwd →
        e1.m_nCwd = e.m_nCwd + 1 ∧ e1.m_nCwdFractional = 0) ∧
      e1.m_nCwdFractional < e1.m_nCwd) ∧
    (e.m_nSSThresh ≤ e.m_nCwd → e.m_nCwdFractional = 0 →
      (∀ k, k < e.m_nCwd →
        ∃ ek, lookupFirst if_sent (s.ackRun if_sent k).m_aInterfaces = some ek ∧
          ek.m_nCwd = e.m_nCwd ∧ ek.m_nCwdFractional = k) ∧
      (∃ ec, lookupFirst if_sent (s.ackRun if_sent (e.m_nCwd - 1)).m_aInterfaces = some ec ∧
          ec.m_nCwd = e.m_nCwd) ∧
      ∃ ec, lookupFirst if_sent (s.ackRun if_sent e.m_nCwd).m_aInterfaces = some ec ∧
          ec.m_nCwd = e.m_nCwd + 1 ∧ ec.m_nCwdFractional = 0) := by
  constructor
  · obtain ⟨e1, g1, _, g3, g4, g5⟩ := ack_step s if_sent e he hc1 hc2 hs hf
    refine ⟨e1, g1, g3, g4, g5, ?_⟩
    by_cases h : e.m_nCwd < e.m_nSSThresh
    · obtain ⟨a, b⟩ := g3 h
      omega
    · by_cases h2 : e.m_nCwdFractional + 1 < e.m_nCwd
      · obtain ⟨a, b⟩ := g4 (by omega) h2
        omega
      · obtain ⟨a, b⟩ := g5 (by omega) (by omega)
        omega
  · intro hss hf0
    have run := ackRun_avoid s if_sent e he hc1 hc2 hss hf0
    refine ⟨fun k hk => ?_, ?_, ?_⟩
    · obtain ⟨ek, a, _, c, d⟩ := run k hk
      exact ⟨ek, a, c, d⟩
    · obtain ⟨ek, a, _, c, _⟩ := run (e.m_nCwd - 1) (by omega)
      exact ⟨ek, a, c⟩
    · obtain ⟨ek, a, b, c, d⟩ := run (e.m_nCwd - 1) (by omega)
      obtain ⟨e1, g1, _, _, _, g5⟩ :=
        ack_step (s.ackRun if_sent (e.m_nCwd - 1)) if_sent ek a (by omega) (by omega)
          (by omega) (by omega)
      obtain ⟨x, y⟩ := g5 (by omega) (by omega)
      have hrun : s.ackRun if_sent e.m_nCwd =
          (s.ackRun if_sent (e.m_nCwd - 1)).ack_cwnd if_sent := by
        rw [← ackRun_succ, Nat.sub_add_cancel hc1]
      rw [hrun]
      exact ⟨e1, g1, by omega, y⟩

/-- A link whose window has reached its threshold of 64: the window is
still 64 after 63 matched replies and is 65 after the 64th. -/
theorem window_growth_below_int_range_witness :
    (lookupFirst 1 (linkState 64 0).m_aInterfaces = some (linkHead 64 0) ∧
      1 ≤ (linkHead 64 0).m_nCwd ∧ (linkHead 64 0).m_nCwd < 2147483648 ∧
      (linkHead 64 0).m_nSSThresh < 2147483648 ∧
      (linkHead 64 0).m_nCwdFractional < (linkHead 64 0).m_nCwd) ∧
    ((∃ e1, lookupFirst 1 ((linkState 64 0).ack_cwnd 1).m_aInterfaces = some e1 ∧
      ((linkHead 64 0).m_nCwd < (linkHead 64 0).m_nSSThresh →
        e1.m_nCwd = (linkHead 64 0).m_nCwd + 1 ∧
          e1.m_nCwdFractional = (linkHead 64 0).m_nCwdFractional) ∧
      ((linkHead 64 0).m_nSSThresh ≤ (linkHead 64 0).m_nCwd →
        (linkHead 64 0).m_nCwdFractional + 1 < (linkHead 64 0).m_nCwd →
        e1.m_nCwd = (linkHead 64 0).m_nCwd ∧
          e1.m_nCwdFractional = (linkHead 64 0).m_nCwdFractional + 1) ∧
      ((linkHead 64 0).m_nSSThresh ≤ (linkHead 64 0).m_nCwd →
        (linkHead 64 0).m_nCwdFractional + 1 = (linkHead 64 0).m_nCwd →
        e1.m_nCwd = (linkHead 64 0).m_nCwd + 1 ∧ e1.m_nCwdFractional = 0) ∧
      e1.m_nCwdFractional < e1.m_nCwd) ∧
    ((linkHead 64 0).m_nSSThresh ≤ (linkHead 64 0).m_nCwd → (linkHead 64 0).m_nCwdFractional = 0 →
      (∀ k, k < (linkHead 64 0).m_nCwd →
        ∃ ek, lookupFirst 1 ((linkState 64 0).ackRun 1 k).m_aInterfaces = some ek ∧
          ek.m_nCwd = (linkHead 64 0).m_nCwd ∧ ek.m_nCwdFractional = k) ∧
      (∃ ec, lookupFirst 1 ((linkState 64 0).ackRun 1 ((linkHead 64 0).m_nCwd - 1)).m_aInterfaces =
            some ec ∧
          ec.m_nCwd = (linkHead 64 0).m_nCwd) ∧
      ∃ ec, lookupFirst 1 ((linkState 64 0).ackRun 1 (linkHead 64 0).m_nCwd).m_aInterfaces =
            some ec ∧
          ec.m_nCwd = (linkHead 64 0).m_nCwd + 1 ∧ ec.m_nCwdFractional = 0)) :=
  ⟨⟨rfl, by decide, by decide, by decide, by decide⟩,
    window_growth_below_int_range (linkState 64 0) 1 (linkHead 64 0) rfl (by decide) (by decide)
      (by decide) (by decide)⟩
/-! ## Splitting of task-file transfers and the LBA registers -/

/-- C25: a 28-bit read (READ DMA, task file) of 4 sectors at address 0 with a
byte count of 2048, on a controller with 2 sectors per packet.
`asyncCommand` issues three packets of 2 sectors (at the addresses 0, 2 and
4), not `ceil(4 / 2) = 2`, and leaves an expected-reply count of 2. -/
theorem taskfile_read_issues_extra_packet :
    is_extended_command exampleTaskFileRead = false ∧
    exampleTaskFileRead.taskFile.ataTFCount = 4 ∧
    exampleTaskFileRead.byteCount = 512 * 4 ∧
    (exampleController exampleTaskFileRead).m_nMaxSectorsPerTransfer = 2 ∧
    ((asyncCommand (exampleController exampleTaskFileRead)).map fun r => r.2.2) =
      some IOReturn.kATANoErr ∧
    ((asyncCommand (exampleController exampleTaskFileRead)).map fun r =>
        r.2.1.map fun p => (p.Tag, p.Command, p.Sector_Count, p.lba0)) =
      some [(8, kATAcmdRead, 2, 0), (9, kATAcmdRead, 2, 2), (10, kATAcmdRead, 2, 4)] ∧
    ((asyncCommand (exampleController exampleTaskFileRead)).map fun r =>
        r.1.m_nReadWriteRepliesRequired) = some 2 := by
  decide

/-- C26: `increment_address` adds modulo the register width.  In the 48-bit
overload the three LBA registers afterwards hold `(A + n) mod 2^48`, `A` being
the address they held, and are 16-bit values; the other registers are
unchanged.  In the 24-bit overload the sector number, cylinder low and
cylinder high registers afterwards hold `(A + n) mod 2^24` and are 8-bit
values; the device/head, sector count, features and command registers are
unchanged. -/
theorem increment_address_adds_mod_width (e : IOExtendedLBA) (t : ataTaskFile) (n : Nat) :
    ((increment_address e n).lba48 = (e.lba48 + n) % 2 ^ 48 ∧
      (increment_address e n).InRange ∧
      (increment_address e n).sectorCount16 = e.sectorCount16 ∧
      (increment_address e n).features16 = e.features16 ∧
      (increment_address e n).device = e.device ∧
      (increment_address e n).command = e.command) ∧
    ((increment_address_tf t n).lba24 = (t.lba24 + n) % 2 ^ 24 ∧
      (increment_address_tf t n).ataTFSector < 256 ∧
      (increment_address_tf t n).ataTFCylLo < 256 ∧
      (increment_address_tf t n).ataTFCylHigh < 256 ∧
      (increment_address_tf t n).ataTFSDH = t.ataTFSDH ∧
      (increment_address_tf t n).ataTFCount = t.ataTFCount ∧
      (increment_address_tf t n).ataTFFeatures = t.ataTFFeatures ∧
      (increment_address_tf t n).ataTFCommand = t.ataTFCommand) := by
  constructor
  · have hA : (e.lbaHigh16 / 256 % 256) <<< 40 ||| (e.lbaMid16 / 256 % 256) <<< 32 |||
        (e.lbaLow16 / 256 % 256) <<< 24 ||| (e.lbaHigh16 % 256) <<< 16 |||
        (e.lbaMid16 % 256) <<< 8 ||| (e.lbaLow16 % 256) <<< 0 = e.lba48 := by
      rw [or_bytes6 _ _ _ _ _ _ (Nat.mod_lt _ (by decide)) (Nat.mod_lt _ (by decide))
        (Nat.mod_lt _ (by decide)) (Nat.mod_lt _ (by decide)) (Nat.mod_lt _ (by decide))]
      unfold IOExtendedLBA.lba48
      omega
    have hB : intToU64 ((e.lba48 : Int) + (n : Int)) = (e.lba48 + n) % 18446744073709551616 := by
      unfold intToU64
      omega
    unfold increment_address
    simp only [and_255, and_65280_shr, shr_and_255, hA, hB]
    have b : ∀ x : Nat, x % 256 < 256 := fun x => Nat.mod_lt _ (by decide)
    simp only [or_bytes2 _ _ (b _) (b _)]
    generalize e.lba48 + n = A
    refine ⟨?_, ⟨?_, ?_, ?_⟩, ?_⟩
    · unfold IOExtendedLBA.lba48
      simp only
      omega
    · simp only; omega
    · simp only; omega
    · simp only; omega
    · simp only [and_self]
  · have hA : (t.ataTFCylHigh % 256) <<< 16 ||| (t.ataTFCylLo % 256) <<< 8 |||
        t.ataTFSector % 256 = t.lba24 := by
      rw [or_bytes3 _ _ _ (Nat.mod_lt _ (by decide)) (Nat.mod_lt _ (by decide))]
      unfold ataTaskFile.lba24
      omega
    have hB : intToU32 ((t.lba24 : Int) + (n : Int)) = (t.lba24 + n) % 4294967296 := by
      unfold intToU32
      omega
    refine ⟨?_, ?_, ?_, ?_, rfl, rfl, rfl, rfl⟩
    · unfold increment_address_tf ataTaskFile.lba24
      simp only [hA, hB, shr_and_255]
      unfold ataTaskFile.lba24
      generalize t.lba24 + n = A
      omega
    · unfold increment_address_tf
      simp only [hA, hB, shr_and_255]
      omega
    · unfold increment_address_tf
      simp only [hA, hB, shr_and_255]
      omega
    · unfold increment_address_tf
      simp only [hA, hB, shr_and_255]
      omega
/-! ## The LBA registers in the ATA header -/

theorem set_pair_bytes (a b : Nat) :
    htons (((a &&& 0xFF) <<< 8) ||| ((b &&& 0xFF) <<< 0)) = [a % 256, b % 256] := by
  unfold htons
  rw [minorcmd_value]
  congr 1
  · omega
  · congr 1
    omega

theorem header_bytes (p : AtaPacket) :
    p.header = [p.AFlags % 256, p.Feature % 256, p.Sector_Count % 256, p.Command % 256,
      p.lba0 % 256, p.lba1 % 256, p.lba2 % 256, p.lba3 % 256, p.lba4 % 256, p.lba5 % 256,
      0, 0] := by
  unfold AtaPacket.header AOE_ATAHEADER_SETAFLAGSFEAT AOE_ATAHEADER_SETSCNTCMD
    AOE_ATAHEADER_SETLBA01 AOE_ATAHEADER_SETLBA23 AOE_ATAHEADER_SETLBA45
  simp only [set_pair_bytes]
  rfl

theorem get_high_byte (a b : Nat) (ha : a < 256) (hb : b < 256) :
    (((a <<< 8) ||| b) >>> 8) &&& 0xFF = a := by
  have e : a <<< 8 = a * 256 := Nat.shiftLeft_eq _ _
  rw [e, or_eq_add _ _ 8 (by omega) (by omega), shr_and_255]
  omega

theorem get_low_byte (a b : Nat) (hb : b < 256) :
    (((a <<< 8) ||| b) >>> 0) &&& 0xFF = b := by
  have e : a <<< 8 = a * 256 := Nat.shiftLeft_eq _ _
  rw [e, or_eq_add _ _ 8 (by omega) (by omega), shr_and_255]
  omega

theorem header_lba (p : AtaPacket) :
    AOE_ATAHEADER_GETLBA0 p.header = p.lba0 % 256 ∧
      AOE_ATAHEADER_GETLBA1 p.header = p.lba1 % 256 ∧
      AOE_ATAHEADER_GETLBA2 p.header = p.lba2 % 256 ∧
      AOE_ATAHEADER_GETLBA3 p.header = p.lba3 % 256 ∧
      AOE_ATAHEADER_GETLBA4 p.header = p.lba4 % 256 ∧
      AOE_ATAHEADER_GETLBA5 p.header = p.lba5 % 256 := by
  have b : ∀ x : Nat, x % 256 < 256 := fun x => Nat.mod_lt _ (by decide)
  rw [header_bytes]
  exact ⟨get_high_byte _ _ (b _) (b _), get_low_byte _ _ (b _),
    get_high_byte _ _ (b _) (b _), get_low_byte _ _ (b _),
    get_high_byte _ _ (b _) (b _), get_low_byte _ _ (b _)⟩

theorem issueCommand_extended_read (c : AoEController) (cmd : IOATACommand)
    (hcmd : c.currentCommand = some cmd) (hext : is_extended_command cmd = true)
    (hread : cmd.flagIOWrite = false) :
    ∃ c1 p, issueCommand c = some (c1, [p], IOReturn.kATANoErr) ∧
      c1.currentCommand = some cmd ∧
      p.lba0 = cmd.extLBA.lbaLow16 % 256 ∧ p.lba3 = cmd.extLBA.lbaLow16 / 256 % 256 ∧
      p.lba1 = cmd.extLBA.lbaMid16 % 256 ∧ p.lba4 = cmd.extLBA.lbaMid16 / 256 % 256 ∧
      p.lba2 = cmd.extLBA.lbaHigh16 % 256 ∧ p.lba5 = cmd.extLBA.lbaHigh16 / 256 % 256 := by
  unfold issueCommand
  rw [hcmd]
  simp only [hext, if_true, hread, Bool.false_eq_true, if_false]
  refine ⟨_, _, rfl, ?_, ?_, ?_, ?_, ?_, ?_, ?_⟩
  · split <;> rfl
  all_goals simp only [and_255, and_65280_shr, Nat.mod_mod]

theorem registerAccess_extended (c : AoEController) (cmd : IOATACommand) (h : List Nat)
    (hcmd : c.currentCommand = some cmd) (hh : c.m_pReceivedATAHeader = some h)
    (hx : c.m_fExtendedLBA = true)
    (h1 : cmd.maskSectorNumValid = true) (h2 : cmd.maskCylinderLoValid = true)
    (h3 : cmd.maskCylinderHiValid = true) :
    ((registerAccess c false).map fun r =>
        (r.2, r.1.currentCommand.map fun cmd2 =>
          (cmd2.extLBA.lbaLow16, cmd2.extLBA.lbaMid16, cmd2.extLBA.lbaHigh16))) =
      some (IOReturn.kATANoErr,
        some (((AOE_ATAHEADER_GETLBA0 h <<< 8) ||| AOE_ATAHEADER_GETLBA3 h) % 65536,
          ((AOE_ATAHEADER_GETLBA1 h <<< 8) ||| AOE_ATAHEADER_GETLBA4 h) % 65536,
          ((AOE_ATAHEADER_GETLBA2 h <<< 8) ||| AOE_ATAHEADER_GETLBA5 h) % 65536)) := by
  unfold registerAccess
  rw [hcmd]
  cases hE : cmd.maskErrFeaturesValid <;> cases hS : cmd.maskSectorCntValid <;>
    cases hT : cmd.maskStatusCmdValid <;>
    simp [hh, hx, h1, h2, h3, hE, hS, hT]

/-- C27: the LBA registers do not survive the round trip.  For a 48-bit read
whose status phase copies the LBA registers back, `issueCommand` issues one
packet, and when the ATA header of that packet comes back and
`registerAccess` decodes it in extended mode, each of the registers LBALow16,
LBAMid16 and LBAHigh16 receives its original low byte as high byte and its
original high byte as low byte. -/
theorem lba_registers_swapped_on_round_trip (c : AoEController) (cmd : IOATACommand)
    (hcmd : c.currentCommand = some cmd) (hext : is_extended_command cmd = true)
    (hread : cmd.flagIOWrite = false)
    (h1 : cmd.maskSectorNumValid = true) (h2 : cmd.maskCylinderLoValid = true)
    (h3 : cmd.maskCylinderHiValid = true) :
    ∃ c1 p, issueCommand c = some (c1, [p], IOReturn.kATANoErr) ∧
      ((registerAccess
            { c1 with m_pReceivedATAHeader := some p.header, m_fExtendedLBA := true } false).map
          fun r =>
            (r.2, r.1.currentCommand.map fun cmd2 =>
              (cmd2.extLBA.lbaLow16, cmd2.extLBA.lbaMid16, cmd2.extLBA.lbaHigh16))) =
        some (IOReturn.kATANoErr,
          some (256 * (cmd.extLBA.lbaLow16 % 256) + cmd.extLBA.lbaLow16 / 256 % 256,
            256 * (cmd.extLBA.lbaMid16 % 256) + cmd.extLBA.lbaMid16 / 256 % 256,
            256 * (cmd.extLBA.lbaHigh16 % 256) + cmd.extLBA.lbaHigh16 / 256 % 256)) := by
  obtain ⟨c1, p, hi, hc1, l0, l3, l1, l4, l2, l5⟩ := issueCommand_extended_read c cmd hcmd hext hread
  refine ⟨c1, p, hi, ?_⟩
  rw [registerAccess_extended
    { c1 with m_pReceivedATAHeader := some p.header, m_fExtendedLBA := true } cmd p.header
    hc1 rfl rfl h1 h2 h3]
  obtain ⟨g0, g1, g2, g3, g4, g5⟩ := header_lba p
  have b : ∀ x : Nat, x % 256 < 256 := fun x => Nat.mod_lt _ (by decide)
  rw [g0, g1, g2, g3, g4, g5, l0, l1, l2, l3, l4, l5]
  simp only [Nat.mod_mod, or_bytes2 _ _ (b _) (b _)]

/-- The example read holds the registers `(0x0200, 0x00FF, 0)`; after the
round trip they are `(0x0002, 0xFF00, 0)`. -/
theorem lba_registers_swapped_on_round_trip_witness :
    ((exampleController exampleRegisterRead).currentCommand = some exampleRegisterRead ∧
      is_extended_command exampleRegisterRead = true ∧
      exampleRegisterRead.flagIOWrite = false ∧
      exampleRegisterRead.maskSectorNumValid = true ∧
      exampleRegisterRead.maskCylinderLoValid = true ∧
      exampleRegisterRead.maskCylinderHiValid = true) ∧
    ∃ c1 p, issueCommand (exampleController exampleRegisterRead) =
        some (c1, [p], IOReturn.kATANoErr) ∧
      ((registerAccess
            { c1 with m_pReceivedATAHeader := some p.header, m_fExtendedLBA := true } false).map
          fun r =>
            (r.2, r.1.currentCommand.map fun cmd2 =>
              (cmd2.extLBA.lbaLow16, cmd2.extLBA.lbaMid16, cmd2.extLBA.lbaHigh16))) =
        some (IOReturn.kATANoErr,
          some (256 * (exampleRegisterRead.extLBA.lbaLow16 % 256) +
              exampleRegisterRead.extLBA.lbaLow16 / 256 % 256,
            256 * (exampleRegisterRead.extLBA.lbaMid16 % 256) +
              exampleRegisterRead.extLBA.lbaMid16 / 256 % 256,
            256 * (exampleRegisterRead.extLBA.lbaHigh16 % 256) +
              exampleRegisterRead.extLBA.lbaHigh16 / 256 % 256)) :=
  ⟨⟨rfl, by decide, by decide, by decide, by decide, by decide⟩,
    lba_registers_swapped_on_round_trip (exampleController exampleRegisterRead)
      exampleRegisterRead rfl (by decide) (by decide) (by decide) (by decide) (by decide)⟩

/-- The registers of the example before and after the round trip. -/
theorem lba_round_trip_example :
    (exampleRegisterRead.extLBA.lbaLow16, exampleRegisterRead.extLBA.lbaMid16,
        exampleRegisterRead.extLBA.lbaHigh16) = (0x0200, 0x00FF, 0) ∧
    ((issueCommand (exampleController exampleRegisterRead)).map fun r =>
        r.2.1.map fun p => p.header) = some [[64, 0, 1, 36, 0, 255, 0, 2, 0, 0, 0, 0]] ∧
    ((registerAccess
          { exampleController exampleRegisterRead with
            m_pReceivedATAHeader := some [64, 0, 1, 36, 0, 255, 0, 2, 0, 0, 0, 0]
            m_fExtendedLBA := true } false).map
        fun r =>
          r.1.currentCommand.map fun cmd2 =>
            (cmd2.extLBA.lbaLow16, cmd2.extLBA.lbaMid16, cmd2.extLBA.lbaHigh16)) =
      some (some (0x0002, 0xFF00, 0)) := by
  decide
/-! ## The links of a target, its config string and the tags of a transfer -/

theorem getD_set_ne {α : Type} (l : List α) (i j : Nat) (a d : α) (h : i ≠ j) :
    (l.set i a).getD j d = l.getD j d := by
  rw [List.getD_eq_getElem?_getD, List.getD_eq_getElem?_getD, List.getElem?_set_ne h]

theorem getD_set_eq {α : Type} (l : List α) (i : Nat) (a d : α) (h : i < l.length) :
    (l.set i a).getD i d = a := by
  rw [List.getD_eq_getElem?_getD, List.getElem?_set_self h]
  rfl

/-- C28: `remove_interface(i)` on a target that holds `k` links, for a link
`i` that is not the last one (`i + 1 < k`): afterwards the target holds
`k - 1` links, and the link at index `i` has the interface handle and the
interface number of the former last link but the source and destination MAC
addresses of the removed link `i`; the links at the other indices below
`k - 1` are unchanged. -/
theorem remove_interface_keeps_removed_mac (c : TargetController) (i : Nat)
    (hk : c.m_target.nNumberOfInterfaces ≤ MAX_SUPPORTED_ETHERNET_CONNETIONS)
    (hi : i + 1 < c.m_target.nNumberOfInterfaces)
    (h1 : c.m_target.aInterfaces.length = MAX_SUPPORTED_ETHERNET_CONNETIONS)
    (h2 : c.m_target.aInterfaceNum.length = MAX_SUPPORTED_ETHERNET_CONNETIONS) :
    ∃ c1, c.remove_interface i = some c1 ∧
      c1.m_target.nNumberOfInterfaces = c.m_target.nNumberOfInterfaces - 1 ∧
      c1.m_target.link i =
        (c.m_target.aInterfaces.getD (c.m_target.nNumberOfInterfaces - 1) 0,
          c.m_target.aInterfaceNum.getD (c.m_target.nNumberOfInterfaces - 1) 0,
          c.m_target.aaSrcMACAddress.getD i [],
          c.m_target.aaDestMACAddress.getD i []) ∧
      ∀ j, j < c.m_target.nNumberOfInterfaces - 1 → j ≠ i →
        c1.m_target.link j = c.m_target.link j := by
  unfold MAX_SUPPORTED_ETHERNET_CONNETIONS at hk h1 h2
  have hlast : u32sub c.m_target.nNumberOfInterfaces 1 = c.m_target.nNumberOfInterfaces - 1 := by
    unfold u32sub
    omega
  unfold TargetController.remove_interface
  simp only [hlast]
  rw [if_neg (by unfold MAX_SUPPORTED_ETHERNET_CONNETIONS; omega)]
  generalize hL : c.m_target.nNumberOfInterfaces - 1 = last at *
  have hil : i ≠ last := by omega
  have hli : last ≠ i := by omega
  refine ⟨_, rfl, rfl, ?_, ?_⟩
  · unfold TargetInfo.link
    simp only
    rw [getD_set_ne _ _ _ _ _ hli, getD_set_eq _ _ _ _ (by omega),
      getD_set_ne _ _ _ _ _ hli, getD_set_eq _ _ _ _ (by omega),
      getD_set_ne _ _ _ _ _ hli, getD_set_ne _ _ _ _ _ hli,
      getD_set_ne _ _ _ _ _ hli, getD_set_ne _ _ _ _ _ hli]
  · intro j hj hji
    have hlj : last ≠ j := by omega
    have hij : i ≠ j := fun h => hji h.symm
    unfold TargetInfo.link
    simp only
    rw [getD_set_ne _ _ _ _ _ hlj, getD_set_ne _ _ _ _ _ hij,
      getD_set_ne _ _ _ _ _ hlj, getD_set_ne _ _ _ _ _ hij,
      getD_set_ne _ _ _ _ _ hlj, getD_set_ne _ _ _ _ _ hlj,
      getD_set_ne _ _ _ _ _ hlj, getD_set_ne _ _ _ _ _ hlj]

/-- The example target holds the links of `en0` and `en1`; after
`remove_interface(0)` the link of `en1` carries the MAC addresses of `en0`. -/
theorem remove_interface_keeps_removed_mac_witness :
    (exampleTwoLinks.m_target.nNumberOfInterfaces ≤ MAX_SUPPORTED_ETHERNET_CONNETIONS ∧
      0 + 1 < exampleTwoLinks.m_target.nNumberOfInterfaces ∧
      exampleTwoLinks.m_target.aInterfaces.length = MAX_SUPPORTED_ETHERNET_CONNETIONS ∧
      exampleTwoLinks.m_target.aInterfaceNum.length = MAX_SUPPORTED_ETHERNET_CONNETIONS) ∧
    ∃ c1, exampleTwoLinks.remove_interface 0 = some c1 ∧
      c1.m_target.nNumberOfInterfaces = exampleTwoLinks.m_target.nNumberOfInterfaces - 1 ∧
      c1.m_target.link 0 =
        (exampleTwoLinks.m_target.aInterfaces.getD
            (exampleTwoLinks.m_target.nNumberOfInterfaces - 1) 0,
          exampleTwoLinks.m_target.aInterfaceNum.getD
            (exampleTwoLinks.m_target.nNumberOfInterfaces - 1) 0,
          exampleTwoLinks.m_target.aaSrcMACAddress.getD 0 [],
          exampleTwoLinks.m_target.aaDestMACAddress.getD 0 []) ∧
      ∀ j, j < exampleTwoLinks.m_target.nNumberOfInterfaces - 1 → j ≠ 0 →
        c1.m_target.link j = exampleTwoLinks.m_target.link j :=
  ⟨by decide,
    remove_interface_keeps_removed_mac exampleTwoLinks 0 (by decide) (by decide) (by decide)
      (by decide)⟩

/-- The links of the example target before and after `remove_interface(0)`. -/
theorem remove_interface_example :
    exampleTwoLinks.m_target.links =
      [(1, 0, [0, 0x1b, 0x63, 1, 2, 3], [0, 0x30, 0x48, 4, 5, 6]),
        (2, 1, [0, 0x1b, 0x63, 7, 8, 9], [0, 0x30, 0x48, 4, 5, 7])] ∧
    ((exampleTwoLinks.remove_interface 0).map fun c => c.m_target.links) =
      some [(2, 1, [0, 0x1b, 0x63, 1, 2, 3], [0, 0x30, 0x48, 4, 5, 6])] := by
  decide

/-- C29: the target has stored the config string `abcdef` from an earlier
`CONFIG_STR_GET` reply.  After `handle_aoe_cmd` has processed a
`CONFIG_STR_GET` reply that advertises the string `xyz`, the stored string is
`xyzdef`: `cstring_is_ours` returns -1 for `xyz` and 0 for `xyzdef`. -/
theorem config_string_keeps_old_tail :
    cstr exampleStored.m_aConfigString MAX_CONFIG_STRING_LENGTH = [97, 98, 99, 100, 101, 102] ∧
    AOE_CFGHEADER_GETCCMD (exampleConfigReply CONFIG_STR_GET [120, 121, 122]) = CONFIG_STR_GET ∧
    AOE_CFGHEADER_GETCSLEN (exampleConfigReply CONFIG_STR_GET [120, 121, 122]) = 3 ∧
    ((exampleStored.handle_aoe_cmd readyService 1
          (exampleConfigReply CONFIG_STR_GET [120, 121, 122])).map fun r =>
        (cstr r.1.m_aConfigString MAX_CONFIG_STRING_LENGTH,
          r.1.cstring_is_ours ([120, 121, 122] ++ List.replicate 1021 0),
          r.1.cstring_is_ours ([120, 121, 122, 100, 101, 102] ++ List.replicate 1018 0))) =
      some ([120, 121, 122, 100, 101, 102], -1, 0) := by
  decide

set_option maxRecDepth 100000 in
/-- C30: the tag counter stands two below `MAX_TAG` when `asyncCommand`
issues a read of two packets of one sector.  The packets carry the tags
`0x3FFFFFFE` (the base tag) and 1, not `0x3FFFFFFE` and `0x3FFFFFFF`; the
offset that `completeDataRead` computes for the second reply is 1536, not 512,
and lies outside the transfer of 1024 bytes.  After both replies the command
is reported complete with 1024 bytes transferred and the first sector is in
the client's buffer (byte 511 is 9), but the second sector has not been
written: byte 512 of the buffer is still 0 although the second reply carries
10 for it. -/
theorem read_offset_wrong_at_tag_wrap :
    exampleWrapController.m_nCurrentTag = MAX_TAG - 2 ∧
    ((asyncCommand exampleWrapController).map fun r =>
        (r.1.m_unReadBaseTag, r.2.1.map (fun p => p.Tag), r.2.2)) =
      some (0x3FFFFFFE, [0x3FFFFFFE, 1], IOReturn.kATANoErr) ∧
    exampleWrapReading.currentCommand.map (fun cmd => (cmd.byteCount, cmd.transferChunkSize)) =
      some (1024, 512) ∧
    u32mul (u32sub 1 exampleWrapReading.m_unReadBaseTag) 512 = 1536 ∧
    (exampleWrapReply 1 1).mbuf.getD 22 0 = 10 ∧
    ((ata_responses (fun c => (c, false)) exampleWrapReading
          [exampleWrapReply 0x3FFFFFFE 0, exampleWrapReply 1 1]).map fun r =>
        (r.2, r.1.currentCommand.map fun cmd =>
          (cmd.actualTransfer, cmd.buffer.getD 511 0, cmd.buffer.getD 512 0))) =
      some ([false, true], some (1024, 9, 0)) := by
  decide
/-! ## Unmatched responses and the calls into the controller interface -/

theorem cg_aoe_incoming_unmatched (s : AoEService) (now ifp : Nat) (pkt : IncomingPacket)
    (hresp : pkt.flags &&& AOE_FLAG_RESPONSE ≠ 0)
    (hun : ∀ e ∈ s.m_sent_queue, e.Tag ≠ pkt.tag) :
    cg_aoe_incoming s now ifp pkt =
      if pkt.flags &&& AOE_FLAG_ERROR ≠ 0 then
        ({ s with m_nNumUnexpectedResponses := s.m_nNumUnexpectedResponses + 1 }, none)
      else if DEVICE_ONLINE_TAG = pkt.tag ∨ TAG_BROADCAST_MASK &&& pkt.tag ≠ 0 then
        if pkt.cmd = AOE_ATA_COMMAND then (s, some (Delivery.aoe_ata_receive pkt))
        else if pkt.cmd = AOE_CFG_COMMAND then (s, some (Delivery.aoe_config_receive ifp pkt))
        else ({ s with m_nNumUnexpectedResponses := s.m_nNumUnexpectedResponses + 1 }, none)
      else ({ s with m_nNumUnexpectedResponses := s.m_nNumUnexpectedResponses + 1 }, none) := by
  have hf := findTag_eq_none hun
  unfold cg_aoe_incoming
  rw [if_neg hresp]
  simp only [hf, Option.isSome_none, Bool.false_eq_true, false_or]

/-- C7: an incoming packet with the RESPONSE flag whose tag is the tag of no
sent-queue entry.  The code of `cg_aoe_incoming` itself leaves the sent queue,
the to-send queue, every interface (outstanding counter, cwnd, ssthresh) and
the estimator unchanged.  When the ERROR flag is set, or the tag is neither
the online tag `0` nor broadcast-marked, or the command is neither ATA nor
config, nothing is handed to the controller interface and the whole call
changes nothing but the unexpected-response counter, which grows by exactly
one; in every other case the packet is handed to the controller interface. -/
theorem unmatched_response_frame (hi : AoEController → AoEController × Bool) (timedOut : Bool)
    (ata : Nat → AoEController) (ci : AoEControllerInterface) (now ifp unit : Nat)
    (lladdr ether_shost : List Nat) (pkt : IncomingPacket)
    (hresp : pkt.flags &&& AOE_FLAG_RESPONSE ≠ 0)
    (hun : ∀ e ∈ ci.m_pAoEService.m_sent_queue, e.Tag ≠ pkt.tag) :
    ((cg_aoe_incoming ci.m_pAoEService now ifp pkt).1.m_sent_queue =
        ci.m_pAoEService.m_sent_queue ∧
      (cg_aoe_incoming ci.m_pAoEService now ifp pkt).1.m_to_send_queue =
        ci.m_pAoEService.m_to_send_queue ∧
      (cg_aoe_incoming ci.m_pAoEService now ifp pkt).1.m_pInterfaces =
        ci.m_pAoEService.m_pInterfaces ∧
      (cg_aoe_incoming ci.m_pAoEService now ifp pkt).1.m_rto = ci.m_pAoEService.m_rto) ∧
    ((pkt.flags &&& AOE_FLAG_ERROR ≠ 0 ∨
        (pkt.tag ≠ DEVICE_ONLINE_TAG ∧ TAG_BROADCAST_MASK &&& pkt.tag = 0) ∨
        (pkt.cmd ≠ AOE_ATA_COMMAND ∧ pkt.cmd ≠ AOE_CFG_COMMAND)) →
      AoEControllerInterface.cg_aoe_incoming hi timedOut ata ci now ifp unit lladdr ether_shost
          pkt =
        some ({ ci with
          m_pAoEService :=
            { ci.m_pAoEService with
              m_nNumUnexpectedResponses :=
                ci.m_pAoEService.m_nNumUnexpectedResponses + 1 } }, [])) ∧
    (¬ (pkt.flags &&& AOE_FLAG_ERROR ≠ 0 ∨
        (pkt.tag ≠ DEVICE_ONLINE_TAG ∧ TAG_BROADCAST_MASK &&& pkt.tag = 0) ∨
        (pkt.cmd ≠ AOE_ATA_COMMAND ∧ pkt.cmd ≠ AOE_CFG_COMMAND)) →
      (cg_aoe_incoming ci.m_pAoEService now ifp pkt).2 =
        if pkt.cmd = AOE_ATA_COMMAND then some (Delivery.aoe_ata_receive pkt)
        else some (Delivery.aoe_config_receive ifp pkt)) := by
  have h := cg_aoe_incoming_unmatched ci.m_pAoEService now ifp pkt hresp hun
  refine ⟨?_, ?_, ?_⟩
  · rw [h]
    refine ⟨?_, ?_, ?_, ?_⟩ <;> split_ifs <;> rfl
  · intro hd
    have hs : cg_aoe_incoming ci.m_pAoEService now ifp pkt =
        ({ ci.m_pAoEService with
            m_nNumUnexpectedResponses := ci.m_pAoEService.m_nNumUnexpectedResponses + 1 },
          none) := by
      rw [h]
      rcases hd with he | ⟨h0, hb⟩ | ⟨ha, hc⟩
      · rw [if_pos he]
      · have h0n : ¬ (DEVICE_ONLINE_TAG = pkt.tag ∨ TAG_BROADCAST_MASK &&& pkt.tag ≠ 0) := by
          rintro (h1 | h1)
          · exact h0 h1.symm
          · exact h1 hb
        rw [if_neg h0n]
        split_ifs <;> rfl
      · rw [if_neg ha, if_neg hc]
        split_ifs <;> rfl
    unfold AoEControllerInterface.cg_aoe_incoming
    simp only [hs]
  · intro hd
    rw [h]
    have he : ¬ pkt.flags &&& AOE_FLAG_ERROR ≠ 0 := fun he => hd (Or.inl he)
    have ht : DEVICE_ONLINE_TAG = pkt.tag ∨ TAG_BROADCAST_MASK &&& pkt.tag ≠ 0 := by
      by_contra hn
      exact hd (Or.inr (Or.inl ⟨fun h1 => hn (Or.inl h1.symm), by
        by_contra hb
        exact hn (Or.inr hb)⟩))
    have hc : pkt.cmd = AOE_ATA_COMMAND ∨ pkt.cmd = AOE_CFG_COMMAND := by
      by_contra hn
      exact hd (Or.inr (Or.inr ⟨fun h1 => hn (Or.inl h1), fun h1 => hn (Or.inr h1)⟩))
    rw [if_neg he, if_pos ht]
    rcases hc with hc | hc
    · rw [if_pos hc, if_pos hc]
    · have hna : pkt.cmd ≠ AOE_ATA_COMMAND := by
        rw [hc]
        decide
      rw [if_neg hna, if_pos hc, if_neg hna]

/-- A response with the tag 77, which no request has, on the interface of
`exampleOnline`: it is counted and dropped. -/
theorem unmatched_response_frame_witness :
    ((⟨1, 8, 0, 3, 1, 0, 77, []⟩ : IncomingPacket).flags &&& AOE_FLAG_RESPONSE ≠ 0 ∧
      ∀ e ∈ exampleOnline.m_pAoEService.m_sent_queue, e.Tag ≠ 77) ∧
    AoEControllerInterface.cg_aoe_incoming (fun c => (c, true)) false (fun _ => exampleFresh)
        exampleOnline 2000 1 0 [0, 0x1b, 0x63, 1, 2, 3] [0, 0x30, 0x48, 4, 5, 7]
        ⟨1, 8, 0, 3, 1, 0, 77, []⟩ =
      some ({ exampleOnline with
        m_pAoEService :=
          { exampleOnline.m_pAoEService with
            m_nNumUnexpectedResponses :=
              exampleOnline.m_pAoEService.m_nNumUnexpectedResponses + 1 } }, []) :=
  ⟨⟨by decide, by decide⟩,
    (unmatched_response_frame (fun c => (c, true)) false (fun _ => exampleFresh) exampleOnline
      2000 1 0 [0, 0x1b, 0x63, 1, 2, 3] [0, 0x30, 0x48, 4, 5, 7] ⟨1, 8, 0, 3, 1, 0, 77, []⟩
      (by decide) (by decide)).2.1 (Or.inr (Or.inl ⟨by decide, by decide⟩))⟩

/-- The target of shelf 3, slot 1 announces itself to `exampleOnline` with a
config reply that carries the RESPONSE flag and the online tag 0, the tag of
no entry of the sent queue (which holds the request with tag 5).
`cg_aoe_incoming` hands the packet to `aoe_config_receive`, which creates the
controller of the target and attaches its device; the IDENTIFY DEVICE command
of the device is issued with tag 6, and `send_packet_on_interface` appends it
to the sent queue and to the to-send queue. -/
theorem unmatched_announce_queues_identify :
    exampleAnnounce.flags &&& AOE_FLAG_RESPONSE ≠ 0 ∧
    (∀ e ∈ exampleOnline.m_pAoEService.m_sent_queue, e.Tag ≠ exampleAnnounce.tag) ∧
    (exampleOnline.m_pAoEService.m_sent_queue.map (fun e => e.Tag) = [5] ∧
      exampleOnline.m_pAoEService.m_to_send_queue.map (fun e => e.Tag) = []) ∧
    ((AoEControllerInterface.cg_aoe_incoming (fun c => (c, true)) false (fun _ => exampleFresh)
        exampleOnline 2000 1 0 [0, 0x1b, 0x63, 1, 2, 3] [0, 0x30, 0x48, 4, 5, 7]
        exampleAnnounce).map fun r =>
      (r.1.m_pAoEService.m_sent_queue.map (fun e => e.Tag),
        r.1.m_pAoEService.m_to_send_queue.map (fun e => e.Tag),
        r.1.m_pControllers.map (fun c => (c.m_target.nShelf, c.m_target.nSlot)))) =
      some ([5, 6], [6], [(3, 0), (3, 1)]) := by
  decide
/-! ## One decrement for each request -/

theorem undecremented_append (T : Nat) (a b : List SentPktQueue) :
    undecremented T (a ++ b) = undecremented T a + undecremented T b := by
  simp [undecremented, List.countP_append]

theorem undecremented_cons (T : Nat) (e : SentPktQueue) (q : List SentPktQueue) :
    undecremented T (e :: q) = undecremented T [e] + undecremented T q := by
  rw [← undecremented_append]
  rfl

theorem undecremented_flagged (T : Nat) (e : SentPktQueue)
    (h : e.fPacketHasBeenRetransmit = true) : undecremented T [e] = 0 := by
  simp [undecremented, h]

theorem undecremented_same (T : Nat) (e x : SentPktQueue) (h1 : x.Tag = e.Tag)
    (h2 : x.fPacketHasBeenRetransmit = e.fPacketHasBeenRetransmit) :
    undecremented T [x] = undecremented T [e] := by
  simp only [undecremented, List.countP_cons, List.countP_nil, h1, h2]

theorem countP_decrementsFor (T : Nat) (e : SentPktQueue) :
    (decrementsFor e).countP (fun x => decide (x.Tag = T)) = undecremented T [e] := by
  unfold decrementsFor undecremented
  cases h : e.fPacketHasBeenRetransmit <;> simp [List.countP_cons, h]

theorem stampSent_undecremented (T now Tag : Nat) :
    ∀ (q q1 : List SentPktQueue), stampSent now Tag q = some q1 →
      undecremented T q1 = undecremented T q := by
  intro q
  induction q with
  | nil => intro q1 h; simp [stampSent] at h
  | cons e es ih =>
    intro q1 h
    unfold stampSent at h
    by_cases he : e.Tag = Tag
    · rw [if_pos he] at h
      cases h
      rw [undecremented_cons T _ es, undecremented_cons T e es]
      congr 1
      exact undecremented_same T e _ (stamp_fields e now).1 (stamp_fields e now).2.2.2
    · rw [if_neg he] at h
      cases hs : stampSent now Tag es with
      | none => rw [hs] at h; simp at h
      | some q2 =>
        rw [hs] at h
        simp only [Option.map_some', Option.some.injEq] at h
        subst h
        rw [undecremented_cons T e q2, undecremented_cons T e es, ih q2 hs]

theorem send_packet_from_queue_undecremented (T : Nat) (s : AoEService) (now : Nat)
    (pre : List ToSendPktQueue) (p : ToSendPktQueue) (post : List ToSendPktQueue) :
    undecremented T (send_packet_from_queue s now pre p post).1.m_sent_queue =
      undecremented T s.m_sent_queue := by
  unfold send_packet_from_queue
  cases hs : stampSent now p.Tag s.m_sent_queue with
  | none => rfl
  | some q => exact stampSent_undecremented T now p.Tag _ q hs

theorem transmitImmediate_undecremented (T now : Nat) (post : List ToSendPktQueue) :
    ∀ (s : AoEService) (pre : List ToSendPktQueue),
      undecremented T (transmitImmediate now s pre post).1.m_sent_queue =
        undecremented T s.m_sent_queue := by
  induction post with
  | nil => intro s pre; rfl
  | cons p post ih =>
    intro s pre
    unfold transmitImmediate
    by_cases hp : p.fSendImmediately = true
    · rw [if_pos hp]
      simp only
      rw [ih, send_packet_from_queue_undecremented]
    · rw [if_neg hp]
      exact ih s (pre ++ [p])

theorem transmitWindow_undecremented (T now : Nat) (post : List ToSendPktQueue) :
    ∀ (s : AoEService) (pre : List ToSendPktQueue),
      undecremented T (transmitWindow now s pre post).1.m_sent_queue =
        undecremented T s.m_sent_queue := by
  induction post with
  | nil => intro s pre; rfl
  | cons p post ih =>
    intro s pre
    unfold transmitWindow
    simp only
    split_ifs
    · rfl
    · exact ih s (pre ++ [p])
    · exact send_packet_from_queue_undecremented T s now pre p post

theorem transmitTimer_undecremented (T : Nat) (s : AoEService) (now : Nat) :
    undecremented T (TransmitTimer s now).state.m_sent_queue = undecremented T s.m_sent_queue := by
  unfold TransmitTimer
  simp only
  rw [transmitWindow_undecremented, transmitImmediate_undecremented]

theorem findTag_undecremented (T Tag : Nat) :
    ∀ (q : List SentPktQueue) (e : SentPktQueue) (rest : List SentPktQueue),
      findTag Tag q = some (e, rest) →
        undecremented T q = undecremented T [e] + undecremented T rest := by
  intro q
  induction q with
  | nil => intro e rest h; simp [findTag] at h
  | cons a q ih =>
    intro e rest h
    unfold findTag at h
    by_cases ha : a.Tag = Tag
    · rw [if_pos ha] at h
      cases h
      exact undecremented_cons T a q
    · rw [if_neg ha] at h
      cases hf : findTag Tag q with
      | none => rw [hf] at h; simp at h
      | some r =>
        obtain ⟨e1, r1⟩ := r
        rw [hf] at h
        simp only [Option.map_some', Option.some.injEq, Prod.mk.injEq] at h
        obtain ⟨h1, h2⟩ := h
        subst h1 h2
        rw [undecremented_cons T a q, undecremented_cons T a r1, ih e1 r1 hf]
        omega

theorem cg_aoe_incoming_unmatched_queue (s : AoEService) (now ifp : Nat) (pkt : IncomingPacket)
    (h : pkt.flags &&& AOE_FLAG_RESPONSE = 0 ∨ findTag pkt.tag s.m_sent_queue = none) :
    (cg_aoe_incoming s now ifp pkt).1.m_sent_queue = s.m_sent_queue ∧
      (cg_aoe_incoming s now ifp pkt).1.m_pInterfaces = s.m_pInterfaces := by
  unfold cg_aoe_incoming
  by_cases hr : pkt.flags &&& AOE_FLAG_RESPONSE = 0
  · rw [if_pos hr]
    exact ⟨rfl, rfl⟩
  · rw [if_neg hr]
    have hf : findTag pkt.tag s.m_sent_queue = none := h.resolve_left hr
    simp only [hf]
    refine ⟨?_, ?_⟩ <;> (split_ifs <;> rfl)

theorem resend_packet_maxTimeOut (s : AoEService) (e : SentPktQueue) (nT : Int) :
    (resend_packet s e nT).1.m_MaxTimeOutBeforeDrop = s.m_MaxTimeOutBeforeDrop := by
  unfold resend_packet add_to_send_queue
  simp only
  split <;> rfl

theorem retransmitScan_undecremented (T now : Nat) (nT : Int) (post : List SentPktQueue) :
    ∀ (s : AoEService) (f : Bool) (pre : List SentPktQueue),
      undecremented T (retransmitScan now nT s f pre post).m_sent_queue +
          (scanDecrements now s.m_MaxTimeOutBeforeDrop post).countP (fun x => decide (x.Tag = T)) =
        undecremented T pre + undecremented T post := by
  induction post with
  | nil =>
    intro s f pre
    simp [retransmitScan, scanDecrements, undecremented]
  | cons e post ih =>
    intro s f pre
    rw [undecremented_cons T e post]
    unfold retransmitScan scanDecrements
    by_cases h1 : e.RetransmitTime_us ≠ 0
    · rw [if_pos h1, if_pos h1]
      by_cases h2 : e.TimeFirstSent ≠ 0 ∧ e.TimeSent ≠ 0
      · rw [if_pos h2, if_pos h2]
        by_cases h3 : time_since_now_us now e.TimeFirstSent > s.m_MaxTimeOutBeforeDrop
        · rw [if_pos h3, if_pos h3, List.countP_append, countP_decrementsFor]
          have := ih { s with m_pInterfaces := s.m_pInterfaces.decrementUnlessRetransmit e } f pre
          simp only at this
          omega
        · rw [if_neg h3, if_neg h3]
          by_cases h4 : time_since_now_us now e.TimeSent > e.RetransmitTime_us
          · rw [if_pos h4, if_pos h4, List.countP_append, countP_decrementsFor]
            simp only
            have := ih (resend_packet
                { s with
                  m_pInterfaces :=
                    (if !f then s.m_pInterfaces.retransmit_adjust e.if_sent
                      else s.m_pInterfaces).decrementUnlessRetransmit e } e nT).1 true
              (pre ++ [(resend_packet
                { s with
                  m_pInterfaces :=
                    (if !f then s.m_pInterfaces.retransmit_adjust e.if_sent
                      else s.m_pInterfaces).decrementUnlessRetransmit e } e nT).2])
            rw [resend_packet_maxTimeOut, undecremented_append,
              undecremented_flagged T _ (resend_packet_fields _ e nT).2.2.2.2.2] at this
            simp only at this
            omega
          · rw [if_neg h4, if_neg h4]
            have := ih s f (pre ++ [e])
            rw [undecremented_append] at this
            omega
      · rw [if_neg h2, if_neg h2]
        have := ih s f (pre ++ [e])
        rw [undecremented_append] at this
        omega
    · rw [if_neg h1, if_neg h1, List.countP_append, countP_decrementsFor]
      have := ih { s with m_pInterfaces := s.m_pInterfaces.decrementUnlessRetransmit e } f pre
      simp only at this
      omega

theorem undecremented_of_fresh (T : Nat) (q : List SentPktQueue) (h : ∀ e ∈ q, e.Tag ≠ T) :
    undecremented T q = 0 := by
  unfold undecremented
  rw [List.countP_eq_zero]
  intro e he
  simp [h e he]

theorem undecremented_of_flagged (T : Nat) (q : List SentPktQueue)
    (h : ∀ e ∈ q, e.Tag = T → e.fPacketHasBeenRetransmit = true) : undecremented T q = 0 := by
  unfold undecremented
  rw [List.countP_eq_zero]
  intro e he
  by_cases ht : e.Tag = T
  · simp [h e he ht]
  · simp [ht]

theorem event_undecremented (T : Nat) (s : AoEService) (ev : ServiceEvent) :
    undecremented T (ServiceEvent.apply s ev).m_sent_queue +
        (ServiceEvent.decrements s ev).countP (fun x => decide (x.Tag = T)) =
      undecremented T s.m_sent_queue + acceptedSends T s [ev] := by
  cases ev with
  | enable_interface n i => simp [ServiceEvent.apply, ServiceEvent.decrements, acceptedSends]
  | set_max_outstanding i sh m =>
    simp [ServiceEvent.apply, ServiceEvent.decrements, acceptedSends]
  | set_user_window n => simp [ServiceEvent.apply, ServiceEvent.decrements, acceptedSends]
  | send ifp t m sh r =>
    simp only [ServiceEvent.apply, ServiceEvent.decrements, acceptedSends, List.countP_nil,
      Nat.add_zero]
    unfold send_packet_on_interface
    by_cases hu : s.m_pInterfaces.is_used ifp ≠ 1
    · rw [if_pos hu]
      simp
    · rw [if_neg hu]
      simp only [add_to_send_queue, and_true]
      rw [undecremented_append]
      congr 1
      by_cases ht : t = T
      · simp [undecremented, ht]
      · simp [undecremented, ht]
  | transmitTimer now =>
    simp only [ServiceEvent.apply, ServiceEvent.decrements, acceptedSends, List.countP_nil,
      Nat.add_zero]
    exact transmitTimer_undecremented T s now
  | incoming now ifp pkt =>
    simp only [ServiceEvent.apply, ServiceEvent.decrements, acceptedSends, Nat.add_zero]
    by_cases hr : pkt.flags &&& AOE_FLAG_RESPONSE = 0
    · rw [if_pos hr, (cg_aoe_incoming_unmatched_queue s now ifp pkt (Or.inl hr)).1]
      rfl
    · rw [if_neg hr]
      cases hf : findTag pkt.tag s.m_sent_queue with
      | none =>
        rw [(cg_aoe_incoming_unmatched_queue s now ifp pkt (Or.inr hf)).1]
        rfl
      | some r =>
        obtain ⟨e, rest⟩ := r
        simp only
        rw [(cg_aoe_incoming_matched s now ifp pkt e rest hr hf).1, countP_decrementsFor,
          findTag_undecremented T pkt.tag _ e rest hf]
        omega
  | retransmitTimer now nT =>
    simp only [ServiceEvent.apply, ServiceEvent.decrements, acceptedSends, Nat.add_zero]
    have := retransmitScan_undecremented T now nT s.m_sent_queue s false []
    simpa [RetransmitTimer, undecremented] using this
  | idleTimer now => simp [ServiceEvent.apply, ServiceEvent.decrements, acceptedSends, IdleTimer]

theorem acceptedSends_cons (T : Nat) (s : AoEService) (ev : ServiceEvent)
    (evs : List ServiceEvent) :
    acceptedSends T s (ev :: evs) =
      acceptedSends T s [ev] + acceptedSends T (ServiceEvent.apply s ev) evs := by
  simp [acceptedSends]

/-- For every tag, state and sequence of events: the entries with the tag
whose decrement is still to come at the end, and the decrements made on behalf
of entries with the tag, add up to the entries whose decrement was to come at
the start and the requests with the tag accepted on the way. -/
theorem run_undecremented (T : Nat) (evs : List ServiceEvent) :
    ∀ s : AoEService,
      undecremented T (evs.foldl ServiceEvent.apply s).m_sent_queue +
          (runDecrements s evs).countP (fun x => decide (x.Tag = T)) =
        undecremented T s.m_sent_queue + acceptedSends T s evs := by
  induction evs with
  | nil => intro s; simp [runDecrements, acceptedSends]
  | cons ev evs ih =>
    intro s
    rw [List.foldl_cons, acceptedSends_cons]
    simp only [runDecrements, List.countP_append]
    have h1 := ih (ServiceEvent.apply s ev)
    have h2 := event_undecremented T s ev
    omega

theorem map_counter_modify (f : EInterface → EInterface) (g : Int → Int)
    (h : ∀ e, (f e).m_nOutstandingCount = g e.m_nOutstandingCount) (l : List EInterface)
    (k : Nat) :
    (l.modify f k).map (fun e => e.m_nOutstandingCount) =
      (l.map fun e => e.m_nOutstandingCount).modify g k := by
  induction l generalizing k with
  | nil => simp
  | cons a l ih =>
    cases k with
    | zero => simp [List.modify_zero_cons, h]
    | succ k => simp [List.modify_succ_cons, ih]

theorem map_counter_updateFirst (i : Nat) (f : EInterface → EInterface)
    (h : ∀ e, (f e).m_nOutstandingCount = e.m_nOutstandingCount) (l : List EInterface) :
    (updateFirst i f l).map (fun e => e.m_nOutstandingCount) =
      l.map fun e => e.m_nOutstandingCount := by
  induction l with
  | nil => rfl
  | cons a l ih =>
    unfold updateFirst
    split_ifs
    · simp [h]
    · simp [ih]

theorem counters_OSDecrementAtomic (s : EInterfaces) (k : Nat) :
    (s.OSDecrementAtomic k).counters = s.counters.modify (fun x => wrapS32 (x - 1)) k := by
  unfold EInterfaces.OSDecrementAtomic EInterfaces.counters
  exact map_counter_modify _ _ (fun _ => rfl) _ _

theorem counters_resetIfNegative (s : EInterfaces) (k : Nat) :
    (s.resetIfNegative k).counters = s.counters.modify (fun x => if x < 0 then 0 else x) k := by
  unfold EInterfaces.resetIfNegative EInterfaces.counters
  refine map_counter_modify _ _ ?_ _ _
  intro e
  split_ifs <;> rfl

theorem counters_decrementAll (es : List SentPktQueue) :
    ∀ a b : EInterfaces, a.counters = b.counters →
      (a.decrementAll es).counters = (b.decrementAll es).counters := by
  induction es with
  | nil => intro a b h; exact h
  | cons e es ih =>
    intro a b h
    unfold EInterfaces.decrementAll
    rw [List.foldl_cons, List.foldl_cons]
    apply ih
    rw [counters_OSDecrementAtomic, counters_OSDecrementAtomic, h]

theorem decrementAll_append (s : EInterfaces) (a b : List SentPktQueue) :
    s.decrementAll (a ++ b) = (s.decrementAll a).decrementAll b := by
  unfold EInterfaces.decrementAll
  rw [List.foldl_append]

theorem decrementUnlessRetransmit_eq (s : EInterfaces) (e : SentPktQueue) :
    s.decrementUnlessRetransmit e = s.decrementAll (decrementsFor e) := by
  unfold EInterfaces.decrementUnlessRetransmit decrementsFor EInterfaces.decrementAll
  cases e.fPacketHasBeenRetransmit <;> rfl

theorem counters_set_cwnd (s : EInterfaces) (i : Nat) (v : Int) :
    (s.set_cwnd i v).counters = s.counters := by
  unfold EInterfaces.set_cwnd EInterfaces.counters
  refine map_counter_updateFirst _ _ ?_ _
  intro _
  rfl

theorem counters_set_ssthresh (s : EInterfaces) (i : Nat) (v : Int) :
    (s.set_ssthresh i v).counters = s.counters := by
  unfold EInterfaces.set_ssthresh EInterfaces.counters
  refine map_counter_updateFirst _ _ ?_ _
  intro _
  rfl

theorem counters_retransmit_adjust (s : EInterfaces) (i : Nat) :
    (s.retransmit_adjust i).counters = s.counters := by
  unfold EInterfaces.retransmit_adjust
  simp only
  rw [counters_set_cwnd, counters_set_ssthresh]

theorem grow_cwnd_counter (e : EInterface) (a b : Int) :
    (e.grow_cwnd a b).m_nOutstandingCount = e.m_nOutstandingCount := by
  unfold EInterface.grow_cwnd
  simp only
  split_ifs <;> rfl

theorem counters_ack_cwnd (s : EInterfaces) (i : Nat) : (s.ack_cwnd i).counters = s.counters := by
  unfold EInterfaces.ack_cwnd
  simp only
  split_ifs <;>
    (unfold EInterfaces.grow_cwnd EInterfaces.counters
     exact map_counter_updateFirst _ _ (fun e => grow_cwnd_counter e _ _) _)

theorem retransmitScan_counters (now : Nat) (nT : Int) (post : List SentPktQueue) :
    ∀ (s : AoEService) (f : Bool) (pre : List SentPktQueue),
      (retransmitScan now nT s f pre post).m_pInterfaces.counters =
        (s.m_pInterfaces.decrementAll
          (scanDecrements now s.m_MaxTimeOutBeforeDrop post)).counters := by
  induction post with
  | nil => intro s f pre; rfl
  | cons e post ih =>
    intro s f pre
    unfold retransmitScan scanDecrements
    by_cases h1 : e.RetransmitTime_us ≠ 0
    · rw [if_pos h1, if_pos h1]
      by_cases h2 : e.TimeFirstSent ≠ 0 ∧ e.TimeSent ≠ 0
      · rw [if_pos h2, if_pos h2]
        by_cases h3 : time_since_now_us now e.TimeFirstSent > s.m_MaxTimeOutBeforeDrop
        · rw [if_pos h3, if_pos h3, decrementAll_append, ← decrementUnlessRetransmit_eq]
          exact ih { s with m_pInterfaces := s.m_pInterfaces.decrementUnlessRetransmit e } f pre
        · rw [if_neg h3, if_neg h3]
          by_cases h4 : time_since_now_us now e.TimeSent > e.RetransmitTime_us
          · rw [if_pos h4, if_pos h4, decrementAll_append]
            simp only
            rw [ih, resend_packet_maxTimeOut, (resend_packet_fields _ e nT).1]
            apply counters_decrementAll
            simp only
            rw [decrementUnlessRetransmit_eq]
            apply counters_decrementAll
            cases f
            · exact counters_retransmit_adjust _ _
            · rfl
          · rw [if_neg h4, if_neg h4]
            exact ih s f (pre ++ [e])
      · rw [if_neg h2, if_neg h2]
        exact ih s f (pre ++ [e])
    · rw [if_neg h1, if_neg h1, decrementAll_append, ← decrementUnlessRetransmit_eq]
      exact ih { s with m_pInterfaces := s.m_pInterfaces.decrementUnlessRetransmit e } f pre

/-- The counters after a run of `RetransmitTimer` are the counters before,
decremented once for every entry that the scan decrements for. -/
theorem retransmitTimer_counters (s : AoEService) (now : Nat) (nT : Int) :
    (RetransmitTimer s now nT).m_pInterfaces.counters =
      (s.m_pInterfaces.decrementAll
        (ServiceEvent.decrements s (.retransmitTimer now nT))).counters :=
  retransmitScan_counters now nT s.m_sent_queue s false []

/-- The counters after `cg_aoe_incoming`: unchanged without a matching entry;
with one, decremented for the entry when its flag is clear, and reset to 0
when that leaves the counter of the entry negative. -/
theorem cg_aoe_incoming_counters (s : AoEService) (now ifp : Nat) (pkt : IncomingPacket) :
    (cg_aoe_incoming s now ifp pkt).1.m_pInterfaces.counters =
      if pkt.flags &&& AOE_FLAG_RESPONSE = 0 then s.m_pInterfaces.counters
      else
        match findTag pkt.tag s.m_sent_queue with
        | some (e, _) =>
          ((s.m_pInterfaces.decrementAll
            (ServiceEvent.decrements s (.incoming now ifp pkt))).resetIfNegative
              e.pOutstandingCount).counters
        | none => s.m_pInterfaces.counters := by
  by_cases hr : pkt.flags &&& AOE_FLAG_RESPONSE = 0
  · rw [if_pos hr, (cg_aoe_incoming_unmatched_queue s now ifp pkt (Or.inl hr)).2]
  · rw [if_neg hr]
    cases hf : findTag pkt.tag s.m_sent_queue with
    | none =>
      simp only
      rw [(cg_aoe_incoming_unmatched_queue s now ifp pkt (Or.inr hf)).2]
    | some r =>
      obtain ⟨e, rest⟩ := r
      simp only [ServiceEvent.decrements, if_neg hr, hf]
      rw [(cg_aoe_incoming_matched s now ifp pkt e rest hr hf).2.2, counters_ack_cwnd,
        decrementUnlessRetransmit_eq]

/-- C6: a request with the tag `Tag`, which no entry of the sent queue has, is
accepted by `send_packet_on_interface`, and any sequence of events follows
(transmissions, retransmit scans, replies, other requests queued or in
flight) in which no second request with the tag is accepted.  Then the
decrements made on behalf of the tag and the entries with the tag whose
decrement is still to come add up to one: the counter is decremented at most
once for the request, and exactly once as soon as the request has been resent
(its retransmitted flag is set), answered or dropped.  The entries listed are
the decrements made: the counters after a retransmit scan, and after a reply,
are the counters before, decremented once for each entry listed (and reset to
0 by the validity check of `cg_aoe_incoming` when negative).  When, in
addition, both queues are empty at the time the request is accepted, the
counter of its link is `c >= 0`, the request is handed to the interface by the
next run of `TransmitTimer`, is resent by each of any number of retransmit
scans and finally is answered or dropped, the counter is `c + 1` after the
transmission and `c` again after the reply or the drop. -/
theorem outstanding_decremented_once (s : AoEService) (ifp Tag : Nat) (m : List Nat)
    (nShelf : Int) (fRetransmit : Bool) (evs : List ServiceEvent)
    (hfresh : ∀ e ∈ s.m_sent_queue, e.Tag ≠ Tag)
    (hacc : (send_packet_on_interface s ifp Tag m nShelf fRetransmit).2 = 0)
    (hother :
      acceptedSends Tag (send_packet_on_interface s ifp Tag m nShelf fRetransmit).1 evs = 0) :
    ((runDecrements s (.send ifp Tag m nShelf fRetransmit :: evs)).countP
          (fun x => decide (x.Tag = Tag)) +
        undecremented Tag
          ((ServiceEvent.send ifp Tag m nShelf fRetransmit :: evs).foldl ServiceEvent.apply
            s).m_sent_queue = 1) ∧
    ((∀ e ∈ ((ServiceEvent.send ifp Tag m nShelf fRetransmit :: evs).foldl ServiceEvent.apply
          s).m_sent_queue, e.Tag = Tag → e.fPacketHasBeenRetransmit = true) →
      (runDecrements s (.send ifp Tag m nShelf fRetransmit :: evs)).countP
        (fun x => decide (x.Tag = Tag)) = 1) ∧
    (∀ (t : AoEService) (now : Nat) (nT : Int),
      (RetransmitTimer t now nT).m_pInterfaces.counters =
        (t.m_pInterfaces.decrementAll
          (ServiceEvent.decrements t (.retransmitTimer now nT))).counters) ∧
    (∀ (t : AoEService) (now ifq : Nat) (pkt : IncomingPacket),
      (cg_aoe_incoming t now ifq pkt).1.m_pInterfaces.counters =
        if pkt.flags &&& AOE_FLAG_RESPONSE = 0 then t.m_pInterfaces.counters
        else
          match findTag pkt.tag t.m_sent_queue with
          | some (e, _) =>
            ((t.m_pInterfaces.decrementAll
              (ServiceEvent.decrements t (.incoming now ifq pkt))).resetIfNegative
                e.pOutstandingCount).counters
          | none => t.m_pInterfaces.counters) ∧
    (∀ (t0 : Nat) (scans : List (Nat × Nat)) (fin : RequestEnd) (nT c : Int),
      s.m_sent_queue = [] → s.m_to_send_queue = [] → s.m_pInterfaces.get_outstanding ifp = c →
      0 ≤ c →
      (TransmitTimer (send_packet_on_interface s ifp Tag m nShelf fRetransmit).1 t0).frames ≠ [] →
      ResendsHappen nT (afterTransmit s ifp Tag m nShelf fRetransmit t0) scans →
      EndHappens nT (afterResends nT (afterTransmit s ifp Tag m nShelf fRetransmit t0) scans)
        Tag fin →
      (afterTransmit s ifp Tag m nShelf fRetransmit t0).m_pInterfaces.get_outstanding ifp =
          c + 1 ∧
        (afterResends nT (afterTransmit s ifp Tag m nShelf fRetransmit t0)
            scans).m_pInterfaces.get_outstanding ifp = (if scans.isEmpty then c + 1 else c) ∧
        (afterEnd nT (afterResends nT (afterTransmit s ifp Tag m nShelf fRetransmit t0) scans)
            fin).m_pInterfaces.get_outstanding ifp = c ∧
        (afterEnd nT (afterResends nT (afterTransmit s ifp Tag m nShelf fRetransmit t0) scans)
            fin).m_sent_queue = [] ∧
        (afterEnd nT (afterResends nT (afterTransmit s ifp Tag m nShelf fRetransmit t0) scans)
            fin).m_to_send_queue = []) := by
  have hlaw := run_undecremented Tag (ServiceEvent.send ifp Tag m nShelf fRetransmit :: evs) s
  have hacc1 : acceptedSends Tag s (ServiceEvent.send ifp Tag m nShelf fRetransmit :: evs) = 1 := by
    rw [acceptedSends_cons]
    have h1 : acceptedSends Tag s [ServiceEvent.send ifp Tag m nShelf fRetransmit] = 1 := by
      simp [acceptedSends, hacc]
    have h2 : ServiceEvent.apply s (ServiceEvent.send ifp Tag m nShelf fRetransmit) =
        (send_packet_on_interface s ifp Tag m nShelf fRetransmit).1 := rfl
    rw [h1, h2, hother]
  rw [undecremented_of_fresh Tag s.m_sent_queue hfresh, hacc1] at hlaw
  refine ⟨by omega, ?_, retransmitTimer_counters, cg_aoe_incoming_counters, ?_⟩
  · intro hfl
    rw [undecremented_of_flagged Tag _ hfl] at hlaw
    omega
  · intro t0 scans fin nT c hs hq hc h0 hfr hre hend
    exact outstanding_restored_isolated s ifp Tag m nShelf fRetransmit t0 scans fin nT c hs hq hc
      h0 hacc hfr hre hend

/-- The request with tag 6 among two requests in flight (`examplePipeline`) is
decremented for exactly once, by the scan that resends it; and the request
with tag 5, alone on `readyService`, resent twice and then answered, leaves
the counter at its value 0. -/
theorem outstanding_decremented_once_witness :
    ((∀ e ∈ examplePipelineStart.m_sent_queue, e.Tag ≠ 6) ∧
      (send_packet_on_interface examplePipelineStart 1 6 [] 3 true).2 = 0 ∧
      acceptedSends 6 (send_packet_on_interface examplePipelineStart 1 6 [] 3 true).1
        examplePipeline = 0) ∧
    (runDecrements examplePipelineStart (.send 1 6 [] 3 true :: examplePipeline)).countP
        (fun x => decide (x.Tag = 6)) = 1 ∧
    (ResendsHappen 1 (afterTransmit readyService 1 5 [] 3 true 1000)
        [(20001000, 20002000), (40003000, 40004000)] ∧
      (afterEnd 1 (afterResends 1 (afterTransmit readyService 1 5 [] 3 true 1000)
          [(20001000, 20002000), (40003000, 40004000)])
          (.reply 50000000 1 ⟨1, 8, 0, 3, 0, 0, 5, []⟩)).m_pInterfaces.get_outstanding 1 = 0) :=
  ⟨⟨by decide, by decide, by decide⟩,
    (outstanding_decremented_once examplePipelineStart 1 6 [] 3 true examplePipeline (by decide)
      (by decide) (by decide)).2.1 (by decide),
    ⟨by decide, by decide, trivial⟩,
    ((outstanding_decremented_once readyService 1 5 [] 3 true [] (by decide) (by decide)
      rfl).2.2.2.2 1000 [(20001000, 20002000), (40003000, 40004000)]
      (.reply 50000000 1 ⟨1, 8, 0, 3, 0, 0, 5, []⟩) 1 0 (by decide) (by decide) (by decide)
      (by decide) (by decide) ⟨by decide, by decide, trivial⟩ ⟨by decide, rfl⟩).2.2.1⟩

/-- C6 (counterexample).  First, after `negativeCounterRun` both queues are
empty and the counter of the link is `-1`; a request is then sent, transmitted
normally and answered without any retransmission: the reply decrements the
counter once, back to `-1`, the validity check of `cg_aoe_incoming` resets
it, and the counter ends at `0`, not at its value before the send.  Second,
on `examplePipelineStart` both queues are empty and the counter is `0`; the
request with tag 6 is accepted, the request with tag 7 behind it, both are
transmitted normally, and the reply to the request 6 arrives: one decrement
has been made for the tag 6, the sent queue holds the request 7 only, and the
counter is `1`, not its value before the send. -/
theorem outstanding_not_restored_when_negative_or_shared :
    ((serviceRun negativeCounterRun).m_sent_queue = [] ∧
      (serviceRun negativeCounterRun).m_to_send_queue = [] ∧
      (serviceRun negativeCounterRun).m_pInterfaces.get_outstanding 1 = -1 ∧
      (send_packet_on_interface (serviceRun negativeCounterRun) 1 7 [] 3 true).2 = 0 ∧
      (TransmitTimer (send_packet_on_interface (serviceRun negativeCounterRun) 1 7 [] 3 true).1
          61000001000).frames ≠ [] ∧
      (afterTransmit (serviceRun negativeCounterRun) 1 7 [] 3 true
          61000001000).m_pInterfaces.get_outstanding 1 = 0 ∧
      (afterEnd 1 (afterResends 1
          (afterTransmit (serviceRun negativeCounterRun) 1 7 [] 3 true 61000001000) [])
          (.reply 61000002000 1 ⟨1, 8, 0, 3, 0, 0, 7, []⟩)).m_pInterfaces.get_outstanding 1 =
        0) ∧
    (examplePipelineStart.m_sent_queue = [] ∧
      examplePipelineStart.m_to_send_queue = [] ∧
      examplePipelineStart.m_pInterfaces.get_outstanding 1 = 0 ∧
      (send_packet_on_interface examplePipelineStart 1 6 [] 3 true).2 = 0 ∧
      (TransmitTimer ((exampleOverlap.take 2).foldl ServiceEvent.apply examplePipelineStart)
          3000).frames.map (fun p => (p.Tag, p.fSendImmediately)) = [(6, false)] ∧
      (runDecrements examplePipelineStart exampleOverlap).map (fun e => e.Tag) = [6] ∧
      (exampleOverlap.foldl ServiceEvent.apply examplePipelineStart).m_sent_queue.map
          (fun e => e.Tag) = [7] ∧
      (exampleOverlap.foldl ServiceEvent.apply
          examplePipelineStart).m_pInterfaces.get_outstanding 1 = 1) := by
  decide

end AoE
